import Mathlib

/-!
# mrs_uav_trackers: LandoffTracker and LineTracker

Shallow embedding of `src/landoff_tracker/landoff_tracker.cpp` and
`src/line_tracker/line_tracker.cpp`.

Number model.  The C++ `double`s are read as elements of an arbitrary linearly
ordered field `α` (exact arithmetic, no rounding).  Every definition is generic
in `α`; at `α = ℚ` it is executable, at `α = ℝ` it is the real-number reading.
`fabs` is `|·|`, `pow(x, 2)` is `x ^ 2`, the literals `0.95`, `0.05`, `1e-3`
are `95/100`, `5/100`, `1/1000`.

Where a statement turns on rounding or on a zero divisor, the source lines are
given a second time with the arithmetic read more finely: `stopHorizontal`,
`stopVertical` and `decelerateHorizontal` with every operation rounded to IEEE
754 binary64 (`roundDouble`, on `ℚ`), and the stop-goal prediction of `activate`
with its two quotients checked (`checkedQuotient`).

External functions.  `cos`, `sin`, `atan2`, `sqrt` (libm), the constant `PI`
and `validateYawSetpoint` (`commons.h`, not among the sources) are carried in a
record `Ext α` that every operation using them takes as an argument.
-/

set_option autoImplicit false

namespace MrsTrackers

/-- The functions and constants the trackers take from outside the translated
sources: libm (`cos`, `sin`, `atan2`, `sqrt`) and, from `commons.h`, the
constant `PI` and `validateYawSetpoint`. -/
structure Ext (α : Type) where
  cos : α → α
  sin : α → α
  atan2 : α → α → α
  sqrt : α → α
  PI : α
  validateYawSetpoint : α → α

/-- Modelled from the spec: `sign` of `commons.h` (not among the sources).  The
spec gives the vertical direction as `sign(goalZ - stateZ)` with values in
`{-1, 0, +1}`. -/
def sign {α : Type} [LinearOrderedField α] (x : α) : α :=
  if x > 0 then 1 else if x < 0 then -1 else 0

/-- Modelled from the spec: `size3` of `commons.h` (not among the sources), the
Euclidean length of a 3D vector ("the 3D distance between measured position and
commanded position" is `size3` of their difference). -/
def size3 {α : Type} [LinearOrderedField α] (m : Ext α) (x y z : α) : α :=
  m.sqrt (x ^ 2 + y ^ 2 + z ^ 2)

/-- Modelled from the spec: `dist3` of `commons.h` (not among the sources), the
Euclidean distance of two 3D points, with the argument order of the call site
`dist3(ax, bx, ay, by, az, bz)`. -/
def dist3 {α : Type} [LinearOrderedField α] (m : Ext α) (ax bx ay bY az bz : α) : α :=
  m.sqrt ((ax - bx) ^ 2 + (ay - bY) ^ 2 + (az - bz) ^ 2)

/-- The part of `nav_msgs::Odometry` the trackers read.  `yaw`, `roll`, `pitch`
stand for the result of `tf::Matrix3x3(orientation).getRPY`. -/
structure Odometry (α : Type) where
  position_x : α
  position_y : α
  position_z : α
  roll : α
  pitch : α
  yaw : α
  twist_linear_x : α
  twist_linear_y : α
  twist_linear_z : α
  deriving DecidableEq, Repr

/-- The part of `mrs_msgs::PositionCommand` written by LandoffTracker and
LineTracker (the header stamp is not modelled). -/
structure PositionCommand (α : Type) where
  position_x : α
  position_y : α
  position_z : α
  yaw : α
  velocity_x : α
  velocity_y : α
  velocity_z : α
  yaw_dot : α
  acceleration_x : α
  acceleration_y : α
  acceleration_z : α
  disable_position_gains : Bool
  deriving DecidableEq, Repr

/-- The yaw-tracking block at the end of `mainTimer` (landoff_tracker.cpp
1136-1160, line_tracker.cpp 501-525; the two texts are identical).  Returns the
new `state_yaw`. -/
def yawTracking {α : Type} [LinearOrderedField α]
    (PI yaw_gain_ yaw_rate_ tracker_dt_ goal_yaw state_yaw : α) : α :=
  let current_yaw_rate :=
    if |goal_yaw - state_yaw| > PI then -yaw_gain_ * (goal_yaw - state_yaw)
    else yaw_gain_ * (goal_yaw - state_yaw)
  let current_yaw_rate :=
    if current_yaw_rate > yaw_rate_ then yaw_rate_
    else if current_yaw_rate < -yaw_rate_ then -yaw_rate_
    else current_yaw_rate
  let state_yaw := state_yaw + current_yaw_rate * tracker_dt_
  let state_yaw :=
    if state_yaw > PI then state_yaw - 2 * PI
    else if state_yaw < -PI then state_yaw + 2 * PI
    else state_yaw
  if |state_yaw - goal_yaw| < 2 * (yaw_rate_ * tracker_dt_) then goal_yaw else state_yaw

/-! ## LandoffTracker -/

namespace LandoffTracker

/-- The enum `States_t` of landoff_tracker.cpp. -/
inductive States_t where
  | IDLE_STATE
  | LANDED_STATE
  | STOP_MOTION_STATE
  | HOVER_STATE
  | ACCELERATING_STATE
  | DECELERATING_STATE
  | STOPPING_STATE
  deriving DecidableEq, Repr

open States_t

/-- The configuration members of the class, as loaded by `initialize`. -/
structure Config (α : Type) where
  horizontal_speed_ : α
  vertical_speed_ : α
  takeoff_speed_ : α
  landing_speed_ : α
  horizontal_acceleration_ : α
  vertical_acceleration_ : α
  takeoff_acceleration_ : α
  landing_acceleration_ : α
  yaw_rate_ : α
  yaw_gain_ : α
  tracker_loop_rate_ : ℤ
  tracker_dt_ : α
  takeoff_height_ : α
  landing_height_ : α
  landing_fast_height_ : α
  max_position_difference_ : α
  landed_threshold_height_ : α
  takeoff_disable_lateral_gains_ : Bool
  deriving DecidableEq, Repr

/-- The mutable members of the class.  `have_goal` is declared `double` in the
source and only ever assigned `false`/`true`; it is a `Bool` here. -/
structure State (α : Type) where
  callbacks_enabled : Bool
  odometry : Odometry α
  got_odometry : Bool
  odometry_x : α
  odometry_y : α
  odometry_z : α
  odometry_yaw : α
  odometry_roll : α
  odometry_pitch : α
  is_initialized : Bool
  is_active : Bool
  current_state_vertical : States_t
  previous_state_vertical : States_t
  current_state_horizontal : States_t
  previous_state_horizontal : States_t
  taking_off : Bool
  landing : Bool
  goal_x : α
  goal_y : α
  goal_z : α
  goal_yaw : α
  have_goal : Bool
  state_x : α
  state_y : α
  state_z : α
  state_yaw : α
  speed_x : α
  speed_y : α
  speed_yaw : α
  current_heading : α
  current_vertical_direction : α
  current_vertical_speed : α
  current_horizontal_speed : α
  current_horizontal_acceleration : α
  current_vertical_acceleration : α
  position_output : PositionCommand α
  deriving DecidableEq, Repr

/-- The response of a `std_srvs::Trigger` service (the message text is not
modelled). -/
structure TriggerResponse where
  success : Bool
  deriving DecidableEq, Repr

variable {α : Type} [LinearOrderedField α]

/-- `changeStateHorizontal` (736-743). -/
def changeStateHorizontal (new_state : States_t) (s : State α) : State α :=
  { s with previous_state_horizontal := s.current_state_horizontal,
           current_state_horizontal := new_state }

/-- `changeStateVertical` (749-776): entering `HOVER_STATE` clears the mode
flags. -/
def changeStateVertical (new_state : States_t) (s : State α) : State α :=
  let s := { s with previous_state_vertical := s.current_state_vertical,
                    current_state_vertical := new_state }
  match new_state with
  | HOVER_STATE => { s with landing := false, taking_off := false }
  | _ => s

/-- `changeState` (782-786). -/
def changeState (new_state : States_t) (s : State α) : State α :=
  changeStateHorizontal new_state (changeStateVertical new_state s)

/-- The constructor and the default member initialisers (65-110, 144, 161),
applied to the raw memory `mem` of the object: the members that have no
initialiser keep whatever `mem` holds. -/
def construct (mem : State α) : State α :=
  { mem with callbacks_enabled := true, got_odometry := false,
             current_state_vertical := IDLE_STATE, previous_state_vertical := IDLE_STATE,
             current_state_horizontal := IDLE_STATE, previous_state_horizontal := IDLE_STATE,
             taking_off := false, landing := false, have_goal := false,
             is_initialized := false, is_active := false }

/-- The values on the parameter server read by `initialize`; `none` is a
parameter that was not supplied. -/
structure ParamServer (α : Type) where
  horizontal_speed : Option α
  horizontal_acceleration : Option α
  vertical_speed : Option α
  vertical_acceleration : Option α
  takeoff_speed : Option α
  takeoff_acceleration : Option α
  landing_speed : Option α
  landing_acceleration : Option α
  yaw_rate : Option α
  yaw_gain : Option α
  tracker_loop_rate : Option ℤ
  takeoff_height : Option α
  landing_height : Option α
  landing_fast_height : Option α
  max_position_difference : Option α
  landing_threshold_height : Option α
  takeoff_disable_lateral_gains : Option Bool

/-- The parameter loading of `initialize` (180-204): `nh_.param(name, var,
default)` stores the supplied value, or the default when none is supplied. -/
def loadParams (p : ParamServer α) : Config α :=
  let tracker_loop_rate_ := p.tracker_loop_rate.getD (-1)
  { horizontal_speed_ := p.horizontal_speed.getD (-1),
    horizontal_acceleration_ := p.horizontal_acceleration.getD (-1),
    vertical_speed_ := p.vertical_speed.getD (-1),
    vertical_acceleration_ := p.vertical_acceleration.getD (-1),
    takeoff_speed_ := p.takeoff_speed.getD (-1),
    takeoff_acceleration_ := p.takeoff_acceleration.getD (-1),
    landing_speed_ := p.landing_speed.getD (-1),
    landing_acceleration_ := p.landing_acceleration.getD (-1),
    yaw_rate_ := p.yaw_rate.getD (-1),
    yaw_gain_ := p.yaw_gain.getD (-1),
    tracker_loop_rate_ := tracker_loop_rate_,
    tracker_dt_ := 1 / (tracker_loop_rate_ : α),
    takeoff_height_ := p.takeoff_height.getD (-1),
    landing_height_ := p.landing_height.getD (-1000),
    landing_fast_height_ := p.landing_fast_height.getD (-1),
    max_position_difference_ := p.max_position_difference.getD (-1),
    landed_threshold_height_ := p.landing_threshold_height.getD (-1),
    takeoff_disable_lateral_gains_ := p.takeoff_disable_lateral_gains.getD false }

/-- The parameter checks of `initialize` (206-284): `true` when at least one of
them logs its error and calls `ros::shutdown()`. -/
def configError (c : Config α) : Bool :=
  decide (c.horizontal_speed_ < 0) || decide (c.vertical_speed_ < 0)
  || decide (c.horizontal_acceleration_ < 0) || decide (c.vertical_acceleration_ < 0)
  || decide (c.yaw_rate_ < 0) || decide (c.yaw_gain_ < 0)
  || decide (c.tracker_loop_rate_ < 0)
  || decide (c.takeoff_speed_ < 0) || decide (c.takeoff_acceleration_ < 0)
  || decide (c.landing_speed_ < 0) || decide (c.landing_acceleration_ < 0)
  || decide (c.takeoff_height_ < 0) || decide (c.landing_height_ < -999)
  || decide (c.landing_fast_height_ < -999)
  || decide (c.max_position_difference_ < 0) || decide (c.landed_threshold_height_ < 0)

/-- The state part of `initialize` (290-335).  The function does not return
after a failed check, so these assignments run in every case. -/
def initialise (s : State α) : State α :=
  { s with state_x := 0, state_y := 0, state_z := 0, state_yaw := 0,
           speed_x := 0, speed_y := 0, speed_yaw := 0,
           current_horizontal_speed := 0, current_vertical_speed := 0,
           current_horizontal_acceleration := 0, current_vertical_acceleration := 0,
           current_vertical_direction := 0,
           current_state_vertical := LANDED_STATE, previous_state_vertical := LANDED_STATE,
           current_state_horizontal := LANDED_STATE, previous_state_horizontal := LANDED_STATE,
           is_initialized := true }

/-- `activate` (342-446).  `cmd = none` is the null pointer. -/
def activate (m : Ext α) (c : Config α) (cmd : Option (PositionCommand α)) (s : State α) :
    State α × Bool :=
  if !s.got_odometry then (s, false) else
  let s : State α :=
    match cmd with
    | none =>
      { s with state_x := s.odometry.position_x, state_y := s.odometry.position_y,
               state_z := s.odometry.position_z, state_yaw := s.odometry_yaw,
               speed_x := 0, speed_y := 0, current_heading := 0,
               current_horizontal_speed := 0,
               current_vertical_speed := s.odometry.twist_linear_z,
               goal_yaw := s.odometry_yaw }
    | some cmd =>
      if s.odometry_z < c.landed_threshold_height_ then
        { s with state_x := s.odometry.position_x, state_y := s.odometry.position_y,
                 state_z := s.odometry.position_z, state_yaw := s.odometry_yaw,
                 speed_x := 0, speed_y := 0, current_heading := 0,
                 current_horizontal_speed := 0,
                 current_vertical_speed := s.odometry.twist_linear_z,
                 goal_yaw := s.odometry_yaw }
      else
        let speed_x := s.odometry.twist_linear_x
        let speed_y := s.odometry.twist_linear_y
        { s with state_x := s.odometry.position_x, state_y := s.odometry.position_y,
                 state_z := s.odometry.position_z, state_yaw := s.odometry_yaw,
                 speed_x := speed_x, speed_y := speed_y,
                 current_heading := m.atan2 speed_y speed_x,
                 current_horizontal_speed := m.sqrt (speed_x ^ 2 + speed_y ^ 2),
                 current_vertical_speed := cmd.velocity_z,
                 goal_yaw := cmd.yaw }
  let horizontal_t_stop := s.current_horizontal_speed / c.horizontal_acceleration_
  let horizontal_stop_dist := (horizontal_t_stop * s.current_horizontal_speed) / 2
  let stop_dist_x := m.cos s.current_heading * horizontal_stop_dist
  let stop_dist_y := m.sin s.current_heading * horizontal_stop_dist
  let vertical_t_stop := s.current_vertical_speed / c.vertical_acceleration_
  let vertical_stop_dist := (vertical_t_stop * s.current_vertical_speed) / 2
  let s := { s with goal_x := s.state_x + stop_dist_x, goal_y := s.state_y + stop_dist_y,
                    goal_z := s.state_z + vertical_stop_dist }
  let s := { s with landing := false, taking_off := false, is_active := true }
  (changeState STOP_MOTION_STATE s, true)

/-- `deactivate` (452-461). -/
def deactivate (s : State α) : State α :=
  { s with is_active := false, landing := false, taking_off := false,
           current_state_vertical := IDLE_STATE, current_state_horizontal := IDLE_STATE }

/-- `update` (467-521).  Returns the new state and the published command
(`none` is the null pointer). -/
def update (m : Ext α) (c : Config α) (msg : Odometry α) (s : State α) :
    State α × Option (PositionCommand α) :=
  let s := { s with odometry := msg, odometry_x := msg.position_x,
                    odometry_y := msg.position_y, odometry_z := msg.position_z,
                    odometry_roll := msg.roll, odometry_pitch := msg.pitch,
                    odometry_yaw := msg.yaw, got_odometry := true }
  if !s.is_active then (s, none) else
  let out : PositionCommand α :=
    { s.position_output with
        position_x := s.state_x, position_y := s.state_y, position_z := s.state_z,
        yaw := s.state_yaw,
        velocity_x := m.cos s.current_heading * s.current_horizontal_speed,
        velocity_y := m.sin s.current_heading * s.current_horizontal_speed,
        velocity_z := s.current_vertical_direction * s.current_vertical_speed,
        yaw_dot := s.speed_yaw,
        acceleration_x := 0, acceleration_y := 0,
        acceleration_z := s.current_vertical_direction * s.current_vertical_acceleration }
  let out : PositionCommand α :=
    if c.takeoff_disable_lateral_gains_ then
      if s.taking_off && (s.current_state_vertical == ACCELERATING_STATE
          || s.current_state_vertical == DECELERATING_STATE) then
        { out with disable_position_gains := true }
      else { out with disable_position_gains := false }
    else out
  ({ s with position_output := out }, some out)

/-- `enableCallbacks` (550-572); the response always reports success. -/
def enableCallbacks (data : Bool) (s : State α) : State α × Bool :=
  if data != s.callbacks_enabled then ({ s with callbacks_enabled := data }, true)
  else (s, true)

/-- `hover` (670-728). -/
def hover (m : Ext α) (c : Config α) (s : State α) : State α × TriggerResponse :=
  let s := { s with
    current_horizontal_speed :=
      m.sqrt (s.odometry.twist_linear_x ^ 2 + s.odometry.twist_linear_y ^ 2),
    current_vertical_speed := s.odometry.twist_linear_z }
  let horizontal_t_stop := s.current_horizontal_speed / c.horizontal_acceleration_
  let horizontal_stop_dist := (horizontal_t_stop * s.current_horizontal_speed) / 2
  let stop_dist_x := m.cos s.current_heading * horizontal_stop_dist
  let stop_dist_y := m.sin s.current_heading * horizontal_stop_dist
  let vertical_t_stop := s.current_vertical_speed / c.vertical_acceleration_
  let vertical_stop_dist := (vertical_t_stop * s.current_vertical_speed) / 2
  ({ s with goal_x := s.state_x + stop_dist_x, goal_y := s.state_y + stop_dist_y,
            goal_z := s.state_z + vertical_stop_dist }, { success := true })

/-- `stopHorizontalMotion` (794-804). -/
def stopHorizontalMotion (c : Config α) (s : State α) : State α :=
  let v := s.current_horizontal_speed - c.horizontal_acceleration_ * c.tracker_dt_
  if v < 0 then
    { s with current_horizontal_speed := 0, current_horizontal_acceleration := 0 }
  else
    { s with current_horizontal_speed := v,
             current_horizontal_acceleration := -c.horizontal_acceleration_ }

/-- `stopVerticalMotion` (810-820). -/
def stopVerticalMotion (c : Config α) (s : State α) : State α :=
  let v := s.current_vertical_speed - c.vertical_acceleration_ * c.tracker_dt_
  if v < 0 then
    { s with current_vertical_speed := 0, current_vertical_acceleration := 0 }
  else
    { s with current_vertical_speed := v,
             current_vertical_acceleration := -c.vertical_acceleration_ }

/-- `accelerateHorizontal` (826-850). -/
def accelerateHorizontal (m : Ext α) (c : Config α) (s : State α) : State α :=
  let s := { s with current_heading := m.atan2 (s.goal_y - s.state_y) (s.goal_x - s.state_x) }
  let horizontal_t_stop := s.current_horizontal_speed / c.horizontal_acceleration_
  let horizontal_stop_dist := (horizontal_t_stop * s.current_horizontal_speed) / 2
  let stop_dist_x := m.cos s.current_heading * horizontal_stop_dist
  let stop_dist_y := m.sin s.current_heading * horizontal_stop_dist
  let s := { s with current_horizontal_speed :=
                      s.current_horizontal_speed + c.horizontal_acceleration_ * c.tracker_dt_ }
  let s :=
    if s.current_horizontal_speed ≥ c.horizontal_speed_ then
      { s with current_horizontal_speed := c.horizontal_speed_,
               current_horizontal_acceleration := 0 }
    else
      { s with current_horizontal_acceleration := c.horizontal_acceleration_ }
  if m.sqrt ((s.state_x + stop_dist_x - s.goal_x) ^ 2 + (s.state_y + stop_dist_y - s.goal_y) ^ 2)
      < 2 * (c.horizontal_speed_ * c.tracker_dt_) then
    changeStateHorizontal DECELERATING_STATE { s with current_horizontal_acceleration := 0 }
  else s

/-- The band selection at the head of `accelerateVertical` (858-880): the pair
`(used_speed, used_acceleration)`. -/
def usedSpeedAcceleration (c : Config α) (s : State α) : α × α :=
  if s.taking_off then (c.takeoff_speed_, c.takeoff_acceleration_)
  else if s.landing then
    if s.odometry_z > 2 * c.landing_fast_height_ then
      (c.vertical_speed_, c.vertical_acceleration_)
    else if s.odometry_z > c.landing_fast_height_ then
      (c.vertical_speed_ / 2, c.vertical_acceleration_ / 2)
    else (c.landing_speed_, c.landing_acceleration_)
  else (c.vertical_speed_, c.vertical_acceleration_)

/-- `accelerateVertical` (856-906).  In the saturation branch the source
subtracts `vertical_acceleration_ * tracker_dt_` from the incremented speed. -/
def accelerateVertical (c : Config α) (s : State α) : State α :=
  let used_speed := (usedSpeedAcceleration c s).1
  let used_acceleration := (usedSpeedAcceleration c s).2
  let tar_z := s.goal_z - s.state_z
  let s := { s with current_vertical_direction := sign tar_z }
  let vertical_t_stop := s.current_vertical_speed / used_acceleration
  let vertical_stop_dist := (vertical_t_stop * s.current_vertical_speed) / 2
  let stop_dist_z := s.current_vertical_direction * vertical_stop_dist
  let s := { s with current_vertical_speed :=
                      s.current_vertical_speed + used_acceleration * c.tracker_dt_ }
  let s :=
    if s.current_vertical_speed ≥ used_speed then
      { s with current_vertical_speed :=
                 s.current_vertical_speed - c.vertical_acceleration_ * c.tracker_dt_,
               current_vertical_acceleration := 0 }
    else
      { s with current_vertical_acceleration := used_acceleration }
  if |s.state_z + stop_dist_z - s.goal_z| < 2 * (used_speed * c.tracker_dt_) then
    changeStateVertical DECELERATING_STATE { s with current_vertical_acceleration := 0 }
  else s

/-- `decelerateHorizontal` (912-926). -/
def decelerateHorizontal (c : Config α) (s : State α) : State α :=
  let v := s.current_horizontal_speed - c.horizontal_acceleration_ * c.tracker_dt_
  let s :=
    if v < 0 then { s with current_horizontal_speed := 0 }
    else { s with current_horizontal_speed := v,
                  current_horizontal_acceleration := -c.horizontal_acceleration_ }
  if s.current_horizontal_speed == 0 then
    changeStateHorizontal STOPPING_STATE { s with current_horizontal_acceleration := 0 }
  else s

/-- The band selection at the head of `decelerateVertical` (934-950): the value
of `used_acceleration`. -/
def usedDeceleration (c : Config α) (s : State α) : α :=
  if s.taking_off then c.takeoff_acceleration_
  else if s.landing then
    if s.odometry_z > 2 * c.landing_fast_height_ then c.vertical_acceleration_
    else if s.odometry_z > c.landing_fast_height_ then c.vertical_acceleration_ / 2
    else c.landing_acceleration_
  else c.vertical_acceleration_

/-- `decelerateVertical` (932-964). -/
def decelerateVertical (c : Config α) (s : State α) : State α :=
  let used_acceleration := usedDeceleration c s
  let v := s.current_vertical_speed - used_acceleration * c.tracker_dt_
  let s :=
    if v < 0 then { s with current_vertical_speed := 0 }
    else { s with current_vertical_speed := v,
                  current_vertical_acceleration := -used_acceleration }
  if s.current_vertical_speed == 0 then
    changeStateVertical STOPPING_STATE { s with current_vertical_acceleration := 0 }
  else s

/-- `stopHorizontal` (970-975). -/
def stopHorizontal (s : State α) : State α :=
  { s with state_x := 95 / 100 * s.state_x + 5 / 100 * s.goal_x,
           state_y := 95 / 100 * s.state_y + 5 / 100 * s.goal_y,
           current_horizontal_acceleration := 0 }

/-- `stopVertical` (981-985). -/
def stopVertical (s : State α) : State α :=
  { s with state_z := 95 / 100 * s.state_z + 5 / 100 * s.goal_z,
           current_vertical_acceleration := 0 }

/-- `mainTimer`, the switch on `current_state_horizontal` (1005-1035). -/
def stepHorizontal (m : Ext α) (c : Config α) (s : State α) : State α :=
  match s.current_state_horizontal with
  | IDLE_STATE => s
  | LANDED_STATE => s
  | HOVER_STATE => s
  | STOP_MOTION_STATE => stopHorizontalMotion c s
  | ACCELERATING_STATE => accelerateHorizontal m c s
  | DECELERATING_STATE => decelerateHorizontal c s
  | STOPPING_STATE => stopHorizontal s

/-- `mainTimer`, the switch on `current_state_vertical` (1037-1067). -/
def stepVertical (c : Config α) (s : State α) : State α :=
  match s.current_state_vertical with
  | IDLE_STATE => s
  | LANDED_STATE => s
  | HOVER_STATE => s
  | STOP_MOTION_STATE => stopVerticalMotion c s
  | ACCELERATING_STATE => accelerateVertical c s
  | DECELERATING_STATE => decelerateVertical c s
  | STOPPING_STATE => stopVertical s

/-- `mainTimer`, the three combined-state rules (1069-1096). -/
def coordinate (s : State α) : State α :=
  let s :=
    if s.current_state_horizontal = STOP_MOTION_STATE
        ∧ s.current_state_vertical = STOP_MOTION_STATE then
      if s.current_vertical_speed = 0 ∧ s.current_horizontal_speed = 0 then
        if s.have_goal then changeState ACCELERATING_STATE s
        else changeState STOPPING_STATE s
      else s
    else s
  let s :=
    if s.current_state_horizontal = STOPPING_STATE
        ∧ s.current_state_vertical = STOPPING_STATE then
      if |s.state_x - s.goal_x| < 1 / 1000 ∧ |s.state_y - s.goal_y| < 1 / 1000
          ∧ |s.state_z - s.goal_z| < 1 / 1000 then
        changeState HOVER_STATE
          { s with state_x := s.goal_x, state_y := s.goal_y, state_z := s.goal_z }
      else s
    else s
  if s.current_state_horizontal = LANDED_STATE ∧ s.current_state_vertical = LANDED_STATE then
    { s with state_x := s.odometry_x, goal_x := s.odometry_x,
             state_y := s.odometry_y, goal_y := s.odometry_y,
             state_z := s.odometry_z, goal_z := s.odometry_z }
  else s

/-- `mainTimer`, motion saturation during takeoff (1102-1125). -/
def saturate (m : Ext α) (c : Config α) (s : State α) : State α :=
  if s.taking_off then
    let err_x := s.odometry_x - s.state_x
    let err_y := s.odometry_y - s.state_y
    let err_z := s.odometry_z - s.state_z
    let error_size := size3 m err_x err_y err_z
    if error_size > c.max_position_difference_ then
      let future_state_x :=
        s.state_x + m.cos s.current_heading * s.current_horizontal_speed * c.tracker_dt_
      let future_state_y :=
        s.state_y + m.sin s.current_heading * s.current_horizontal_speed * c.tracker_dt_
      let future_state_z :=
        s.state_z + s.current_vertical_direction * s.current_vertical_speed * c.tracker_dt_
      if dist3 m future_state_x s.odometry_x future_state_y s.odometry_y
          future_state_z s.odometry_z > error_size then
        { s with current_horizontal_speed := 0, current_vertical_speed := 0 }
      else s
    else s
  else s

/-- `mainTimer`, the position integration (1128-1130). -/
def integrate (m : Ext α) (c : Config α) (s : State α) : State α :=
  { s with
    state_x := s.state_x + m.cos s.current_heading * s.current_horizontal_speed * c.tracker_dt_,
    state_y := s.state_y + m.sin s.current_heading * s.current_horizontal_speed * c.tracker_dt_,
    state_z :=
      s.state_z + s.current_vertical_direction * s.current_vertical_speed * c.tracker_dt_ }

/-- `mainTimer`, the yaw tracking (1136-1160). -/
def trackYaw (m : Ext α) (c : Config α) (s : State α) : State α :=
  { s with state_yaw :=
      yawTracking m.PI c.yaw_gain_ c.yaw_rate_ c.tracker_dt_ s.goal_yaw s.state_yaw }

/-- `mainTimer` (993-1167): one tick. -/
def mainTimer (m : Ext α) (c : Config α) (s : State α) : State α :=
  if !s.is_active then s
  else trackYaw m c (integrate m c (saturate m c (coordinate
    (stepVertical c (stepHorizontal m c s)))))

/-- `callbackTakeoff` (1175-1243). -/
def callbackTakeoff (c : Config α) (s : State α) : State α × TriggerResponse :=
  if !s.is_active then (s, { success := false })
  else if !s.callbacks_enabled then (s, { success := false })
  else if s.odometry_z > c.landed_threshold_height_ then (s, { success := false })
  else
    let s := { s with state_x := s.odometry_x, goal_x := s.odometry_x,
                      state_y := s.odometry_y, goal_y := s.odometry_y,
                      state_z := s.odometry_z, goal_z := c.takeoff_height_,
                      state_yaw := s.odometry_yaw, goal_yaw := s.odometry_yaw,
                      speed_x := 0, speed_y := 0, current_vertical_speed := 0,
                      have_goal := true }
    let s := { s with taking_off := true, landing := false }
    (changeState ACCELERATING_STATE s, { success := true })

/-- `callbackLand` (1249-1291). -/
def callbackLand (c : Config α) (s : State α) : State α × TriggerResponse :=
  if !s.is_active then
    (changeState LANDED_STATE { s with taking_off := false, landing := false },
      { success := false })
  else if s.odometry_z < c.landed_threshold_height_ then
    ({ changeState LANDED_STATE s with taking_off := false, landing := false },
      { success := false })
  else
    let s := { s with goal_z := c.landing_height_ }
    let s := { s with landing := true, taking_off := false, have_goal := true }
    (changeState STOP_MOTION_STATE s, { success := true })

/-- The operations of the tracker that the node and its callers invoke. -/
inductive Op (α : Type) where
  | update (msg : Odometry α)
  | activate (cmd : Option (PositionCommand α))
  | deactivate
  | hover
  | enableCallbacks (data : Bool)
  | callbackTakeoff
  | callbackLand
  | mainTimer

/-- One operation applied to the tracker. -/
def Op.apply (m : Ext α) (c : Config α) (s : State α) : Op α → State α
  | .update msg => (LandoffTracker.update m c msg s).1
  | .activate cmd => (LandoffTracker.activate m c cmd s).1
  | .deactivate => LandoffTracker.deactivate s
  | .hover => (LandoffTracker.hover m c s).1
  | .enableCallbacks data => (LandoffTracker.enableCallbacks data s).1
  | .callbackTakeoff => (LandoffTracker.callbackTakeoff c s).1
  | .callbackLand => (LandoffTracker.callbackLand c s).1
  | .mainTimer => LandoffTracker.mainTimer m c s

/-- The state after a sequence of operations, starting from `s`. -/
def run (m : Ext α) (c : Config α) (s : State α) (ops : List (Op α)) : State α :=
  ops.foldl (Op.apply m c) s

end LandoffTracker

/-! ## LineTracker -/

namespace LineTracker

/-- The enum `States_t` of line_tracker.cpp. -/
inductive States_t where
  | IDLE_STATE
  | STOP_MOTION_STATE
  | HOVER_STATE
  | ACCELERATING_STATE
  | DECELERATING_STATE
  | STOPPING_STATE
  deriving DecidableEq, Repr

open States_t

/-- The configuration members of the class, as loaded by `initialize`. -/
structure Config (α : Type) where
  horizontal_speed_ : α
  vertical_speed_ : α
  horizontal_acceleration_ : α
  vertical_acceleration_ : α
  yaw_rate_ : α
  yaw_gain_ : α
  tracker_loop_rate_ : ℤ
  tracker_dt_ : α
  deriving DecidableEq, Repr

/-- The mutable members of the class (`have_goal`, declared `double`, is a
`Bool`). -/
structure State (α : Type) where
  odometry : Odometry α
  got_odometry : Bool
  odometry_x : α
  odometry_y : α
  odometry_z : α
  odometry_yaw : α
  odometry_roll : α
  odometry_pitch : α
  is_initialized : Bool
  is_active : Bool
  current_state_vertical : States_t
  previous_state_vertical : States_t
  current_state_horizontal : States_t
  previous_state_horizontal : States_t
  goal_x : α
  goal_y : α
  goal_z : α
  goal_yaw : α
  have_goal : Bool
  state_x : α
  state_y : α
  state_z : α
  state_yaw : α
  speed_x : α
  speed_y : α
  speed_yaw : α
  current_heading : α
  current_vertical_direction : α
  current_vertical_speed : α
  current_horizontal_speed : α
  position_output : PositionCommand α
  deriving DecidableEq, Repr

/-- The response of `goTo` / `goToRelative` / `hover` (the message text is not
modelled). -/
structure Response where
  success : Bool
  deriving DecidableEq, Repr

variable {α : Type} [LinearOrderedField α]

/-- `changeStateHorizontal` (125-132). -/
def changeStateHorizontal (new_state : States_t) (s : State α) : State α :=
  { s with previous_state_horizontal := s.current_state_horizontal,
           current_state_horizontal := new_state }

/-- `changeStateVertical` (134-141). -/
def changeStateVertical (new_state : States_t) (s : State α) : State α :=
  { s with previous_state_vertical := s.current_state_vertical,
           current_state_vertical := new_state }

/-- `changeState` (143-154). -/
def changeState (new_state : States_t) (s : State α) : State α :=
  { s with previous_state_horizontal := s.current_state_horizontal,
           current_state_horizontal := new_state,
           previous_state_vertical := s.current_state_vertical,
           current_state_vertical := new_state }

/-- The constructor and the default member initialisers (57, 111, 156), applied
to the raw memory `mem` of the object. -/
def construct (mem : State α) : State α :=
  { mem with got_odometry := false, have_goal := false,
             is_initialized := false, is_active := false }

/-- The state part of `initialize` (221-241). -/
def initialise (s : State α) : State α :=
  { s with state_x := 0, state_y := 0, state_z := 0, state_yaw := 0,
           speed_x := 0, speed_y := 0, speed_yaw := 0,
           current_horizontal_speed := 0, current_vertical_speed := 0,
           current_vertical_direction := 0,
           is_initialized := true,
           current_state_vertical := IDLE_STATE, previous_state_vertical := IDLE_STATE,
           current_state_horizontal := IDLE_STATE, previous_state_horizontal := IDLE_STATE }

/-- `stopHorizontalMotion` (259-266). -/
def stopHorizontalMotion (c : Config α) (s : State α) : State α :=
  let v := s.current_horizontal_speed - c.horizontal_acceleration_ * c.tracker_dt_
  if v < 0 then { s with current_horizontal_speed := 0 }
  else { s with current_horizontal_speed := v }

/-- `stopVerticalMotion` (272-279). -/
def stopVerticalMotion (c : Config α) (s : State α) : State α :=
  let v := s.current_vertical_speed - c.vertical_acceleration_ * c.tracker_dt_
  if v < 0 then { s with current_vertical_speed := 0 }
  else { s with current_vertical_speed := v }

/-- `accelerateHorizontal` (285-305). -/
def accelerateHorizontal (m : Ext α) (c : Config α) (s : State α) : State α :=
  let s := { s with current_heading := m.atan2 (s.goal_y - s.state_y) (s.goal_x - s.state_x) }
  let horizontal_t_stop := s.current_horizontal_speed / c.horizontal_acceleration_
  let horizontal_stop_dist := (horizontal_t_stop * s.current_horizontal_speed) / 2
  let stop_dist_x := m.cos s.current_heading * horizontal_stop_dist
  let stop_dist_y := m.sin s.current_heading * horizontal_stop_dist
  let s := { s with current_horizontal_speed :=
                      s.current_horizontal_speed + c.horizontal_acceleration_ * c.tracker_dt_ }
  let s :=
    if s.current_horizontal_speed ≥ c.horizontal_speed_ then
      { s with current_horizontal_speed := c.horizontal_speed_ }
    else s
  if m.sqrt ((s.state_x + stop_dist_x - s.goal_x) ^ 2 + (s.state_y + stop_dist_y - s.goal_y) ^ 2)
      < 2 * (c.horizontal_speed_ * c.tracker_dt_) then
    changeStateHorizontal DECELERATING_STATE s
  else s

/-- `accelerateVertical` (311-333). -/
def accelerateVertical (c : Config α) (s : State α) : State α :=
  let tar_z := s.goal_z - s.state_z
  let s := { s with current_vertical_direction := sign tar_z }
  let vertical_t_stop := s.current_vertical_speed / c.vertical_acceleration_
  let vertical_stop_dist := (vertical_t_stop * s.current_vertical_speed) / 2
  let stop_dist_z := s.current_vertical_direction * vertical_stop_dist
  let s := { s with current_vertical_speed :=
                      s.current_vertical_speed + c.vertical_acceleration_ * c.tracker_dt_ }
  let s :=
    if s.current_vertical_speed ≥ c.vertical_speed_ then
      { s with current_vertical_speed := c.vertical_speed_ }
    else s
  if |s.state_z + stop_dist_z - s.goal_z| < 2 * (c.vertical_speed_ * c.tracker_dt_) then
    changeStateVertical DECELERATING_STATE s
  else s

/-- `decelerateHorizontal` (339-350). -/
def decelerateHorizontal (c : Config α) (s : State α) : State α :=
  let v := s.current_horizontal_speed - c.horizontal_acceleration_ * c.tracker_dt_
  let s :=
    if v < 0 then { s with current_horizontal_speed := 0 }
    else { s with current_horizontal_speed := v }
  if s.current_horizontal_speed == 0 then changeStateHorizontal STOPPING_STATE s else s

/-- `decelerateVertical` (356-367). -/
def decelerateVertical (c : Config α) (s : State α) : State α :=
  let v := s.current_vertical_speed - c.vertical_acceleration_ * c.tracker_dt_
  let s :=
    if v < 0 then { s with current_vertical_speed := 0 }
    else { s with current_vertical_speed := v }
  if s.current_vertical_speed == 0 then changeStateVertical STOPPING_STATE s else s

/-- `stopHorizontal` (373-377). -/
def stopHorizontal (s : State α) : State α :=
  { s with state_x := 95 / 100 * s.state_x + 5 / 100 * s.goal_x,
           state_y := 95 / 100 * s.state_y + 5 / 100 * s.goal_y }

/-- `stopVertical` (383-386). -/
def stopVertical (s : State α) : State α :=
  { s with state_z := 95 / 100 * s.state_z + 5 / 100 * s.goal_z }

/-- `mainTimer`, the switch on `current_state_horizontal` (400-433). -/
def stepHorizontal (m : Ext α) (c : Config α) (s : State α) : State α :=
  match s.current_state_horizontal with
  | IDLE_STATE => s
  | HOVER_STATE => s
  | STOP_MOTION_STATE => stopHorizontalMotion c s
  | ACCELERATING_STATE => accelerateHorizontal m c s
  | DECELERATING_STATE => decelerateHorizontal c s
  | STOPPING_STATE => stopHorizontal s

/-- `mainTimer`, the switch on `current_state_vertical` (435-468). -/
def stepVertical (c : Config α) (s : State α) : State α :=
  match s.current_state_vertical with
  | IDLE_STATE => s
  | HOVER_STATE => s
  | STOP_MOTION_STATE => stopVerticalMotion c s
  | ACCELERATING_STATE => accelerateVertical c s
  | DECELERATING_STATE => decelerateVertical c s
  | STOPPING_STATE => stopVertical s

/-- `mainTimer`, the two combined-state rules (470-491). -/
def coordinate (s : State α) : State α :=
  let s :=
    if s.current_state_horizontal = STOP_MOTION_STATE
        ∧ s.current_state_vertical = STOP_MOTION_STATE then
      if s.current_vertical_speed = 0 ∧ s.current_horizontal_speed = 0 then
        if s.have_goal then changeState ACCELERATING_STATE s
        else changeState STOPPING_STATE s
      else s
    else s
  if s.current_state_horizontal = STOPPING_STATE
      ∧ s.current_state_vertical = STOPPING_STATE then
    if |s.state_x - s.goal_x| < 1 / 1000 ∧ |s.state_y - s.goal_y| < 1 / 1000
        ∧ |s.state_z - s.goal_z| < 1 / 1000 then
      changeState HOVER_STATE
        { s with state_x := s.goal_x, state_y := s.goal_y, state_z := s.goal_z }
    else s
  else s

/-- `mainTimer`, the position integration (493-495). -/
def integrate (m : Ext α) (c : Config α) (s : State α) : State α :=
  { s with
    state_x := s.state_x + m.cos s.current_heading * s.current_horizontal_speed * c.tracker_dt_,
    state_y := s.state_y + m.sin s.current_heading * s.current_horizontal_speed * c.tracker_dt_,
    state_z :=
      s.state_z + s.current_vertical_direction * s.current_vertical_speed * c.tracker_dt_ }

/-- `mainTimer`, the yaw tracking (501-525). -/
def trackYaw (m : Ext α) (c : Config α) (s : State α) : State α :=
  { s with state_yaw :=
      yawTracking m.PI c.yaw_gain_ c.yaw_rate_ c.tracker_dt_ s.goal_yaw s.state_yaw }

/-- `mainTimer` (392-528): one tick. -/
def mainTimer (m : Ext α) (c : Config α) (s : State α) : State α :=
  if !s.is_active then s
  else trackYaw m c (integrate m c (coordinate (stepVertical c (stepHorizontal m c s))))

/-- `activate` (534-617).  `cmd = none` is the null pointer. -/
def activate (m : Ext α) (c : Config α) (cmd : Option (PositionCommand α)) (s : State α) :
    State α × Bool :=
  if !s.got_odometry then (s, false) else
  let s : State α :=
    match cmd with
    | some cmd =>
      let speed_x := cmd.velocity_x
      let speed_y := cmd.velocity_y
      { s with state_x := s.odometry.position_x, state_y := s.odometry.position_y,
               state_z := s.odometry.position_z, state_yaw := cmd.yaw,
               speed_x := speed_x, speed_y := speed_y,
               current_heading := m.atan2 speed_y speed_x,
               current_horizontal_speed := m.sqrt (speed_x ^ 2 + speed_y ^ 2),
               current_vertical_speed := cmd.velocity_z,
               goal_yaw := cmd.yaw }
    | none =>
      let speed_x := s.odometry.twist_linear_x
      let speed_y := s.odometry.twist_linear_y
      { s with state_x := s.odometry.position_x, state_y := s.odometry.position_y,
               state_z := s.odometry.position_z, state_yaw := s.odometry_yaw,
               speed_x := speed_x, speed_y := speed_y,
               current_heading := m.atan2 speed_y speed_x,
               current_horizontal_speed := m.sqrt (speed_x ^ 2 + speed_y ^ 2),
               current_vertical_speed := s.odometry.twist_linear_z,
               goal_yaw := s.odometry_yaw }
  let horizontal_t_stop := s.current_horizontal_speed / c.horizontal_acceleration_
  let horizontal_stop_dist := (horizontal_t_stop * s.current_horizontal_speed) / 2
  let stop_dist_x := m.cos s.current_heading * horizontal_stop_dist
  let stop_dist_y := m.sin s.current_heading * horizontal_stop_dist
  let vertical_t_stop := s.current_vertical_speed / c.vertical_acceleration_
  let vertical_stop_dist := (vertical_t_stop * s.current_vertical_speed) / 2
  let s := { s with goal_x := s.state_x + stop_dist_x, goal_y := s.state_y + stop_dist_y,
                    goal_z := s.state_z + vertical_stop_dist }
  let s := { s with is_active := true }
  (changeState STOP_MOTION_STATE s, true)

/-- `deactivate` (623-628). -/
def deactivate (s : State α) : State α :=
  { s with is_active := false }

/-- `update` (634-676).  Returns the new state and the published command
(`none` is the null pointer). -/
def update (m : Ext α) (msg : Odometry α) (s : State α) :
    State α × Option (PositionCommand α) :=
  let s := { s with odometry := msg, odometry_x := msg.position_x,
                    odometry_y := msg.position_y, odometry_z := msg.position_z,
                    odometry_roll := msg.roll, odometry_pitch := msg.pitch,
                    odometry_yaw := msg.yaw, got_odometry := true }
  if !s.is_active then (s, none) else
  let out : PositionCommand α :=
    { s.position_output with
        position_x := s.state_x, position_y := s.state_y, position_z := s.state_z,
        yaw := s.state_yaw,
        velocity_x := m.cos s.current_heading * s.current_horizontal_speed,
        velocity_y := m.sin s.current_heading * s.current_horizontal_speed,
        velocity_z := s.current_vertical_direction * s.current_vertical_speed,
        yaw_dot := s.speed_yaw,
        acceleration_x := 0, acceleration_y := 0, acceleration_z := 0 }
  ({ s with position_output := out }, some out)

/-- `goTo` (705-724).  `goal` is `cmd->goal[0..3]`. -/
def goTo (m : Ext α) (goal0 goal1 goal2 goal3 : α) (s : State α) : State α × Response :=
  let s := { s with goal_x := goal0, goal_y := goal1, goal_z := goal2,
                    goal_yaw := m.validateYawSetpoint goal3 }
  let s := { s with have_goal := true }
  (changeState STOP_MOTION_STATE s, { success := true })

/-- `goToRelative` (730-753). -/
def goToRelative (m : Ext α) (goal0 goal1 goal2 goal3 : α) (s : State α) :
    State α × Response :=
  let s := { s with goal_x := s.state_x + goal0, goal_y := s.state_y + goal1,
                    goal_z := s.state_z + goal2,
                    goal_yaw := m.validateYawSetpoint (s.state_yaw + goal3) }
  let s := { s with have_goal := true }
  (changeState STOP_MOTION_STATE s, { success := true })

/-- `hover` (759-797). -/
def hover (m : Ext α) (c : Config α) (s : State α) : State α × Response :=
  let s := { s with
    current_horizontal_speed :=
      m.sqrt (s.odometry.twist_linear_x ^ 2 + s.odometry.twist_linear_y ^ 2),
    current_vertical_speed := s.odometry.twist_linear_z }
  let horizontal_t_stop := s.current_horizontal_speed / c.horizontal_acceleration_
  let horizontal_stop_dist := (horizontal_t_stop * s.current_horizontal_speed) / 2
  let stop_dist_x := m.cos s.current_heading * horizontal_stop_dist
  let stop_dist_y := m.sin s.current_heading * horizontal_stop_dist
  let vertical_t_stop := s.current_vertical_speed / c.vertical_acceleration_
  let vertical_stop_dist := (vertical_t_stop * s.current_vertical_speed) / 2
  ({ s with goal_x := s.state_x + stop_dist_x, goal_y := s.state_y + stop_dist_y,
            goal_z := s.state_z + vertical_stop_dist }, { success := true })

end LineTracker

/-! ## Concrete inputs

Rational configurations and states at which the operations are evaluated. -/

/-- Integer square root by downward search: the greatest `k ≤ n` with
`k * k ≤ n`. -/
def natSqrt (n : ℕ) : ℕ := Nat.findGreatest (fun k => k * k ≤ n) n

/-- Square root on the rationals, exact on squares of rationals: the integer
roots of numerator and denominator. -/
def ratSqrt (q : ℚ) : ℚ := (natSqrt q.num.toNat : ℚ) / (natSqrt q.den : ℚ)

/-- A rational stand-in for the external functions, exact for motion along the
positive x axis: `atan2 0 x = 0` for `x ≥ 0`, `cos 0 = 1`, `sin 0 = 0`, and
`sqrt` exact on squares of rationals.  It is used only in runs whose heading is
`0`; `PI` is `3.14159265` and `validateYawSetpoint` returns a yaw that is
already in range unchanged. -/
def ratExt : Ext ℚ :=
  { cos := fun _ => 1, sin := fun _ => 0, atan2 := fun _ _ => 0, sqrt := ratSqrt,
    PI := 314159265 / 100000000, validateYawSetpoint := id }

/-- An odometry message at the origin, level, at rest. -/
def zeroOdometry {α : Type} [LinearOrderedField α] : Odometry α :=
  { position_x := 0, position_y := 0, position_z := 0, roll := 0, pitch := 0, yaw := 0,
    twist_linear_x := 0, twist_linear_y := 0, twist_linear_z := 0 }

/-- The all-zero position command. -/
def zeroCommand {α : Type} [LinearOrderedField α] : PositionCommand α :=
  { position_x := 0, position_y := 0, position_z := 0, yaw := 0,
    velocity_x := 0, velocity_y := 0, velocity_z := 0, yaw_dot := 0,
    acceleration_x := 0, acceleration_y := 0, acceleration_z := 0,
    disable_position_gains := false }

namespace LandoffTracker

open States_t

variable {α : Type} [LinearOrderedField α]

/-- Zeroed object memory, the argument of `construct` in the concrete runs. -/
def zeroMem : State α :=
  { callbacks_enabled := false, odometry := zeroOdometry, got_odometry := false,
    odometry_x := 0, odometry_y := 0, odometry_z := 0,
    odometry_yaw := 0, odometry_roll := 0, odometry_pitch := 0,
    is_initialized := false, is_active := false,
    current_state_vertical := IDLE_STATE, previous_state_vertical := IDLE_STATE,
    current_state_horizontal := IDLE_STATE, previous_state_horizontal := IDLE_STATE,
    taking_off := false, landing := false,
    goal_x := 0, goal_y := 0, goal_z := 0, goal_yaw := 0, have_goal := false,
    state_x := 0, state_y := 0, state_z := 0, state_yaw := 0,
    speed_x := 0, speed_y := 0, speed_yaw := 0,
    current_heading := 0, current_vertical_direction := 0,
    current_vertical_speed := 0, current_horizontal_speed := 0,
    current_horizontal_acceleration := 0, current_vertical_acceleration := 0,
    position_output := zeroCommand }

/-- A valid configuration: 10 Hz loop, takeoff acceleration 2 and nominal
vertical acceleration 1, `landing_fast_height = 1`. -/
def sampleConfig : Config ℚ :=
  { horizontal_speed_ := 2, vertical_speed_ := 1, takeoff_speed_ := 1, landing_speed_ := 1 / 2,
    horizontal_acceleration_ := 1, vertical_acceleration_ := 1,
    takeoff_acceleration_ := 2, landing_acceleration_ := 1 / 2,
    yaw_rate_ := 1, yaw_gain_ := 1, tracker_loop_rate_ := 10, tracker_dt_ := 1 / 10,
    takeoff_height_ := 2, landing_height_ := 0, landing_fast_height_ := 1,
    max_position_difference_ := 1, landed_threshold_height_ := 1 / 2,
    takeoff_disable_lateral_gains_ := false }

/-- The tracker right after construction and `initialize`, on zeroed memory. -/
def freshState : State ℚ := initialise (construct zeroMem)

/-- A takeoff in progress with the vertical speed at the takeoff maximum. -/
def takeoffAtMaxSpeed : State ℚ :=
  { (zeroMem : State ℚ) with
    is_active := true, taking_off := true, have_goal := true, goal_z := 2,
    current_state_vertical := ACCELERATING_STATE,
    current_state_horizontal := ACCELERATING_STATE, current_vertical_speed := 1 }

/-- An odometry message of a vehicle at height 3 descending at 1 m/s. -/
def descendingOdometry : Odometry ℚ :=
  { (zeroOdometry : Odometry ℚ) with position_z := 3, twist_linear_z := -1 }

/-- An active tracker on the ground with callbacks enabled and a measurement
at `(1, 2, 1/4)` with yaw `1/3`. -/
def groundedActive : State ℚ :=
  { (zeroMem : State ℚ) with
    is_active := true, callbacks_enabled := true, got_odometry := true,
    odometry_x := 1, odometry_y := 2, odometry_z := 1 / 4, odometry_yaw := 1 / 3,
    current_state_vertical := LANDED_STATE, current_state_horizontal := LANDED_STATE }

/-- The parameter server of `sampleConfig` with `landing_fast_height` not
supplied. -/
def paramsWithoutFastHeight : ParamServer ℚ :=
  { horizontal_speed := some 2, horizontal_acceleration := some 1,
    vertical_speed := some 1, vertical_acceleration := some 1,
    takeoff_speed := some 1, takeoff_acceleration := some 2,
    landing_speed := some (1 / 2), landing_acceleration := some (1 / 2),
    yaw_rate := some 1, yaw_gain := some 1, tracker_loop_rate := some 10,
    takeoff_height := some 2, landing_height := some 0, landing_fast_height := none,
    max_position_difference := some 1, landing_threshold_height := some (1 / 2),
    takeoff_disable_lateral_gains := some false }

/-- A landing in progress at measured height `-3/2`, below the local origin. -/
def landingBelowOrigin : State ℚ :=
  { (zeroMem : State ℚ) with is_active := true, landing := true, odometry_z := -3 / 2 }

/-- A landing in progress at measured height `3/2`. -/
def landingMidBand : State ℚ :=
  { (zeroMem : State ℚ) with is_active := true, landing := true, odometry_z := 3 / 2 }

end LandoffTracker

namespace LandoffTracker

open States_t

variable {α : Type} [LinearOrderedField α]

/-- Both axes hover at rest outside a takeoff. -/
def HoverAtRest (s : State α) : Prop :=
  s.is_active = true ∧ s.current_state_horizontal = HOVER_STATE
    ∧ s.current_state_vertical = HOVER_STATE ∧ s.taking_off = false
    ∧ s.current_horizontal_speed = 0 ∧ s.current_vertical_speed = 0

/-- An odometry message of a vehicle at the origin climbing at 0.1 m/s. -/
def climbingOdometry : Odometry ℚ :=
  { (zeroOdometry : Odometry ℚ) with twist_linear_z := 1 / 10 }

/-- An odometry message of a vehicle at the origin moving along x at 0.04 m/s. -/
def movingOdometry : Odometry ℚ :=
  { (zeroOdometry : Odometry ℚ) with twist_linear_x := 1 / 25 }

/-- The tracker activated on a climbing vehicle, ticked once (both axes reach
`STOPPING_STATE`, 5 mm below the predicted stopping goal), and then asked to
`hover` while the vehicle is measured moving along x at 0.04 m/s. -/
def hoverWhileSettling : State ℚ :=
  run ratExt sampleConfig freshState
    [Op.update climbingOdometry, Op.activate none, Op.mainTimer, Op.update movingOdometry,
      Op.hover]

end LandoffTracker

namespace LandoffTracker

/-- The tracker activated on a climbing vehicle and ticked 32 times: both axes
are in `STOPPING_STATE` at zero speed and the next tick is the snap tick. -/
def settledBeforeSnap : State ℚ :=
  run ratExt sampleConfig freshState
    ([Op.update climbingOdometry, Op.activate none] ++ List.replicate 32 Op.mainTimer)

end LandoffTracker

/-- A yaw inside the closed interval `[-PI, PI]`. -/
def InYawRange {α : Type} [LinearOrderedField α] (PI yaw : α) : Prop :=
  -PI ≤ yaw ∧ yaw ≤ PI

/-- The yaw after the ticks of a run in which the goal yaw of the `k`-th tick is
the `k`-th entry of `goals`. -/
def yawAfter {α : Type} [LinearOrderedField α]
    (PI yaw_gain_ yaw_rate_ tracker_dt_ : α) (goals : List α) (state_yaw : α) : α :=
  goals.foldl (fun yaw goal_yaw => yawTracking PI yaw_gain_ yaw_rate_ tracker_dt_ goal_yaw yaw)
    state_yaw

section YawStages

variable {α : Type} [LinearOrderedField α]

/-- The rate limiter of the yaw block. -/
def clampRate (yaw_rate_ x : α) : α :=
  if x > yaw_rate_ then yaw_rate_ else if x < -yaw_rate_ then -yaw_rate_ else x

/-- The re-wrap of the yaw block. -/
def wrapYaw (PI y : α) : α :=
  if y > PI then y - 2 * PI else if y < -PI then y + 2 * PI else y

/-- The snap of the yaw block; `m` is `yaw_rate_ * tracker_dt_`. -/
def snapYaw (m goal_yaw y : α) : α :=
  if |y - goal_yaw| < 2 * m then goal_yaw else y

/-- The yaw after `n` steps from `3` towards the goal yaw `-3`. -/
def yawFrom3 (PI g r dt : α) (n : ℕ) : α := (yawTracking PI g r dt (-3))^[n] 3

end YawStages

namespace LineTracker

open States_t

variable {α : Type} [LinearOrderedField α]

/-- The laws of the external functions used along the x axis. -/
structure AxisLaws (m : Ext α) : Prop where
  cos_zero : m.cos 0 = 1
  sin_zero : m.sin 0 = 0
  atan2_zero : ∀ x : α, 0 ≤ x → m.atan2 0 x = 0
  sqrt_sq : ∀ a : α, m.sqrt (a ^ 2) = |a|

/-- The configuration of the end-to-end scenario. -/
structure ScenarioConfig (c : Config α) : Prop where
  horizontal_speed : c.horizontal_speed_ = 2
  horizontal_acceleration : c.horizontal_acceleration_ = 1
  vertical_speed : c.vertical_speed_ = 1
  vertical_acceleration : c.vertical_acceleration_ = 1
  tracker_loop_rate : c.tracker_loop_rate_ = 10
  tracker_dt : c.tracker_dt_ = 1 / 10

/-- The tracker is active on the way to the goal `(10, 0, 0)`, on the x axis at
`state_x = x` with heading 0, horizontal speed `v` and vertical speed `vv`. -/
structure Along (t : State α) (hs vs : States_t) (x v vv : α) : Prop where
  is_active : t.is_active = true
  have_goal : t.have_goal = true
  horizontal : t.current_state_horizontal = hs
  vertical : t.current_state_vertical = vs
  state_x : t.state_x = x
  state_y : t.state_y = 0
  state_z : t.state_z = 0
  goal_x : t.goal_x = 10
  goal_y : t.goal_y = 0
  goal_z : t.goal_z = 0
  heading : t.current_heading = 0
  horizontal_speed : t.current_horizontal_speed = v
  vertical_speed : t.current_vertical_speed = vv
  vertical_rate : t.current_vertical_direction * t.current_vertical_speed = 0

/-- Both axes hover at rest at `(10, 0, ·)`. -/
structure Arrived (t : State α) : Prop where
  is_active : t.is_active = true
  horizontal : t.current_state_horizontal = HOVER_STATE
  vertical : t.current_state_vertical = HOVER_STATE
  state_x : t.state_x = 10
  state_y : t.state_y = 0
  heading : t.current_heading = 0
  horizontal_speed : t.current_horizontal_speed = 0
  vertical_speed : t.current_vertical_speed = 0

/-- A measurement at the origin at rest (any attitude). -/
structure AtOriginAtRest (msg : Odometry α) : Prop where
  position_x : msg.position_x = 0
  position_y : msg.position_y = 0
  position_z : msg.position_z = 0
  twist_linear_x : msg.twist_linear_x = 0
  twist_linear_y : msg.twist_linear_y = 0
  twist_linear_z : msg.twist_linear_z = 0

/-- The start of the end-to-end scenario: `update(msg)`, `activate` without a
previous command, `goTo(10, 0, 0, 0)`. -/
def scenarioStart (m : Ext α) (c : Config α) (msg : Odometry α) (s : State α) : State α :=
  (goTo m 10 0 0 0 (activate m c none (update m msg s).1).1).1

/-- The scenario after `n` ticks. -/
def scenarioRun (m : Ext α) (c : Config α) (msg : Odometry α) (s : State α) (n : ℕ) :
    State α :=
  (mainTimer m c)^[n] (scenarioStart m c msg s)

/-- Zeroed object memory, the argument of `construct` in the concrete runs. -/
def zeroMem : State α :=
  { odometry := zeroOdometry, got_odometry := false,
    odometry_x := 0, odometry_y := 0, odometry_z := 0,
    odometry_yaw := 0, odometry_roll := 0, odometry_pitch := 0,
    is_initialized := false, is_active := false,
    current_state_vertical := IDLE_STATE, previous_state_vertical := IDLE_STATE,
    current_state_horizontal := IDLE_STATE, previous_state_horizontal := IDLE_STATE,
    goal_x := 0, goal_y := 0, goal_z := 0, goal_yaw := 0, have_goal := false,
    state_x := 0, state_y := 0, state_z := 0, state_yaw := 0,
    speed_x := 0, speed_y := 0, speed_yaw := 0,
    current_heading := 0, current_vertical_direction := 0,
    current_vertical_speed := 0, current_horizontal_speed := 0,
    position_output := zeroCommand }

/-- The configuration of the end-to-end scenario with yaw rate and gain 1. -/
def scenarioConfig : Config ℚ :=
  { horizontal_speed_ := 2, vertical_speed_ := 1, horizontal_acceleration_ := 1,
    vertical_acceleration_ := 1, yaw_rate_ := 1, yaw_gain_ := 1,
    tracker_loop_rate_ := 10, tracker_dt_ := 1 / 10 }

end LineTracker

/-! ## Requests and lifecycle: projections, invariants and operation sequences -/

/-- The stopping distance the trackers compute in line wherever they predict a
stop (landoff_tracker.cpp 403-404, 418-419, 690-691, 705-706, 832-833, 889-890;
line_tracker.cpp 590-591, 599-600): `t_stop = speed / acceleration`,
`stop_dist = (t_stop * speed) / 2`. -/
def stoppingDistance {α : Type} [LinearOrderedField α] (speed acceleration : α) : α :=
  (speed / acceleration * speed) / 2

namespace LandoffTracker

open States_t

variable {α : Type} [LinearOrderedField α]

/-- The goal members of the class (guarded by `mutex_goal`). -/
structure Goal (α : Type) where
  goal_x : α
  goal_y : α
  goal_z : α
  goal_yaw : α
  have_goal : Bool
  deriving DecidableEq, Repr

/-- The members under "my current state" (guarded by `mutex_state`). -/
structure Trajectory (α : Type) where
  state_x : α
  state_y : α
  state_z : α
  state_yaw : α
  speed_x : α
  speed_y : α
  speed_yaw : α
  current_heading : α
  current_vertical_direction : α
  current_vertical_speed : α
  current_horizontal_speed : α
  current_horizontal_acceleration : α
  current_vertical_acceleration : α
  deriving DecidableEq, Repr

/-- The goal of a tracker state. -/
def State.goal (s : State α) : Goal α :=
  { goal_x := s.goal_x, goal_y := s.goal_y, goal_z := s.goal_z, goal_yaw := s.goal_yaw,
    have_goal := s.have_goal }

/-- The trajectory state of a tracker state. -/
def State.trajectory (s : State α) : Trajectory α :=
  { state_x := s.state_x, state_y := s.state_y, state_z := s.state_z, state_yaw := s.state_yaw,
    speed_x := s.speed_x, speed_y := s.speed_y, speed_yaw := s.speed_yaw,
    current_heading := s.current_heading,
    current_vertical_direction := s.current_vertical_direction,
    current_vertical_speed := s.current_vertical_speed,
    current_horizontal_speed := s.current_horizontal_speed,
    current_horizontal_acceleration := s.current_horizontal_acceleration,
    current_vertical_acceleration := s.current_vertical_acceleration }

/-- The mode flags are not both set, and both are clear while the vertical axis
hovers. -/
def FlagsConsistent (s : State α) : Prop :=
  ¬ (s.taking_off = true ∧ s.landing = true)
    ∧ (s.current_state_vertical = HOVER_STATE → s.taking_off = false ∧ s.landing = false)

/-- A tracker that has no measurement is not active. -/
def InactiveWithoutOdometry (s : State α) : Prop :=
  s.got_odometry = false → s.is_active = false

/-- Whether the operation is an `update` call. -/
def Op.isUpdate : Op α → Bool
  | .update _ => true
  | _ => false

/-- Whether the operation is an `activate` call that returns `true` in state
`s`. -/
def Op.activates (m : Ext α) (c : Config α) (s : State α) : Op α → Bool
  | .activate cmd => (LandoffTracker.activate m c cmd s).2
  | _ => false

/-- No operation of the sequence, run from `s`, is a successful `activate`. -/
def noActivation (m : Ext α) (c : Config α) : State α → List (Op α) → Bool
  | _, [] => true
  | s, op :: ops => !(Op.activates m c s op) && noActivation m c (Op.apply m c s op) ops

/-- The grounded active tracker of `groundedActive`, measured at height 3. -/
def airborneActive : State ℚ := { groundedActive with odometry_z := 3 }

/-- An odometry message of a vehicle at rest at height 3. -/
def hoveringOdometry : Odometry ℚ :=
  { (zeroOdometry : Odometry ℚ) with position_z := 3 }

/-- A previous command at `(5, 6, 7)` with yaw `1/2`, descending at 0.5 m/s. -/
def handoffCommand : PositionCommand ℚ :=
  { (zeroCommand : PositionCommand ℚ) with
    position_x := 5, position_y := 6, position_z := 7, yaw := 1 / 2, velocity_z := -1 / 2 }

/-- The fresh tracker after one measurement of a vehicle at `(0, 0, 3)` with yaw
`0`, descending at 1 m/s. -/
def handoffState : State ℚ :=
  run ratExt sampleConfig freshState [Op.update descendingOdometry]

/-- The fresh tracker activated on a vehicle at rest at the origin: active, both
axes in `STOP_MOTION_STATE`, speeds `0`, no goal requested, and the predicted
stopping goal equal to the position. -/
def activatedAtRest : State ℚ :=
  run ratExt sampleConfig freshState [Op.update zeroOdometry, Op.activate none]

/-- The fresh tracker activated on a vehicle at rest at height 3 and asked to
land: both axes in `STOP_MOTION_STATE`, speeds `0`, `have_goal` set. -/
def landingRequested : State ℚ :=
  run ratExt sampleConfig freshState
    [Op.update hoveringOdometry, Op.activate none, Op.callbackLand]

/-- A sequence of operations on a tracker without a measurement: the `activate`
comes first and fails. -/
def quietOps : List (Op ℚ) :=
  [Op.activate none, Op.update zeroOdometry, Op.callbackTakeoff, Op.callbackLand, Op.hover,
    Op.mainTimer]

end LandoffTracker

namespace LineTracker

open States_t

variable {α : Type} [LinearOrderedField α]

/-- The operations of the tracker that the node and its callers invoke. -/
inductive Op (α : Type) where
  | update (msg : Odometry α)
  | activate (cmd : Option (PositionCommand α))
  | deactivate
  | goTo (goal0 goal1 goal2 goal3 : α)
  | goToRelative (goal0 goal1 goal2 goal3 : α)
  | hover
  | mainTimer

/-- One operation applied to the tracker. -/
def Op.apply (m : Ext α) (c : Config α) (s : State α) : Op α → State α
  | .update msg => (LineTracker.update m msg s).1
  | .activate cmd => (LineTracker.activate m c cmd s).1
  | .deactivate => LineTracker.deactivate s
  | .goTo g0 g1 g2 g3 => (LineTracker.goTo m g0 g1 g2 g3 s).1
  | .goToRelative g0 g1 g2 g3 => (LineTracker.goToRelative m g0 g1 g2 g3 s).1
  | .hover => (LineTracker.hover m c s).1
  | .mainTimer => LineTracker.mainTimer m c s

/-- The state after a sequence of operations, starting from `s`. -/
def run (m : Ext α) (c : Config α) (s : State α) (ops : List (Op α)) : State α :=
  ops.foldl (Op.apply m c) s

/-- Whether the operation is an `update` call. -/
def Op.isUpdate : Op α → Bool
  | .update _ => true
  | _ => false

/-- A tracker that has no measurement is not active. -/
def InactiveWithoutOdometry (s : State α) : Prop :=
  s.got_odometry = false → s.is_active = false

/-- The tracker right after construction and `initialize`, on zeroed memory. -/
def freshState : State ℚ := initialise (construct zeroMem)

end LineTracker

/-! ## The saturation guard, the lock calls and SpeedTracker -/

namespace LandoffTracker

open States_t

variable {α : Type} [LinearOrderedField α]

/-- The state of a tick when the saturation guard is reached (1098): after the
two axis switches and the combined-state rules. -/
def beforeGuard (m : Ext α) (c : Config α) (s : State α) : State α :=
  coordinate (stepVertical c (stepHorizontal m c s))

/-- The value `error_size` of the saturation guard (1105-1108): the distance
between the measured and the commanded position. -/
def positionError (m : Ext α) (s : State α) : α :=
  size3 m (s.odometry_x - s.state_x) (s.odometry_y - s.state_y) (s.odometry_z - s.state_z)

/-- The left-hand side of the inner test of the saturation guard (1113-1117):
the distance from the one-tick-ahead position to the measured position. -/
def predictedError (m : Ext α) (c : Config α) (s : State α) : α :=
  dist3 m (s.state_x + m.cos s.current_heading * s.current_horizontal_speed * c.tracker_dt_)
    s.odometry_x
    (s.state_y + m.sin s.current_heading * s.current_horizontal_speed * c.tracker_dt_)
    s.odometry_y
    (s.state_z + s.current_vertical_direction * s.current_vertical_speed * c.tracker_dt_)
    s.odometry_z

/-- The three mutexes of the class (70, 145, 152). -/
inductive Mutex where
  | mutex_odometry
  | mutex_state
  | mutex_goal
  deriving DecidableEq, Repr

/-- A call of `lock()` or `unlock()` on one of the mutexes. -/
inductive LockCall where
  | lock (mtx : Mutex)
  | unlock (mtx : Mutex)
  deriving DecidableEq, Repr

open Mutex LockCall

/-- The lock calls of `activate` in program order (349-351, 391-393, 401, 408,
416, 421, 427-428, 434-435). -/
def activate_locks : List LockCall :=
  [lock mutex_odometry, lock mutex_state, lock mutex_goal,
    unlock mutex_goal, unlock mutex_state, unlock mutex_odometry,
    lock mutex_state, unlock mutex_state,
    lock mutex_state, unlock mutex_state,
    lock mutex_state, lock mutex_goal, unlock mutex_goal, unlock mutex_state]

/-- The lock calls of `update` on an active tracker in program order (469, 484,
494, 510). -/
def update_locks : List LockCall :=
  [lock mutex_odometry, unlock mutex_odometry, lock mutex_state, unlock mutex_state]

/-- The lock calls of `hover` in program order (677-678, 683-684, 688, 695, 703,
708, 714-715, 721-722). -/
def hover_locks : List LockCall :=
  [lock mutex_odometry, lock mutex_state, unlock mutex_state, unlock mutex_odometry,
    lock mutex_state, unlock mutex_state,
    lock mutex_state, unlock mutex_state,
    lock mutex_state, lock mutex_goal, unlock mutex_goal, unlock mutex_state]

/-- The lock calls of `mainTimer` on an active tracker in program order
(1001-1003, 1162-1164); the routines it calls lock nothing. -/
def mainTimer_locks : List LockCall :=
  [lock mutex_state, lock mutex_goal, lock mutex_odometry,
    unlock mutex_odometry, unlock mutex_goal, unlock mutex_state]

/-- The lock calls of an accepted `callbackTakeoff` in program order (1206-1208,
1228-1230). -/
def callbackTakeoff_locks : List LockCall :=
  [lock mutex_odometry, lock mutex_state, lock mutex_goal,
    unlock mutex_goal, unlock mutex_state, unlock mutex_odometry]

/-- The position of a mutex in the global order of the specification: measured
state, then trajectory state, then goal state. -/
def Mutex.rank : Mutex → ℕ
  | mutex_odometry => 0
  | mutex_state => 1
  | mutex_goal => 2

/-- The pairs `(held, acquired)` of a sequence of lock calls started while
holding `held`: each `lock` is paired with every mutex held at that moment. -/
def acquisitions : List Mutex → List LockCall → List (Mutex × Mutex)
  | _, [] => []
  | held, lock mtx :: calls => held.map (fun h => (h, mtx)) ++ acquisitions (mtx :: held) calls
  | held, unlock mtx :: calls => acquisitions (held.erase mtx) calls

/-- Whether every acquisition of the sequence takes a mutex that comes later in
the global order than every mutex already held. -/
def inGlobalOrder (calls : List LockCall) : Bool :=
  (acquisitions [] calls).all (fun p => decide (p.1.rank < p.2.rank))

/-- A takeoff with the vehicle held on the ground: the commanded height is
`3/2` and climbing at `1/2`, the measured position is the origin, the
horizontal axis is settling and the vertical axis accelerates towards the
takeoff height 2. -/
def takeoffHeldDown : State ℚ :=
  { (zeroMem : State ℚ) with
    is_active := true, got_odometry := true, taking_off := true, have_goal := true,
    goal_z := 2, state_z := 3 / 2, current_vertical_speed := 1 / 2,
    current_vertical_direction := 1,
    current_state_vertical := ACCELERATING_STATE,
    current_state_horizontal := STOPPING_STATE }

/-- The parameter server of `sampleConfig` with a loop rate of `0` and
`landing_fast_height` not supplied. -/
def paramsWithZeroRate : ParamServer ℚ :=
  { paramsWithoutFastHeight with tracker_loop_rate := some 0 }

/-- The configuration `sampleConfig` with all four accelerations `0`. -/
def zeroAccelerationConfig : Config ℚ :=
  { sampleConfig with
    horizontal_acceleration_ := 0, vertical_acceleration_ := 0,
    takeoff_acceleration_ := 0, landing_acceleration_ := 0 }

end LandoffTracker

/-! ### SpeedTracker -/

namespace SpeedTracker

/-- The part of `mrs_msgs::UavState` that `update` reads.  `roll`, `pitch`,
`yaw` stand for the result of `tf::Matrix3x3(orientation).getRPY`. -/
structure UavState (α : Type) where
  position_x : α
  position_y : α
  position_z : α
  roll : α
  pitch : α
  yaw : α
  velocity_linear_x : α
  velocity_linear_y : α
  velocity_linear_z : α
  velocity_angular_z : α
  acceleration_linear_x : α
  acceleration_linear_y : α
  acceleration_linear_z : α
  deriving DecidableEq, Repr

/-- The message `mrs_msgs::SpeedTrackerCommand`, the external command. -/
structure SpeedTrackerCommand (α : Type) where
  velocity_x : α
  velocity_y : α
  velocity_z : α
  height : α
  acceleration_x : α
  acceleration_y : α
  acceleration_z : α
  yaw : α
  yaw_dot : α
  use_horizontal_velocity : Bool
  use_vertical_velocity : Bool
  use_height : Bool
  use_acceleration : Bool
  use_yaw : Bool
  use_yaw_dot : Bool
  deriving DecidableEq, Repr

/-- The fields of `mrs_msgs::PositionCommand` that SpeedTracker writes (the
header is not modelled). -/
structure PositionCommand (α : Type) where
  position_x : α
  position_y : α
  position_z : α
  velocity_x : α
  velocity_y : α
  velocity_z : α
  acceleration_x : α
  acceleration_y : α
  acceleration_z : α
  yaw : α
  yaw_dot : α
  use_velocity_horizontal : Bool
  use_velocity_vertical : Bool
  use_position_vertical : Bool
  use_acceleration : Bool
  use_yaw : Bool
  use_yaw_dot : Bool
  deriving DecidableEq, Repr

/-- The members of the class that the translated routines read or write
(`got_command`, declared `double`, is a `Bool`; `external_command_time` is in
seconds). -/
structure State (α : Type) where
  callbacks_enabled : Bool
  external_command_timeout_ : α
  uav_state : UavState α
  got_uav_state : Bool
  uav_x : α
  uav_y : α
  uav_z : α
  uav_yaw : α
  uav_roll : α
  uav_pitch : α
  is_initialized : Bool
  is_active : Bool
  got_command : Bool
  external_command : SpeedTrackerCommand α
  external_command_time : α
  output : PositionCommand α
  deriving DecidableEq, Repr

variable {α : Type} [LinearOrderedField α]

/-- `activate` (164-194).  `now` is the value of `ros::Time::now()` in
seconds. -/
def activate (now : α) (s : State α) : State α × Bool :=
  if !s.got_uav_state then (s, false)
  else if !s.got_command then (s, false)
  else if now - s.external_command_time > s.external_command_timeout_ then (s, false)
  else ({ s with is_active := true }, true)

/-- `deactivate` (200-205). -/
def deactivate (s : State α) : State α :=
  { s with is_active := false }

/-- `update` (211-308).  `now` is the value of `ros::Time::now()` in seconds;
the result is the new state and the returned command (`none` is the null
pointer). -/
def update (now : α) (msg : UavState α) (s : State α) :
    State α × Option (PositionCommand α) :=
  let s := { s with uav_state := msg, uav_x := msg.position_x, uav_y := msg.position_y,
                    uav_z := msg.position_z, uav_roll := msg.roll, uav_pitch := msg.pitch,
                    uav_yaw := msg.yaw, got_uav_state := true }
  if !s.is_active then (s, none)
  else if s.got_command && decide (now - s.external_command_time > s.external_command_timeout_)
  then (s, none)
  else
    let output := { s.output with position_x := s.uav_state.position_x,
                                  position_y := s.uav_state.position_y }
    let output :=
      if s.external_command.use_horizontal_velocity then
        { output with velocity_x := s.external_command.velocity_x,
                      velocity_y := s.external_command.velocity_y,
                      use_velocity_horizontal := true }
      else
        { output with velocity_x := s.uav_state.velocity_linear_x,
                      velocity_y := s.uav_state.velocity_linear_y,
                      use_velocity_horizontal := false }
    let output :=
      if s.external_command.use_vertical_velocity then
        { output with velocity_z := s.external_command.velocity_z,
                      use_velocity_vertical := true }
      else
        { output with velocity_z := s.uav_state.velocity_linear_z,
                      use_velocity_vertical := false }
    let output :=
      if s.external_command.use_height then
        { output with position_z := s.external_command.height,
                      use_position_vertical := true }
      else
        { output with position_z := s.uav_state.position_z,
                      use_position_vertical := false }
    let output :=
      if s.external_command.use_acceleration then
        { output with acceleration_x := s.external_command.acceleration_x,
                      acceleration_y := s.external_command.acceleration_y,
                      acceleration_z := s.external_command.acceleration_z,
                      use_acceleration := true }
      else
        { output with acceleration_x := s.uav_state.acceleration_linear_x,
                      acceleration_y := s.uav_state.acceleration_linear_y,
                      acceleration_z := s.uav_state.acceleration_linear_z,
                      use_acceleration := false }
    let output :=
      if s.external_command.use_yaw then
        { output with yaw := s.external_command.yaw, use_yaw := true }
      else
        { output with yaw := s.uav_yaw, use_yaw := false }
    let output :=
      if s.external_command.use_yaw_dot then
        { output with yaw_dot := s.external_command.yaw_dot, use_yaw_dot := true }
      else
        { output with yaw_dot := s.uav_state.velocity_angular_z, use_yaw_dot := false }
    ({ s with output := output }, some output)

/-- `callbackCommand` (473-495).  `now` is the value of `ros::Time::now()` in
seconds. -/
def callbackCommand (now : α) (msg : SpeedTrackerCommand α) (s : State α) : State α :=
  if !s.is_initialized then s
  else { s with external_command := msg, got_command := true, external_command_time := now }

/-- A measured state at `(1, 2, 3)` with yaw `1/4`, moving at `(1/10, 2/10,
3/10)`, yaw rate `1/20`, acceleration `(1/100, 2/100, 3/100)`. -/
def sampleUavState : UavState ℚ :=
  { position_x := 1, position_y := 2, position_z := 3, roll := 0, pitch := 0, yaw := 1 / 4,
    velocity_linear_x := 1 / 10, velocity_linear_y := 2 / 10, velocity_linear_z := 3 / 10,
    velocity_angular_z := 1 / 20,
    acceleration_linear_x := 1 / 100, acceleration_linear_y := 2 / 100,
    acceleration_linear_z := 3 / 100 }

/-- An external command that sets the horizontal velocity `(5, 6)` and the yaw
`1` and leaves the other fields to the measurement. -/
def sampleCommand : SpeedTrackerCommand ℚ :=
  { velocity_x := 5, velocity_y := 6, velocity_z := 7, height := 8,
    acceleration_x := 9, acceleration_y := 10, acceleration_z := 11, yaw := 1, yaw_dot := 2,
    use_horizontal_velocity := true, use_vertical_velocity := false, use_height := false,
    use_acceleration := false, use_yaw := true, use_yaw_dot := false }

/-- An initialised tracker with a command timeout of one second and zeroed
memory otherwise. -/
def initialState : State ℚ :=
  { callbacks_enabled := true, external_command_timeout_ := 1,
    uav_state :=
      { position_x := 0, position_y := 0, position_z := 0, roll := 0, pitch := 0, yaw := 0,
        velocity_linear_x := 0, velocity_linear_y := 0, velocity_linear_z := 0,
        velocity_angular_z := 0, acceleration_linear_x := 0, acceleration_linear_y := 0,
        acceleration_linear_z := 0 },
    got_uav_state := false, uav_x := 0, uav_y := 0, uav_z := 0, uav_yaw := 0, uav_roll := 0,
    uav_pitch := 0, is_initialized := true, is_active := false, got_command := false,
    external_command :=
      { velocity_x := 0, velocity_y := 0, velocity_z := 0, height := 0,
        acceleration_x := 0, acceleration_y := 0, acceleration_z := 0, yaw := 0, yaw_dot := 0,
        use_horizontal_velocity := false, use_vertical_velocity := false, use_height := false,
        use_acceleration := false, use_yaw := false, use_yaw_dot := false },
    external_command_time := 0,
    output :=
      { position_x := 0, position_y := 0, position_z := 0, velocity_x := 0, velocity_y := 0,
        velocity_z := 0, acceleration_x := 0, acceleration_y := 0, acceleration_z := 0,
        yaw := 0, yaw_dot := 0, use_velocity_horizontal := false,
        use_velocity_vertical := false, use_position_vertical := false,
        use_acceleration := false, use_yaw := false, use_yaw_dot := false } }

/-- The tracker after a measurement at time 10, the command `sampleCommand` at
time `10.2` and `activate` at time `10.3`. -/
def trackingState : State ℚ :=
  (activate (103 / 10)
    (callbackCommand (102 / 10) sampleCommand (update 10 sampleUavState initialState).1)).1

end SpeedTracker

/-! ## CvxWrapper, tick stages and settling predicates -/

namespace CvxWrapper

/-- The entries of the cvxgen globals `settings` and `params` that the
constructor writes; the arrays are lists in index order. -/
structure Params (α : Type) where
  verbose : Bool
  max_iters : ℤ
  Q : List α
  R : List α
  A : List α
  Af : List α
  B : List α
  Bf : List α
  deriving DecidableEq, Repr

variable {α : Type} [LinearOrderedField α]

/-- The constructor `CvxWrapper::CvxWrapper` (17-107), after `set_defaults()`
and `setup_indexing()`.  `isfinite` is `std::isfinite` on doubles; on the `bool`
`verbose` and the `int` `max_iters` it is true, and `verbose != 1 && verbose !=
0` is false, so the first check never fires.  In the `dt2` check (73-76) the
source assigns `dt = 0.01`. -/
def construct (isfinite : α → Bool) (verbose : Bool) (max_iters : ℤ) (tempQ tempR : List α)
    (dt dt2 : α) : Params α :=
  let max_iters := if max_iters < 1 ∨ max_iters > 100 then 25 else max_iters
  let Q :=
    if tempQ.length = 6 then tempQ.map (fun q => if q ≥ 0 ∧ isfinite q = true then q else 500)
    else [5000, 0, 0, 5000, 0, 0]
  let R :=
    if tempR.length = 2 then tempR.map (fun r => if r ≥ 0 ∧ isfinite r = true then r else 500)
    else [500, 500]
  let dt := if dt ≤ 0 ∨ isfinite dt = false then 1 / 100 else dt
  let dt := if dt2 ≤ 0 ∨ isfinite dt2 = false then 1 / 100 else dt
  { verbose := verbose, max_iters := max_iters, Q := Q, R := R,
    A := [1, 1, 1, 1, 1, 1, dt2, dt2, dt2, dt2],
    Af := [1, 1, 1, 1, 1, 1, dt, dt, dt, dt],
    B := [dt2, dt2],
    Bf := [dt, dt] }

/-- Every rational is finite. -/
def allFinite : ℚ → Bool := fun _ => true

end CvxWrapper

namespace LandoffTracker

open States_t

variable {α : Type} [LinearOrderedField α]

/-- `mainTimer`, the combined-state rule for `STOP_MOTION_STATE` (1069-1078). -/
def coordinateStopMotion (s : State α) : State α :=
  if s.current_state_horizontal = STOP_MOTION_STATE
      ∧ s.current_state_vertical = STOP_MOTION_STATE then
    if s.current_vertical_speed = 0 ∧ s.current_horizontal_speed = 0 then
      if s.have_goal then changeState ACCELERATING_STATE s
      else changeState STOPPING_STATE s
    else s
  else s

/-- `mainTimer`, the combined-state rule for `STOPPING_STATE` (1080-1090). -/
def coordinateStopping (s : State α) : State α :=
  if s.current_state_horizontal = STOPPING_STATE
      ∧ s.current_state_vertical = STOPPING_STATE then
    if |s.state_x - s.goal_x| < 1 / 1000 ∧ |s.state_y - s.goal_y| < 1 / 1000
        ∧ |s.state_z - s.goal_z| < 1 / 1000 then
      changeState HOVER_STATE
        { s with state_x := s.goal_x, state_y := s.goal_y, state_z := s.goal_z }
    else s
  else s

/-- `mainTimer`, the combined-state rule for `LANDED_STATE` (1092-1096). -/
def coordinateLanded (s : State α) : State α :=
  if s.current_state_horizontal = LANDED_STATE ∧ s.current_state_vertical = LANDED_STATE then
    { s with state_x := s.odometry_x, goal_x := s.odometry_x,
             state_y := s.odometry_y, goal_y := s.odometry_y,
             state_z := s.odometry_z, goal_z := s.odometry_z }
  else s

/-- The state transitions of the specification's tick: `STOP_MOTION ->
ACCELERATING` or `STOPPING`, `ACCELERATING -> DECELERATING`, `DECELERATING ->
STOPPING`, `STOPPING -> HOVER`. -/
def tickEdge : States_t → States_t → Bool
  | STOP_MOTION_STATE, ACCELERATING_STATE => true
  | STOP_MOTION_STATE, STOPPING_STATE => true
  | ACCELERATING_STATE, DECELERATING_STATE => true
  | DECELERATING_STATE, STOPPING_STATE => true
  | STOPPING_STATE, HOVER_STATE => true
  | _, _ => false

/-- A stage of the tick changes an axis state, if at all, along `tickEdge`. -/
def AlongEdges (f : State α → State α) : Prop :=
  ∀ s : State α,
    ((f s).current_state_horizontal = s.current_state_horizontal
        ∨ tickEdge s.current_state_horizontal (f s).current_state_horizontal = true)
    ∧ ((f s).current_state_vertical = s.current_state_vertical
        ∨ tickEdge s.current_state_vertical (f s).current_state_vertical = true)

/-- Both axes settle at rest outside a takeoff. -/
def StoppingAtRest (s : State α) : Prop :=
  s.is_active = true ∧ s.current_state_horizontal = STOPPING_STATE
    ∧ s.current_state_vertical = STOPPING_STATE ∧ s.taking_off = false
    ∧ s.current_horizontal_speed = 0 ∧ s.current_vertical_speed = 0

/-- A grounded active tracker that was asked to land and then to `hover` while
the vehicle is measured moving along x at 0.04 m/s: both axes are in
`LANDED_STATE` and the horizontal speed is `1/25`. -/
def landedWithSpeed : State ℚ :=
  run ratExt sampleConfig freshState
    [Op.update movingOdometry, Op.activate none, Op.callbackLand, Op.hover]

/-- A horizontal axis decelerating from speed `1/4`. -/
def deceleratingAtSpeed : State ℚ :=
  { (zeroMem : State ℚ) with
    is_active := true, current_state_horizontal := DECELERATING_STATE,
    current_state_vertical := DECELERATING_STATE, current_horizontal_speed := 1 / 4 }

/-- Both axes settling at rest, `1/100` from the goal on every coordinate. -/
def settlingNearGoal : State ℚ :=
  { (zeroMem : State ℚ) with
    is_active := true, current_state_horizontal := STOPPING_STATE,
    current_state_vertical := STOPPING_STATE,
    goal_x := 1 / 100, goal_y := 1 / 100, goal_z := 1 / 100 }

end LandoffTracker

namespace LineTracker

open States_t

/-- A horizontal axis decelerating from speed `1/4`. -/
def deceleratingAtSpeed : State ℚ :=
  { (zeroMem : State ℚ) with
    is_active := true, current_state_horizontal := DECELERATING_STATE,
    current_state_vertical := DECELERATING_STATE, current_horizontal_speed := 1 / 4 }

end LineTracker

/-- The rational `2 ^ e` for an integer exponent. -/
def pow2 (e : ℤ) : ℚ :=
  if 0 ≤ e then ((2 ^ e.toNat : ℕ) : ℚ) else 1 / ((2 ^ (-e).toNat : ℕ) : ℚ)

/-- Halving `n` until it is below `2`, at most `fuel` times, counting the
halvings. -/
def halvings : ℕ → ℕ → ℕ
  | 0, _ => 0
  | fuel + 1, n => if n < 2 then 0 else halvings fuel (n / 2) + 1

/-- The binary logarithm of a positive natural number, rounded down. -/
def natLog2 (n : ℕ) : ℕ := halvings n n

/-- The binary exponent of a non-zero rational `x`: the `e` with
`2 ^ e ≤ |x| < 2 ^ (e + 1)`. -/
def binaryExponent (x : ℚ) : ℤ :=
  let e : ℤ := (natLog2 x.num.natAbs : ℤ) - (natLog2 x.den : ℤ)
  if |x| < pow2 e then e - 1 else e

/-- Rounding of `x` to the nearest integer multiple of `q`, a tie going to the
even multiple. -/
def roundToMultiple (q x : ℚ) : ℚ :=
  let f : ℤ := ⌊x / q⌋
  let r : ℚ := x / q - f
  if r < 1 / 2 then f * q
  else if 1 / 2 < r then (f + 1) * q
  else if f % 2 = 0 then f * q else (f + 1) * q

/-- IEEE 754 binary64 rounding of a real result (round to nearest, ties to
even): 53 significant bits, with the spacing `2 ^ (-1074)` of the subnormal
range below `2 ^ (-1022)`.  Overflow to infinity (results of magnitude
`2 ^ 1024` and above) is not modelled. -/
def roundDouble (x : ℚ) : ℚ :=
  if x = 0 then 0 else roundToMultiple (pow2 (max (binaryExponent x - 52) (-1074))) x

/-- The quotient `a / b` of two doubles where it is a number: `none` stands for
the infinity or NaN that the division returns for a zero divisor. -/
def checkedQuotient {α : Type} [LinearOrderedField α] (a b : α) : Option α :=
  if b = 0 then none else some (a / b)

namespace LandoffTracker

open States_t

variable {α : Type} [LinearOrderedField α]

/-- The stop-goal prediction of `activate` (399-435) with its two quotients
checked, read off the tracker state that `activate` has seeded: the triple
`(goal_x, goal_y, goal_z)` it stores, or `none` when `horizontal_t_stop` or
`vertical_t_stop` is an infinity or NaN, which every product and sum computed
from it inherits. -/
def activatePrediction (m : Ext α) (c : Config α) (s : State α) : Option (α × α × α) :=
  (checkedQuotient s.current_horizontal_speed c.horizontal_acceleration_).bind
    fun horizontal_t_stop =>
  (checkedQuotient s.current_vertical_speed c.vertical_acceleration_).bind
    fun vertical_t_stop =>
  let horizontal_stop_dist := (horizontal_t_stop * s.current_horizontal_speed) / 2
  let stop_dist_x := m.cos s.current_heading * horizontal_stop_dist
  let stop_dist_y := m.sin s.current_heading * horizontal_stop_dist
  let vertical_stop_dist := (vertical_t_stop * s.current_vertical_speed) / 2
  some (s.state_x + stop_dist_x, s.state_y + stop_dist_y, s.state_z + vertical_stop_dist)

/-- `decelerateHorizontal` (912-926) with the product and the difference of
line 914 rounded by `fl`. -/
def decelerateHorizontalRounded (fl : α → α) (c : Config α) (s : State α) : State α :=
  let v := fl (s.current_horizontal_speed - fl (c.horizontal_acceleration_ * c.tracker_dt_))
  let s :=
    if v < 0 then { s with current_horizontal_speed := 0 }
    else { s with current_horizontal_speed := v,
                  current_horizontal_acceleration := -c.horizontal_acceleration_ }
  if s.current_horizontal_speed == 0 then
    changeStateHorizontal STOPPING_STATE { s with current_horizontal_acceleration := 0 }
  else s

/-- `stopHorizontal` (970-975) with every arithmetic result rounded by `fl`:
the literals `0.95` and `0.05` are `fl (95 / 100)` and `fl (5 / 100)`, each
product is rounded, and so is the sum. -/
def stopHorizontalRounded (fl : α → α) (s : State α) : State α :=
  { s with state_x := fl (fl (fl (95 / 100) * s.state_x) + fl (fl (5 / 100) * s.goal_x)),
           state_y := fl (fl (fl (95 / 100) * s.state_y) + fl (fl (5 / 100) * s.goal_y)),
           current_horizontal_acceleration := 0 }

/-- `stopVertical` (981-985) with every arithmetic result rounded by `fl`. -/
def stopVerticalRounded (fl : α → α) (s : State α) : State α :=
  { s with state_z := fl (fl (fl (95 / 100) * s.state_z) + fl (fl (5 / 100) * s.goal_z)),
           current_vertical_acceleration := 0 }

/-- Both axes settling with the goal at `(9, 9, 9)` and the position at the
double `9.00000000000001` on every coordinate. -/
def settlingNearNine : State ℚ :=
  { (zeroMem : State ℚ) with
    is_active := true, current_state_horizontal := STOPPING_STATE,
    current_state_vertical := STOPPING_STATE,
    goal_x := 9, goal_y := 9, goal_z := 9,
    state_x := roundDouble (900000000000001 / 100000000000000),
    state_y := roundDouble (900000000000001 / 100000000000000),
    state_z := roundDouble (900000000000001 / 100000000000000) }

/-- The sample configuration at 10 Hz with the time step the code computes,
the double `1.0 / 10`. -/
def tenHertzConfig : Config ℚ :=
  { sampleConfig with tracker_dt_ := roundDouble (1 / 10) }

/-- The sample configuration with horizontal acceleration `5/8` and time step
`1/8`, both doubles with the double product `5/64`. -/
def dyadicConfig : Config ℚ :=
  { sampleConfig with horizontal_acceleration_ := 5 / 8, tracker_loop_rate_ := 8,
                      tracker_dt_ := 1 / 8 }

/-- A horizontal axis decelerating from speed `1`. -/
def deceleratingFromOne : State ℚ :=
  { (zeroMem : State ℚ) with
    is_active := true, current_state_horizontal := DECELERATING_STATE,
    current_state_vertical := DECELERATING_STATE, current_horizontal_speed := 1 }

/-- A landing in progress at measured height `3/2`, the vertical axis
decelerating from speed `1/4`. -/
def landingMidBandDescending : State ℚ :=
  { (zeroMem : State ℚ) with
    is_active := true, landing := true, odometry_z := 3 / 2,
    current_state_horizontal := HOVER_STATE, current_state_vertical := DECELERATING_STATE,
    current_vertical_speed := 1 / 4 }

end LandoffTracker

namespace LineTracker

open States_t

variable {α : Type} [LinearOrderedField α]

/-- `decelerateHorizontal` (339-350) with the product and the difference of
line 341 rounded by `fl`. -/
def decelerateHorizontalRounded (fl : α → α) (c : Config α) (s : State α) : State α :=
  let v := fl (s.current_horizontal_speed - fl (c.horizontal_acceleration_ * c.tracker_dt_))
  let s :=
    if v < 0 then { s with current_horizontal_speed := 0 }
    else { s with current_horizontal_speed := v }
  if s.current_horizontal_speed == 0 then changeStateHorizontal STOPPING_STATE s else s

/-- The scenario configuration at 10 Hz with the time step the code computes,
the double `1.0 / 10`. -/
def tenHertzConfig : Config ℚ :=
  { scenarioConfig with tracker_dt_ := roundDouble (1 / 10) }

/-- The scenario configuration with horizontal acceleration `5/8` and time step
`1/8`, both doubles with the double product `5/64`. -/
def dyadicConfig : Config ℚ :=
  { scenarioConfig with horizontal_acceleration_ := 5 / 8, tracker_loop_rate_ := 8,
                        tracker_dt_ := 1 / 8 }

/-- A horizontal axis decelerating from speed `1`. -/
def deceleratingFromOne : State ℚ :=
  { (zeroMem : State ℚ) with
    is_active := true, current_state_horizontal := DECELERATING_STATE,
    current_state_vertical := DECELERATING_STATE, current_horizontal_speed := 1 }

end LineTracker

/-! ## Theorems -/

/-! ### The rational stand-in is exact on squares -/

/-- `natSqrt` is exact on squares. -/
theorem natSqrt_mul_self (k : ℕ) : natSqrt (k * k) = k := by
  unfold natSqrt
  rw [Nat.findGreatest_eq_iff]
  refine ⟨Nat.le_mul_self k, fun _ => le_refl _, ?_⟩
  intro j hj _ hle
  have : k * k < j * j := Nat.mul_self_lt_mul_self hj
  omega

/-- `ratSqrt` satisfies the law `sqrt (a ^ 2) = |a|` of the real square root. -/
theorem ratSqrt_sq (a : ℚ) : ratSqrt (a ^ 2) = |a| := by
  rw [pow_two]
  unfold ratSqrt
  rw [Rat.mul_self_num, Rat.mul_self_den]
  have h1 : (a.num * a.num).toNat = a.num.natAbs * a.num.natAbs := by
    apply Int.ofNat_inj.mp
    rw [Int.toNat_of_nonneg (mul_self_nonneg _)]
    push_cast
    rw [abs_mul_abs_self]
  rw [h1, natSqrt_mul_self, natSqrt_mul_self]
  rw [Rat.abs_def]
  rw [Rat.divInt_eq_div]
  simp [Nat.cast_natAbs, Int.cast_abs]

/-! ### LineTracker: the end-to-end run to the goal `(10, 0, 0)` -/

namespace LineTracker

open States_t

variable {α : Type} [LinearOrderedField α]

/-- `accelerateHorizontal`, field by field. -/
theorem line_accelerateHorizontal_eq (m : Ext α) (c : Config α) (s : State α) :
    accelerateHorizontal m c s =
      { s with
        current_heading := m.atan2 (s.goal_y - s.state_y) (s.goal_x - s.state_x),
        current_horizontal_speed :=
          if s.current_horizontal_speed + c.horizontal_acceleration_ * c.tracker_dt_
              ≥ c.horizontal_speed_ then c.horizontal_speed_
          else s.current_horizontal_speed + c.horizontal_acceleration_ * c.tracker_dt_,
        current_state_horizontal :=
          if m.sqrt ((s.state_x + m.cos (m.atan2 (s.goal_y - s.state_y) (s.goal_x - s.state_x))
                * (s.current_horizontal_speed / c.horizontal_acceleration_
                    * s.current_horizontal_speed / 2) - s.goal_x) ^ 2
              + (s.state_y + m.sin (m.atan2 (s.goal_y - s.state_y) (s.goal_x - s.state_x))
                * (s.current_horizontal_speed / c.horizontal_acceleration_
                    * s.current_horizontal_speed / 2) - s.goal_y) ^ 2)
              < 2 * (c.horizontal_speed_ * c.tracker_dt_) then DECELERATING_STATE
          else s.current_state_horizontal,
        previous_state_horizontal :=
          if m.sqrt ((s.state_x + m.cos (m.atan2 (s.goal_y - s.state_y) (s.goal_x - s.state_x))
                * (s.current_horizontal_speed / c.horizontal_acceleration_
                    * s.current_horizontal_speed / 2) - s.goal_x) ^ 2
              + (s.state_y + m.sin (m.atan2 (s.goal_y - s.state_y) (s.goal_x - s.state_x))
                * (s.current_horizontal_speed / c.horizontal_acceleration_
                    * s.current_horizontal_speed / 2) - s.goal_y) ^ 2)
              < 2 * (c.horizontal_speed_ * c.tracker_dt_) then s.current_state_horizontal
          else s.previous_state_horizontal } := by
  unfold accelerateHorizontal changeStateHorizontal
  simp only []
  split_ifs <;> rfl

/-- `decelerateHorizontal`, field by field. -/
theorem line_decelerateHorizontal_eq (c : Config α) (s : State α) :
    decelerateHorizontal c s =
      { s with
        current_horizontal_speed :=
          if s.current_horizontal_speed - c.horizontal_acceleration_ * c.tracker_dt_ < 0 then 0
          else s.current_horizontal_speed - c.horizontal_acceleration_ * c.tracker_dt_,
        current_state_horizontal :=
          if s.current_horizontal_speed - c.horizontal_acceleration_ * c.tracker_dt_ ≤ 0
          then STOPPING_STATE else s.current_state_horizontal,
        previous_state_horizontal :=
          if s.current_horizontal_speed - c.horizontal_acceleration_ * c.tracker_dt_ ≤ 0
          then s.current_state_horizontal else s.previous_state_horizontal } := by
  unfold decelerateHorizontal changeStateHorizontal
  simp only [beq_iff_eq]
  by_cases h1 : s.current_horizontal_speed - c.horizontal_acceleration_ * c.tracker_dt_ < 0
  · simp [h1, le_of_lt h1]
  · by_cases h2 : s.current_horizontal_speed - c.horizontal_acceleration_ * c.tracker_dt_ = 0
    · simp [h2]
    · have h3 :
          ¬ (s.current_horizontal_speed - c.horizontal_acceleration_ * c.tracker_dt_ ≤ 0) :=
        fun h => h2 (le_antisymm h (not_lt.mp h1))
      simp [h1, h2, h3]

/-- `accelerateVertical`, field by field. -/
theorem line_accelerateVertical_eq (c : Config α) (s : State α) :
    accelerateVertical c s =
      { s with
        current_vertical_direction := sign (s.goal_z - s.state_z),
        current_vertical_speed :=
          if s.current_vertical_speed + c.vertical_acceleration_ * c.tracker_dt_
              ≥ c.vertical_speed_ then c.vertical_speed_
          else s.current_vertical_speed + c.vertical_acceleration_ * c.tracker_dt_,
        current_state_vertical :=
          if |s.state_z + sign (s.goal_z - s.state_z)
                * (s.current_vertical_speed / c.vertical_acceleration_
                    * s.current_vertical_speed / 2) - s.goal_z|
              < 2 * (c.vertical_speed_ * c.tracker_dt_) then DECELERATING_STATE
          else s.current_state_vertical,
        previous_state_vertical :=
          if |s.state_z + sign (s.goal_z - s.state_z)
                * (s.current_vertical_speed / c.vertical_acceleration_
                    * s.current_vertical_speed / 2) - s.goal_z|
              < 2 * (c.vertical_speed_ * c.tracker_dt_) then s.current_state_vertical
          else s.previous_state_vertical } := by
  unfold accelerateVertical changeStateVertical
  simp only []
  split_ifs <;> rfl

/-- `decelerateVertical`, field by field. -/
theorem line_decelerateVertical_eq (c : Config α) (s : State α) :
    decelerateVertical c s =
      { s with
        current_vertical_speed :=
          if s.current_vertical_speed - c.vertical_acceleration_ * c.tracker_dt_ < 0 then 0
          else s.current_vertical_speed - c.vertical_acceleration_ * c.tracker_dt_,
        current_state_vertical :=
          if s.current_vertical_speed - c.vertical_acceleration_ * c.tracker_dt_ ≤ 0
          then STOPPING_STATE else s.current_state_vertical,
        previous_state_vertical :=
          if s.current_vertical_speed - c.vertical_acceleration_ * c.tracker_dt_ ≤ 0
          then s.current_state_vertical else s.previous_state_vertical } := by
  unfold decelerateVertical changeStateVertical
  simp only [beq_iff_eq]
  by_cases h1 : s.current_vertical_speed - c.vertical_acceleration_ * c.tracker_dt_ < 0
  · simp [h1, le_of_lt h1]
  · by_cases h2 : s.current_vertical_speed - c.vertical_acceleration_ * c.tracker_dt_ = 0
    · simp [h2]
    · have h3 : ¬ (s.current_vertical_speed - c.vertical_acceleration_ * c.tracker_dt_ ≤ 0) :=
        fun h => h2 (le_antisymm h (not_lt.mp h1))
      simp [h1, h2, h3]

/-- `stopHorizontalMotion`, field by field. -/
theorem line_stopHorizontalMotion_eq (c : Config α) (s : State α) :
    stopHorizontalMotion c s =
      { s with
        current_horizontal_speed :=
          if s.current_horizontal_speed - c.horizontal_acceleration_ * c.tracker_dt_ < 0 then 0
          else s.current_horizontal_speed - c.horizontal_acceleration_ * c.tracker_dt_ } := by
  unfold stopHorizontalMotion
  simp only []
  split_ifs <;> rfl

/-- `stopVerticalMotion`, field by field. -/
theorem line_stopVerticalMotion_eq (c : Config α) (s : State α) :
    stopVerticalMotion c s =
      { s with
        current_vertical_speed :=
          if s.current_vertical_speed - c.vertical_acceleration_ * c.tracker_dt_ < 0 then 0
          else s.current_vertical_speed - c.vertical_acceleration_ * c.tracker_dt_ } := by
  unfold stopVerticalMotion
  simp only []
  split_ifs <;> rfl

/-- On the x axis short of the goal, the distance from the predicted stop to
the goal that `accelerateHorizontal` computes is `|x + v / a * v / 2 - 10|`. -/
theorem stop_distance_on_axis (m : Ext α) (hm : AxisLaws m) (x v a : α) (hx : 0 ≤ 10 - x) :
    m.sqrt ((x + m.cos (m.atan2 (0 - 0) (10 - x)) * (v / a * v / 2) - 10) ^ 2
        + (0 + m.sin (m.atan2 (0 - 0) (10 - x)) * (v / a * v / 2) - 0) ^ 2)
      = |x + v / a * v / 2 - 10| := by
  rw [sub_self, hm.atan2_zero _ hx, hm.cos_zero, hm.sin_zero, one_mul, zero_mul, add_zero,
    sub_zero, zero_pow (two_ne_zero), add_zero, hm.sqrt_sq]

/-- `accelerateHorizontal` on the x axis short of the goal. -/
theorem accelerateHorizontal_along (m : Ext α) (c : Config α) (hm : AxisLaws m)
    (hc : ScenarioConfig c) (t : State α) (vs : States_t) (x v vv : α)
    (h : Along t ACCELERATING_STATE vs x v vv) (hx : 0 ≤ 10 - x) :
    Along (accelerateHorizontal m c t)
      (if |x + v / 1 * v / 2 - 10| < 2 * (2 * (1 / 10)) then DECELERATING_STATE
        else ACCELERATING_STATE) vs x
      (if v + 1 * (1 / 10) ≥ 2 then 2 else v + 1 * (1 / 10)) vv := by
  obtain ⟨h1, h2, h3, h4, h5, h6, h7, h8, h9, h10, h11, h12, h13, h14⟩ := h
  obtain ⟨c1, c2, c3, c4, c5, c6⟩ := hc
  rw [line_accelerateHorizontal_eq]
  refine ⟨h1, h2, ?_, h4, h5, h6, h7, h8, h9, h10, ?_, ?_, h13, h14⟩
  · simp only [h5, h6, h8, h9, h12, h3, c1, c2, c6]
    rw [stop_distance_on_axis m hm x v 1 hx]
  · simp only [h5, h6, h8, h9]
    rw [sub_self, hm.atan2_zero _ hx]
  · simp only [h12, c1, c2, c6]

/-- `decelerateHorizontal` in the scenario. -/
theorem decelerateHorizontal_along (c : Config α) (hc : ScenarioConfig c) (t : State α)
    (vs : States_t) (x v vv : α) (h : Along t DECELERATING_STATE vs x v vv) :
    Along (decelerateHorizontal c t)
      (if v - 1 * (1 / 10) ≤ 0 then STOPPING_STATE else DECELERATING_STATE) vs x
      (if v - 1 * (1 / 10) < 0 then 0 else v - 1 * (1 / 10)) vv := by
  obtain ⟨h1, h2, h3, h4, h5, h6, h7, h8, h9, h10, h11, h12, h13, h14⟩ := h
  obtain ⟨c1, c2, c3, c4, c5, c6⟩ := hc
  rw [line_decelerateHorizontal_eq]
  refine ⟨h1, h2, ?_, h4, h5, h6, h7, h8, h9, h10, h11, ?_, h13, h14⟩
  · simp only [h12, h3, c2, c6]
  · simp only [h12, c2, c6]

/-- `stopHorizontalMotion` at rest in the scenario. -/
theorem stopHorizontalMotion_along (c : Config α) (hc : ScenarioConfig c) (t : State α)
    (hs vs : States_t) (x vv : α) (h : Along t hs vs x 0 vv) :
    Along (stopHorizontalMotion c t) hs vs x 0 vv := by
  obtain ⟨h1, h2, h3, h4, h5, h6, h7, h8, h9, h10, h11, h12, h13, h14⟩ := h
  obtain ⟨c1, c2, c3, c4, c5, c6⟩ := hc
  rw [line_stopHorizontalMotion_eq]
  refine ⟨h1, h2, h3, h4, h5, h6, h7, h8, h9, h10, h11, ?_, h13, h14⟩
  simp only [h12, c2, c6]
  norm_num

/-- `stopHorizontal` in the scenario. -/
theorem stopHorizontal_along (t : State α) (hs vs : States_t) (x v vv : α)
    (h : Along t hs vs x v vv) :
    Along (stopHorizontal t) hs vs (95 / 100 * x + 5 / 100 * 10) v vv := by
  obtain ⟨h1, h2, h3, h4, h5, h6, h7, h8, h9, h10, h11, h12, h13, h14⟩ := h
  unfold stopHorizontal
  refine ⟨h1, h2, h3, h4, ?_, ?_, h7, h8, h9, h10, h11, h12, h13, h14⟩
  · simp only [h5, h8]
  · simp only [h6, h9]; norm_num

/-- `stopVerticalMotion` at rest in the scenario. -/
theorem stopVerticalMotion_along (c : Config α) (hc : ScenarioConfig c) (t : State α)
    (hs vs : States_t) (x v : α) (h : Along t hs vs x v 0) :
    Along (stopVerticalMotion c t) hs vs x v 0 := by
  obtain ⟨h1, h2, h3, h4, h5, h6, h7, h8, h9, h10, h11, h12, h13, h14⟩ := h
  obtain ⟨c1, c2, c3, c4, c5, c6⟩ := hc
  rw [line_stopVerticalMotion_eq]
  refine ⟨h1, h2, h3, h4, h5, h6, h7, h8, h9, h10, h11, h12, ?_, ?_⟩
  · simp only [h13, c4, c6]; norm_num
  · simp only [h13, c4, c6]; norm_num

/-- `accelerateVertical` at rest at the goal height: the axis switches to
`DECELERATING_STATE` at once, with direction 0. -/
theorem accelerateVertical_along (c : Config α) (hc : ScenarioConfig c) (t : State α)
    (hs : States_t) (x v : α) (h : Along t hs ACCELERATING_STATE x v 0) :
    Along (accelerateVertical c t) hs DECELERATING_STATE x v (1 / 10) := by
  obtain ⟨h1, h2, h3, h4, h5, h6, h7, h8, h9, h10, h11, h12, h13, h14⟩ := h
  obtain ⟨c1, c2, c3, c4, c5, c6⟩ := hc
  rw [line_accelerateVertical_eq]
  refine ⟨h1, h2, h3, ?_, h5, h6, h7, h8, h9, h10, h11, h12, ?_, ?_⟩
  · simp only [h7, h10, h13, c3, c4, c6, sign]; norm_num
  · simp only [h13, c3, c4, c6]; norm_num
  · simp only [h7, h10, sign]; norm_num

/-- `decelerateVertical` from the speed of one acceleration step. -/
theorem decelerateVertical_along (c : Config α) (hc : ScenarioConfig c) (t : State α)
    (hs : States_t) (x v : α) (h : Along t hs DECELERATING_STATE x v (1 / 10)) :
    Along (decelerateVertical c t) hs STOPPING_STATE x v 0 := by
  obtain ⟨h1, h2, h3, h4, h5, h6, h7, h8, h9, h10, h11, h12, h13, h14⟩ := h
  obtain ⟨c1, c2, c3, c4, c5, c6⟩ := hc
  rw [line_decelerateVertical_eq]
  refine ⟨h1, h2, h3, ?_, h5, h6, h7, h8, h9, h10, h11, h12, ?_, ?_⟩
  · simp only [h13, c4, c6]; norm_num
  · simp only [h13, c4, c6]; norm_num
  · simp only [h13, c4, c6]; norm_num

/-- `stopVertical` at the goal height. -/
theorem stopVertical_along (t : State α) (hs vs : States_t) (x v vv : α)
    (h : Along t hs vs x v vv) : Along (stopVertical t) hs vs x v vv := by
  obtain ⟨h1, h2, h3, h4, h5, h6, h7, h8, h9, h10, h11, h12, h13, h14⟩ := h
  unfold stopVertical
  refine ⟨h1, h2, h3, h4, h5, h6, ?_, h8, h9, h10, h11, h12, h13, h14⟩
  simp only [h7, h10]; norm_num

/-- The integration and the yaw block at the end of a tick. -/
theorem integrate_along (m : Ext α) (c : Config α) (hm : AxisLaws m) (hc : ScenarioConfig c)
    (t : State α) (hs vs : States_t) (x v vv : α) (h : Along t hs vs x v vv) :
    Along (trackYaw m c (integrate m c t)) hs vs (x + v / 10) v vv := by
  obtain ⟨h1, h2, h3, h4, h5, h6, h7, h8, h9, h10, h11, h12, h13, h14⟩ := h
  obtain ⟨c1, c2, c3, c4, c5, c6⟩ := hc
  unfold trackYaw integrate
  refine ⟨h1, h2, h3, h4, ?_, ?_, ?_, h8, h9, h10, h11, h12, h13, h14⟩
  · simp only [h5, h11, h12, c6, hm.cos_zero]; ring
  · simp only [h6, h11, h12, c6, hm.sin_zero]; ring
  · simp only [h7, h14, c6]; ring

/-- `coordinate` changes nothing unless both axes are in `STOP_MOTION_STATE` or
both are in `STOPPING_STATE`. -/
theorem line_coordinate_other (t : State α)
    (h1 : ¬ (t.current_state_horizontal = STOP_MOTION_STATE
      ∧ t.current_state_vertical = STOP_MOTION_STATE))
    (h2 : ¬ (t.current_state_horizontal = STOPPING_STATE
      ∧ t.current_state_vertical = STOPPING_STATE)) :
    coordinate t = t := by
  unfold coordinate
  simp only [h1, h2, if_false]

/-- `coordinate` with both axes stopped in `STOP_MOTION_STATE` and a goal. -/
theorem coordinate_start (t : State α) (x : α)
    (h : Along t STOP_MOTION_STATE STOP_MOTION_STATE x 0 0) :
    Along (coordinate t) ACCELERATING_STATE ACCELERATING_STATE x 0 0 := by
  obtain ⟨h1, h2, h3, h4, h5, h6, h7, h8, h9, h10, h11, h12, h13, h14⟩ := h
  have e : coordinate t = changeState ACCELERATING_STATE t := by
    unfold coordinate
    simp [h2, h3, h4, h12, h13, changeState]
  rw [e]
  exact ⟨h1, h2, rfl, rfl, h5, h6, h7, h8, h9, h10, h11, h12, h13, h14⟩

/-- `coordinate` with both axes in `STOPPING_STATE`, away from the goal. -/
theorem coordinate_settling (t : State α) (x v vv : α)
    (h : Along t STOPPING_STATE STOPPING_STATE x v vv) (hx : ¬ (|x - 10| < 1 / 1000)) :
    coordinate t = t := by
  obtain ⟨h1, h2, h3, h4, h5, h6, h7, h8, h9, h10, h11, h12, h13, h14⟩ := h
  unfold coordinate
  simp only [h3, h4, h5, h8, hx, false_and, and_false, if_false, reduceCtorEq, and_self,
    if_true]

/-- `coordinate` with both axes in `STOPPING_STATE` within a millimetre of the
goal: the snap. -/
theorem coordinate_snap (t : State α) (x : α)
    (h : Along t STOPPING_STATE STOPPING_STATE x 0 0) (hx : |x - 10| < 1 / 1000) :
    Arrived (coordinate t) := by
  obtain ⟨h1, h2, h3, h4, h5, h6, h7, h8, h9, h10, h11, h12, h13, h14⟩ := h
  have e : coordinate t = changeState HOVER_STATE
      { t with state_x := t.goal_x, state_y := t.goal_y, state_z := t.goal_z } := by
    unfold coordinate
    have hx' : |x - 10| < 1000⁻¹ := by rwa [one_div] at hx
    simp [h3, h4, h5, h6, h7, h8, h9, h10, hx']
  rw [e]
  exact ⟨h1, rfl, rfl, h8, h9, h11, h12, h13⟩

/-- The end of a tick that has arrived. -/
theorem integrate_arrived (m : Ext α) (c : Config α) (t : State α) (h : Arrived t) :
    Arrived (trackYaw m c (integrate m c t)) := by
  obtain ⟨h1, h2, h3, h4, h5, h6, h7, h8⟩ := h
  unfold trackYaw integrate
  refine ⟨h1, h2, h3, ?_, ?_, h6, h7, h8⟩
  · simp only [h4, h7]; ring
  · simp only [h5, h7]; ring

/-- A tick of an active tracker is the composition of its stages. -/
theorem line_mainTimer_active (m : Ext α) (c : Config α) (t : State α) (h : t.is_active = true) :
    mainTimer m c t
      = trackYaw m c (integrate m c (coordinate (stepVertical c (stepHorizontal m c t)))) := by
  unfold mainTimer
  simp [h]

/-- A tick after arrival changes nothing that `Arrived` records. -/
theorem tick_arrived (m : Ext α) (c : Config α) (t : State α) (h : Arrived t) :
    Arrived (mainTimer m c t) := by
  rw [line_mainTimer_active m c t h.is_active]
  have e1 : stepHorizontal m c t = t := by simp [stepHorizontal, h.horizontal]
  have e2 : stepVertical c t = t := by simp [stepVertical, h.vertical]
  have e3 : coordinate t = t :=
    line_coordinate_other t (by simp [h.horizontal]) (by simp [h.horizontal])
  rw [e1, e2, e3]
  exact integrate_arrived m c t h

/-- The first tick after `goTo`: both axes leave `STOP_MOTION_STATE`. -/
theorem tick_start (m : Ext α) (c : Config α) (hm : AxisLaws m) (hc : ScenarioConfig c)
    (t : State α) (x : α) (h : Along t STOP_MOTION_STATE STOP_MOTION_STATE x 0 0) :
    Along (mainTimer m c t) ACCELERATING_STATE ACCELERATING_STATE x 0 0 := by
  rw [line_mainTimer_active m c t h.is_active]
  have e1 : stepHorizontal m c t = stopHorizontalMotion c t := by
    simp [stepHorizontal, h.horizontal]
  have a1 := stopHorizontalMotion_along c hc t _ _ x 0 h
  have e2 : stepVertical c (stopHorizontalMotion c t)
      = stopVerticalMotion c (stopHorizontalMotion c t) := by
    simp [stepVertical, a1.vertical]
  have a2 := stopVerticalMotion_along c hc _ _ _ x 0 a1
  have a3 := coordinate_start _ x a2
  have a4 := integrate_along m c hm hc _ _ _ x 0 0 a3
  rw [e1, e2]
  simpa using a4

/-- The vertical axis at the goal height, accelerating from rest: one step to
`DECELERATING_STATE`. -/
theorem stepVertical_accelerating (c : Config α) (hc : ScenarioConfig c) (u : State α)
    (hs : States_t) (y w : α) (h : Along u hs ACCELERATING_STATE y w 0) :
    Along (stepVertical c u) hs DECELERATING_STATE y w (1 / 10) := by
  have e : stepVertical c u = accelerateVertical c u := by simp [stepVertical, h.vertical]
  rw [e]
  exact accelerateVertical_along c hc u hs y w h

/-- The vertical axis at the goal height, decelerating: one step to
`STOPPING_STATE`. -/
theorem stepVertical_decelerating (c : Config α) (hc : ScenarioConfig c) (u : State α)
    (hs : States_t) (y w : α) (h : Along u hs DECELERATING_STATE y w (1 / 10)) :
    Along (stepVertical c u) hs STOPPING_STATE y w 0 := by
  have e : stepVertical c u = decelerateVertical c u := by simp [stepVertical, h.vertical]
  rw [e]
  exact decelerateVertical_along c hc u hs y w h

/-- The vertical axis at the goal height in `STOPPING_STATE` stays there. -/
theorem stepVertical_stopping (c : Config α) (u : State α)
    (hs : States_t) (y w : α) (h : Along u hs STOPPING_STATE y w 0) :
    Along (stepVertical c u) hs STOPPING_STATE y w 0 := by
  have e : stepVertical c u = stopVertical u := by simp [stepVertical, h.vertical]
  rw [e]
  exact stopVertical_along u hs _ y w 0 h

/-- An accelerating tick, whatever the vertical axis does: the horizontal speed
rises by one step (capped at 2), the position advances, and the horizontal
axis switches to `DECELERATING_STATE` when the predicted stop is within `0.4`
of the goal. -/
theorem tick_accelerate (m : Ext α) (c : Config α) (hm : AxisLaws m) (hc : ScenarioConfig c)
    (t : State α) (vs vs' : States_t) (x v vv vv' : α)
    (h : Along t ACCELERATING_STATE vs x v vv) (hx : 0 ≤ 10 - x)
    (hvert : ∀ u hs y w, Along u hs vs y w vv → Along (stepVertical c u) hs vs' y w vv') :
    Along (mainTimer m c t)
      (if |x + v / 1 * v / 2 - 10| < 2 * (2 * (1 / 10)) then DECELERATING_STATE
        else ACCELERATING_STATE) vs'
      (x + (if v + 1 * (1 / 10) ≥ 2 then 2 else v + 1 * (1 / 10)) / 10)
      (if v + 1 * (1 / 10) ≥ 2 then 2 else v + 1 * (1 / 10)) vv' := by
  rw [line_mainTimer_active m c t h.is_active]
  have e1 : stepHorizontal m c t = accelerateHorizontal m c t := by
    simp [stepHorizontal, h.horizontal]
  have a1 := accelerateHorizontal_along m c hm hc t vs x v vv h hx
  have a2 := hvert _ _ _ _ a1
  have e3 : coordinate (stepVertical c (accelerateHorizontal m c t))
      = stepVertical c (accelerateHorizontal m c t) := by
    apply line_coordinate_other
    · rw [a2.horizontal]; split_ifs <;> simp
    · rw [a2.horizontal]; split_ifs <;> simp
  rw [e1, e3]
  exact integrate_along m c hm hc _ _ _ _ _ _ a2

/-- An accelerating tick far from the goal: the speed rises by `1/10` up to 2
and the axis keeps accelerating. -/
theorem tick_ramp (m : Ext α) (c : Config α) (hm : AxisLaws m) (hc : ScenarioConfig c)
    (t : State α) (vs vs' : States_t) (x v vv vv' : α)
    (h : Along t ACCELERATING_STATE vs x v vv) (hv : v + 1 / 10 ≤ 2)
    (hx : x + v ^ 2 / 2 ≤ 96 / 10)
    (hvert : ∀ u hs y w, Along u hs vs y w vv → Along (stepVertical c u) hs vs' y w vv') :
    Along (mainTimer m c t) ACCELERATING_STATE vs' (x + (v + 1 / 10) / 10) (v + 1 / 10) vv' := by
  have hx10 : 0 ≤ 10 - x := by nlinarith [sq_nonneg v]
  have a := tick_accelerate m c hm hc t vs vs' x v vv vv' h hx10 hvert
  have hsw : ¬ (|x + v / 1 * v / 2 - 10| < 2 * (2 * (1 / 10))) := by
    rw [abs_of_nonpos (by nlinarith [sq_nonneg v]), not_lt]
    nlinarith [sq_nonneg v]
  have hsp : (if v + 1 * (1 / 10) ≥ 2 then 2 else v + 1 * (1 / 10)) = v + 1 / 10 := by
    split_ifs with h2
    · linarith
    · ring
  rw [if_neg hsw, hsp] at a
  exact a

/-- A cruising tick: at speed 2 with the predicted stop more than `0.4` short of
the goal, the axis keeps accelerating at speed 2. -/
theorem tick_cruise (m : Ext α) (c : Config α) (hm : AxisLaws m) (hc : ScenarioConfig c)
    (t : State α) (x : α) (h : Along t ACCELERATING_STATE STOPPING_STATE x 2 0)
    (hx : x ≤ 76 / 10) :
    Along (mainTimer m c t) ACCELERATING_STATE STOPPING_STATE (x + 2 / 10) 2 0 := by
  have a := tick_accelerate m c hm hc t _ _ x 2 0 0 h (by linarith)
    (fun u hs y w hu => stepVertical_stopping c u hs y w hu)
  have hsw : ¬ (|x + 2 / 1 * 2 / 2 - 10| < 2 * (2 * (1 / 10))) := by
    rw [abs_of_nonpos (by linarith), not_lt]
    linarith
  have hsp : (if (2 : α) + 1 * (1 / 10) ≥ 2 then (2 : α) else 2 + 1 * (1 / 10)) = 2 := by
    norm_num
  rw [if_neg hsw, hsp] at a
  exact a

/-- The switching tick: at speed 2 with the predicted stop within `0.4` of the
goal, the axis enters `DECELERATING_STATE`, still at speed 2. -/
theorem tick_switch (m : Ext α) (c : Config α) (hm : AxisLaws m) (hc : ScenarioConfig c)
    (t : State α) (x : α) (h : Along t ACCELERATING_STATE STOPPING_STATE x 2 0)
    (hx1 : 76 / 10 < x) (hx2 : x < 84 / 10) :
    Along (mainTimer m c t) DECELERATING_STATE STOPPING_STATE (x + 2 / 10) 2 0 := by
  have a := tick_accelerate m c hm hc t _ _ x 2 0 0 h (by linarith)
    (fun u hs y w hu => stepVertical_stopping c u hs y w hu)
  have hsw : |x + 2 / 1 * 2 / 2 - 10| < 2 * (2 * (1 / 10)) := by
    rw [abs_lt]
    constructor <;> linarith
  have hsp : (if (2 : α) + 1 * (1 / 10) ≥ 2 then (2 : α) else 2 + 1 * (1 / 10)) = 2 := by
    norm_num
  rw [if_pos hsw, hsp] at a
  exact a

/-- A decelerating tick above one speed step: the speed falls by `1/10`. -/
theorem tick_decelerate (m : Ext α) (c : Config α) (hm : AxisLaws m) (hc : ScenarioConfig c)
    (t : State α) (x v : α) (h : Along t DECELERATING_STATE STOPPING_STATE x v 0)
    (hv : 1 / 10 < v) :
    Along (mainTimer m c t) DECELERATING_STATE STOPPING_STATE
      (x + (v - 1 / 10) / 10) (v - 1 / 10) 0 := by
  rw [line_mainTimer_active m c t h.is_active]
  have e1 : stepHorizontal m c t = decelerateHorizontal c t := by
    simp [stepHorizontal, h.horizontal]
  have a1 := decelerateHorizontal_along c hc t _ x v 0 h
  have hst : ¬ (v - 1 * (1 / 10) ≤ 0) := by rw [not_le]; linarith
  have hsp : ¬ (v - 1 * (1 / 10) < 0) := by rw [not_lt]; linarith
  rw [if_neg hst, if_neg hsp, one_mul] at a1
  have a2 := stepVertical_stopping c _ _ _ _ a1
  have e3 : coordinate (stepVertical c (decelerateHorizontal c t))
      = stepVertical c (decelerateHorizontal c t) := by
    apply line_coordinate_other
    · rw [a2.horizontal]; simp
    · rw [a2.horizontal]; simp
  rw [e1, e3]
  exact integrate_along m c hm hc _ _ _ _ _ _ a2

/-- The last decelerating tick: from speed `1/10` the speed reaches 0 and the
axis enters `STOPPING_STATE`; more than a millimetre from the goal nothing is
snapped. -/
theorem tick_decelerate_last (m : Ext α) (c : Config α) (hm : AxisLaws m)
    (hc : ScenarioConfig c) (t : State α) (x : α)
    (h : Along t DECELERATING_STATE STOPPING_STATE x (1 / 10) 0)
    (hx : ¬ (|x - 10| < 1 / 1000)) :
    Along (mainTimer m c t) STOPPING_STATE STOPPING_STATE x 0 0 := by
  rw [line_mainTimer_active m c t h.is_active]
  have e1 : stepHorizontal m c t = decelerateHorizontal c t := by
    simp [stepHorizontal, h.horizontal]
  have a1 := decelerateHorizontal_along c hc t _ x (1 / 10) 0 h
  have hst : (1 / 10 : α) - 1 * (1 / 10) ≤ 0 := by norm_num
  have hsp :
      (if (1 / 10 : α) - 1 * (1 / 10) < 0 then (0 : α) else 1 / 10 - 1 * (1 / 10)) = 0 := by
    norm_num
  rw [if_pos hst, hsp] at a1
  have a2 := stepVertical_stopping c _ _ _ _ a1
  have e3 := coordinate_settling _ x 0 0 a2 hx
  rw [e1, e3]
  have a4 := integrate_along m c hm hc _ _ _ _ _ _ a2
  rwa [zero_div, add_zero] at a4

/-- A settling tick more than a millimetre from the goal: the distance to the
goal shrinks by the factor `0.95`. -/
theorem tick_settle (m : Ext α) (c : Config α) (hm : AxisLaws m) (hc : ScenarioConfig c)
    (t : State α) (x : α) (h : Along t STOPPING_STATE STOPPING_STATE x 0 0)
    (hx : ¬ (|95 / 100 * x + 5 / 100 * 10 - 10| < 1 / 1000)) :
    Along (mainTimer m c t) STOPPING_STATE STOPPING_STATE (95 / 100 * x + 5 / 100 * 10) 0 0 := by
  rw [line_mainTimer_active m c t h.is_active]
  have e1 : stepHorizontal m c t = stopHorizontal t := by
    simp [stepHorizontal, h.horizontal]
  have a1 := stopHorizontal_along t _ _ x 0 0 h
  have a2 := stepVertical_stopping c _ _ _ _ a1
  have e3 := coordinate_settling _ _ 0 0 a2 hx
  rw [e1, e3]
  have a4 := integrate_along m c hm hc _ _ _ _ _ _ a2
  rwa [zero_div, add_zero] at a4

/-- The snap tick: within a millimetre of the goal after the settling step, both
axes enter `HOVER_STATE` at `x = 10` exactly. -/
theorem tick_snap (m : Ext α) (c : Config α)
    (t : State α) (x : α) (h : Along t STOPPING_STATE STOPPING_STATE x 0 0)
    (hx : |95 / 100 * x + 5 / 100 * 10 - 10| < 1 / 1000) :
    Arrived (mainTimer m c t) := by
  rw [line_mainTimer_active m c t h.is_active]
  have e1 : stepHorizontal m c t = stopHorizontal t := by
    simp [stepHorizontal, h.horizontal]
  have a1 := stopHorizontal_along t _ _ x 0 0 h
  have a2 := stepVertical_stopping c _ _ _ _ a1
  rw [e1]
  exact integrate_arrived m c _ (coordinate_snap _ _ a2 hx)

/-- Unfolding of one more tick of the scenario. -/
theorem scenarioRun_succ (m : Ext α) (c : Config α) (msg : Odometry α) (s : State α) (n : ℕ) :
    scenarioRun m c msg s (n + 1) = mainTimer m c (scenarioRun m c msg s n) := by
  unfold scenarioRun
  rw [Function.iterate_succ_apply']

/-- The scenario starts at the origin at rest, both axes in
`STOP_MOTION_STATE`, with the goal `(10, 0, 0)`. -/
theorem scenarioStart_along (m : Ext α) (c : Config α) (hm : AxisLaws m)
    (msg : Odometry α) (hmsg : AtOriginAtRest msg) (s : State α) :
    Along (scenarioStart m c msg s) STOP_MOTION_STATE STOP_MOTION_STATE 0 0 0 := by
  obtain ⟨p1, p2, p3, p4, p5, p6⟩ := hmsg
  have hsq : m.sqrt (0 : α) = 0 := by
    have := hm.sqrt_sq 0
    simpa using this
  have hat : m.atan2 0 0 = 0 := hm.atan2_zero 0 (le_refl _)
  unfold scenarioStart goTo activate update
  by_cases ha : s.is_active = true
  · constructor <;> simp [changeState, p1, p2, p3, p4, p5, p6, hsq, hat, ha]
  · constructor <;> simp [changeState, p1, p2, p3, p4, p5, p6, hsq, hat, ha]

/-- Induction along a phase of the run: a property indexed by the tick number
within the phase, established at the start of the phase and carried by every
tick before the `K`-th, holds up to the `K`-th tick. -/
theorem phase_induction (m : Ext α) (c : Config α) (msg : Odometry α) (s : State α)
    (P : ℕ → State α → Prop) (n0 K : ℕ) (h0 : P 0 (scenarioRun m c msg s n0))
    (hstep : ∀ k, k < K → ∀ t, P k t → P (k + 1) (mainTimer m c t)) :
    ∀ k, k ≤ K → P k (scenarioRun m c msg s (n0 + k)) := by
  intro k
  induction k with
  | zero => intro _; exact h0
  | succ k ih =>
    intro hk
    rw [← Nat.add_assoc, scenarioRun_succ]
    exact hstep k (Nat.lt_of_succ_le hk) _ (ih (Nat.le_of_succ_le hk))

/-- After the first three ticks the vertical axis has settled in
`STOPPING_STATE` at the goal height and the horizontal axis accelerates at
speed `2/10` from `x = 3/100`. -/
theorem run_3 (m : Ext α) (c : Config α) (hm : AxisLaws m) (hc : ScenarioConfig c)
    (msg : Odometry α) (hmsg : AtOriginAtRest msg) (s : State α) :
    Along (scenarioRun m c msg s 3) ACCELERATING_STATE STOPPING_STATE (3 / 100) (2 / 10) 0 := by
  have r0 := scenarioStart_along m c hm msg hmsg s
  have r1 := tick_start m c hm hc _ 0 r0
  have r2 := tick_ramp m c hm hc _ _ _ 0 0 0 (1 / 10) r1 (by norm_num) (by norm_num)
    (fun u hs y w hu => stepVertical_accelerating c hc u hs y w hu)
  have r3 := tick_ramp m c hm hc _ _ _ _ _ _ 0 r2 (by norm_num) (by norm_num)
    (fun u hs y w hu => stepVertical_decelerating c hc u hs y w hu)
  have e : scenarioRun m c msg s 3
      = mainTimer m c (mainTimer m c (mainTimer m c (scenarioStart m c msg s))) := rfl
  rw [e]
  convert r3 using 1 <;> norm_num

/-- Ramp: after `3 + k` ticks, `k ≤ 18`, the speed is `(k + 2) / 10` and the
position `(k + 2) (k + 3) / 200`. -/
theorem run_ramp (m : Ext α) (c : Config α) (hm : AxisLaws m) (hc : ScenarioConfig c)
    (msg : Odometry α) (hmsg : AtOriginAtRest msg) (s : State α) (k : ℕ) (hk : k ≤ 18) :
    Along (scenarioRun m c msg s (3 + k)) ACCELERATING_STATE STOPPING_STATE
      (((k : α) + 2) * ((k : α) + 3) / 200) (((k : α) + 2) / 10) 0 := by
  refine phase_induction m c msg s
    (fun k t => Along t ACCELERATING_STATE STOPPING_STATE
      (((k : α) + 2) * ((k : α) + 3) / 200) (((k : α) + 2) / 10) 0) 3 18 ?_ ?_ k hk
  · have := run_3 m c hm hc msg hmsg s
    convert this using 1 <;> norm_num
  · intro k hk t ht
    have hk' : (k : α) ≤ 17 := by exact_mod_cast Nat.le_of_lt_succ hk
    have hk0 : (0 : α) ≤ k := Nat.cast_nonneg k
    have := tick_ramp m c hm hc t _ _ _ _ 0 0 ht (by linarith) (by nlinarith)
      (fun u hs y w hu => stepVertical_stopping c u hs y w hu)
    convert this using 1 <;> (push_cast; ring)

/-- Cruise: after `21 + j` ticks, `j ≤ 28`, the speed is 2 and the position
`21/10 + 2 j / 10`. -/
theorem run_cruise (m : Ext α) (c : Config α) (hm : AxisLaws m) (hc : ScenarioConfig c)
    (msg : Odometry α) (hmsg : AtOriginAtRest msg) (s : State α) (j : ℕ) (hj : j ≤ 28) :
    Along (scenarioRun m c msg s (21 + j)) ACCELERATING_STATE STOPPING_STATE
      (21 / 10 + 2 * (j : α) / 10) 2 0 := by
  refine phase_induction m c msg s
    (fun j t => Along t ACCELERATING_STATE STOPPING_STATE (21 / 10 + 2 * (j : α) / 10) 2 0)
    21 28 ?_ ?_ j hj
  · have := run_ramp m c hm hc msg hmsg s 18 (le_refl _)
    convert this using 1 <;> norm_num
  · intro j hj t ht
    have hj' : (j : α) ≤ 27 := by exact_mod_cast Nat.le_of_lt_succ hj
    have := tick_cruise m c hm hc t _ ht (by linarith)
    convert this using 1
    push_cast; ring

/-- The switch: the 50th tick starts at `x = 77/10` in `ACCELERATING_STATE`
and ends at `x = 79/10` in `DECELERATING_STATE`. -/
theorem run_switch (m : Ext α) (c : Config α) (hm : AxisLaws m) (hc : ScenarioConfig c)
    (msg : Odometry α) (hmsg : AtOriginAtRest msg) (s : State α) :
    Along (scenarioRun m c msg s 49) ACCELERATING_STATE STOPPING_STATE (77 / 10) 2 0
    ∧ Along (scenarioRun m c msg s 50) DECELERATING_STATE STOPPING_STATE (79 / 10) 2 0 := by
  have r49 : Along (scenarioRun m c msg s 49) ACCELERATING_STATE STOPPING_STATE (77 / 10) 2 0 := by
    have := run_cruise m c hm hc msg hmsg s 28 (le_refl _)
    convert this using 1
    norm_num
  refine ⟨r49, ?_⟩
  have := tick_switch m c hm hc _ _ r49 (by norm_num) (by norm_num)
  rw [← scenarioRun_succ] at this
  convert this using 1
  norm_num

/-- Braking: after `50 + i` ticks, `i ≤ 19`, the speed is `2 - i / 10` and the
position `79/10 + i/5 - i (i + 1) / 200`. -/
theorem run_brake (m : Ext α) (c : Config α) (hm : AxisLaws m) (hc : ScenarioConfig c)
    (msg : Odometry α) (hmsg : AtOriginAtRest msg) (s : State α) (i : ℕ) (hi : i ≤ 19) :
    Along (scenarioRun m c msg s (50 + i)) DECELERATING_STATE STOPPING_STATE
      (79 / 10 + (i : α) / 5 - (i : α) * ((i : α) + 1) / 200) (2 - (i : α) / 10) 0 := by
  refine phase_induction m c msg s
    (fun i t => Along t DECELERATING_STATE STOPPING_STATE
      (79 / 10 + (i : α) / 5 - (i : α) * ((i : α) + 1) / 200) (2 - (i : α) / 10) 0)
    50 19 ?_ ?_ i hi
  · have := (run_switch m c hm hc msg hmsg s).2
    convert this using 1 <;> norm_num
  · intro i hi t ht
    have hi' : (i : α) ≤ 18 := by exact_mod_cast Nat.le_of_lt_succ hi
    have := tick_decelerate m c hm hc t _ _ ht (by linarith)
    convert this using 1 <;> (push_cast; ring)

/-- Settling: after `70 + i` ticks, `i ≤ 103`, both axes are in
`STOPPING_STATE` at rest and the position is `10 - (2/10) (95/100)^i`. -/
theorem run_settle (m : Ext α) (c : Config α) (hm : AxisLaws m) (hc : ScenarioConfig c)
    (msg : Odometry α) (hmsg : AtOriginAtRest msg) (s : State α) (i : ℕ) (hi : i ≤ 103) :
    Along (scenarioRun m c msg s (70 + i)) STOPPING_STATE STOPPING_STATE
      (10 - 2 / 10 * (95 / 100) ^ i) 0 0 := by
  refine phase_induction m c msg s
    (fun i t => Along t STOPPING_STATE STOPPING_STATE (10 - 2 / 10 * (95 / 100) ^ i) 0 0)
    70 103 ?_ ?_ i hi
  · have r69 := run_brake m c hm hc msg hmsg s 19 (le_refl _)
    have r69' : Along (scenarioRun m c msg s 69) DECELERATING_STATE STOPPING_STATE
        (98 / 10) (1 / 10) 0 := by
      convert r69 using 1 <;> norm_num
    have := tick_decelerate_last m c hm hc _ _ r69' (by rw [abs_lt]; norm_num)
    rw [← scenarioRun_succ] at this
    convert this using 1
    norm_num
  · intro i hi t ht
    have hpow : (95 / 100 : α) ^ 103 ≤ (95 / 100) ^ (i + 1) :=
      pow_le_pow_of_le_one (by norm_num) (by norm_num) (Nat.succ_le_of_lt hi)
    have h103 : (5 / 1000 : α) ≤ (95 / 100) ^ 103 := by norm_num
    have hfar : ¬ (|95 / 100 * (10 - 2 / 10 * (95 / 100 : α) ^ i) + 5 / 100 * 10 - 10|
        < 1 / 1000) := by
      have e : 95 / 100 * (10 - 2 / 10 * (95 / 100 : α) ^ i) + 5 / 100 * 10 - 10
          = -(2 / 10 * (95 / 100) ^ (i + 1)) := by ring
      rw [e, abs_neg, abs_of_nonneg (by positivity), not_lt]
      linarith
    have := tick_settle m c hm hc t _ ht hfar
    convert this using 1
    ring

/-- Arrival: after 174 ticks, and after every later tick, both axes hover at
`x = 10`, `y = 0` at rest. -/
theorem run_arrived (m : Ext α) (c : Config α) (hm : AxisLaws m) (hc : ScenarioConfig c)
    (msg : Odometry α) (hmsg : AtOriginAtRest msg) (s : State α) (n : ℕ) :
    Arrived (scenarioRun m c msg s (174 + n)) := by
  induction n with
  | zero =>
    have r173 := run_settle m c hm hc msg hmsg s 103 (le_refl _)
    have hnear : |95 / 100 * (10 - 2 / 10 * (95 / 100 : α) ^ 103) + 5 / 100 * 10 - 10|
        < 1 / 1000 := by
      rw [abs_lt]; constructor <;> norm_num
    have := tick_snap m c _ _ r173 hnear
    rw [← scenarioRun_succ] at this
    exact this
  | succ n ih =>
    rw [← Nat.add_assoc, scenarioRun_succ]
    exact tick_arrived m c _ ih

/-- C1: in the end-to-end scenario there is a number `N` of ticks after which
both axes are in `HOVER_STATE` with `state_x = 10`, `state_y = 0` and
`current_horizontal_speed = 0`; and at an earlier tick `k` the horizontal axis
passed from `ACCELERATING_STATE` to `DECELERATING_STATE` with `state_x < 10`
before and after that tick. -/
theorem goTo_reaches_goal (m : Ext α) (c : Config α) (hm : AxisLaws m) (hc : ScenarioConfig c)
    (msg : Odometry α) (hmsg : AtOriginAtRest msg) (s : State α) :
    ∃ N k : ℕ, k < N
      ∧ (∀ n, N ≤ n →
          (scenarioRun m c msg s n).current_state_horizontal = HOVER_STATE
          ∧ (scenarioRun m c msg s n).current_state_vertical = HOVER_STATE
          ∧ (scenarioRun m c msg s n).state_x = 10
          ∧ (scenarioRun m c msg s n).state_y = 0
          ∧ (scenarioRun m c msg s n).current_horizontal_speed = 0)
      ∧ (scenarioRun m c msg s k).current_state_horizontal = ACCELERATING_STATE
      ∧ (scenarioRun m c msg s (k + 1)).current_state_horizontal = DECELERATING_STATE
      ∧ (scenarioRun m c msg s k).state_x < 10
      ∧ (scenarioRun m c msg s (k + 1)).state_x < 10 := by
  obtain ⟨r49, r50⟩ := run_switch m c hm hc msg hmsg s
  refine ⟨174, 49, by norm_num, ?_, r49.horizontal, r50.horizontal, ?_, ?_⟩
  · intro n hn
    obtain ⟨j, rfl⟩ := Nat.exists_eq_add_of_le hn
    have a := run_arrived m c hm hc msg hmsg s j
    exact ⟨a.horizontal, a.vertical, a.state_x, a.state_y, a.horizontal_speed⟩
  · rw [r49.state_x]; norm_num
  · rw [r50.state_x]; norm_num

/-- C1 at a concrete input: the rational stand-in for the external functions,
the scenario configuration with yaw rate and gain 1, the measurement at the
origin at rest, and a freshly initialised tracker. -/
theorem goTo_reaches_goal_witness :
    ∃ N k : ℕ, k < N
      ∧ (∀ n, N ≤ n →
          (scenarioRun ratExt scenarioConfig zeroOdometry (initialise (construct zeroMem))
            n).current_state_horizontal = HOVER_STATE
          ∧ (scenarioRun ratExt scenarioConfig zeroOdometry (initialise (construct zeroMem))
            n).current_state_vertical = HOVER_STATE
          ∧ (scenarioRun ratExt scenarioConfig zeroOdometry (initialise (construct zeroMem))
            n).state_x = 10
          ∧ (scenarioRun ratExt scenarioConfig zeroOdometry (initialise (construct zeroMem))
            n).state_y = 0
          ∧ (scenarioRun ratExt scenarioConfig zeroOdometry (initialise (construct zeroMem))
            n).current_horizontal_speed = 0)
      ∧ (scenarioRun ratExt scenarioConfig zeroOdometry (initialise (construct zeroMem))
          k).current_state_horizontal = ACCELERATING_STATE
      ∧ (scenarioRun ratExt scenarioConfig zeroOdometry (initialise (construct zeroMem))
          (k + 1)).current_state_horizontal = DECELERATING_STATE
      ∧ (scenarioRun ratExt scenarioConfig zeroOdometry (initialise (construct zeroMem))
          k).state_x < 10
      ∧ (scenarioRun ratExt scenarioConfig zeroOdometry (initialise (construct zeroMem))
          (k + 1)).state_x < 10 :=
  goTo_reaches_goal ratExt scenarioConfig
    ⟨rfl, rfl, fun _ _ => rfl, ratSqrt_sq⟩ ⟨rfl, rfl, rfl, rfl, rfl, rfl⟩
    zeroOdometry ⟨rfl, rfl, rfl, rfl, rfl, rfl⟩ (initialise (construct zeroMem))

end LineTracker

/-! ### LandoffTracker: speed bounds (C2, C3) -/

namespace LandoffTracker

open States_t

variable {α : Type} [LinearOrderedField α]

/-- The horizontal half of C2: one call of `accelerateHorizontal` keeps
`current_horizontal_speed` in `[0, horizontal_speed_]`. -/
theorem accelerateHorizontal_speed_bounds (m : Ext α) (c : Config α) (s : State α)
    (hmax : 0 ≤ c.horizontal_speed_) (hacc : 0 < c.horizontal_acceleration_)
    (hdt : 0 < c.tracker_dt_) (h0 : 0 ≤ s.current_horizontal_speed) :
    0 ≤ (accelerateHorizontal m c s).current_horizontal_speed
      ∧ (accelerateHorizontal m c s).current_horizontal_speed ≤ c.horizontal_speed_ := by
  have hstep : 0 < c.horizontal_acceleration_ * c.tracker_dt_ := mul_pos hacc hdt
  simp only [accelerateHorizontal, changeStateHorizontal]
  split_ifs with h1 h2 h2 <;> simp only [] <;> constructor <;> linarith

/-- C2 (the code at the failing input): with `takeoff_acceleration_ = 2`,
`vertical_acceleration_ = 1`, `tracker_dt_ = 1/10` and a takeoff whose vertical
speed is at its maximum `used_speed = takeoff_speed_ = 1`, one call of
`accelerateVertical` leaves `current_vertical_speed = 11/10`, above `used_speed`. -/
theorem accelerateVertical_overshoots_used_speed :
    (usedSpeedAcceleration sampleConfig takeoffAtMaxSpeed).1 = 1
      ∧ 0 ≤ takeoffAtMaxSpeed.current_vertical_speed
      ∧ takeoffAtMaxSpeed.current_vertical_speed
          ≤ (usedSpeedAcceleration sampleConfig takeoffAtMaxSpeed).1
      ∧ (accelerateVertical sampleConfig takeoffAtMaxSpeed).current_vertical_speed = 11 / 10
      ∧ (usedSpeedAcceleration sampleConfig takeoffAtMaxSpeed).1
          < (accelerateVertical sampleConfig takeoffAtMaxSpeed).current_vertical_speed := by
  norm_num [accelerateVertical, usedSpeedAcceleration, sampleConfig, takeoffAtMaxSpeed, zeroMem,
    changeStateVertical, sign, abs_lt]

/-- C3 (the code at the failing input): after `initialize`, an `update` with the
measurement of a vehicle descending at 1 m/s and `activate` without a previous
command, `current_vertical_speed = -1`. -/
theorem activate_seeds_negative_vertical_speed :
    (run ratExt sampleConfig freshState
        [Op.update descendingOdometry, Op.activate none]).current_vertical_speed = -1
      ∧ (run ratExt sampleConfig freshState
        [Op.update descendingOdometry, Op.activate none]).is_active = true := by
  norm_num [run, Op.apply, update, activate, freshState, initialise, construct, zeroMem,
    descendingOdometry, zeroOdometry, changeState, changeStateHorizontal, changeStateVertical,
    sampleConfig, ratExt]

end LandoffTracker

/-! ### LandoffTracker: the snap onto the goal (C4) -/

namespace LandoffTracker

open States_t

variable {α : Type} [LinearOrderedField α]

/-- A tick in `HoverAtRest` stays there and moves neither position nor goal. -/
theorem mainTimer_hoverAtRest (m : Ext α) (c : Config α) (s : State α) (h : HoverAtRest s) :
    HoverAtRest (mainTimer m c s)
      ∧ (mainTimer m c s).state_x = s.state_x ∧ (mainTimer m c s).state_y = s.state_y
      ∧ (mainTimer m c s).state_z = s.state_z
      ∧ (mainTimer m c s).goal_x = s.goal_x ∧ (mainTimer m c s).goal_y = s.goal_y
      ∧ (mainTimer m c s).goal_z = s.goal_z := by
  obtain ⟨h1, h2, h3, h4, h5, h6⟩ := h
  simp [HoverAtRest, mainTimer, trackYaw, integrate, saturate, coordinate, stepVertical,
    stepHorizontal, h1, h2, h3, h4, h5, h6]

/-- Any number of ticks in `HoverAtRest` moves neither position nor goal. -/
theorem iterate_mainTimer_hoverAtRest (m : Ext α) (c : Config α) (s : State α)
    (h : HoverAtRest s) (n : ℕ) :
    HoverAtRest ((mainTimer m c)^[n] s)
      ∧ ((mainTimer m c)^[n] s).state_x = s.state_x
      ∧ ((mainTimer m c)^[n] s).state_y = s.state_y
      ∧ ((mainTimer m c)^[n] s).state_z = s.state_z
      ∧ ((mainTimer m c)^[n] s).goal_x = s.goal_x
      ∧ ((mainTimer m c)^[n] s).goal_y = s.goal_y
      ∧ ((mainTimer m c)^[n] s).goal_z = s.goal_z := by
  induction n with
  | zero => exact ⟨h, rfl, rfl, rfl, rfl, rfl, rfl⟩
  | succ n ih =>
    rw [Function.iterate_succ_apply']
    obtain ⟨ih0, ih1, ih2, ih3, ih4, ih5, ih6⟩ := ih
    obtain ⟨k0, k1, k2, k3, k4, k5, k6⟩ := mainTimer_hoverAtRest m c _ ih0
    exact ⟨k0, k1.trans ih1, k2.trans ih2, k3.trans ih3, k4.trans ih4, k5.trans ih5,
      k6.trans ih6⟩

/-- The snap tick: from both axes in `STOPPING_STATE` at zero speed, a tick that
ends with the horizontal axis in `HOVER_STATE` ends in `HoverAtRest` with the
position on the unchanged goal. -/
theorem mainTimer_snap (m : Ext α) (c : Config α) (s : State α)
    (hh : s.current_state_horizontal = STOPPING_STATE)
    (hv : s.current_state_vertical = STOPPING_STATE)
    (hh' : (mainTimer m c s).current_state_horizontal = HOVER_STATE)
    (hs : s.current_horizontal_speed = 0) (hvs : s.current_vertical_speed = 0) :
    HoverAtRest (mainTimer m c s)
      ∧ (mainTimer m c s).state_x = s.goal_x ∧ (mainTimer m c s).state_y = s.goal_y
      ∧ (mainTimer m c s).state_z = s.goal_z
      ∧ (mainTimer m c s).goal_x = s.goal_x ∧ (mainTimer m c s).goal_y = s.goal_y
      ∧ (mainTimer m c s).goal_z = s.goal_z := by
  by_cases ha : s.is_active = true
  · by_cases h1 : |95 / 100 * s.state_x + 5 / 100 * s.goal_x - s.goal_x| < 1 / 1000 ∧
        |95 / 100 * s.state_y + 5 / 100 * s.goal_y - s.goal_y| < 1 / 1000 ∧
        |95 / 100 * s.state_z + 5 / 100 * s.goal_z - s.goal_z| < 1 / 1000
    all_goals simp only [one_div] at h1
    · simp [HoverAtRest, mainTimer, trackYaw, integrate, saturate, coordinate, stepVertical,
        stepHorizontal, stopHorizontal, stopVertical, changeState, changeStateHorizontal,
        changeStateVertical, ha, hh, hv, hs, hvs, h1]
    · simp [mainTimer, trackYaw, integrate, saturate, coordinate, stepVertical,
        stepHorizontal, stopHorizontal, stopVertical, changeState, changeStateHorizontal,
        changeStateVertical, ha, hh, hv, hs, hvs, h1] at hh'
  · simp [mainTimer, ha, hh] at hh'

/-- C4 as stated fails: in the reachable state `hoverWhileSettling` both axes are
in `STOPPING_STATE`; the next tick takes both to `HOVER_STATE`, snaps the
position onto the goal `x = 1/1250` and then integrates the residual speed
`1/25` over `tracker_dt_ = 1/10`, so the tick ends at `state_x = 6/1250`, off the
goal. -/
theorem snap_tick_leaves_goal :
    hoverWhileSettling.current_state_horizontal = STOPPING_STATE
    ∧ hoverWhileSettling.current_state_vertical = STOPPING_STATE
    ∧ hoverWhileSettling.current_horizontal_speed = 1 / 25
    ∧ (mainTimer ratExt sampleConfig hoverWhileSettling).current_state_horizontal = HOVER_STATE
    ∧ (mainTimer ratExt sampleConfig hoverWhileSettling).current_state_vertical = HOVER_STATE
    ∧ (mainTimer ratExt sampleConfig hoverWhileSettling).goal_x = 1 / 1250
    ∧ (mainTimer ratExt sampleConfig hoverWhileSettling).state_x = 6 / 1250
    ∧ (mainTimer ratExt sampleConfig hoverWhileSettling).state_x
        ≠ (mainTimer ratExt sampleConfig hoverWhileSettling).goal_x := by
  decide!

/-- C4 (amended): for every tick that takes both axes from `STOPPING_STATE` to
`HOVER_STATE` and starts with `current_horizontal_speed = 0` and
`current_vertical_speed = 0`, the position at the end of the tick is the goal
exactly, on all three coordinates; and after any number of further ticks with no
request in between both axes are still in `HOVER_STATE`, the goal is the same
and the position still equals it. -/
theorem snap_tick_holds_goal (m : Ext α) (c : Config α) (s : State α)
    (hh : s.current_state_horizontal = STOPPING_STATE)
    (hv : s.current_state_vertical = STOPPING_STATE)
    (hh' : (mainTimer m c s).current_state_horizontal = HOVER_STATE)
    (_hv' : (mainTimer m c s).current_state_vertical = HOVER_STATE)
    (hs : s.current_horizontal_speed = 0) (hvs : s.current_vertical_speed = 0) (n : ℕ) :
    ((mainTimer m c)^[n] (mainTimer m c s)).current_state_horizontal = HOVER_STATE
    ∧ ((mainTimer m c)^[n] (mainTimer m c s)).current_state_vertical = HOVER_STATE
    ∧ ((mainTimer m c)^[n] (mainTimer m c s)).goal_x = s.goal_x
    ∧ ((mainTimer m c)^[n] (mainTimer m c s)).goal_y = s.goal_y
    ∧ ((mainTimer m c)^[n] (mainTimer m c s)).goal_z = s.goal_z
    ∧ ((mainTimer m c)^[n] (mainTimer m c s)).state_x = s.goal_x
    ∧ ((mainTimer m c)^[n] (mainTimer m c s)).state_y = s.goal_y
    ∧ ((mainTimer m c)^[n] (mainTimer m c s)).state_z = s.goal_z := by
  obtain ⟨k0, k1, k2, k3, k4, k5, k6⟩ := mainTimer_snap m c s hh hv hh' hs hvs
  obtain ⟨i0, i1, i2, i3, i4, i5, i6⟩ :=
    iterate_mainTimer_hoverAtRest m c (mainTimer m c s) k0 n
  exact ⟨i0.2.1, i0.2.2.1, i4.trans k4, i5.trans k5, i6.trans k6, i1.trans k1, i2.trans k2,
    i3.trans k3⟩

end LandoffTracker

namespace LandoffTracker

open States_t

/-- C4 (amended) at a concrete input: the snap tick of `settledBeforeSnap` and
five further ticks; the goal is `(0, 0, 1/200)`. -/
theorem snap_tick_holds_goal_witness :
    ((mainTimer ratExt sampleConfig)^[5]
        (mainTimer ratExt sampleConfig settledBeforeSnap)).current_state_horizontal = HOVER_STATE
    ∧ ((mainTimer ratExt sampleConfig)^[5]
        (mainTimer ratExt sampleConfig settledBeforeSnap)).current_state_vertical = HOVER_STATE
    ∧ ((mainTimer ratExt sampleConfig)^[5]
        (mainTimer ratExt sampleConfig settledBeforeSnap)).goal_x = settledBeforeSnap.goal_x
    ∧ ((mainTimer ratExt sampleConfig)^[5]
        (mainTimer ratExt sampleConfig settledBeforeSnap)).goal_y = settledBeforeSnap.goal_y
    ∧ ((mainTimer ratExt sampleConfig)^[5]
        (mainTimer ratExt sampleConfig settledBeforeSnap)).goal_z = settledBeforeSnap.goal_z
    ∧ ((mainTimer ratExt sampleConfig)^[5]
        (mainTimer ratExt sampleConfig settledBeforeSnap)).state_x = settledBeforeSnap.goal_x
    ∧ ((mainTimer ratExt sampleConfig)^[5]
        (mainTimer ratExt sampleConfig settledBeforeSnap)).state_y = settledBeforeSnap.goal_y
    ∧ ((mainTimer ratExt sampleConfig)^[5]
        (mainTimer ratExt sampleConfig settledBeforeSnap)).state_z = settledBeforeSnap.goal_z :=
  snap_tick_holds_goal ratExt sampleConfig settledBeforeSnap (by decide!) (by decide!)
    (by decide!) (by decide!) (by decide!) (by decide!) 5

end LandoffTracker

/-! ### Yaw tracking -/

section Yaw

variable {α : Type} [LinearOrderedField α]

/-- The wrap and snap at the end of the yaw block keep a yaw that moved by at
most `m` inside `[-PI, PI]`. -/
theorem wrap_snap_range (PI m goal state d : α)
    (hg1 : -PI ≤ goal) (hg2 : goal ≤ PI) (hs1 : -PI ≤ state) (hs2 : state ≤ PI)
    (hd1 : -m ≤ d) (hd2 : d ≤ m) :
    -PI ≤ (if |(if state + d > PI then state + d - 2 * PI
                else if state + d < -PI then state + d + 2 * PI else state + d) - goal|
              < 2 * m then goal
           else (if state + d > PI then state + d - 2 * PI
                else if state + d < -PI then state + d + 2 * PI else state + d))
    ∧ (if |(if state + d > PI then state + d - 2 * PI
                else if state + d < -PI then state + d + 2 * PI else state + d) - goal|
              < 2 * m then goal
           else (if state + d > PI then state + d - 2 * PI
                else if state + d < -PI then state + d + 2 * PI else state + d)) ≤ PI := by
  split_ifs with h1 h2 h3 h4 h5
  · exact ⟨hg1, hg2⟩
  · rw [abs_lt, not_and_or, not_lt, not_lt] at h2
    constructor
    · linarith
    · rcases h2 with h2 | h2 <;> linarith
  · exact ⟨hg1, hg2⟩
  · rw [abs_lt, not_and_or, not_lt, not_lt] at h4
    constructor
    · rcases h4 with h4 | h4 <;> linarith
    · linarith
  · exact ⟨hg1, hg2⟩
  · constructor <;> linarith

/-- The clamped yaw rate moves the yaw by at most `yaw_rate_ * tracker_dt_` per
tick. -/
theorem clamp_rate_bound (r dt x : α) (hr : 0 ≤ r) (hdt : 0 < dt) :
    -(r * dt) ≤ (if x > r then r else if x < -r then -r else x) * dt
    ∧ (if x > r then r else if x < -r then -r else x) * dt ≤ r * dt := by
  split_ifs with h1 h2
  · constructor <;> nlinarith
  · constructor <;> nlinarith
  · constructor <;> nlinarith

/-- One yaw step maps `[-PI, PI]` into itself. -/
theorem yawTracking_range (PI g r dt goal state : α) (hr : 0 ≤ r) (hdt : 0 < dt)
    (hg : InYawRange PI goal) (hs : InYawRange PI state) :
    InYawRange PI (yawTracking PI g r dt goal state) := by
  unfold yawTracking InYawRange
  simp only []
  obtain ⟨b1, b2⟩ := clamp_rate_bound r dt
    (if |goal - state| > PI then -g * (goal - state) else g * (goal - state)) hr hdt
  exact wrap_snap_range PI (r * dt) goal state _ hg.1 hg.2 hs.1 hs.2 b1 b2

/-- Any sequence of yaw steps with goals in `[-PI, PI]` stays in `[-PI, PI]`. -/
theorem yawAfter_range (PI g r dt : α) (hr : 0 ≤ r) (hdt : 0 < dt) (goals : List α) :
    ∀ state : α, (∀ x ∈ goals, InYawRange PI x) → InYawRange PI state →
      InYawRange PI (yawAfter PI g r dt goals state) := by
  induction goals with
  | nil => intro state _ hs; exact hs
  | cons a l ih =>
    intro state hg hs
    unfold yawAfter
    rw [List.foldl_cons]
    exact ih _ (fun x hx => hg x (List.mem_cons_of_mem a hx))
      (yawTracking_range PI g r dt a state hr hdt (hg a (List.mem_cons_self a l)) hs)

/-- From `state_yaw = -PI + 1/10` with goal yaw 2, gain 1, rate limit 1 and
`tracker_dt_ = 1/10`, the yaw step returns `-PI` itself, whatever the value of
`PI ≥ 2`. -/
theorem yawTracking_returns_neg_PI (PI : α) (hPI : 2 ≤ PI) :
    yawTracking PI 1 1 (1 / 10) 2 (-PI + 1 / 10) = -PI := by
  unfold yawTracking
  have h1 : |2 - (-PI + 1 / 10)| > PI := by
    rw [abs_of_pos (by linarith)]; linarith
  have h2 : ¬ (-1 * (2 - (-PI + 1 / 10)) > 1) := by rw [not_lt]; linarith
  have h3 : -1 * (2 - (-PI + 1 / 10)) < -1 := by linarith
  have h4 : -PI + 1 / 10 + -1 * (1 / 10) = -PI := by ring
  have h5 : ¬ (-PI > PI) := by rw [not_lt]; linarith
  have h6 : ¬ (-PI < -PI) := lt_irrefl _
  have h7 : ¬ (|-PI - 2| < 2 * (1 * (1 / 10))) := by
    rw [not_lt, abs_of_neg (by linarith)]; linarith
  simp only [gt_iff_lt] at h1 h2 h5
  simp only [gt_iff_lt, h1, h2, h3, if_true, if_false, h4, h5, h6, h7]

end Yaw

namespace LandoffTracker

open States_t

variable {α : Type} [LinearOrderedField α]

/-- The horizontal switch of a tick leaves the yaw and the goal yaw alone. -/
theorem stepHorizontal_yaw (m : Ext α) (c : Config α) (s : State α) :
    (stepHorizontal m c s).state_yaw = s.state_yaw
      ∧ (stepHorizontal m c s).goal_yaw = s.goal_yaw := by
  unfold stepHorizontal
  split <;>
    simp only [stopHorizontalMotion, accelerateHorizontal, decelerateHorizontal, stopHorizontal,
      changeStateHorizontal] <;>
    (repeat' split_ifs) <;> simp

/-- The vertical switch of a tick leaves the yaw and the goal yaw alone. -/
theorem stepVertical_yaw (c : Config α) (s : State α) :
    (stepVertical c s).state_yaw = s.state_yaw
      ∧ (stepVertical c s).goal_yaw = s.goal_yaw := by
  unfold stepVertical
  split <;>
    simp only [stopVerticalMotion, accelerateVertical, decelerateVertical, stopVertical,
      changeStateVertical] <;>
    (repeat' split_ifs) <;> simp

/-- The combined-state rules leave the yaw and the goal yaw alone. -/
theorem coordinate_yaw (s : State α) :
    (coordinate s).state_yaw = s.state_yaw ∧ (coordinate s).goal_yaw = s.goal_yaw := by
  simp only [coordinate, changeState, changeStateHorizontal, changeStateVertical]
  (repeat' split_ifs) <;> simp

/-- The saturation guard leaves the yaw and the goal yaw alone. -/
theorem saturate_yaw (m : Ext α) (c : Config α) (s : State α) :
    (saturate m c s).state_yaw = s.state_yaw ∧ (saturate m c s).goal_yaw = s.goal_yaw := by
  simp only [saturate]
  (repeat' split_ifs) <;> simp

/-- The yaw after a tick is the yaw block applied to the yaw and the goal yaw
before the tick; an inactive tracker keeps its yaw. -/
theorem mainTimer_state_yaw (m : Ext α) (c : Config α) (s : State α) :
    (mainTimer m c s).state_yaw =
      if s.is_active then
        yawTracking m.PI c.yaw_gain_ c.yaw_rate_ c.tracker_dt_ s.goal_yaw s.state_yaw
      else s.state_yaw := by
  unfold mainTimer
  by_cases ha : s.is_active = true
  · simp only [ha, Bool.not_true, Bool.false_eq_true, if_false, if_true, trackYaw, integrate]
    rw [(saturate_yaw m c _).1, (saturate_yaw m c _).2, (coordinate_yaw _).1,
      (coordinate_yaw _).2, (stepVertical_yaw c _).1, (stepVertical_yaw c _).2,
      (stepHorizontal_yaw m c _).1, (stepHorizontal_yaw m c _).2]
  · simp [ha]

end LandoffTracker

namespace LineTracker

open States_t

variable {α : Type} [LinearOrderedField α]

/-- The horizontal switch of a tick leaves the yaw and the goal yaw alone. -/
theorem line_stepHorizontal_yaw (m : Ext α) (c : Config α) (s : State α) :
    (stepHorizontal m c s).state_yaw = s.state_yaw
      ∧ (stepHorizontal m c s).goal_yaw = s.goal_yaw := by
  unfold stepHorizontal
  split <;>
    simp only [stopHorizontalMotion, accelerateHorizontal, decelerateHorizontal, stopHorizontal,
      changeStateHorizontal] <;>
    (repeat' split_ifs) <;> simp

/-- The vertical switch of a tick leaves the yaw and the goal yaw alone. -/
theorem line_stepVertical_yaw (c : Config α) (s : State α) :
    (stepVertical c s).state_yaw = s.state_yaw
      ∧ (stepVertical c s).goal_yaw = s.goal_yaw := by
  unfold stepVertical
  split <;>
    simp only [stopVerticalMotion, accelerateVertical, decelerateVertical, stopVertical,
      changeStateVertical] <;>
    (repeat' split_ifs) <;> simp

/-- The combined-state rules leave the yaw and the goal yaw alone. -/
theorem line_coordinate_yaw (s : State α) :
    (coordinate s).state_yaw = s.state_yaw ∧ (coordinate s).goal_yaw = s.goal_yaw := by
  simp only [coordinate, changeState]
  (repeat' split_ifs) <;> simp

/-- The yaw after a tick is the yaw block applied to the yaw and the goal yaw
before the tick; an inactive tracker keeps its yaw. -/
theorem line_mainTimer_state_yaw (m : Ext α) (c : Config α) (s : State α) :
    (mainTimer m c s).state_yaw =
      if s.is_active then
        yawTracking m.PI c.yaw_gain_ c.yaw_rate_ c.tracker_dt_ s.goal_yaw s.state_yaw
      else s.state_yaw := by
  unfold mainTimer
  by_cases ha : s.is_active = true
  · simp only [ha, Bool.not_true, Bool.false_eq_true, if_false, if_true, trackYaw, integrate]
    rw [(line_coordinate_yaw _).1, (line_coordinate_yaw _).2, (line_stepVertical_yaw c _).1,
      (line_stepVertical_yaw c _).2, (line_stepHorizontal_yaw m c _).1,
      (line_stepHorizontal_yaw m c _).2]
  · simp [ha]

end LineTracker

section YawClaims

variable {α : Type} [LinearOrderedField α]

/-- C5 as stated fails: with `PI = 3.14159265`, `yaw_gain_ = yaw_rate_ = 1`,
`tracker_dt_ = 1/10`, `state_yaw = -PI + 1/10` and `goal_yaw = 2`, both in
`(-PI, PI]`, the yaw step returns `-PI`, which is outside `(-PI, PI]`. -/
theorem yawTracking_leaves_half_open_range :
    (-ratExt.PI < -ratExt.PI + 1 / 10 ∧ -ratExt.PI + 1 / 10 ≤ ratExt.PI)
    ∧ (-ratExt.PI < 2 ∧ (2 : ℚ) ≤ ratExt.PI)
    ∧ yawTracking ratExt.PI 1 1 (1 / 10) 2 (-ratExt.PI + 1 / 10) = -ratExt.PI
    ∧ ¬ (-ratExt.PI < yawTracking ratExt.PI 1 1 (1 / 10) 2 (-ratExt.PI + 1 / 10)
          ∧ yawTracking ratExt.PI 1 1 (1 / 10) 2 (-ratExt.PI + 1 / 10) ≤ ratExt.PI) := by
  decide!

/-- C5 (amended): for `yaw_rate_ ≥ 0`, `tracker_dt_ > 0` and any gain, the yaw
step maps `state_yaw`, `goal_yaw` in the closed interval `[-PI, PI]` (so in
particular in `(-PI, PI]`) to a yaw in `[-PI, PI]`; hence the yaw stays in
`[-PI, PI]` along any sequence of goal yaws in that interval, and every tick of
LandoffTracker and of LineTracker keeps `state_yaw` in `[-PI, PI]`. -/
theorem yaw_stays_in_closed_range (PI yaw_gain_ yaw_rate_ tracker_dt_ : α)
    (hr : 0 ≤ yaw_rate_) (hdt : 0 < tracker_dt_) :
    (∀ goal_yaw state_yaw : α, InYawRange PI goal_yaw → InYawRange PI state_yaw →
        InYawRange PI (yawTracking PI yaw_gain_ yaw_rate_ tracker_dt_ goal_yaw state_yaw))
    ∧ (∀ (goals : List α) (state_yaw : α), (∀ x ∈ goals, InYawRange PI x) →
        InYawRange PI state_yaw →
        InYawRange PI (yawAfter PI yaw_gain_ yaw_rate_ tracker_dt_ goals state_yaw))
    ∧ (∀ (m : Ext α) (c : LandoffTracker.Config α) (s : LandoffTracker.State α),
        m.PI = PI → c.yaw_gain_ = yaw_gain_ → c.yaw_rate_ = yaw_rate_ →
        c.tracker_dt_ = tracker_dt_ → InYawRange PI s.goal_yaw → InYawRange PI s.state_yaw →
        InYawRange PI (LandoffTracker.mainTimer m c s).state_yaw)
    ∧ (∀ (m : Ext α) (c : LineTracker.Config α) (s : LineTracker.State α),
        m.PI = PI → c.yaw_gain_ = yaw_gain_ → c.yaw_rate_ = yaw_rate_ →
        c.tracker_dt_ = tracker_dt_ → InYawRange PI s.goal_yaw → InYawRange PI s.state_yaw →
        InYawRange PI (LineTracker.mainTimer m c s).state_yaw) := by
  refine ⟨?_, ?_, ?_, ?_⟩
  · intro goal_yaw state_yaw hg hs
    exact yawTracking_range PI yaw_gain_ yaw_rate_ tracker_dt_ goal_yaw state_yaw hr hdt hg hs
  · intro goals state_yaw hg hs
    exact yawAfter_range PI yaw_gain_ yaw_rate_ tracker_dt_ hr hdt goals state_yaw hg hs
  · intro m c s h1 h2 h3 h4 hg hs
    rw [LandoffTracker.mainTimer_state_yaw, h1, h2, h3, h4]
    split_ifs
    · exact yawTracking_range PI yaw_gain_ yaw_rate_ tracker_dt_ _ _ hr hdt hg hs
    · exact hs
  · intro m c s h1 h2 h3 h4 hg hs
    rw [LineTracker.line_mainTimer_state_yaw, h1, h2, h3, h4]
    split_ifs
    · exact yawTracking_range PI yaw_gain_ yaw_rate_ tracker_dt_ _ _ hr hdt hg hs
    · exact hs

/-- C5 (amended) at a concrete input: `PI = 3.14159265`, gain 1, rate 1,
`tracker_dt_ = 1/10`, `goal_yaw = 2`, `state_yaw = -PI + 1/10`. -/
theorem yaw_stays_in_closed_range_witness :
    InYawRange ratExt.PI (yawTracking ratExt.PI 1 1 (1 / 10) 2 (-ratExt.PI + 1 / 10)) :=
  (yaw_stays_in_closed_range ratExt.PI 1 1 (1 / 10) (by norm_num) (by norm_num)).1 2
    (-ratExt.PI + 1 / 10) (by norm_num [InYawRange, ratExt]) (by norm_num [InYawRange, ratExt])

end YawClaims

/-! ### The short way round from yaw 3 to yaw -3 -/

section ShortPath

variable {α : Type} [LinearOrderedField α]

/-- The yaw block is rate limiter, integration, re-wrap and snap in sequence. -/
theorem yawTracking_eq (PI g r dt goal s : α) :
    yawTracking PI g r dt goal s =
      snapYaw (r * dt) goal (wrapYaw PI (s + clampRate r
        (if |goal - s| > PI then -g * (goal - s) else g * (goal - s)) * dt)) := rfl

/-- Before the wrap: a yaw in `[3, PI]` advanced by `d` either stays in
`[3, PI]`, untouched by wrap and snap, or wraps into `(-PI, -3]`, where it is
`-3` or at least `2 * m` short of it. -/
theorem wrap_snap_before (PI m s d : α) (hPI1 : 31 / 10 ≤ PI)
    (h3 : 3 ≤ s) (hs : s ≤ PI) (hd : 0 < d) (hdm : d ≤ m) (hm : m ≤ 1 / 10) :
    (s + d ≤ PI ∧ snapYaw m (-3) (wrapYaw PI (s + d)) = s + d)
    ∨ (PI < s + d ∧ -PI < snapYaw m (-3) (wrapYaw PI (s + d))
        ∧ snapYaw m (-3) (wrapYaw PI (s + d)) ≤ -3
        ∧ (snapYaw m (-3) (wrapYaw PI (s + d)) = -3
          ∨ 2 * m ≤ -3 - snapYaw m (-3) (wrapYaw PI (s + d)))) := by
  by_cases h1 : s + d > PI
  · right
    have hw : wrapYaw PI (s + d) = s + d - 2 * PI := by unfold wrapYaw; rw [if_pos h1]
    rw [hw]
    have hneg : s + d - 2 * PI - -3 ≤ 0 := by linarith
    unfold snapYaw
    by_cases h2 : |s + d - 2 * PI - -3| < 2 * m
    · rw [if_pos h2]
      exact ⟨h1, by linarith, le_refl _, Or.inl rfl⟩
    · rw [if_neg h2]
      rw [abs_of_nonpos hneg, not_lt] at h2
      exact ⟨h1, by linarith, by linarith, Or.inr (by linarith)⟩
  · left
    have h1' : s + d ≤ PI := not_lt.mp h1
    have h2 : ¬ (s + d < -PI) := by rw [not_lt]; linarith
    have hw : wrapYaw PI (s + d) = s + d := by unfold wrapYaw; rw [if_neg h1, if_neg h2]
    have h3' : ¬ (|s + d - -3| < 2 * m) := by
      rw [abs_of_pos (by linarith), not_lt]; linarith
    rw [hw]
    unfold snapYaw
    rw [if_neg h3']
    exact ⟨h1', rfl⟩

/-- After the wrap: a yaw in `(-PI, -3]` advanced by `0 ≤ d ≤ m` is snapped to
`-3` or becomes `s + d`, still at least `2 * m` short of `-3`. -/
theorem wrap_snap_after (PI m s d : α)
    (h1 : -PI < s) (h2 : s ≤ -3) (hd : 0 ≤ d) (hdm : d ≤ m) (hm : m ≤ 1 / 10) :
    snapYaw m (-3) (wrapYaw PI (s + d)) = -3
    ∨ (snapYaw m (-3) (wrapYaw PI (s + d)) = s + d ∧ 2 * m ≤ -3 - (s + d)) := by
  have c1 : ¬ (s + d > PI) := by rw [not_lt]; linarith
  have c2 : ¬ (s + d < -PI) := by rw [not_lt]; linarith
  have hw : wrapYaw PI (s + d) = s + d := by unfold wrapYaw; rw [if_neg c1, if_neg c2]
  rw [hw]
  unfold snapYaw
  by_cases h : |s + d - -3| < 2 * m
  · left; rw [if_pos h]
  · right
    rw [if_neg h]
    rw [abs_lt, not_and_or, not_lt, not_lt] at h
    refine ⟨rfl, ?_⟩
    rcases h with h | h <;> linarith

/-- Before the wrap the commanded rate is positive: at least `min (6 g) r`. -/
theorem rate_before (PI g r s : α) (hPI2 : PI < 6) (hg : 0 < g) (h3 : 3 ≤ s) :
    min (6 * g) r ≤ clampRate r (if |(-3) - s| > PI then -g * ((-3) - s) else g * ((-3) - s))
    ∧ clampRate r (if |(-3) - s| > PI then -g * ((-3) - s) else g * ((-3) - s)) ≤ r := by
  have habs : |(-3) - s| > PI := by
    rw [abs_of_neg (by linarith)]; linarith
  rw [if_pos habs]
  have hpos : 6 * g ≤ -g * (-3 - s) := by nlinarith
  unfold clampRate
  by_cases c1 : -g * (-3 - s) > r
  · rw [if_pos c1]; exact ⟨min_le_right _ _, le_refl _⟩
  · have c2 : ¬ (-g * (-3 - s) < -r) := by rw [not_lt]; linarith
    rw [if_neg c1, if_neg c2]
    exact ⟨le_trans (min_le_left _ _) hpos, not_lt.mp c1⟩

/-- After the wrap the commanded rate is `min (g e) r` for the remaining error
`e = -3 - s ≥ 0`. -/
theorem rate_after (PI g r s : α) (hg : 0 < g) (hr : 0 < r)
    (h1 : -PI < s) (h2 : s ≤ -3) :
    clampRate r (if |(-3) - s| > PI then -g * ((-3) - s) else g * ((-3) - s))
      = min (g * (-3 - s)) r := by
  have habs : ¬ (|(-3) - s| > PI) := by
    rw [not_lt, abs_of_nonneg (by linarith)]; linarith
  rw [if_neg habs]
  have hpos : 0 ≤ g * (-3 - s) := mul_nonneg hg.le (by linarith)
  unfold clampRate
  by_cases c1 : g * (-3 - s) > r
  · rw [if_pos c1, min_eq_right (le_of_lt c1)]
  · have c2 : ¬ (g * (-3 - s) < -r) := by rw [not_lt]; linarith
    rw [if_neg c1, if_neg c2, min_eq_left (not_lt.mp c1)]


/-- One step before the wrap: the yaw advances by at least
`min (6 g) r * dt` inside `[3, PI]`, or wraps into `(-PI, -3]`. -/
theorem yawTracking_before (PI g r dt s : α) (hPI1 : 31 / 10 ≤ PI) (hPI2 : PI < 6)
    (hg : 0 < g) (hr : 0 < r) (hdt : 0 < dt) (hm : r * dt ≤ 1 / 10)
    (h3 : 3 ≤ s) (hs : s ≤ PI) :
    (s + min (6 * g) r * dt ≤ yawTracking PI g r dt (-3) s
        ∧ yawTracking PI g r dt (-3) s ≤ PI)
    ∨ (-PI < yawTracking PI g r dt (-3) s ∧ yawTracking PI g r dt (-3) s ≤ -3
        ∧ (yawTracking PI g r dt (-3) s = -3
          ∨ 2 * (r * dt) ≤ -3 - yawTracking PI g r dt (-3) s)) := by
  rw [yawTracking_eq]
  obtain ⟨b1, b2⟩ := rate_before PI g r s hPI2 hg h3
  have hmin : 0 < min (6 * g) r := lt_min (by linarith) hr
  have d1 : min (6 * g) r * dt ≤ clampRate r
      (if |(-3) - s| > PI then -g * ((-3) - s) else g * ((-3) - s)) * dt :=
    mul_le_mul_of_nonneg_right b1 hdt.le
  have d2 : clampRate r
      (if |(-3) - s| > PI then -g * ((-3) - s) else g * ((-3) - s)) * dt ≤ r * dt :=
    mul_le_mul_of_nonneg_right b2 hdt.le
  have d0 : 0 < clampRate r
      (if |(-3) - s| > PI then -g * ((-3) - s) else g * ((-3) - s)) * dt :=
    lt_of_lt_of_le (mul_pos hmin hdt) d1
  rcases wrap_snap_before PI (r * dt) s _ hPI1 h3 hs d0 d2 hm with
    ⟨w1, w2⟩ | ⟨_, w2, w3, w4⟩
  · left
    rw [w2]
    exact ⟨by linarith, w1⟩
  · right
    exact ⟨w2, w3, w4⟩

/-- One step after the wrap: the yaw is snapped to `-3`, or advances by at least
`min (g * (2 r dt)) r * dt` and stays at least `2 r dt` short of `-3`. -/
theorem yawTracking_after (PI g r dt s : α)
    (hg : 0 < g) (hr : 0 < r) (hdt : 0 < dt) (hm : r * dt ≤ 1 / 10)
    (h1 : -PI < s) (h2 : s ≤ -3) (hq : s = -3 ∨ 2 * (r * dt) ≤ -3 - s) :
    yawTracking PI g r dt (-3) s = -3
    ∨ (s + min (g * (2 * (r * dt))) r * dt ≤ yawTracking PI g r dt (-3) s
        ∧ -PI < yawTracking PI g r dt (-3) s
        ∧ yawTracking PI g r dt (-3) s ≤ -3
        ∧ 2 * (r * dt) ≤ -3 - yawTracking PI g r dt (-3) s) := by
  rw [yawTracking_eq, rate_after PI g r s hg hr h1 h2]
  have hm0 : 0 < r * dt := mul_pos hr hdt
  have e0 : 0 ≤ g * (-3 - s) := mul_nonneg hg.le (by linarith)
  have d0 : 0 ≤ min (g * (-3 - s)) r * dt := mul_nonneg (le_min e0 hr.le) hdt.le
  have d2 : min (g * (-3 - s)) r * dt ≤ r * dt :=
    mul_le_mul_of_nonneg_right (min_le_right _ _) hdt.le
  rcases wrap_snap_after PI (r * dt) s _ h1 h2 d0 d2 hm with w | ⟨w1, w2⟩
  · left; exact w
  · right
    rw [w1]
    have hq' : 2 * (r * dt) ≤ -3 - s := by
      rcases hq with hq | hq
      · rw [hq] at w2 e0 ⊢
        have : min (g * (-3 - -3)) r * dt = 0 := by
          rw [sub_self, mul_zero, min_eq_left hr.le, zero_mul]
        rw [this] at w2
        linarith
      · exact hq
    have hd : min (g * (2 * (r * dt))) r * dt ≤ min (g * (-3 - s)) r * dt := by
      apply mul_le_mul_of_nonneg_right _ hdt.le
      exact min_le_min (mul_le_mul_of_nonneg_left hq' hg.le) (le_refl _)
    exact ⟨by linarith, by linarith, by linarith, w2⟩


/-- The goal yaw `-3` is a fixed point of the yaw step. -/
theorem yawTracking_fixed (PI g r dt : α) (hPI1 : 31 / 10 ≤ PI)
    (hg : 0 < g) (hr : 0 < r) (hdt : 0 < dt) (hm : r * dt ≤ 1 / 10) :
    yawTracking PI g r dt (-3) (-3) = -3 := by
  have hm0 : 0 < r * dt := mul_pos hr hdt
  have hd : 0 < min (g * (2 * (r * dt))) r * dt :=
    mul_pos (lt_min (mul_pos hg (by linarith)) hr) hdt
  rcases yawTracking_after PI g r dt (-3) hg hr hdt hm (by linarith) (le_refl _)
    (Or.inl rfl) with h | ⟨h1, _, h3, _⟩
  · exact h
  · linarith

/-- Unfolding of one more step of `yawFrom3`. -/
theorem yawFrom3_succ (PI g r dt : α) (n : ℕ) :
    yawFrom3 PI g r dt (n + 1) = yawTracking PI g r dt (-3) (yawFrom3 PI g r dt n) := by
  unfold yawFrom3
  rw [Function.iterate_succ_apply']

/-- C6: from `state_yaw = 3` with `goal_yaw = -3`, for every gain `> 0`, rate
limit `> 0` and period `> 0` with `yaw_rate_ * tracker_dt_ ≤ 1/10` (and `PI`
between 3.1 and 6): the yaw rises strictly inside `[3, PI]` for the first
`k` values, every later value lies in `(-PI, -3]`, no value lies in `(-3, 3)`,
and from some tick `N` on the yaw is exactly `-3`. -/
theorem yaw_short_path [Archimedean α] (PI g r dt : α) (hPI1 : 31 / 10 ≤ PI) (hPI2 : PI < 6)
    (hg : 0 < g) (hr : 0 < r) (hdt : 0 < dt) (hm : r * dt ≤ 1 / 10) :
    ∃ k N : ℕ, 0 < k ∧ k ≤ N
      ∧ (∀ i, i < k → 3 ≤ yawFrom3 PI g r dt i ∧ yawFrom3 PI g r dt i ≤ PI)
      ∧ (∀ i, i + 1 < k → yawFrom3 PI g r dt i < yawFrom3 PI g r dt (i + 1))
      ∧ (∀ i, k ≤ i → -PI < yawFrom3 PI g r dt i ∧ yawFrom3 PI g r dt i ≤ -3)
      ∧ (∀ n, N ≤ n → yawFrom3 PI g r dt n = -3)
      ∧ (∀ n, ¬ (-3 < yawFrom3 PI g r dt n ∧ yawFrom3 PI g r dt n < 3)) := by
  have hm0 : 0 < r * dt := mul_pos hr hdt
  have hδ1 : 0 < min (6 * g) r * dt := mul_pos (lt_min (by linarith) hr) hdt
  have hδ2 : 0 < min (g * (2 * (r * dt))) r * dt :=
    mul_pos (lt_min (mul_pos hg (by linarith)) hr) hdt
  -- phase 1 cannot last for ever
  have hgrow : ∀ n : ℕ,
      (∀ i, i ≤ n → 3 ≤ yawFrom3 PI g r dt i ∧ yawFrom3 PI g r dt i ≤ PI) →
      3 + (n : α) * (min (6 * g) r * dt) ≤ yawFrom3 PI g r dt n := by
    intro n
    induction n with
    | zero => intro _; simp [yawFrom3]
    | succ n ih =>
      intro hall
      have ihn := ih (fun i hi => hall i (Nat.le_succ_of_le hi))
      obtain ⟨a1, a2⟩ := hall n (Nat.le_succ n)
      obtain ⟨b1, _⟩ := hall (n + 1) (le_refl _)
      rw [yawFrom3_succ] at b1 ⊢
      rcases yawTracking_before PI g r dt _ hPI1 hPI2 hg hr hdt hm a1 a2 with
        ⟨c1, _⟩ | ⟨_, c2, _⟩
      · push_cast
        linarith
      · linarith
  have hexit : ∃ n, ¬ (3 ≤ yawFrom3 PI g r dt n ∧ yawFrom3 PI g r dt n ≤ PI) := by
    by_contra hcon
    push_neg at hcon
    obtain ⟨n, hn⟩ := exists_nat_gt ((PI - 3) / (min (6 * g) r * dt))
    rw [div_lt_iff₀ hδ1] at hn
    have := hgrow n (fun i _ => ⟨(hcon i).1, (hcon i).2⟩)
    have := (hcon n).2
    linarith
  classical
  let k := Nat.find hexit
  have hk : ¬ (3 ≤ yawFrom3 PI g r dt k ∧ yawFrom3 PI g r dt k ≤ PI) := Nat.find_spec hexit
  have hbefore : ∀ i, i < k → 3 ≤ yawFrom3 PI g r dt i ∧ yawFrom3 PI g r dt i ≤ PI := by
    intro i hi
    have := Nat.find_min hexit hi
    exact not_not.mp this
  have hk0 : 0 < k := by
    rcases Nat.eq_zero_or_pos k with h0 | h0
    · exfalso
      apply hk
      rw [h0]
      simp only [yawFrom3, Function.iterate_zero, id_eq]
      exact ⟨le_refl _, by linarith⟩
    · exact h0
  -- the invariant after the wrap
  have hinv : ∀ j, -PI < yawFrom3 PI g r dt (k + j) ∧ yawFrom3 PI g r dt (k + j) ≤ -3
      ∧ (yawFrom3 PI g r dt (k + j) = -3
        ∨ 2 * (r * dt) ≤ -3 - yawFrom3 PI g r dt (k + j)) := by
    intro j
    induction j with
    | zero =>
      obtain ⟨k', hk'⟩ := Nat.exists_eq_succ_of_ne_zero (Nat.pos_iff_ne_zero.mp hk0)
      obtain ⟨a1, a2⟩ := hbefore k' (by omega)
      rw [Nat.add_zero]
      rw [hk'] at hk ⊢
      rw [Nat.succ_eq_add_one, yawFrom3_succ] at hk ⊢
      rcases yawTracking_before PI g r dt _ hPI1 hPI2 hg hr hdt hm a1 a2 with
        ⟨c1, c2⟩ | c
      · exfalso; exact hk ⟨by linarith, c2⟩
      · exact c
    | succ j ih =>
      obtain ⟨a1, a2, a3⟩ := ih
      rw [← Nat.add_assoc, yawFrom3_succ]
      rcases yawTracking_after PI g r dt _ hg hr hdt hm a1 a2 a3 with c | ⟨_, c2, c3, c4⟩
      · rw [c]; exact ⟨by linarith, le_refl _, Or.inl rfl⟩
      · exact ⟨c2, c3, Or.inr c4⟩
  -- the approach to -3 cannot last for ever
  have happroach : ∀ j : ℕ, (∃ i, i ≤ j ∧ yawFrom3 PI g r dt (k + i) = -3)
      ∨ yawFrom3 PI g r dt k + (j : α) * (min (g * (2 * (r * dt))) r * dt)
          ≤ yawFrom3 PI g r dt (k + j) := by
    intro j
    induction j with
    | zero => right; simp
    | succ j ih =>
      rcases ih with ⟨i, hi, hi'⟩ | ih
      · left; exact ⟨i, Nat.le_succ_of_le hi, hi'⟩
      · obtain ⟨a1, a2, a3⟩ := hinv j
        rcases yawTracking_after PI g r dt _ hg hr hdt hm a1 a2 a3 with c | ⟨c1, _⟩
        · left
          refine ⟨j + 1, le_refl _, ?_⟩
          rw [← Nat.add_assoc, yawFrom3_succ]
          exact c
        · right
          rw [← Nat.add_assoc, yawFrom3_succ]
          push_cast
          linarith
  obtain ⟨j, hj⟩ := exists_nat_gt ((PI - 3) / (min (g * (2 * (r * dt))) r * dt))
  rw [div_lt_iff₀ hδ2] at hj
  have hreach : ∃ i, yawFrom3 PI g r dt (k + i) = -3 := by
    rcases happroach j with ⟨i, _, hi⟩ | h
    · exact ⟨i, hi⟩
    · exfalso
      have h0 := (hinv 0).1
      have hj2 := (hinv j).2.1
      rw [Nat.add_zero] at h0
      linarith
  obtain ⟨i0, hi0⟩ := hreach
  have hstay : ∀ n, yawFrom3 PI g r dt (k + i0 + n) = -3 := by
    intro n
    induction n with
    | zero => exact hi0
    | succ n ih =>
      rw [← Nat.add_assoc, yawFrom3_succ, ih]
      exact yawTracking_fixed PI g r dt hPI1 hg hr hdt hm
  refine ⟨k, k + i0, hk0, Nat.le_add_right _ _, hbefore, ?_, ?_, ?_, ?_⟩
  · intro i hi
    obtain ⟨a1, a2⟩ := hbefore i (by omega)
    obtain ⟨b1, _⟩ := hbefore (i + 1) hi
    rw [yawFrom3_succ] at b1 ⊢
    rcases yawTracking_before PI g r dt _ hPI1 hPI2 hg hr hdt hm a1 a2 with
      ⟨c1, _⟩ | ⟨_, c2, _⟩
    · linarith
    · linarith
  · intro i hi
    obtain ⟨j, rfl⟩ := Nat.exists_eq_add_of_le hi
    exact ⟨(hinv j).1, (hinv j).2.1⟩
  · intro n hn
    obtain ⟨j, rfl⟩ := Nat.exists_eq_add_of_le hn
    exact hstay j
  · intro n hcon
    rcases Nat.lt_or_ge n k with h | h
    · have := (hbefore n h).1
      linarith
    · obtain ⟨j, rfl⟩ := Nat.exists_eq_add_of_le h
      have := (hinv j).2.1
      linarith


/-- C6 at a concrete input: `PI = 3.14159265`, gain 1, rate limit 1,
`tracker_dt_ = 1/10`. -/
theorem yaw_short_path_witness :
    ∃ k N : ℕ, 0 < k ∧ k ≤ N
      ∧ (∀ i, i < k → 3 ≤ yawFrom3 ratExt.PI 1 1 (1 / 10) i
          ∧ yawFrom3 ratExt.PI 1 1 (1 / 10) i ≤ ratExt.PI)
      ∧ (∀ i, i + 1 < k →
          yawFrom3 ratExt.PI 1 1 (1 / 10) i < yawFrom3 ratExt.PI 1 1 (1 / 10) (i + 1))
      ∧ (∀ i, k ≤ i → -ratExt.PI < yawFrom3 ratExt.PI 1 1 (1 / 10) i
          ∧ yawFrom3 ratExt.PI 1 1 (1 / 10) i ≤ -3)
      ∧ (∀ n, N ≤ n → yawFrom3 ratExt.PI 1 1 (1 / 10) n = -3)
      ∧ (∀ n, ¬ (-3 < yawFrom3 ratExt.PI 1 1 (1 / 10) n
          ∧ yawFrom3 ratExt.PI 1 1 (1 / 10) n < 3)) :=
  yaw_short_path ratExt.PI 1 1 (1 / 10) (by norm_num [ratExt]) (by norm_num [ratExt])
    (by norm_num) (by norm_num) (by norm_num) (by norm_num)

end ShortPath

/-! ### LandoffTracker: band selection and takeoff (C7, C9, C10) -/

namespace LandoffTracker

open States_t

variable {α : Type} [LinearOrderedField α]

/-- C7 as stated fails: with `landing_fast_height` not supplied the loaded value
is `L = -1`, which passes the parameter checks; while landing at measured height
`h = -3/2`, so that `h ≤ L`, the pair used is the nominal one (because
`h > 2 L`), not the landing pair. -/
theorem landing_band_not_selected_below_negative_threshold :
    configError (loadParams paramsWithoutFastHeight) = false
    ∧ (loadParams paramsWithoutFastHeight).landing_fast_height_ = -1
    ∧ landingBelowOrigin.taking_off = false ∧ landingBelowOrigin.landing = true
    ∧ landingBelowOrigin.odometry_z ≤ (loadParams paramsWithoutFastHeight).landing_fast_height_
    ∧ usedSpeedAcceleration (loadParams paramsWithoutFastHeight) landingBelowOrigin
        = ((loadParams paramsWithoutFastHeight).vertical_speed_,
            (loadParams paramsWithoutFastHeight).vertical_acceleration_)
    ∧ usedSpeedAcceleration (loadParams paramsWithoutFastHeight) landingBelowOrigin
        ≠ ((loadParams paramsWithoutFastHeight).landing_speed_,
            (loadParams paramsWithoutFastHeight).landing_acceleration_) := by
  decide!

/-- C7 (amended): the `(used_speed, used_acceleration)` pair of
`accelerateVertical` is the takeoff pair when taking off; otherwise, when
landing, the nominal pair above `2 * landing_fast_height_`, half the nominal
pair in the band `landing_fast_height_ < h ≤ 2 * landing_fast_height_`, the
landing pair when `h ≤ landing_fast_height_` and `h ≤ 2 * landing_fast_height_`
(the second follows from the first when `landing_fast_height_ ≥ 0`); otherwise
the nominal pair.  With `landing_fast_height_ = 1` while landing, heights 3, 3/2
and 1/2 select the full, half and landing speed. -/
theorem usedSpeedAcceleration_bands (c : Config α) (s : State α) :
    (s.taking_off = true →
        usedSpeedAcceleration c s = (c.takeoff_speed_, c.takeoff_acceleration_))
    ∧ (s.taking_off = false → s.landing = true → s.odometry_z > 2 * c.landing_fast_height_ →
        usedSpeedAcceleration c s = (c.vertical_speed_, c.vertical_acceleration_))
    ∧ (s.taking_off = false → s.landing = true → c.landing_fast_height_ < s.odometry_z →
        s.odometry_z ≤ 2 * c.landing_fast_height_ →
        usedSpeedAcceleration c s = (c.vertical_speed_ / 2, c.vertical_acceleration_ / 2))
    ∧ (s.taking_off = false → s.landing = true → s.odometry_z ≤ c.landing_fast_height_ →
        s.odometry_z ≤ 2 * c.landing_fast_height_ →
        usedSpeedAcceleration c s = (c.landing_speed_, c.landing_acceleration_))
    ∧ (s.taking_off = false → s.landing = true → 0 ≤ c.landing_fast_height_ →
        s.odometry_z ≤ c.landing_fast_height_ →
        usedSpeedAcceleration c s = (c.landing_speed_, c.landing_acceleration_))
    ∧ (s.taking_off = false → s.landing = false →
        usedSpeedAcceleration c s = (c.vertical_speed_, c.vertical_acceleration_))
    ∧ (s.taking_off = false → s.landing = true → c.landing_fast_height_ = 1 →
        (s.odometry_z = 3 → (usedSpeedAcceleration c s).1 = c.vertical_speed_)
        ∧ (s.odometry_z = 3 / 2 → (usedSpeedAcceleration c s).1 = c.vertical_speed_ / 2)
        ∧ (s.odometry_z = 1 / 2 → (usedSpeedAcceleration c s).1 = c.landing_speed_)) := by
  refine ⟨?_, ?_, ?_, ?_, ?_, ?_, ?_⟩
  · intro h; simp [usedSpeedAcceleration, h]
  · intro h1 h2 h3; simp [usedSpeedAcceleration, h1, h2, h3]
  · intro h1 h2 h3 h4; simp [usedSpeedAcceleration, h1, h2, h3, not_lt.mpr h4]
  · intro h1 h2 h3 h4
    simp [usedSpeedAcceleration, h1, h2, not_lt.mpr h3, not_lt.mpr h4]
  · intro h1 h2 h0 h3
    have h4 : ¬ (2 * c.landing_fast_height_ < s.odometry_z) := by rw [not_lt]; linarith
    simp [usedSpeedAcceleration, h1, h2, not_lt.mpr h3, h4]
  · intro h1 h2; simp [usedSpeedAcceleration, h1, h2]
  · intro h1 h2 h3
    refine ⟨?_, ?_, ?_⟩ <;> intro h4 <;> norm_num [usedSpeedAcceleration, h1, h2, h3, h4]

/-- C7 (amended) at a concrete input: `landing_fast_height_ = 1`, landing at
measured height `3/2` uses half of the nominal speed. -/
theorem usedSpeedAcceleration_bands_witness :
    (usedSpeedAcceleration sampleConfig landingMidBand).1 = sampleConfig.vertical_speed_ / 2 :=
  (usedSpeedAcceleration_bands sampleConfig landingMidBand).2.2.2.2.2.2 rfl rfl rfl
    |>.2.1 rfl

/-- C9: `callbackTakeoff` reports failure exactly when the tracker is not
active, or callbacks are disabled, or `odometry_z > landed_threshold_height_`;
and whenever it reports failure the whole tracker state is unchanged. -/
theorem callbackTakeoff_failure_iff (c : Config α) (s : State α) :
    ((callbackTakeoff c s).2.success = false ↔
        (s.is_active = false ∨ s.callbacks_enabled = false
          ∨ s.odometry_z > c.landed_threshold_height_))
    ∧ ((callbackTakeoff c s).2.success = false → (callbackTakeoff c s).1 = s) := by
  unfold callbackTakeoff
  by_cases h1 : s.is_active = true
  · by_cases h2 : s.callbacks_enabled = true
    · by_cases h3 : s.odometry_z > c.landed_threshold_height_
      · simp [h1, h2, h3]
      · simp [h1, h2, h3]
    · simp [h1, h2]
  · simp [h1]

/-- C9 at a concrete input: an active tracker with callbacks enabled at measured
height 3, above the landed threshold `1/2`, is refused and left unchanged. -/
theorem callbackTakeoff_failure_iff_witness :
    (callbackTakeoff sampleConfig { groundedActive with odometry_z := 3 }).1
      = { groundedActive with odometry_z := 3 } :=
  (callbackTakeoff_failure_iff sampleConfig { groundedActive with odometry_z := 3 }).2
    (by norm_num [callbackTakeoff, groundedActive, sampleConfig, zeroMem])

/-- C10: when the tracker is active, callbacks are enabled and
`odometry_z ≤ landed_threshold_height_`, `callbackTakeoff` reports success and
leaves `goal = (odometry_x, odometry_y, takeoff_height_)`, `goal_yaw =
odometry_yaw`, `taking_off = true`, `landing = false`, `have_goal = true` and
both axes in `ACCELERATING_STATE`. -/
theorem callbackTakeoff_success (c : Config α) (s : State α)
    (hactive : s.is_active = true) (hcb : s.callbacks_enabled = true)
    (hz : s.odometry_z ≤ c.landed_threshold_height_) :
    (callbackTakeoff c s).2.success = true
    ∧ (callbackTakeoff c s).1.goal_x = s.odometry_x
    ∧ (callbackTakeoff c s).1.goal_y = s.odometry_y
    ∧ (callbackTakeoff c s).1.goal_z = c.takeoff_height_
    ∧ (callbackTakeoff c s).1.goal_yaw = s.odometry_yaw
    ∧ (callbackTakeoff c s).1.taking_off = true
    ∧ (callbackTakeoff c s).1.landing = false
    ∧ (callbackTakeoff c s).1.have_goal = true
    ∧ (callbackTakeoff c s).1.current_state_horizontal = ACCELERATING_STATE
    ∧ (callbackTakeoff c s).1.current_state_vertical = ACCELERATING_STATE := by
  simp [callbackTakeoff, hactive, hcb, not_lt.mpr hz, changeState, changeStateHorizontal,
    changeStateVertical]

/-- C10 at a concrete input: the grounded active tracker measured at
`(1, 2, 1/4)` with yaw `1/3`, landed threshold `1/2`, takeoff height 2. -/
theorem callbackTakeoff_success_witness :
    (callbackTakeoff sampleConfig groundedActive).2.success = true
    ∧ (callbackTakeoff sampleConfig groundedActive).1.goal_x = 1
    ∧ (callbackTakeoff sampleConfig groundedActive).1.goal_y = 2
    ∧ (callbackTakeoff sampleConfig groundedActive).1.goal_z = 2
    ∧ (callbackTakeoff sampleConfig groundedActive).1.goal_yaw = 1 / 3
    ∧ (callbackTakeoff sampleConfig groundedActive).1.taking_off = true
    ∧ (callbackTakeoff sampleConfig groundedActive).1.landing = false
    ∧ (callbackTakeoff sampleConfig groundedActive).1.have_goal = true
    ∧ (callbackTakeoff sampleConfig groundedActive).1.current_state_horizontal
        = ACCELERATING_STATE
    ∧ (callbackTakeoff sampleConfig groundedActive).1.current_state_vertical
        = ACCELERATING_STATE :=
  callbackTakeoff_success sampleConfig groundedActive rfl rfl
    (by norm_num [sampleConfig, groundedActive, zeroMem])

end LandoffTracker

/-! ### LandoffTracker: the land request (C11 to C13) -/

namespace LandoffTracker

open States_t

variable {α : Type} [LinearOrderedField α]

/-- `callbackLand` on an inactive or grounded tracker, field by field. -/
theorem callbackLand_grounded_eq (c : Config α) (s : State α)
    (h : s.is_active = false ∨ s.odometry_z < c.landed_threshold_height_) :
    callbackLand c s =
      ({ s with taking_off := false, landing := false,
                previous_state_vertical := s.current_state_vertical,
                current_state_vertical := LANDED_STATE,
                previous_state_horizontal := s.current_state_horizontal,
                current_state_horizontal := LANDED_STATE }, { success := false }) := by
  unfold callbackLand changeState changeStateHorizontal changeStateVertical
  by_cases ha : s.is_active = true
  · have hz : s.odometry_z < c.landed_threshold_height_ := by
      rcases h with h | h
      · rw [ha] at h; exact absurd h (by simp)
      · exact h
    simp [ha, hz]
  · simp [ha]

/-- C11: when the tracker is not active or `odometry_z <
landed_threshold_height_`, `callbackLand` leaves both axes in `LANDED_STATE` and
both mode flags clear, and leaves the goal (x, y, z, yaw, `have_goal`) and the
trajectory state unchanged; the situation persists (`is_active` and
`odometry_z` are kept), and a second call leaves the axes, the flags, the goal
and the trajectory state as the first call left them. -/
theorem callbackLand_grounded (c : Config α) (s : State α)
    (h : s.is_active = false ∨ s.odometry_z < c.landed_threshold_height_) :
    (callbackLand c s).1.current_state_horizontal = LANDED_STATE
    ∧ (callbackLand c s).1.current_state_vertical = LANDED_STATE
    ∧ (callbackLand c s).1.taking_off = false
    ∧ (callbackLand c s).1.landing = false
    ∧ (callbackLand c s).1.goal = s.goal
    ∧ (callbackLand c s).1.trajectory = s.trajectory
    ∧ (callbackLand c s).1.is_active = s.is_active
    ∧ (callbackLand c s).1.odometry_z = s.odometry_z
    ∧ (callbackLand c (callbackLand c s).1).1.current_state_horizontal = LANDED_STATE
    ∧ (callbackLand c (callbackLand c s).1).1.current_state_vertical = LANDED_STATE
    ∧ (callbackLand c (callbackLand c s).1).1.taking_off = false
    ∧ (callbackLand c (callbackLand c s).1).1.landing = false
    ∧ (callbackLand c (callbackLand c s).1).1.goal = (callbackLand c s).1.goal
    ∧ (callbackLand c (callbackLand c s).1).1.trajectory = (callbackLand c s).1.trajectory := by
  have e1 := callbackLand_grounded_eq c s h
  have h' : (callbackLand c s).1.is_active = false
      ∨ (callbackLand c s).1.odometry_z < c.landed_threshold_height_ := by
    rw [e1]; exact h
  have e2 := callbackLand_grounded_eq c _ h'
  rw [e2, e1]
  simp [State.goal, State.trajectory]

/-- C11 at a concrete input: the active tracker measured at height `1/4`, below
the landed threshold `1/2`, keeps its goal and trajectory state through the
call. -/
theorem callbackLand_grounded_witness :
    groundedActive.odometry_z < sampleConfig.landed_threshold_height_
    ∧ (callbackLand sampleConfig groundedActive).1.current_state_vertical = LANDED_STATE
    ∧ (callbackLand sampleConfig groundedActive).1.goal = groundedActive.goal
    ∧ (callbackLand sampleConfig groundedActive).1.trajectory = groundedActive.trajectory :=
  ⟨by decide!,
    (callbackLand_grounded sampleConfig groundedActive (Or.inr (by decide!))).2.1,
    (callbackLand_grounded sampleConfig groundedActive (Or.inr (by decide!))).2.2.2.2.1,
    (callbackLand_grounded sampleConfig groundedActive (Or.inr (by decide!))).2.2.2.2.2.1⟩

/-- The claim C12 fails at two concrete inputs: on the fresh (inactive) tracker
and on the active tracker measured at `1/4`, below the landed threshold `1/2`,
`callbackLand` answers `success = false`. -/
theorem callbackLand_reports_failure :
    freshState.is_active = false
    ∧ (callbackLand sampleConfig freshState).2.success = false
    ∧ groundedActive.is_active = true
    ∧ groundedActive.odometry_z < sampleConfig.landed_threshold_height_
    ∧ (callbackLand sampleConfig groundedActive).2.success = false := by
  decide!

/-- C12, amended: `callbackLand` answers `success = false` exactly when the
tracker is not active or `odometry_z < landed_threshold_height_`, and
`success = true` exactly when it is active with `odometry_z ≥
landed_threshold_height_`; whenever it answers `false`, both axes are left in
`LANDED_STATE`. -/
theorem callbackLand_success_iff (c : Config α) (s : State α) :
    ((callbackLand c s).2.success = false ↔
        (s.is_active = false ∨ s.odometry_z < c.landed_threshold_height_))
    ∧ ((callbackLand c s).2.success = true ↔
        (s.is_active = true ∧ c.landed_threshold_height_ ≤ s.odometry_z))
    ∧ ((callbackLand c s).2.success = false →
        (callbackLand c s).1.current_state_horizontal = LANDED_STATE
        ∧ (callbackLand c s).1.current_state_vertical = LANDED_STATE) := by
  unfold callbackLand changeState changeStateHorizontal changeStateVertical
  by_cases ha : s.is_active = true
  · by_cases hz : s.odometry_z < c.landed_threshold_height_
    · simp [ha, hz]
    · simp [ha, hz, not_lt.mp hz]
  · simp [ha]

/-- C12 (amended) at a concrete input: the active tracker measured at height 3
is answered `success = true`. -/
theorem callbackLand_success_iff_witness :
    (callbackLand sampleConfig airborneActive).2.success = true :=
  (callbackLand_success_iff sampleConfig airborneActive).2.1.mpr ⟨by decide!, by decide!⟩

/-- C13: when the tracker is active and `odometry_z ≥ landed_threshold_height_`,
`callbackLand` sets `goal_z = landing_height_`, `landing = true`, `taking_off =
false`, `have_goal = true`, puts both axes in `STOP_MOTION_STATE`, and leaves
`goal_x`, `goal_y`, `goal_yaw` and the trajectory state unchanged. -/
theorem callbackLand_airborne (c : Config α) (s : State α)
    (ha : s.is_active = true) (hz : c.landed_threshold_height_ ≤ s.odometry_z) :
    (callbackLand c s).1.goal_z = c.landing_height_
    ∧ (callbackLand c s).1.landing = true
    ∧ (callbackLand c s).1.taking_off = false
    ∧ (callbackLand c s).1.have_goal = true
    ∧ (callbackLand c s).1.current_state_horizontal = STOP_MOTION_STATE
    ∧ (callbackLand c s).1.current_state_vertical = STOP_MOTION_STATE
    ∧ (callbackLand c s).1.goal_x = s.goal_x
    ∧ (callbackLand c s).1.goal_y = s.goal_y
    ∧ (callbackLand c s).1.goal_yaw = s.goal_yaw
    ∧ (callbackLand c s).1.trajectory = s.trajectory := by
  unfold callbackLand changeState changeStateHorizontal changeStateVertical
  simp [ha, not_lt.mpr hz, State.trajectory]

/-- C13 at a concrete input: the active tracker measured at height 3, landing
height `0`. -/
theorem callbackLand_airborne_witness :
    (callbackLand sampleConfig airborneActive).1.goal_z = 0
    ∧ (callbackLand sampleConfig airborneActive).1.landing = true
    ∧ (callbackLand sampleConfig airborneActive).1.current_state_vertical
        = STOP_MOTION_STATE :=
  ⟨(callbackLand_airborne sampleConfig airborneActive (by decide!) (by decide!)).1,
    (callbackLand_airborne sampleConfig airborneActive (by decide!) (by decide!)).2.1,
    (callbackLand_airborne sampleConfig airborneActive (by decide!) (by decide!)).2.2.2.2.2.1⟩

end LandoffTracker

/-! ### LandoffTracker: what `activate` seeds (C15, C16) and the stopping distance (C19) -/

namespace LandoffTracker

open States_t

variable {α : Type} [LinearOrderedField α]

/-- `activate` without a measurement returns `false` and changes nothing. -/
theorem activate_without_odometry (m : Ext α) (c : Config α)
    (cmd : Option (PositionCommand α)) (s : State α) (h : s.got_odometry = false) :
    activate m c cmd s = (s, false) := by
  unfold activate
  simp [h]

/-- `activate` without a usable previous command (none supplied, or the
measured height is below the landed threshold), field by field. -/
theorem activate_from_odometry_eq (m : Ext α) (c : Config α)
    (cmd : Option (PositionCommand α)) (s : State α) (hgot : s.got_odometry = true)
    (h : cmd = none ∨ s.odometry_z < c.landed_threshold_height_) :
    activate m c cmd s =
      ({ s with
          state_x := s.odometry.position_x, state_y := s.odometry.position_y,
          state_z := s.odometry.position_z, state_yaw := s.odometry_yaw,
          speed_x := 0, speed_y := 0, current_heading := 0, current_horizontal_speed := 0,
          current_vertical_speed := s.odometry.twist_linear_z,
          goal_yaw := s.odometry_yaw,
          goal_x := s.odometry.position_x + m.cos 0 * ((0 / c.horizontal_acceleration_ * 0) / 2),
          goal_y := s.odometry.position_y + m.sin 0 * ((0 / c.horizontal_acceleration_ * 0) / 2),
          goal_z := s.odometry.position_z
            + (s.odometry.twist_linear_z / c.vertical_acceleration_
                * s.odometry.twist_linear_z) / 2,
          landing := false, taking_off := false, is_active := true,
          previous_state_vertical := s.current_state_vertical,
          current_state_vertical := STOP_MOTION_STATE,
          previous_state_horizontal := s.current_state_horizontal,
          current_state_horizontal := STOP_MOTION_STATE }, true) := by
  unfold activate changeState changeStateHorizontal changeStateVertical
  rcases cmd with _ | k
  · simp [hgot]
  · have hz : s.odometry_z < c.landed_threshold_height_ := by
      rcases h with h | h
      · exact absurd h (by simp)
      · exact h
    simp [hgot, hz]

/-- `activate` with a previous command and a measured height not below the
landed threshold, field by field. -/
theorem activate_from_command_eq (m : Ext α) (c : Config α)
    (k : PositionCommand α) (s : State α) (hgot : s.got_odometry = true)
    (hz : ¬ (s.odometry_z < c.landed_threshold_height_)) :
    activate m c (some k) s =
      ({ s with
          state_x := s.odometry.position_x, state_y := s.odometry.position_y,
          state_z := s.odometry.position_z, state_yaw := s.odometry_yaw,
          speed_x := s.odometry.twist_linear_x, speed_y := s.odometry.twist_linear_y,
          current_heading := m.atan2 s.odometry.twist_linear_y s.odometry.twist_linear_x,
          current_horizontal_speed :=
            m.sqrt (s.odometry.twist_linear_x ^ 2 + s.odometry.twist_linear_y ^ 2),
          current_vertical_speed := k.velocity_z,
          goal_yaw := k.yaw,
          goal_x := s.odometry.position_x
            + m.cos (m.atan2 s.odometry.twist_linear_y s.odometry.twist_linear_x)
              * ((m.sqrt (s.odometry.twist_linear_x ^ 2 + s.odometry.twist_linear_y ^ 2)
                    / c.horizontal_acceleration_
                  * m.sqrt (s.odometry.twist_linear_x ^ 2 + s.odometry.twist_linear_y ^ 2)) / 2),
          goal_y := s.odometry.position_y
            + m.sin (m.atan2 s.odometry.twist_linear_y s.odometry.twist_linear_x)
              * ((m.sqrt (s.odometry.twist_linear_x ^ 2 + s.odometry.twist_linear_y ^ 2)
                    / c.horizontal_acceleration_
                  * m.sqrt (s.odometry.twist_linear_x ^ 2 + s.odometry.twist_linear_y ^ 2)) / 2),
          goal_z := s.odometry.position_z
            + (k.velocity_z / c.vertical_acceleration_ * k.velocity_z) / 2,
          landing := false, taking_off := false, is_active := true,
          previous_state_vertical := s.current_state_vertical,
          current_state_vertical := STOP_MOTION_STATE,
          previous_state_horizontal := s.current_state_horizontal,
          current_state_horizontal := STOP_MOTION_STATE }, true) := by
  unfold activate changeState changeStateHorizontal changeStateVertical
  simp only [hgot, hz, Bool.not_true, Bool.false_eq_true, if_false]

/-- A successful `activate` had a measurement. -/
theorem activate_success_got_odometry (m : Ext α) (c : Config α)
    (cmd : Option (PositionCommand α)) (s : State α) (h : (activate m c cmd s).2 = true) :
    s.got_odometry = true := by
  by_cases hg : s.got_odometry = true
  · exact hg
  · rw [activate_without_odometry m c cmd s (by simpa using hg)] at h
    exact absurd h (by simp)

/-- The claim C15 fails at a concrete input: after a measurement at `(0, 0, 3)`
with yaw `0`, `activate` with the previous command at `(5, 6, 7)`, yaw `1/2`,
succeeds and leaves the position at the measured `(0, 0, 3)` and the yaw at the
measured `0`, not at the command's values. -/
theorem activate_ignores_command_position :
    handoffState.got_odometry = true
    ∧ ¬ (handoffState.odometry_z < sampleConfig.landed_threshold_height_)
    ∧ (activate ratExt sampleConfig (some handoffCommand) handoffState).2 = true
    ∧ (activate ratExt sampleConfig (some handoffCommand) handoffState).1.state_x = 0
    ∧ (activate ratExt sampleConfig (some handoffCommand) handoffState).1.state_y = 0
    ∧ (activate ratExt sampleConfig (some handoffCommand) handoffState).1.state_z = 3
    ∧ (activate ratExt sampleConfig (some handoffCommand) handoffState).1.state_yaw = 0
    ∧ handoffCommand.position_x = 5 ∧ handoffCommand.position_y = 6
    ∧ handoffCommand.position_z = 7 ∧ handoffCommand.yaw = 1 / 2 := by
  decide!

/-- C15, amended: `activate` with a measurement, a previous command and a
measured height not below `landed_threshold_height_` succeeds, seeds the
position from the measured odometry pose, and takes the vertical speed and the
goal yaw from the command. -/
theorem activate_seeds_from_measurement (m : Ext α) (c : Config α)
    (k : PositionCommand α) (s : State α) (hgot : s.got_odometry = true)
    (hz : c.landed_threshold_height_ ≤ s.odometry_z) :
    (activate m c (some k) s).2 = true
    ∧ (activate m c (some k) s).1.state_x = s.odometry.position_x
    ∧ (activate m c (some k) s).1.state_y = s.odometry.position_y
    ∧ (activate m c (some k) s).1.state_z = s.odometry.position_z
    ∧ (activate m c (some k) s).1.current_vertical_speed = k.velocity_z
    ∧ (activate m c (some k) s).1.goal_yaw = k.yaw := by
  rw [activate_from_command_eq m c k s hgot (not_lt.mpr hz)]
  exact ⟨rfl, rfl, rfl, rfl, rfl, rfl⟩

/-- C15 (amended) at a concrete input: measurement at `(0, 0, 3)`, command at
`(5, 6, 7)` with yaw `1/2` and vertical velocity `-1/2`. -/
theorem activate_seeds_from_measurement_witness :
    (activate ratExt sampleConfig (some handoffCommand) handoffState).1.state_z
        = handoffState.odometry.position_z
    ∧ (activate ratExt sampleConfig (some handoffCommand) handoffState).1.current_vertical_speed
        = -1 / 2
    ∧ (activate ratExt sampleConfig (some handoffCommand) handoffState).1.goal_yaw = 1 / 2 :=
  ⟨(activate_seeds_from_measurement ratExt sampleConfig handoffCommand handoffState
      (by decide!) (by decide!)).2.2.2.1,
    (activate_seeds_from_measurement ratExt sampleConfig handoffCommand handoffState
      (by decide!) (by decide!)).2.2.2.2.1,
    (activate_seeds_from_measurement ratExt sampleConfig handoffCommand handoffState
      (by decide!) (by decide!)).2.2.2.2.2⟩

/-- The claim C16 fails at a concrete input: the configuration with
`horizontal_acceleration_ = vertical_acceleration_ = 0` passes the checks of
`initialize`, `activate` succeeds on it and seeds the horizontal speed `0`, and
`horizontal_t_stop = 0 / 0` is not a number, so neither is the goal the
prediction stores. -/
theorem activate_zero_acceleration_goal_undefined :
    configError zeroAccelerationConfig = false
    ∧ zeroAccelerationConfig.horizontal_acceleration_ = 0
    ∧ zeroAccelerationConfig.vertical_acceleration_ = 0
    ∧ (activate ratExt zeroAccelerationConfig none handoffState).2 = true
    ∧ (activate ratExt zeroAccelerationConfig none handoffState).1.current_horizontal_speed = 0
    ∧ checkedQuotient
        (activate ratExt zeroAccelerationConfig none handoffState).1.current_horizontal_speed
        zeroAccelerationConfig.horizontal_acceleration_ = none
    ∧ activatePrediction ratExt zeroAccelerationConfig
        (activate ratExt zeroAccelerationConfig none handoffState).1 = none := by
  decide!

/-- C16, amended: for `horizontal_acceleration_ > 0` and `vertical_acceleration_
> 0`, after every successful `activate` (either seeding branch) `is_active` is
true, `taking_off` and `landing` are false, both axes are in
`STOP_MOTION_STATE`, and the goal is the predicted stopping point of the seeded
motion: `goal_x = state_x + cos(current_heading) * vh^2 / (2 *
horizontal_acceleration_)`, `goal_y` likewise with `sin`, and `goal_z = state_z
+ vv^2 / (2 * vertical_acceleration_)`, with `vh`, `vv` the seeded speeds; both
stop times are numbers, and the checked prediction returns that goal. -/
theorem activate_stop_goal (m : Ext α) (c : Config α) (cmd : Option (PositionCommand α))
    (s : State α) (hh : 0 < c.horizontal_acceleration_) (hv : 0 < c.vertical_acceleration_)
    (h : (activate m c cmd s).2 = true) :
    (activate m c cmd s).1.is_active = true
    ∧ (activate m c cmd s).1.taking_off = false
    ∧ (activate m c cmd s).1.landing = false
    ∧ (activate m c cmd s).1.current_state_horizontal = STOP_MOTION_STATE
    ∧ (activate m c cmd s).1.current_state_vertical = STOP_MOTION_STATE
    ∧ (activate m c cmd s).1.goal_x = (activate m c cmd s).1.state_x
        + m.cos (activate m c cmd s).1.current_heading
          * ((activate m c cmd s).1.current_horizontal_speed ^ 2
              / (2 * c.horizontal_acceleration_))
    ∧ (activate m c cmd s).1.goal_y = (activate m c cmd s).1.state_y
        + m.sin (activate m c cmd s).1.current_heading
          * ((activate m c cmd s).1.current_horizontal_speed ^ 2
              / (2 * c.horizontal_acceleration_))
    ∧ (activate m c cmd s).1.goal_z = (activate m c cmd s).1.state_z
        + (activate m c cmd s).1.current_vertical_speed ^ 2 / (2 * c.vertical_acceleration_)
    ∧ activatePrediction m c (activate m c cmd s).1
        = some ((activate m c cmd s).1.goal_x, (activate m c cmd s).1.goal_y,
            (activate m c cmd s).1.goal_z) := by
  have hgot := activate_success_got_odometry m c cmd s h
  have hh0 : c.horizontal_acceleration_ ≠ 0 := ne_of_gt hh
  have hv0 : c.vertical_acceleration_ ≠ 0 := ne_of_gt hv
  by_cases hc : cmd = none ∨ s.odometry_z < c.landed_threshold_height_
  · rw [activate_from_odometry_eq m c cmd s hgot hc]
    refine ⟨rfl, rfl, rfl, rfl, rfl, ?_, ?_, ?_, ?_⟩
    · simp only []; ring
    · simp only []; ring
    · simp only []; ring
    · simp only [activatePrediction, checkedQuotient, if_neg hh0, if_neg hv0, Option.bind]
  · rw [not_or] at hc
    obtain ⟨k, rfl⟩ := Option.ne_none_iff_exists'.mp hc.1
    rw [activate_from_command_eq m c k s hgot hc.2]
    refine ⟨rfl, rfl, rfl, rfl, rfl, ?_, ?_, ?_, ?_⟩
    · simp only []; ring
    · simp only []; ring
    · simp only []; ring
    · simp only [activatePrediction, checkedQuotient, if_neg hh0, if_neg hv0, Option.bind]

/-- C16 (amended) at a concrete input: activation without a command on a
vehicle at height 3 descending at 1 m/s, both accelerations 1: the goal is
`1/2` above the position. -/
theorem activate_stop_goal_witness :
    (activate ratExt sampleConfig none handoffState).1.is_active = true
    ∧ (activate ratExt sampleConfig none handoffState).1.goal_z
        = (activate ratExt sampleConfig none handoffState).1.state_z
          + (activate ratExt sampleConfig none handoffState).1.current_vertical_speed ^ 2
            / (2 * sampleConfig.vertical_acceleration_) :=
  ⟨(activate_stop_goal ratExt sampleConfig none handoffState (by decide!) (by decide!)
      (by decide!)).1,
    (activate_stop_goal ratExt sampleConfig none handoffState (by decide!) (by decide!)
      (by decide!)).2.2.2.2.2.2.2.1⟩

/-- C19: the stopping distance `(speed / acceleration) * speed / 2` is `≥ 0`
for every acceleration `> 0` and every speed, and is monotone in the speed on
`0 ≤ v1 ≤ v2`; and it is the quantity a successful `activate` adds to the
position, along the heading and along z, to predict the goal. -/
theorem stoppingDistance_nonneg_mono (a : α) (ha : 0 < a) :
    (∀ v : α, 0 ≤ stoppingDistance v a)
    ∧ (∀ v1 v2 : α, 0 ≤ v1 → v1 ≤ v2 → stoppingDistance v1 a ≤ stoppingDistance v2 a)
    ∧ (∀ (m : Ext α) (c : Config α) (cmd : Option (PositionCommand α)) (s : State α),
        (activate m c cmd s).2 = true →
        (activate m c cmd s).1.goal_x = (activate m c cmd s).1.state_x
            + m.cos (activate m c cmd s).1.current_heading
              * stoppingDistance (activate m c cmd s).1.current_horizontal_speed
                  c.horizontal_acceleration_
        ∧ (activate m c cmd s).1.goal_z = (activate m c cmd s).1.state_z
            + stoppingDistance (activate m c cmd s).1.current_vertical_speed
                c.vertical_acceleration_) := by
  have e : ∀ v : α, stoppingDistance v a = v ^ 2 / (2 * a) := by
    intro v; unfold stoppingDistance; field_simp; ring
  refine ⟨?_, ?_, ?_⟩
  · intro v; rw [e]; positivity
  · intro v1 v2 h1 h2
    rw [e, e]
    apply div_le_div_of_nonneg_right _ (by positivity)
    nlinarith
  · intro m c cmd s h
    have hgot := activate_success_got_odometry m c cmd s h
    unfold stoppingDistance
    by_cases hc : cmd = none ∨ s.odometry_z < c.landed_threshold_height_
    · rw [activate_from_odometry_eq m c cmd s hgot hc]
      exact ⟨rfl, rfl⟩
    · rw [not_or] at hc
      obtain ⟨k, rfl⟩ := Option.ne_none_iff_exists'.mp hc.1
      rw [activate_from_command_eq m c k s hgot hc.2]
      exact ⟨rfl, rfl⟩

/-- C19 at a concrete input: acceleration 2, speeds 1 and 3. -/
theorem stoppingDistance_nonneg_mono_witness :
    (0 : ℚ) ≤ stoppingDistance 1 2 ∧ stoppingDistance (1 : ℚ) 2 ≤ stoppingDistance 3 2 :=
  ⟨(stoppingDistance_nonneg_mono (2 : ℚ) (by norm_num)).1 1,
    (stoppingDistance_nonneg_mono (2 : ℚ) (by norm_num)).2.1 1 3 (by norm_num) (by norm_num)⟩

end LandoffTracker

/-! ### LandoffTracker: lifecycle and mode-flag invariants (C20) -/

namespace LandoffTracker

open States_t

variable {α : Type} [LinearOrderedField α]

/-- The horizontal switch of a tick touches neither the lifecycle flags, the
mode flags nor the vertical axis. -/
theorem stepHorizontal_frame (m : Ext α) (c : Config α) (s : State α) :
    (stepHorizontal m c s).is_active = s.is_active
      ∧ (stepHorizontal m c s).got_odometry = s.got_odometry
      ∧ (stepHorizontal m c s).taking_off = s.taking_off
      ∧ (stepHorizontal m c s).landing = s.landing
      ∧ (stepHorizontal m c s).current_state_vertical = s.current_state_vertical := by
  unfold stepHorizontal
  split <;>
    simp only [stopHorizontalMotion, accelerateHorizontal, decelerateHorizontal, stopHorizontal,
      changeStateHorizontal] <;>
    (repeat' split_ifs) <;> simp

/-- The vertical switch of a tick touches neither the lifecycle flags nor the
mode flags, and never enters `HOVER_STATE`. -/
theorem stepVertical_frame (c : Config α) (s : State α) :
    (stepVertical c s).is_active = s.is_active
      ∧ (stepVertical c s).got_odometry = s.got_odometry
      ∧ (stepVertical c s).taking_off = s.taking_off
      ∧ (stepVertical c s).landing = s.landing
      ∧ ((stepVertical c s).current_state_vertical = HOVER_STATE →
          s.current_state_vertical = HOVER_STATE) := by
  unfold stepVertical
  split <;>
    simp only [stopVerticalMotion, accelerateVertical, decelerateVertical, stopVertical,
      changeStateVertical] <;>
    (repeat' split_ifs) <;> simp_all

/-- The combined-state rules keep the lifecycle flags and the consistency of the
mode flags. -/
theorem coordinate_frame (s : State α) :
    (coordinate s).is_active = s.is_active
      ∧ (coordinate s).got_odometry = s.got_odometry
      ∧ (FlagsConsistent s → FlagsConsistent (coordinate s)) := by
  simp only [coordinate, changeState, changeStateHorizontal, changeStateVertical, FlagsConsistent]
  (repeat' split_ifs) <;> simp_all

/-- Saturation guard, integration and yaw block touch neither the lifecycle
flags, the mode flags nor the axis states. -/
theorem tail_frame (m : Ext α) (c : Config α) (s : State α) :
    (trackYaw m c (integrate m c (saturate m c s))).is_active = s.is_active
      ∧ (trackYaw m c (integrate m c (saturate m c s))).got_odometry = s.got_odometry
      ∧ (trackYaw m c (integrate m c (saturate m c s))).taking_off = s.taking_off
      ∧ (trackYaw m c (integrate m c (saturate m c s))).landing = s.landing
      ∧ (trackYaw m c (integrate m c (saturate m c s))).current_state_vertical
          = s.current_state_vertical
      ∧ (trackYaw m c (integrate m c (saturate m c s))).current_state_horizontal
          = s.current_state_horizontal := by
  simp only [trackYaw, integrate, saturate]
  (repeat' split_ifs) <;> simp

/-- A tick of an inactive tracker changes nothing. -/
theorem mainTimer_inactive (m : Ext α) (c : Config α) (s : State α)
    (h : s.is_active = false) : mainTimer m c s = s := by
  unfold mainTimer
  simp [h]

/-- A tick of an active tracker is the composition of its stages. -/
theorem mainTimer_active (m : Ext α) (c : Config α) (s : State α) (h : s.is_active = true) :
    mainTimer m c s
      = trackYaw m c (integrate m c (saturate m c (coordinate
          (stepVertical c (stepHorizontal m c s))))) := by
  unfold mainTimer
  simp [h]

/-- A tick keeps the lifecycle flags and the consistency of the mode flags. -/
theorem mainTimer_frame (m : Ext α) (c : Config α) (s : State α) :
    (mainTimer m c s).is_active = s.is_active
      ∧ (mainTimer m c s).got_odometry = s.got_odometry
      ∧ (FlagsConsistent s → FlagsConsistent (mainTimer m c s)) := by
  by_cases ha : s.is_active = true
  · rw [mainTimer_active m c s ha]
    obtain ⟨t1, t2, t3, t4, t5, _⟩ :=
      tail_frame m c (coordinate (stepVertical c (stepHorizontal m c s)))
    obtain ⟨c1, c2, c3⟩ := coordinate_frame (stepVertical c (stepHorizontal m c s))
    obtain ⟨v1, v2, v3, v4, v5⟩ := stepVertical_frame c (stepHorizontal m c s)
    obtain ⟨h1, h2, h3, h4, h5⟩ := stepHorizontal_frame m c s
    refine ⟨by rw [t1, c1, v1, h1], by rw [t2, c2, v2, h2], ?_⟩
    intro hJ
    have hJ2 : FlagsConsistent (stepVertical c (stepHorizontal m c s)) := by
      unfold FlagsConsistent at hJ ⊢
      rw [v3, v4, h3, h4]
      refine ⟨hJ.1, fun hv => hJ.2 ?_⟩
      rw [← h5]; exact v5 hv
    have hJ3 := c3 hJ2
    unfold FlagsConsistent at hJ3 ⊢
    rw [t3, t4, t5]
    exact hJ3
  · rw [mainTimer_inactive m c s (by simpa using ha)]
    exact ⟨rfl, rfl, id⟩

/-- What `activate` with a measurement does to the lifecycle flags, the mode
flags and the vertical axis. -/
theorem activate_with_odometry (m : Ext α) (c : Config α)
    (cmd : Option (PositionCommand α)) (s : State α) (h : s.got_odometry = true) :
    (activate m c cmd s).2 = true
      ∧ (activate m c cmd s).1.is_active = true
      ∧ (activate m c cmd s).1.got_odometry = true
      ∧ (activate m c cmd s).1.taking_off = false
      ∧ (activate m c cmd s).1.landing = false
      ∧ (activate m c cmd s).1.current_state_vertical = STOP_MOTION_STATE := by
  unfold activate changeState changeStateHorizontal changeStateVertical
  rcases cmd with _ | k
  · simp [h]
  · by_cases hz : s.odometry_z < c.landed_threshold_height_
    · simp [h, hz]
    · simp [h, hz]

/-- `update` stores the measurement and touches neither the activity flag, the
mode flags nor the axis states. -/
theorem update_frame (m : Ext α) (c : Config α) (msg : Odometry α) (s : State α) :
    (update m c msg s).1.is_active = s.is_active
      ∧ (update m c msg s).1.got_odometry = true
      ∧ (update m c msg s).1.taking_off = s.taking_off
      ∧ (update m c msg s).1.landing = s.landing
      ∧ (update m c msg s).1.current_state_vertical = s.current_state_vertical := by
  unfold update
  by_cases ha : s.is_active = true
  · simp [ha]
  · simp [ha]

/-- `callbackTakeoff` keeps the lifecycle flags and the consistency of the mode
flags. -/
theorem callbackTakeoff_frame (c : Config α) (s : State α) :
    (callbackTakeoff c s).1.is_active = s.is_active
      ∧ (callbackTakeoff c s).1.got_odometry = s.got_odometry
      ∧ (FlagsConsistent s → FlagsConsistent (callbackTakeoff c s).1) := by
  unfold callbackTakeoff changeState changeStateHorizontal changeStateVertical FlagsConsistent
  by_cases h1 : s.is_active = true
  · by_cases h2 : s.callbacks_enabled = true
    · by_cases h3 : s.odometry_z > c.landed_threshold_height_
      · simp [h1, h2, h3]
      · simp [h1, h2, h3]
    · simp [h1, h2]
  · simp [h1]

/-- `callbackLand` keeps the lifecycle flags and the consistency of the mode
flags. -/
theorem callbackLand_frame (c : Config α) (s : State α) :
    (callbackLand c s).1.is_active = s.is_active
      ∧ (callbackLand c s).1.got_odometry = s.got_odometry
      ∧ FlagsConsistent (callbackLand c s).1 := by
  unfold callbackLand changeState changeStateHorizontal changeStateVertical FlagsConsistent
  by_cases h1 : s.is_active = true
  · by_cases h3 : s.odometry_z < c.landed_threshold_height_
    · simp [h1, h3]
    · simp [h1, h3]
  · simp [h1]

/-- Every operation keeps "no measurement, not active", keeps a measurement once
received, and keeps the mode flags consistent. -/
theorem apply_invariants (m : Ext α) (c : Config α) (s : State α) (op : Op α) :
    (InactiveWithoutOdometry s → InactiveWithoutOdometry (Op.apply m c s op))
      ∧ (s.got_odometry = true → (Op.apply m c s op).got_odometry = true)
      ∧ (FlagsConsistent s → FlagsConsistent (Op.apply m c s op)) := by
  cases op with
  | update msg =>
    obtain ⟨u1, u2, u3, u4, u5⟩ := update_frame m c msg s
    simp only [Op.apply, InactiveWithoutOdometry, FlagsConsistent]
    rw [u1, u2, u3, u4, u5]
    exact ⟨fun _ h => absurd h (by simp), fun _ => rfl, id⟩
  | activate cmd =>
    simp only [Op.apply, InactiveWithoutOdometry, FlagsConsistent]
    by_cases hg : s.got_odometry = true
    · obtain ⟨_, a2, a3, a4, a5, a6⟩ := activate_with_odometry m c cmd s hg
      rw [a2, a3, a4, a5, a6]
      simp
    · rw [activate_without_odometry m c cmd s (by simpa using hg)]
      exact ⟨id, id, id⟩
  | deactivate =>
    simp [Op.apply, InactiveWithoutOdometry, FlagsConsistent, deactivate]
  | hover =>
    simp only [Op.apply, InactiveWithoutOdometry, FlagsConsistent, hover]
    exact ⟨id, id, id⟩
  | enableCallbacks data =>
    simp only [Op.apply, InactiveWithoutOdometry, FlagsConsistent, enableCallbacks]
    split_ifs <;> exact ⟨id, id, id⟩
  | callbackTakeoff =>
    obtain ⟨t1, t2, t3⟩ := callbackTakeoff_frame c s
    simp only [Op.apply, InactiveWithoutOdometry]
    rw [t1, t2]
    exact ⟨id, id, t3⟩
  | callbackLand =>
    obtain ⟨t1, t2, t3⟩ := callbackLand_frame c s
    simp only [Op.apply, InactiveWithoutOdometry]
    rw [t1, t2]
    exact ⟨id, id, fun _ => t3⟩
  | mainTimer =>
    obtain ⟨t1, t2, t3⟩ := mainTimer_frame m c s
    simp only [Op.apply, InactiveWithoutOdometry]
    rw [t1, t2]
    exact ⟨id, id, t3⟩

/-- The invariants hold along every run. -/
theorem run_invariants (m : Ext α) (c : Config α) (ops : List (Op α)) :
    ∀ s : State α, InactiveWithoutOdometry s → FlagsConsistent s →
      InactiveWithoutOdometry (run m c s ops) ∧ FlagsConsistent (run m c s ops) := by
  induction ops with
  | nil => intro s h1 h2; exact ⟨h1, h2⟩
  | cons op ops ih =>
    intro s h1 h2
    obtain ⟨a1, _, a3⟩ := apply_invariants m c s op
    exact ih _ (a1 h1) (a3 h2)

/-- Right after construction and `initialize` the invariants hold. -/
theorem initialise_invariants (mem : State α) :
    InactiveWithoutOdometry (initialise (construct mem))
      ∧ FlagsConsistent (initialise (construct mem)) := by
  simp [InactiveWithoutOdometry, FlagsConsistent, initialise, construct]

/-- C20: in every state reachable from `initialize` by any sequence of
operations, `taking_off` and `landing` are not both true, and whenever the
vertical axis is in `HOVER_STATE` both are false. -/
theorem mode_flags_exclusive (m : Ext α) (c : Config α) (mem : State α) (ops : List (Op α)) :
    ¬ ((run m c (initialise (construct mem)) ops).taking_off = true
        ∧ (run m c (initialise (construct mem)) ops).landing = true)
    ∧ ((run m c (initialise (construct mem)) ops).current_state_vertical = HOVER_STATE →
        (run m c (initialise (construct mem)) ops).taking_off = false
        ∧ (run m c (initialise (construct mem)) ops).landing = false) :=
  (run_invariants m c ops _ (initialise_invariants mem).1 (initialise_invariants mem).2).2

/-- C20 at a concrete input: the fresh tracker, activated on a vehicle at rest
and ticked once, hovers with both mode flags clear. -/
theorem mode_flags_exclusive_witness :
    (run ratExt sampleConfig (initialise (construct zeroMem))
        [Op.update zeroOdometry, Op.activate none, Op.mainTimer]).current_state_vertical
      = HOVER_STATE
    ∧ (run ratExt sampleConfig (initialise (construct zeroMem))
        [Op.update zeroOdometry, Op.activate none, Op.mainTimer]).taking_off = false
    ∧ (run ratExt sampleConfig (initialise (construct zeroMem))
        [Op.update zeroOdometry, Op.activate none, Op.mainTimer]).landing = false :=
  ⟨by decide!,
    (mode_flags_exclusive ratExt sampleConfig zeroMem
      [Op.update zeroOdometry, Op.activate none, Op.mainTimer]).2 (by decide!)⟩

end LandoffTracker

/-! ### LandoffTracker: measurements along a run, and silence after `deactivate` (C17) -/

namespace LandoffTracker

open States_t

variable {α : Type} [LinearOrderedField α]

/-- An operation other than `update` leaves `got_odometry` as it is, and
`update` sets it. -/
theorem apply_got_odometry (m : Ext α) (c : Config α) (s : State α) (op : Op α) :
    (Op.isUpdate op = false → (Op.apply m c s op).got_odometry = s.got_odometry)
      ∧ (Op.isUpdate op = true → (Op.apply m c s op).got_odometry = true) := by
  cases op with
  | update msg =>
    simp only [Op.apply, Op.isUpdate]
    exact ⟨fun h => absurd h (by simp), fun _ => (update_frame m c msg s).2.1⟩
  | activate cmd =>
    simp only [Op.apply, Op.isUpdate]
    refine ⟨fun _ => ?_, fun h => absurd h (by simp)⟩
    by_cases hg : s.got_odometry = true
    · rw [(activate_with_odometry m c cmd s hg).2.2.1, hg]
    · rw [activate_without_odometry m c cmd s (by simpa using hg)]
  | deactivate => exact ⟨fun _ => rfl, fun h => absurd h (by simp [Op.isUpdate])⟩
  | hover => exact ⟨fun _ => rfl, fun h => absurd h (by simp [Op.isUpdate])⟩
  | enableCallbacks data =>
    simp only [Op.apply, Op.isUpdate, enableCallbacks]
    refine ⟨fun _ => ?_, fun h => absurd h (by simp)⟩
    split_ifs <;> rfl
  | callbackTakeoff =>
    exact ⟨fun _ => (callbackTakeoff_frame c s).2.1, fun h => absurd h (by simp [Op.isUpdate])⟩
  | callbackLand =>
    exact ⟨fun _ => (callbackLand_frame c s).2.1, fun h => absurd h (by simp [Op.isUpdate])⟩
  | mainTimer =>
    exact ⟨fun _ => (mainTimer_frame m c s).2.1, fun h => absurd h (by simp [Op.isUpdate])⟩

/-- A run without an `update`, from a state without a measurement, ends without
a measurement. -/
theorem run_without_update (m : Ext α) (c : Config α) (ops : List (Op α)) :
    ∀ s : State α, s.got_odometry = false → (∀ op ∈ ops, Op.isUpdate op = false) →
      (run m c s ops).got_odometry = false := by
  induction ops with
  | nil => intro s hs _; exact hs
  | cons op ops ih =>
    intro s hs h
    refine ih _ ?_ (fun o ho => h o (List.mem_cons_of_mem _ ho))
    rw [(apply_got_odometry m c s op).1 (h op (List.mem_cons_self _ _))]
    exact hs

/-- A measurement, once received, is kept along every run. -/
theorem run_keeps_odometry (m : Ext α) (c : Config α) (ops : List (Op α)) :
    ∀ s : State α, s.got_odometry = true → (run m c s ops).got_odometry = true := by
  induction ops with
  | nil => intro s hs; exact hs
  | cons op ops ih =>
    intro s hs
    exact ih _ ((apply_invariants m c s op).2.1 hs)

/-- A run that contains an `update` ends with a measurement. -/
theorem run_with_update (m : Ext α) (c : Config α) (ops : List (Op α)) :
    ∀ s : State α, (∃ op ∈ ops, Op.isUpdate op = true) →
      (run m c s ops).got_odometry = true := by
  induction ops with
  | nil => intro s h; obtain ⟨op, ho, _⟩ := h; simp at ho
  | cons op ops ih =>
    intro s h
    by_cases hu : Op.isUpdate op = true
    · exact run_keeps_odometry m c ops _ ((apply_got_odometry m c s op).2 hu)
    · obtain ⟨o, ho, hou⟩ := h
      rcases List.mem_cons.mp ho with rfl | ho
      · exact absurd hou hu
      · exact ih _ ⟨o, ho, hou⟩

/-- An operation other than a successful `activate` keeps an inactive tracker
inactive. -/
theorem apply_stays_inactive (m : Ext α) (c : Config α) (s : State α) (op : Op α)
    (hs : s.is_active = false) (hop : Op.activates m c s op = false) :
    (Op.apply m c s op).is_active = false := by
  cases op with
  | update msg => simp only [Op.apply]; rw [(update_frame m c msg s).1]; exact hs
  | activate cmd =>
    simp only [Op.apply]
    simp only [Op.activates] at hop
    by_cases hg : s.got_odometry = true
    · rw [(activate_with_odometry m c cmd s hg).1] at hop
      exact absurd hop (by simp)
    · rw [activate_without_odometry m c cmd s (by simpa using hg)]
      exact hs
  | deactivate => rfl
  | hover => exact hs
  | enableCallbacks data =>
    simp only [Op.apply, enableCallbacks]
    split_ifs <;> exact hs
  | callbackTakeoff => simp only [Op.apply]; rw [(callbackTakeoff_frame c s).1]; exact hs
  | callbackLand => simp only [Op.apply]; rw [(callbackLand_frame c s).1]; exact hs
  | mainTimer => simp only [Op.apply]; rw [(mainTimer_frame m c s).1]; exact hs

/-- A run without a successful `activate` keeps an inactive tracker inactive. -/
theorem run_stays_inactive (m : Ext α) (c : Config α) (ops : List (Op α)) :
    ∀ s : State α, s.is_active = false → noActivation m c s ops = true →
      (run m c s ops).is_active = false := by
  induction ops with
  | nil => intro s hs _; exact hs
  | cons op ops ih =>
    intro s hs h
    simp only [noActivation, Bool.and_eq_true, Bool.not_eq_true'] at h
    exact ih _ (apply_stays_inactive m c s op hs h.1) h.2

/-- `update` on an inactive tracker returns no command. -/
theorem update_inactive (m : Ext α) (c : Config α) (msg : Odometry α) (s : State α)
    (h : s.is_active = false) : (update m c msg s).2 = none := by
  unfold update
  simp [h]

/-- C17: after `deactivate`, `is_active`, `taking_off` and `landing` are false
and both axes are in `IDLE_STATE`; and after any sequence of operations none of
which is a successful `activate`, `update` returns no command and a `mainTimer`
tick leaves the whole state (trajectory state, goal and axis states included)
unchanged. -/
theorem deactivate_silences (m : Ext α) (c : Config α) (s : State α) (ops : List (Op α))
    (msg : Odometry α) (h : noActivation m c (deactivate s) ops = true) :
    (deactivate s).is_active = false
    ∧ (deactivate s).taking_off = false
    ∧ (deactivate s).landing = false
    ∧ (deactivate s).current_state_horizontal = IDLE_STATE
    ∧ (deactivate s).current_state_vertical = IDLE_STATE
    ∧ (update m c msg (run m c (deactivate s) ops)).2 = none
    ∧ mainTimer m c (run m c (deactivate s) ops) = run m c (deactivate s) ops :=
  ⟨rfl, rfl, rfl, rfl, rfl,
    update_inactive m c msg _ (run_stays_inactive m c ops _ rfl h),
    mainTimer_inactive m c _ (run_stays_inactive m c ops _ rfl h)⟩

/-- C17 at a concrete input: the fresh tracker is deactivated; an `activate`
that fails for want of a measurement, an `update`, a takeoff and a land request,
a `hover` and a tick follow; the next `update` still returns no command. -/
theorem deactivate_silences_witness :
    noActivation ratExt sampleConfig (deactivate freshState) quietOps = true
    ∧ (update ratExt sampleConfig descendingOdometry
        (run ratExt sampleConfig (deactivate freshState) quietOps)).2 = none
    ∧ mainTimer ratExt sampleConfig (run ratExt sampleConfig (deactivate freshState) quietOps)
        = run ratExt sampleConfig (deactivate freshState) quietOps :=
  ⟨by decide!,
    (deactivate_silences ratExt sampleConfig freshState quietOps descendingOdometry
      (by decide!)).2.2.2.2.2.1,
    (deactivate_silences ratExt sampleConfig freshState quietOps descendingOdometry
      (by decide!)).2.2.2.2.2.2⟩

end LandoffTracker

/-! ### LandoffTracker: the tick that leaves `STOP_MOTION_STATE` at rest (C18) -/

namespace LandoffTracker

open States_t

variable {α : Type} [LinearOrderedField α]

/-- The two stop-motion routines on a tracker at rest: the speeds stay `0`, the
axis states, the goal and the position are kept. -/
theorem stopMotion_at_rest (m : Ext α) (c : Config α) (s : State α)
    (hh : s.current_state_horizontal = STOP_MOTION_STATE)
    (hv : s.current_state_vertical = STOP_MOTION_STATE)
    (h0h : s.current_horizontal_speed = 0) (h0v : s.current_vertical_speed = 0)
    (hah : 0 ≤ c.horizontal_acceleration_) (hav : 0 ≤ c.vertical_acceleration_)
    (hdt : 0 < c.tracker_dt_) :
    (stepVertical c (stepHorizontal m c s)).current_state_horizontal = STOP_MOTION_STATE
    ∧ (stepVertical c (stepHorizontal m c s)).current_state_vertical = STOP_MOTION_STATE
    ∧ (stepVertical c (stepHorizontal m c s)).current_horizontal_speed = 0
    ∧ (stepVertical c (stepHorizontal m c s)).current_vertical_speed = 0
    ∧ (stepVertical c (stepHorizontal m c s)).have_goal = s.have_goal
    ∧ (stepVertical c (stepHorizontal m c s)).state_x = s.state_x
    ∧ (stepVertical c (stepHorizontal m c s)).state_y = s.state_y
    ∧ (stepVertical c (stepHorizontal m c s)).state_z = s.state_z
    ∧ (stepVertical c (stepHorizontal m c s)).goal_x = s.goal_x
    ∧ (stepVertical c (stepHorizontal m c s)).goal_y = s.goal_y
    ∧ (stepVertical c (stepHorizontal m c s)).goal_z = s.goal_z := by
  have e1 : stepHorizontal m c s = stopHorizontalMotion c s := by
    unfold stepHorizontal; rw [hh]
  have e2 : (stopHorizontalMotion c s).current_state_vertical = STOP_MOTION_STATE := by
    unfold stopHorizontalMotion; simp only []; split_ifs <;> exact hv
  have e3 : stepVertical c (stopHorizontalMotion c s)
      = stopVerticalMotion c (stopHorizontalMotion c s) := by
    unfold stepVertical; rw [e2]
  have p1 := mul_nonneg hah hdt.le
  have p2 := mul_nonneg hav hdt.le
  have e4 : (stopHorizontalMotion c s).current_vertical_speed = 0 := by
    unfold stopHorizontalMotion; simp only []; split_ifs <;> exact h0v
  rw [e1, e3]
  refine ⟨?_, ?_, ?_, ?_, ?_, ?_, ?_, ?_, ?_, ?_, ?_⟩
  · simp only [stopHorizontalMotion, stopVerticalMotion]
    (repeat' split_ifs) <;> exact hh
  · simp only [stopHorizontalMotion, stopVerticalMotion]
    (repeat' split_ifs) <;> exact hv
  · simp only [stopHorizontalMotion, stopVerticalMotion, h0h, zero_sub]
    (repeat' split_ifs) <;> first | rfl | (simp only []; linarith)
  · unfold stopVerticalMotion
    simp only [e4, zero_sub]
    split_ifs <;> first | rfl | (simp only []; linarith)
  all_goals
    simp only [stopHorizontalMotion, stopVerticalMotion]
    (repeat' split_ifs) <;> rfl

/-- The combined-state rules on a tracker at rest with both axes in
`STOP_MOTION_STATE`. -/
theorem coordinate_at_rest (t : State α)
    (hh : t.current_state_horizontal = STOP_MOTION_STATE)
    (hv : t.current_state_vertical = STOP_MOTION_STATE)
    (h0h : t.current_horizontal_speed = 0) (h0v : t.current_vertical_speed = 0) :
    (t.have_goal = true →
        (coordinate t).current_state_horizontal = ACCELERATING_STATE
        ∧ (coordinate t).current_state_vertical = ACCELERATING_STATE)
    ∧ (t.have_goal = false →
        ¬ (|t.state_x - t.goal_x| < 1 / 1000 ∧ |t.state_y - t.goal_y| < 1 / 1000
            ∧ |t.state_z - t.goal_z| < 1 / 1000) →
        (coordinate t).current_state_horizontal = STOPPING_STATE
        ∧ (coordinate t).current_state_vertical = STOPPING_STATE)
    ∧ (t.have_goal = false →
        (|t.state_x - t.goal_x| < 1 / 1000 ∧ |t.state_y - t.goal_y| < 1 / 1000
            ∧ |t.state_z - t.goal_z| < 1 / 1000) →
        (coordinate t).current_state_horizontal = HOVER_STATE
        ∧ (coordinate t).current_state_vertical = HOVER_STATE) := by
  refine ⟨?_, ?_, ?_⟩
  · intro hg
    simp [coordinate, changeState, changeStateHorizontal, changeStateVertical, hh, hv, h0h, h0v, hg]
  · intro hg hw
    simp only [one_div] at hw
    simp [coordinate, changeState, changeStateHorizontal, changeStateVertical, hh, hv, h0h, h0v, hg,
      hw]
  · intro hg hw
    simp only [one_div] at hw
    simp [coordinate, changeState, changeStateHorizontal, changeStateVertical, hh, hv, h0h, h0v, hg,
      hw]

/-- The claim C18 fails at a concrete input: the tracker activated on a vehicle
at rest is active, has both axes in `STOP_MOTION_STATE`, zero speeds and no
goal requested, the configuration has positive accelerations and `dt = 1/10`,
and one tick leaves both axes in `HOVER_STATE`, not in `STOPPING_STATE`. -/
theorem rest_tick_reaches_hover :
    activatedAtRest.is_active = true
    ∧ activatedAtRest.current_state_horizontal = STOP_MOTION_STATE
    ∧ activatedAtRest.current_state_vertical = STOP_MOTION_STATE
    ∧ activatedAtRest.current_horizontal_speed = 0
    ∧ activatedAtRest.current_vertical_speed = 0
    ∧ activatedAtRest.have_goal = false
    ∧ 0 ≤ sampleConfig.horizontal_acceleration_ ∧ 0 ≤ sampleConfig.vertical_acceleration_
    ∧ 0 < sampleConfig.tracker_dt_
    ∧ (mainTimer ratExt sampleConfig activatedAtRest).current_state_horizontal = HOVER_STATE
    ∧ (mainTimer ratExt sampleConfig activatedAtRest).current_state_vertical = HOVER_STATE := by
  decide!

/-- C18, amended: for every active state with both axes in `STOP_MOTION_STATE`
and both speeds `0`, and every configuration with accelerations `≥ 0` and
`dt > 0`, after one `mainTimer` tick both axes are in `ACCELERATING_STATE` if
`have_goal` is set; if it is not set, both are in `STOPPING_STATE` when some
coordinate of the position is at least `1e-3` from the goal, and both are in
`HOVER_STATE` when all three coordinates are within `1e-3` of the goal. -/
theorem rest_tick_transitions (m : Ext α) (c : Config α) (s : State α)
    (ha : s.is_active = true)
    (hh : s.current_state_horizontal = STOP_MOTION_STATE)
    (hv : s.current_state_vertical = STOP_MOTION_STATE)
    (h0h : s.current_horizontal_speed = 0) (h0v : s.current_vertical_speed = 0)
    (hah : 0 ≤ c.horizontal_acceleration_) (hav : 0 ≤ c.vertical_acceleration_)
    (hdt : 0 < c.tracker_dt_) :
    (s.have_goal = true →
        (mainTimer m c s).current_state_horizontal = ACCELERATING_STATE
        ∧ (mainTimer m c s).current_state_vertical = ACCELERATING_STATE)
    ∧ (s.have_goal = false →
        ¬ (|s.state_x - s.goal_x| < 1 / 1000 ∧ |s.state_y - s.goal_y| < 1 / 1000
            ∧ |s.state_z - s.goal_z| < 1 / 1000) →
        (mainTimer m c s).current_state_horizontal = STOPPING_STATE
        ∧ (mainTimer m c s).current_state_vertical = STOPPING_STATE)
    ∧ (s.have_goal = false →
        (|s.state_x - s.goal_x| < 1 / 1000 ∧ |s.state_y - s.goal_y| < 1 / 1000
            ∧ |s.state_z - s.goal_z| < 1 / 1000) →
        (mainTimer m c s).current_state_horizontal = HOVER_STATE
        ∧ (mainTimer m c s).current_state_vertical = HOVER_STATE) := by
  obtain ⟨t1, t2, t3, t4, t5, t6, t7, t8, t9, t10, t11⟩ :=
    stopMotion_at_rest m c s hh hv h0h h0v hah hav hdt
  have hc := coordinate_at_rest (stepVertical c (stepHorizontal m c s)) t1 t2 t3 t4
  rw [t5, t6, t7, t8, t9, t10, t11] at hc
  obtain ⟨_, _, _, _, f5, f6⟩ :=
    tail_frame m c (coordinate (stepVertical c (stepHorizontal m c s)))
  rw [mainTimer_active m c s ha, f5, f6]
  exact hc

/-- C18 (amended) at a concrete input: the tracker activated at rest at height
3 and asked to land accelerates after one tick. -/
theorem rest_tick_transitions_witness :
    landingRequested.have_goal = true
    ∧ (mainTimer ratExt sampleConfig landingRequested).current_state_horizontal
        = ACCELERATING_STATE
    ∧ (mainTimer ratExt sampleConfig landingRequested).current_state_vertical
        = ACCELERATING_STATE :=
  ⟨by decide!,
    (rest_tick_transitions ratExt sampleConfig landingRequested (by decide!) (by decide!)
      (by decide!) (by decide!) (by decide!) (by decide!) (by decide!) (by decide!)).1
      (by decide!)⟩

end LandoffTracker

/-! ### Activation needs a measurement (C14) -/

namespace LineTracker

open States_t

variable {α : Type} [LinearOrderedField α]

/-- `activate` without a measurement returns `false` and changes nothing. -/
theorem line_activate_without_odometry (m : Ext α) (c : Config α)
    (cmd : Option (PositionCommand α)) (s : State α) (h : s.got_odometry = false) :
    activate m c cmd s = (s, false) := by
  unfold activate
  simp [h]

/-- `activate` with a measurement returns `true`, activates and keeps the
measurement. -/
theorem line_activate_with_odometry (m : Ext α) (c : Config α)
    (cmd : Option (PositionCommand α)) (s : State α) (h : s.got_odometry = true) :
    (activate m c cmd s).2 = true
      ∧ (activate m c cmd s).1.is_active = true
      ∧ (activate m c cmd s).1.got_odometry = true := by
  unfold activate changeState
  rcases cmd with _ | k <;> simp [h]

/-- `update` stores the measurement and keeps the activity flag. -/
theorem line_update_frame (m : Ext α) (msg : Odometry α) (s : State α) :
    (update m msg s).1.is_active = s.is_active
      ∧ (update m msg s).1.got_odometry = true := by
  unfold update
  by_cases ha : s.is_active = true
  · simp [ha]
  · simp [ha]

/-- A tick keeps the lifecycle flags. -/
theorem line_mainTimer_frame (m : Ext α) (c : Config α) (s : State α) :
    (mainTimer m c s).is_active = s.is_active
      ∧ (mainTimer m c s).got_odometry = s.got_odometry := by
  have hH : ∀ t : State α, (stepHorizontal m c t).is_active = t.is_active
      ∧ (stepHorizontal m c t).got_odometry = t.got_odometry := by
    intro t
    unfold stepHorizontal
    split <;> simp only [stopHorizontalMotion, accelerateHorizontal, decelerateHorizontal,
      stopHorizontal, changeStateHorizontal] <;> (repeat' split_ifs) <;> simp
  have hV : ∀ t : State α, (stepVertical c t).is_active = t.is_active
      ∧ (stepVertical c t).got_odometry = t.got_odometry := by
    intro t
    unfold stepVertical
    split <;> simp only [stopVerticalMotion, accelerateVertical, decelerateVertical,
      stopVertical, changeStateVertical] <;> (repeat' split_ifs) <;> simp
  have hC : ∀ t : State α, (coordinate t).is_active = t.is_active
      ∧ (coordinate t).got_odometry = t.got_odometry := by
    intro t
    simp only [coordinate, changeState]
    (repeat' split_ifs) <;> simp
  unfold mainTimer
  by_cases ha : s.is_active = true
  · simp only [ha, Bool.not_true, Bool.false_eq_true, if_false, trackYaw, integrate]
    rw [(hC _).1, (hC _).2, (hV _).1, (hV _).2, (hH _).1, (hH _).2]
    exact ⟨ha, rfl⟩
  · simp [ha]

/-- Every operation keeps "no measurement, not active" and keeps a measurement
once received. -/
theorem line_apply_invariants (m : Ext α) (c : Config α) (s : State α) (op : Op α) :
    (InactiveWithoutOdometry s → InactiveWithoutOdometry (Op.apply m c s op))
      ∧ (s.got_odometry = true → (Op.apply m c s op).got_odometry = true) := by
  cases op with
  | update msg =>
    obtain ⟨u1, u2⟩ := line_update_frame m msg s
    simp only [Op.apply, InactiveWithoutOdometry]
    rw [u1, u2]
    exact ⟨fun _ h => absurd h (by simp), fun _ => rfl⟩
  | activate cmd =>
    simp only [Op.apply, InactiveWithoutOdometry]
    by_cases hg : s.got_odometry = true
    · obtain ⟨_, a2, a3⟩ := line_activate_with_odometry m c cmd s hg
      rw [a2, a3]
      simp
    · rw [line_activate_without_odometry m c cmd s (by simpa using hg)]
      exact ⟨id, id⟩
  | deactivate =>
    simp [Op.apply, InactiveWithoutOdometry, deactivate]
  | goTo g0 g1 g2 g3 =>
    simp only [Op.apply, InactiveWithoutOdometry, goTo, changeState]
    exact ⟨id, id⟩
  | goToRelative g0 g1 g2 g3 =>
    simp only [Op.apply, InactiveWithoutOdometry, goToRelative, changeState]
    exact ⟨id, id⟩
  | hover =>
    simp only [Op.apply, InactiveWithoutOdometry, hover]
    exact ⟨id, id⟩
  | mainTimer =>
    obtain ⟨t1, t2⟩ := line_mainTimer_frame m c s
    simp only [Op.apply, InactiveWithoutOdometry]
    rw [t1, t2]
    exact ⟨id, id⟩

/-- The invariant holds along every run. -/
theorem line_run_invariants (m : Ext α) (c : Config α) (ops : List (Op α)) :
    ∀ s : State α, InactiveWithoutOdometry s → InactiveWithoutOdometry (run m c s ops) := by
  induction ops with
  | nil => intro s h1; exact h1
  | cons op ops ih =>
    intro s h1
    exact ih _ ((line_apply_invariants m c s op).1 h1)

end LineTracker

namespace LineTracker

open States_t

variable {α : Type} [LinearOrderedField α]

/-- An operation other than `update` leaves `got_odometry` as it is, and
`update` sets it. -/
theorem line_apply_got_odometry (m : Ext α) (c : Config α) (s : State α) (op : Op α) :
    (Op.isUpdate op = false → (Op.apply m c s op).got_odometry = s.got_odometry)
      ∧ (Op.isUpdate op = true → (Op.apply m c s op).got_odometry = true) := by
  cases op with
  | update msg =>
    simp only [Op.apply, Op.isUpdate]
    exact ⟨fun h => absurd h (by simp), fun _ => (line_update_frame m msg s).2⟩
  | activate cmd =>
    simp only [Op.apply, Op.isUpdate]
    refine ⟨fun _ => ?_, fun h => absurd h (by simp)⟩
    by_cases hg : s.got_odometry = true
    · rw [(line_activate_with_odometry m c cmd s hg).2.2, hg]
    · rw [line_activate_without_odometry m c cmd s (by simpa using hg)]
  | deactivate => exact ⟨fun _ => rfl, fun h => absurd h (by simp [Op.isUpdate])⟩
  | goTo g0 g1 g2 g3 => exact ⟨fun _ => rfl, fun h => absurd h (by simp [Op.isUpdate])⟩
  | goToRelative g0 g1 g2 g3 =>
    exact ⟨fun _ => rfl, fun h => absurd h (by simp [Op.isUpdate])⟩
  | hover => exact ⟨fun _ => rfl, fun h => absurd h (by simp [Op.isUpdate])⟩
  | mainTimer =>
    exact ⟨fun _ => (line_mainTimer_frame m c s).2, fun h => absurd h (by simp [Op.isUpdate])⟩

/-- A run without an `update`, from a state without a measurement, ends without
a measurement. -/
theorem line_run_without_update (m : Ext α) (c : Config α) (ops : List (Op α)) :
    ∀ s : State α, s.got_odometry = false → (∀ op ∈ ops, Op.isUpdate op = false) →
      (run m c s ops).got_odometry = false := by
  induction ops with
  | nil => intro s hs _; exact hs
  | cons op ops ih =>
    intro s hs h
    refine ih _ ?_ (fun o ho => h o (List.mem_cons_of_mem _ ho))
    rw [(line_apply_got_odometry m c s op).1 (h op (List.mem_cons_self _ _))]
    exact hs

/-- A measurement, once received, is kept along every run. -/
theorem line_run_keeps_odometry (m : Ext α) (c : Config α) (ops : List (Op α)) :
    ∀ s : State α, s.got_odometry = true → (run m c s ops).got_odometry = true := by
  induction ops with
  | nil => intro s hs; exact hs
  | cons op ops ih =>
    intro s hs
    exact ih _ ((line_apply_invariants m c s op).2 hs)

/-- A run that contains an `update` ends with a measurement. -/
theorem line_run_with_update (m : Ext α) (c : Config α) (ops : List (Op α)) :
    ∀ s : State α, (∃ op ∈ ops, Op.isUpdate op = true) →
      (run m c s ops).got_odometry = true := by
  induction ops with
  | nil => intro s h; obtain ⟨op, ho, _⟩ := h; simp at ho
  | cons op ops ih =>
    intro s h
    by_cases hu : Op.isUpdate op = true
    · exact line_run_keeps_odometry m c ops _ ((line_apply_got_odometry m c s op).2 hu)
    · obtain ⟨o, ho, hou⟩ := h
      rcases List.mem_cons.mp ho with rfl | ho
      · exact absurd hou hu
      · exact ih _ ⟨o, ho, hou⟩

end LineTracker

section Activation

variable {α : Type} [LinearOrderedField α]

/-- C14: in both trackers, `activate` in a state without a measurement
(`got_odometry` false) returns `false` and returns the state unchanged; in every
state reached from `initialize` by operations none of which is an `update`,
`got_odometry` and `is_active` are false; `activate` in a state with a
measurement returns `true`; and every state reached by a sequence of operations
that contains an `update` has a measurement. -/
theorem activate_requires_odometry (m : Ext α) :
    (∀ (c : LandoffTracker.Config α) (cmd : Option (PositionCommand α))
        (s : LandoffTracker.State α),
        s.got_odometry = false → LandoffTracker.activate m c cmd s = (s, false))
    ∧ (∀ (c : LandoffTracker.Config α) (mem : LandoffTracker.State α)
        (ops : List (LandoffTracker.Op α)),
        (∀ op ∈ ops, LandoffTracker.Op.isUpdate op = false) →
        (LandoffTracker.run m c (LandoffTracker.initialise (LandoffTracker.construct mem))
            ops).got_odometry = false
        ∧ (LandoffTracker.run m c (LandoffTracker.initialise (LandoffTracker.construct mem))
            ops).is_active = false)
    ∧ (∀ (c : LandoffTracker.Config α) (cmd : Option (PositionCommand α))
        (s : LandoffTracker.State α),
        s.got_odometry = true → (LandoffTracker.activate m c cmd s).2 = true)
    ∧ (∀ (c : LandoffTracker.Config α) (s : LandoffTracker.State α)
        (ops : List (LandoffTracker.Op α)),
        (∃ op ∈ ops, LandoffTracker.Op.isUpdate op = true) →
        (LandoffTracker.run m c s ops).got_odometry = true)
    ∧ (∀ (c : LineTracker.Config α) (cmd : Option (PositionCommand α))
        (s : LineTracker.State α),
        s.got_odometry = false → LineTracker.activate m c cmd s = (s, false))
    ∧ (∀ (c : LineTracker.Config α) (mem : LineTracker.State α)
        (ops : List (LineTracker.Op α)),
        (∀ op ∈ ops, LineTracker.Op.isUpdate op = false) →
        (LineTracker.run m c (LineTracker.initialise (LineTracker.construct mem))
            ops).got_odometry = false
        ∧ (LineTracker.run m c (LineTracker.initialise (LineTracker.construct mem))
            ops).is_active = false)
    ∧ (∀ (c : LineTracker.Config α) (cmd : Option (PositionCommand α))
        (s : LineTracker.State α),
        s.got_odometry = true → (LineTracker.activate m c cmd s).2 = true)
    ∧ (∀ (c : LineTracker.Config α) (s : LineTracker.State α)
        (ops : List (LineTracker.Op α)),
        (∃ op ∈ ops, LineTracker.Op.isUpdate op = true) →
        (LineTracker.run m c s ops).got_odometry = true) := by
  refine ⟨?_, ?_, ?_, ?_, ?_, ?_, ?_, ?_⟩
  · intro c cmd s h
    exact LandoffTracker.activate_without_odometry m c cmd s h
  · intro c mem ops h
    have hg := LandoffTracker.run_without_update m c ops
      (LandoffTracker.initialise (LandoffTracker.construct mem)) rfl h
    exact ⟨hg, (LandoffTracker.run_invariants m c ops _
      (LandoffTracker.initialise_invariants mem).1
      (LandoffTracker.initialise_invariants mem).2).1 hg⟩
  · intro c cmd s h
    exact (LandoffTracker.activate_with_odometry m c cmd s h).1
  · intro c s ops h
    exact LandoffTracker.run_with_update m c ops s h
  · intro c cmd s h
    exact LineTracker.line_activate_without_odometry m c cmd s h
  · intro c mem ops h
    have hg := LineTracker.line_run_without_update m c ops
      (LineTracker.initialise (LineTracker.construct mem)) rfl h
    exact ⟨hg, LineTracker.line_run_invariants m c ops _ (fun _ => rfl) hg⟩
  · intro c cmd s h
    exact (LineTracker.line_activate_with_odometry m c cmd s h).1
  · intro c s ops h
    exact LineTracker.line_run_with_update m c ops s h

/-- C14 at concrete inputs: on the fresh trackers `activate` returns `false` and
the unchanged state, and after one `update` it returns `true`. -/
theorem activate_requires_odometry_witness :
    LandoffTracker.activate ratExt LandoffTracker.sampleConfig none LandoffTracker.freshState
      = (LandoffTracker.freshState, false)
    ∧ (LandoffTracker.activate ratExt LandoffTracker.sampleConfig none
        LandoffTracker.handoffState).2 = true
    ∧ LineTracker.activate ratExt LineTracker.scenarioConfig none LineTracker.freshState
      = (LineTracker.freshState, false)
    ∧ (LineTracker.activate ratExt LineTracker.scenarioConfig none
        (LineTracker.run ratExt LineTracker.scenarioConfig LineTracker.freshState
          [LineTracker.Op.update zeroOdometry])).2 = true :=
  ⟨(activate_requires_odometry ratExt).1 LandoffTracker.sampleConfig none
      LandoffTracker.freshState (by decide!),
    (activate_requires_odometry ratExt).2.2.1 LandoffTracker.sampleConfig none
      LandoffTracker.handoffState (by decide!),
    (activate_requires_odometry ratExt).2.2.2.2.1 LineTracker.scenarioConfig none
      LineTracker.freshState (by decide!),
    (activate_requires_odometry ratExt).2.2.2.2.2.2.1 LineTracker.scenarioConfig none _
      (by decide!)⟩

end Activation

/-! ### LandoffTracker: what the requests and `update` write (C21, C23) -/

namespace LandoffTracker

open States_t

variable {α : Type} [LinearOrderedField α]

/-- The claim C21 fails at two concrete inputs: `hover` on a tracker whose last
measurement descends at 1 m/s overwrites `current_vertical_speed` (`0` before,
`-1` after), and an accepted `callbackTakeoff` overwrites `state_x` (`0`
before, the measured `1` after). -/
theorem request_handlers_write_trajectory :
    handoffState.current_vertical_speed = 0
    ∧ (hover ratExt sampleConfig handoffState).1.current_vertical_speed = -1
    ∧ groundedActive.state_x = 0
    ∧ (callbackTakeoff sampleConfig groundedActive).2.success = true
    ∧ (callbackTakeoff sampleConfig groundedActive).1.state_x = 1 := by
  decide!

/-- C21, amended: `callbackLand` leaves the trajectory state unchanged, and so
does a refused `callbackTakeoff`; an accepted `callbackTakeoff` sets the
position and yaw to the measured ones and `speed_x`, `speed_y`,
`current_vertical_speed` to `0` and leaves the heading, the vertical direction,
the horizontal speed and the accelerations unchanged; `hover` overwrites
`current_horizontal_speed` and `current_vertical_speed` with the measured
speeds and leaves the rest of the trajectory state unchanged. -/
theorem request_handlers_trajectory_frame (m : Ext α) (c : Config α) (s : State α) :
    (callbackLand c s).1.trajectory = s.trajectory
    ∧ ((callbackTakeoff c s).2.success = false →
        (callbackTakeoff c s).1.trajectory = s.trajectory)
    ∧ ((callbackTakeoff c s).2.success = true →
        (callbackTakeoff c s).1.trajectory =
          { s.trajectory with
            state_x := s.odometry_x, state_y := s.odometry_y, state_z := s.odometry_z,
            state_yaw := s.odometry_yaw, speed_x := 0, speed_y := 0,
            current_vertical_speed := 0 })
    ∧ (hover m c s).1.trajectory =
        { s.trajectory with
          current_horizontal_speed :=
            m.sqrt (s.odometry.twist_linear_x ^ 2 + s.odometry.twist_linear_y ^ 2),
          current_vertical_speed := s.odometry.twist_linear_z } := by
  refine ⟨?_, ?_, ?_, ?_⟩
  · unfold callbackLand changeState changeStateHorizontal changeStateVertical
    by_cases ha : s.is_active = true
    · by_cases hz : s.odometry_z < c.landed_threshold_height_
      · simp [ha, hz, State.trajectory]
      · simp [ha, hz, State.trajectory]
    · simp [ha, State.trajectory]
  · unfold callbackTakeoff changeState changeStateHorizontal changeStateVertical
    by_cases h1 : s.is_active = true
    · by_cases h2 : s.callbacks_enabled = true
      · by_cases h3 : s.odometry_z > c.landed_threshold_height_
        · simp [h1, h2, h3]
        · simp [h1, h2, h3]
      · simp [h1, h2]
    · simp [h1]
  · unfold callbackTakeoff changeState changeStateHorizontal changeStateVertical
    by_cases h1 : s.is_active = true
    · by_cases h2 : s.callbacks_enabled = true
      · by_cases h3 : s.odometry_z > c.landed_threshold_height_
        · simp [h1, h2, h3]
        · simp [h1, h2, h3, State.trajectory]
      · simp [h1, h2]
    · simp [h1]
  · simp [hover, State.trajectory]

/-- C21 (amended) at a concrete input: the takeoff request of an airborne
tracker is refused and leaves the trajectory state unchanged. -/
theorem request_handlers_trajectory_frame_witness :
    (callbackTakeoff sampleConfig airborneActive).1.trajectory = airborneActive.trajectory :=
  (request_handlers_trajectory_frame ratExt sampleConfig airborneActive).2.1 (by decide!)

/-- C23: `update` always caches the measurement (`got_odometry`, `odometry`,
`odometry_x/y/z`); it returns no command when the tracker is inactive; when the
tracker is active it returns a command with position `(state_x, state_y,
state_z)`, yaw `state_yaw` and velocity `(cos(current_heading) *
current_horizontal_speed, sin(current_heading) * current_horizontal_speed,
current_vertical_direction * current_vertical_speed)`; and in both cases the
trajectory state, the goal and the axis states are unchanged. -/
theorem update_caches_and_reports (m : Ext α) (c : Config α) (msg : Odometry α)
    (s : State α) :
    (update m c msg s).1.got_odometry = true
    ∧ (update m c msg s).1.odometry = msg
    ∧ (update m c msg s).1.odometry_x = msg.position_x
    ∧ (update m c msg s).1.odometry_y = msg.position_y
    ∧ (update m c msg s).1.odometry_z = msg.position_z
    ∧ (s.is_active = false → (update m c msg s).2 = none)
    ∧ (s.is_active = true → ∃ out : PositionCommand α,
        (update m c msg s).2 = some out
        ∧ out.position_x = s.state_x ∧ out.position_y = s.state_y
        ∧ out.position_z = s.state_z ∧ out.yaw = s.state_yaw
        ∧ out.velocity_x = m.cos s.current_heading * s.current_horizontal_speed
        ∧ out.velocity_y = m.sin s.current_heading * s.current_horizontal_speed
        ∧ out.velocity_z = s.current_vertical_direction * s.current_vertical_speed)
    ∧ (update m c msg s).1.trajectory = s.trajectory
    ∧ (update m c msg s).1.goal = s.goal
    ∧ (update m c msg s).1.current_state_horizontal = s.current_state_horizontal
    ∧ (update m c msg s).1.current_state_vertical = s.current_state_vertical
    ∧ (update m c msg s).1.is_active = s.is_active := by
  have hfields : ∀ b : Bool, s.is_active = b →
      (update m c msg s).1.got_odometry = true
      ∧ (update m c msg s).1.odometry = msg
      ∧ (update m c msg s).1.odometry_x = msg.position_x
      ∧ (update m c msg s).1.odometry_y = msg.position_y
      ∧ (update m c msg s).1.odometry_z = msg.position_z
      ∧ (update m c msg s).1.trajectory = s.trajectory
      ∧ (update m c msg s).1.goal = s.goal
      ∧ (update m c msg s).1.current_state_horizontal = s.current_state_horizontal
      ∧ (update m c msg s).1.current_state_vertical = s.current_state_vertical
      ∧ (update m c msg s).1.is_active = s.is_active := by
    intro b hb
    unfold update
    cases b <;> simp [hb, State.trajectory, State.goal]
  obtain ⟨f1, f2, f3, f4, f5, f6, f7, f8, f9, f10⟩ := hfields s.is_active rfl
  refine ⟨f1, f2, f3, f4, f5, ?_, ?_, f6, f7, f8, f9, f10⟩
  · intro h
    unfold update
    simp [h]
  · intro h
    unfold update
    simp only [h, Bool.not_true, Bool.false_eq_true, if_false]
    refine ⟨_, rfl, ?_⟩
    split_ifs <;> exact ⟨rfl, rfl, rfl, rfl, rfl, rfl, rfl⟩

/-- C23 at concrete inputs: the active tracker activated on a vehicle at rest
returns a command, the fresh (inactive) tracker returns none. -/
theorem update_caches_and_reports_witness :
    (update ratExt sampleConfig descendingOdometry freshState).2 = none
    ∧ ∃ out : PositionCommand ℚ,
        (update ratExt sampleConfig descendingOdometry activatedAtRest).2 = some out
        ∧ out.position_x = activatedAtRest.state_x ∧ out.position_y = activatedAtRest.state_y
        ∧ out.position_z = activatedAtRest.state_z ∧ out.yaw = activatedAtRest.state_yaw
        ∧ out.velocity_x = ratExt.cos activatedAtRest.current_heading
            * activatedAtRest.current_horizontal_speed
        ∧ out.velocity_y = ratExt.sin activatedAtRest.current_heading
            * activatedAtRest.current_horizontal_speed
        ∧ out.velocity_z = activatedAtRest.current_vertical_direction
            * activatedAtRest.current_vertical_speed :=
  ⟨(update_caches_and_reports ratExt sampleConfig descendingOdometry freshState).2.2.2.2.2.1
      (by decide!),
    (update_caches_and_reports ratExt sampleConfig descendingOdometry
      activatedAtRest).2.2.2.2.2.2.1 (by decide!)⟩

end LandoffTracker

/-! ### LandoffTracker: the saturation guard (C22, C30) -/

namespace LandoffTracker

open States_t

variable {α : Type} [LinearOrderedField α]

/-- The guard fires: both speeds are set to `0` and nothing else changes. -/
theorem saturate_fires (m : Ext α) (c : Config α) (t : State α)
    (ht : t.taking_off = true) (he : positionError m t > c.max_position_difference_)
    (hp : predictedError m c t > positionError m t) :
    saturate m c t = { t with current_horizontal_speed := 0, current_vertical_speed := 0 } := by
  unfold positionError at he hp
  unfold predictedError at hp
  unfold saturate
  simp only [ht, if_true]
  rw [if_pos he, if_pos hp]

/-- The guard does not fire: the state is returned unchanged. -/
theorem saturate_idle (m : Ext α) (c : Config α) (t : State α)
    (h : t.taking_off = false ∨ ¬ (positionError m t > c.max_position_difference_)
      ∨ ¬ (predictedError m c t > positionError m t)) :
    saturate m c t = t := by
  unfold positionError predictedError at h
  unfold saturate
  by_cases ht : t.taking_off = true
  · simp only [ht, if_true]
    rcases h with h | h | h
    · rw [ht] at h
      exact absurd h (by simp)
    · rw [if_neg h]
    · by_cases he : size3 m (t.odometry_x - t.state_x) (t.odometry_y - t.state_y)
          (t.odometry_z - t.state_z) > c.max_position_difference_
      · rw [if_pos he, if_neg h]
      · rw [if_neg he]
  · simp [ht]

/-- A tick of an active tracker, with the state at the guard named. -/
theorem mainTimer_through_guard (m : Ext α) (c : Config α) (s : State α)
    (ha : s.is_active = true) :
    mainTimer m c s = trackYaw m c (integrate m c (saturate m c (beforeGuard m c s))) := by
  unfold mainTimer beforeGuard
  simp [ha]

/-- The mode flag `taking_off` that the guard tests is the one the tick started
with, unless the tick has just entered `HOVER_STATE`. -/
theorem beforeGuard_taking_off (m : Ext α) (c : Config α) (s : State α) :
    (beforeGuard m c s).taking_off = s.taking_off
      ∨ (beforeGuard m c s).current_state_vertical = HOVER_STATE := by
  have h1 := (stepHorizontal_frame m c s).2.2.1
  have h2 := (stepVertical_frame c (stepHorizontal m c s)).2.2.1
  rw [← h1, ← h2]
  unfold beforeGuard
  simp only [coordinate, changeState, changeStateHorizontal, changeStateVertical]
  (repeat' split_ifs) <;> simp

/-- C22: in a tick of an active tracker, let `t` be the state after the
axis-machine step, where the guard is reached.  If `taking_off` is set in `t`,
the distance `err` between measured and commanded position exceeds
`max_position_difference_` and the distance from the one-tick-ahead position to
the measured position is greater than `err`, then at the end of the tick both
speeds are `0` and the commanded position is the one of `t`; if `taking_off` is
false or either condition fails, the guard returns `t` unchanged and the tick
ends with the speeds of `t`. -/
theorem saturation_guard (m : Ext α) (c : Config α) (s : State α)
    (ha : s.is_active = true) :
    ((beforeGuard m c s).taking_off = true →
      positionError m (beforeGuard m c s) > c.max_position_difference_ →
      predictedError m c (beforeGuard m c s) > positionError m (beforeGuard m c s) →
      (mainTimer m c s).current_horizontal_speed = 0
      ∧ (mainTimer m c s).current_vertical_speed = 0
      ∧ (mainTimer m c s).state_x = (beforeGuard m c s).state_x
      ∧ (mainTimer m c s).state_y = (beforeGuard m c s).state_y
      ∧ (mainTimer m c s).state_z = (beforeGuard m c s).state_z)
    ∧ (((beforeGuard m c s).taking_off = false
        ∨ ¬ (positionError m (beforeGuard m c s) > c.max_position_difference_)
        ∨ ¬ (predictedError m c (beforeGuard m c s) > positionError m (beforeGuard m c s))) →
      saturate m c (beforeGuard m c s) = beforeGuard m c s
      ∧ (mainTimer m c s).current_horizontal_speed
          = (beforeGuard m c s).current_horizontal_speed
      ∧ (mainTimer m c s).current_vertical_speed
          = (beforeGuard m c s).current_vertical_speed) := by
  rw [mainTimer_through_guard m c s ha]
  generalize beforeGuard m c s = t
  constructor
  · intro ht he hp
    rw [saturate_fires m c t ht he hp]
    simp [trackYaw, integrate]
  · intro h
    rw [saturate_idle m c t h]
    simp [trackYaw, integrate]

/-- C22 at a concrete input: a takeoff with the vehicle held on the ground; the
commanded height `3/2` is more than `max_position_difference_ = 1` above the
measured one and the next step would go further, so the tick ends with both
speeds `0` and the commanded height still `3/2`. -/
theorem saturation_guard_witness :
    (mainTimer ratExt sampleConfig takeoffHeldDown).current_horizontal_speed = 0
    ∧ (mainTimer ratExt sampleConfig takeoffHeldDown).current_vertical_speed = 0
    ∧ (mainTimer ratExt sampleConfig takeoffHeldDown).state_x
        = (beforeGuard ratExt sampleConfig takeoffHeldDown).state_x
    ∧ (mainTimer ratExt sampleConfig takeoffHeldDown).state_y
        = (beforeGuard ratExt sampleConfig takeoffHeldDown).state_y
    ∧ (mainTimer ratExt sampleConfig takeoffHeldDown).state_z
        = (beforeGuard ratExt sampleConfig takeoffHeldDown).state_z :=
  (saturation_guard ratExt sampleConfig takeoffHeldDown (by decide!)).1
    (by decide!) (by decide!) (by decide!)

/-- C30: in a tick of an active tracker in which `taking_off` is set when the
guard is reached, if the distance `d` between the commanded and the measured
position just before the integration step exceeds `max_position_difference_`,
then the distance between them at the end of the tick is at most `d`. -/
theorem takeoff_runaway_protection (m : Ext α) (c : Config α) (s : State α)
    (ha : s.is_active = true) (ht : (beforeGuard m c s).taking_off = true)
    (hd : positionError m (beforeGuard m c s) > c.max_position_difference_) :
    positionError m (mainTimer m c s) ≤ positionError m (beforeGuard m c s) := by
  rw [mainTimer_through_guard m c s ha]
  revert ht hd
  generalize beforeGuard m c s = t
  intro ht hd
  by_cases hp : predictedError m c t > positionError m t
  · rw [saturate_fires m c t ht hd hp]
    apply le_of_eq
    simp [positionError, trackYaw, integrate]
  · rw [saturate_idle m c t (Or.inr (Or.inr hp))]
    have e : positionError m (trackYaw m c (integrate m c t)) = predictedError m c t := by
      simp only [positionError, predictedError, size3, dist3, trackYaw, integrate]
      congr 1
      ring
    rw [e]
    exact not_lt.mp hp

/-- C30 at a concrete input: the takeoff with the vehicle held on the ground;
the distance is `3/2` before and after the integration step. -/
theorem takeoff_runaway_protection_witness :
    positionError ratExt (beforeGuard ratExt sampleConfig takeoffHeldDown) = 3 / 2
    ∧ positionError ratExt (mainTimer ratExt sampleConfig takeoffHeldDown)
        ≤ positionError ratExt (beforeGuard ratExt sampleConfig takeoffHeldDown) :=
  ⟨by decide!,
    takeoff_runaway_protection ratExt sampleConfig takeoffHeldDown (by decide!) (by decide!)
      (by decide!)⟩

end LandoffTracker

/-! ### LandoffTracker: the parameter checks of `initialize` (C24, C25) -/

namespace LandoffTracker

open States_t

variable {α : Type} [LinearOrderedField α]

/-- The claim C24 fails at a concrete input: the configuration with all four
accelerations `0` passes every check of `initialize`. -/
theorem zero_acceleration_accepted :
    zeroAccelerationConfig.horizontal_acceleration_ = 0
    ∧ zeroAccelerationConfig.vertical_acceleration_ = 0
    ∧ zeroAccelerationConfig.takeoff_acceleration_ = 0
    ∧ zeroAccelerationConfig.landing_acceleration_ = 0
    ∧ configError zeroAccelerationConfig = false := by
  decide!

/-- C24, amended: `initialize` reports a configuration error for every
configuration in which one of `horizontal_acceleration_`,
`vertical_acceleration_`, `takeoff_acceleration_`, `landing_acceleration_` is
negative; a configuration that passes the checks has all four accelerations
`≥ 0`, and the acceleration selected by the band selection of
`accelerateVertical` is then `≥ 0` in every state. -/
theorem configError_of_negative_acceleration (c : Config α) :
    ((c.horizontal_acceleration_ < 0 ∨ c.vertical_acceleration_ < 0
        ∨ c.takeoff_acceleration_ < 0 ∨ c.landing_acceleration_ < 0) →
      configError c = true)
    ∧ (configError c = false →
      0 ≤ c.horizontal_acceleration_ ∧ 0 ≤ c.vertical_acceleration_
      ∧ 0 ≤ c.takeoff_acceleration_ ∧ 0 ≤ c.landing_acceleration_
      ∧ ∀ s : State α, 0 ≤ (usedSpeedAcceleration c s).2) := by
  constructor
  · intro h
    simp only [configError, Bool.or_eq_true, decide_eq_true_eq]
    tauto
  · intro h
    simp only [configError, Bool.or_eq_false_iff, decide_eq_false_iff_not, not_lt] at h
    obtain ⟨⟨⟨⟨⟨⟨⟨⟨⟨⟨⟨⟨⟨⟨⟨_, _⟩, h3⟩, h4⟩, _⟩, _⟩, _⟩, _⟩, h9⟩, _⟩, h11⟩, _⟩, _⟩, _⟩, _⟩, _⟩ := h
    refine ⟨h3, h4, h9, h11, fun s => ?_⟩
    unfold usedSpeedAcceleration
    split_ifs <;> simp only [] <;> linarith

/-- C24 (amended) at a concrete input: without `horizontal_acceleration` on the
parameter server the default `-1` is loaded and reported. -/
theorem configError_of_negative_acceleration_witness :
    (loadParams { paramsWithoutFastHeight with horizontal_acceleration := none }).horizontal_acceleration_
      = -1
    ∧ configError
        (loadParams { paramsWithoutFastHeight with horizontal_acceleration := none }) = true :=
  ⟨by decide!,
    (configError_of_negative_acceleration
      (loadParams { paramsWithoutFastHeight with horizontal_acceleration := none })).1
      (Or.inl (by decide!))⟩

/-- The claim C25 fails at a concrete input: with a loop rate of `0` and
`landing_fast_height` not supplied, every check of `initialize` passes. -/
theorem zero_rate_and_missing_fast_height_accepted :
    paramsWithZeroRate.tracker_loop_rate = some 0
    ∧ paramsWithZeroRate.landing_fast_height = none
    ∧ (loadParams paramsWithZeroRate).landing_fast_height_ = -1
    ∧ configError (loadParams paramsWithZeroRate) = false := by
  decide!

/-- C25, amended: `initialize` reports a configuration error whenever the loop
rate is not supplied or negative, and whenever `takeoff_height` or
`landing_height` is not supplied. -/
theorem configError_of_missing_height_or_rate (p : ParamServer α) :
    (p.tracker_loop_rate = none → configError (loadParams p) = true)
    ∧ (∀ r : ℤ, p.tracker_loop_rate = some r → r < 0 → configError (loadParams p) = true)
    ∧ (p.takeoff_height = none → configError (loadParams p) = true)
    ∧ (p.landing_height = none → configError (loadParams p) = true) := by
  refine ⟨?_, ?_, ?_, ?_⟩
  · intro h
    simp [configError, loadParams, h]
  · intro r h hr
    simp [configError, loadParams, h, hr]
  · intro h
    simp [configError, loadParams, h]
  · intro h
    simp only [configError, loadParams, h, Option.getD_none, Bool.or_eq_true, decide_eq_true_eq]
    have : (-1000 : α) < -999 := by norm_num
    tauto

/-- C25 (amended) at a concrete input: without `landing_height` on the parameter
server `initialize` reports an error. -/
theorem configError_of_missing_height_or_rate_witness :
    configError (loadParams { paramsWithoutFastHeight with landing_height := none }) = true :=
  (configError_of_missing_height_or_rate
    { paramsWithoutFastHeight with landing_height := none }).2.2.2 rfl

end LandoffTracker

/-! ### LandoffTracker: lock order (C26) and the acceleration ramp (C29) -/

namespace LandoffTracker

open States_t

variable {α : Type} [LinearOrderedField α]

/-- C26 (the code): `activate`, `update`, `hover` and `callbackTakeoff` take
their mutexes in the order `mutex_odometry`, `mutex_state`, `mutex_goal`, but
`mainTimer` takes `mutex_state`, then `mutex_goal`, then `mutex_odometry`: it
acquires `mutex_odometry` while holding `mutex_state` and `mutex_goal`, the
reverse of the order in which `activate` acquires them. -/
theorem mainTimer_lock_order_reversed :
    inGlobalOrder activate_locks = true
    ∧ inGlobalOrder update_locks = true
    ∧ inGlobalOrder hover_locks = true
    ∧ inGlobalOrder callbackTakeoff_locks = true
    ∧ inGlobalOrder mainTimer_locks = false
    ∧ acquisitions [] mainTimer_locks
        = [(Mutex.mutex_state, Mutex.mutex_goal), (Mutex.mutex_goal, Mutex.mutex_odometry),
            (Mutex.mutex_state, Mutex.mutex_odometry)]
    ∧ (Mutex.mutex_odometry, Mutex.mutex_state) ∈ acquisitions [] activate_locks
    ∧ (Mutex.mutex_odometry, Mutex.mutex_goal) ∈ acquisitions [] activate_locks := by
  decide

/-- One call of `accelerateHorizontal` sets the speed to the minimum of the
incremented speed and `horizontal_speed_`. -/
theorem accelerateHorizontal_speed_min (m : Ext α) (c : Config α) (s : State α) :
    (accelerateHorizontal m c s).current_horizontal_speed
      = min (s.current_horizontal_speed + c.horizontal_acceleration_ * c.tracker_dt_)
          c.horizontal_speed_ := by
  simp only [accelerateHorizontal, changeStateHorizontal]
  split_ifs with h1 h2 h2 <;> simp only []
  · exact (min_eq_right h1).symm
  · exact (min_eq_right h1).symm
  · exact (min_eq_left (le_of_lt (not_le.mp h1))).symm
  · exact (min_eq_left (le_of_lt (not_le.mp h1))).symm

/-- One call of `accelerateVertical`: below the band's speed the speed is
incremented by `used_acceleration * dt`; at or above it the incremented speed is
decremented by `vertical_acceleration_ * dt`. -/
theorem accelerateVertical_speed_eq (c : Config α) (s : State α) :
    (accelerateVertical c s).current_vertical_speed
      = if s.current_vertical_speed + (usedSpeedAcceleration c s).2 * c.tracker_dt_
            ≥ (usedSpeedAcceleration c s).1 then
          s.current_vertical_speed + (usedSpeedAcceleration c s).2 * c.tracker_dt_
            - c.vertical_acceleration_ * c.tracker_dt_
        else s.current_vertical_speed + (usedSpeedAcceleration c s).2 * c.tracker_dt_ := by
  simp only [accelerateVertical, changeStateVertical]
  split_ifs <;> rfl

/-- C29 (the code): the horizontal ramp is the saturating one, `min(v + a * dt,
horizontal_speed_)`, for every input; the vertical ramp is not: in a takeoff
with `takeoff_speed_ = 1`, `takeoff_acceleration_ = 2`, `vertical_acceleration_
= 1`, `dt = 1/10` and speed `1` before the call, `min(v + used_acceleration *
dt, used_speed) = 1` but `accelerateVertical` leaves `11/10`. -/
theorem accelerateVertical_is_not_saturating_ramp :
    (∀ (m : Ext α) (c : Config α) (s : State α),
      (accelerateHorizontal m c s).current_horizontal_speed
        = min (s.current_horizontal_speed + c.horizontal_acceleration_ * c.tracker_dt_)
            c.horizontal_speed_)
    ∧ min (takeoffAtMaxSpeed.current_vertical_speed
          + (usedSpeedAcceleration sampleConfig takeoffAtMaxSpeed).2 * sampleConfig.tracker_dt_)
        (usedSpeedAcceleration sampleConfig takeoffAtMaxSpeed).1 = 1
    ∧ (accelerateVertical sampleConfig takeoffAtMaxSpeed).current_vertical_speed = 11 / 10 := by
  refine ⟨fun m c s => accelerateHorizontal_speed_min m c s, by decide!, ?_⟩
  rw [accelerateVertical_speed_eq]
  decide!

end LandoffTracker

/-! ### LineTracker: the goal request (C27) -/

namespace LineTracker

open States_t

/-- C27: for every prior state, `goTo(x, y, z, yaw)` stores `(x, y, z)` as the
goal position and `validateYawSetpoint(yaw)` as the goal yaw, sets `have_goal`,
puts both axes in `STOP_MOTION_STATE`, reports success, and leaves the
trajectory state (position, yaw, speeds, heading, vertical direction)
unchanged. -/
theorem goTo_sets_goal {α : Type} (m : Ext α) (x y z yaw : α) (s : State α) :
    (goTo m x y z yaw s).1.goal_x = x
    ∧ (goTo m x y z yaw s).1.goal_y = y
    ∧ (goTo m x y z yaw s).1.goal_z = z
    ∧ (goTo m x y z yaw s).1.goal_yaw = m.validateYawSetpoint yaw
    ∧ (goTo m x y z yaw s).1.have_goal = true
    ∧ (goTo m x y z yaw s).1.current_state_horizontal = STOP_MOTION_STATE
    ∧ (goTo m x y z yaw s).1.current_state_vertical = STOP_MOTION_STATE
    ∧ (goTo m x y z yaw s).2.success = true
    ∧ (goTo m x y z yaw s).1.state_x = s.state_x
    ∧ (goTo m x y z yaw s).1.state_y = s.state_y
    ∧ (goTo m x y z yaw s).1.state_z = s.state_z
    ∧ (goTo m x y z yaw s).1.state_yaw = s.state_yaw
    ∧ (goTo m x y z yaw s).1.speed_x = s.speed_x
    ∧ (goTo m x y z yaw s).1.speed_y = s.speed_y
    ∧ (goTo m x y z yaw s).1.speed_yaw = s.speed_yaw
    ∧ (goTo m x y z yaw s).1.current_heading = s.current_heading
    ∧ (goTo m x y z yaw s).1.current_vertical_direction = s.current_vertical_direction
    ∧ (goTo m x y z yaw s).1.current_horizontal_speed = s.current_horizontal_speed
    ∧ (goTo m x y z yaw s).1.current_vertical_speed = s.current_vertical_speed := by
  simp [goTo, changeState]

end LineTracker

/-! ### SpeedTracker: the per-field dispatch of `update` (C28) -/

namespace SpeedTracker

variable {α : Type} [LinearOrderedField α]

/-- The command returned by `update` on an active tracker whose external
command has not timed out, field by field. -/
theorem update_active_eq (now : α) (msg : UavState α) (s : State α)
    (ha : s.is_active = true)
    (hto : ¬ (now - s.external_command_time > s.external_command_timeout_)) :
    (update now msg s).2 = some
      { s.output with
        position_x := msg.position_x, position_y := msg.position_y,
        velocity_x := if s.external_command.use_horizontal_velocity
          then s.external_command.velocity_x else msg.velocity_linear_x,
        velocity_y := if s.external_command.use_horizontal_velocity
          then s.external_command.velocity_y else msg.velocity_linear_y,
        use_velocity_horizontal := s.external_command.use_horizontal_velocity,
        velocity_z := if s.external_command.use_vertical_velocity
          then s.external_command.velocity_z else msg.velocity_linear_z,
        use_velocity_vertical := s.external_command.use_vertical_velocity,
        position_z := if s.external_command.use_height
          then s.external_command.height else msg.position_z,
        use_position_vertical := s.external_command.use_height,
        acceleration_x := if s.external_command.use_acceleration
          then s.external_command.acceleration_x else msg.acceleration_linear_x,
        acceleration_y := if s.external_command.use_acceleration
          then s.external_command.acceleration_y else msg.acceleration_linear_y,
        acceleration_z := if s.external_command.use_acceleration
          then s.external_command.acceleration_z else msg.acceleration_linear_z,
        use_acceleration := s.external_command.use_acceleration,
        yaw := if s.external_command.use_yaw then s.external_command.yaw else msg.yaw,
        use_yaw := s.external_command.use_yaw,
        yaw_dot := if s.external_command.use_yaw_dot
          then s.external_command.yaw_dot else msg.velocity_angular_z,
        use_yaw_dot := s.external_command.use_yaw_dot } := by
  obtain ⟨cb, tmo, us, gus, ux, uy, uz, uyaw, ur, up, ini, act, gc, cmd, ct, out⟩ := s
  obtain ⟨vx, vy, vz, h, ax, ay, az, yw, yd, f1, f2, f3, f4, f5, f6⟩ := cmd
  simp only at ha hto
  subst ha
  unfold update
  simp only [hto, Bool.not_true, Bool.false_eq_true, if_false, decide_False, Bool.and_false]
  cases f1 <;> cases f2 <;> cases f3 <;> cases f4 <;> cases f5 <;> cases f6 <;> rfl

/-- C28: when the tracker is active and the external command has not timed
out, `update` returns a command in which, for each of horizontal velocity,
vertical velocity, height, acceleration, yaw and yaw rate, the value is the
external command's if its `use_*` flag is set and the measured one of the
message otherwise, the output's `use_*` flag equals the command's flag, and the
position x, y is the measured one. -/
theorem update_dispatches_fields (now : α) (msg : UavState α) (s : State α)
    (ha : s.is_active = true)
    (hto : ¬ (now - s.external_command_time > s.external_command_timeout_)) :
    ∃ out : PositionCommand α,
      (update now msg s).2 = some out
      ∧ out.position_x = msg.position_x ∧ out.position_y = msg.position_y
      ∧ out.velocity_x = (if s.external_command.use_horizontal_velocity
          then s.external_command.velocity_x else msg.velocity_linear_x)
      ∧ out.velocity_y = (if s.external_command.use_horizontal_velocity
          then s.external_command.velocity_y else msg.velocity_linear_y)
      ∧ out.use_velocity_horizontal = s.external_command.use_horizontal_velocity
      ∧ out.velocity_z = (if s.external_command.use_vertical_velocity
          then s.external_command.velocity_z else msg.velocity_linear_z)
      ∧ out.use_velocity_vertical = s.external_command.use_vertical_velocity
      ∧ out.position_z = (if s.external_command.use_height
          then s.external_command.height else msg.position_z)
      ∧ out.use_position_vertical = s.external_command.use_height
      ∧ out.acceleration_x = (if s.external_command.use_acceleration
          then s.external_command.acceleration_x else msg.acceleration_linear_x)
      ∧ out.acceleration_y = (if s.external_command.use_acceleration
          then s.external_command.acceleration_y else msg.acceleration_linear_y)
      ∧ out.acceleration_z = (if s.external_command.use_acceleration
          then s.external_command.acceleration_z else msg.acceleration_linear_z)
      ∧ out.use_acceleration = s.external_command.use_acceleration
      ∧ out.yaw = (if s.external_command.use_yaw then s.external_command.yaw else msg.yaw)
      ∧ out.use_yaw = s.external_command.use_yaw
      ∧ out.yaw_dot = (if s.external_command.use_yaw_dot
          then s.external_command.yaw_dot else msg.velocity_angular_z)
      ∧ out.use_yaw_dot = s.external_command.use_yaw_dot := by
  rw [update_active_eq now msg s ha hto]
  exact ⟨_, rfl, rfl, rfl, rfl, rfl, rfl, rfl, rfl, rfl, rfl, rfl, rfl, rfl, rfl, rfl, rfl,
    rfl, rfl⟩

/-- C28 at a concrete input: the command sets the horizontal velocity `(5, 6)`
and the yaw `1`; the measurement at time `10.5` supplies the rest. -/
theorem update_dispatches_fields_witness :
    ∃ out : PositionCommand ℚ,
      (update (105 / 10) sampleUavState trackingState).2 = some out
      ∧ out.position_x = 1 ∧ out.position_y = 2
      ∧ out.velocity_x = 5 ∧ out.velocity_y = 6 ∧ out.use_velocity_horizontal = true
      ∧ out.velocity_z = 3 / 10 ∧ out.use_velocity_vertical = false
      ∧ out.position_z = 3 ∧ out.use_position_vertical = false
      ∧ out.yaw = 1 ∧ out.use_yaw = true
      ∧ out.yaw_dot = 1 / 20 ∧ out.use_yaw_dot = false := by
  obtain ⟨out, h0, h1, h2, h3, h4, h5, h6, h7, h8, h9, _, _, _, _, h14, h15, h16, h17⟩ :=
    update_dispatches_fields (105 / 10) sampleUavState trackingState (by decide!) (by decide!)
  have e1 : trackingState.external_command = sampleCommand := by decide!
  rw [e1] at h3 h4 h5 h6 h7 h8 h9 h14 h15 h16 h17
  exact ⟨out, h0, h1, h2, h3, h4, h5, h6, h7, h8, h9, h14, h15, h16, h17⟩

end SpeedTracker

/-! ### CvxWrapper: the time-step checks of the constructor (C35) -/

namespace CvxWrapper

variable {α : Type} [LinearOrderedField α]

/-- When `dt2 ≤ 0` or `dt2` is not finite, the constructor leaves `dt2` as
supplied and overwrites `dt` with `0.01`. -/
theorem construct_bad_dt2 (isfinite : α → Bool) (verbose : Bool) (max_iters : ℤ)
    (tempQ tempR : List α) (dt dt2 : α) (h : dt2 ≤ 0 ∨ isfinite dt2 = false) :
    (construct isfinite verbose max_iters tempQ tempR dt dt2).A
        = [1, 1, 1, 1, 1, 1, dt2, dt2, dt2, dt2]
    ∧ (construct isfinite verbose max_iters tempQ tempR dt dt2).B = [dt2, dt2]
    ∧ (construct isfinite verbose max_iters tempQ tempR dt dt2).Af
        = [1, 1, 1, 1, 1, 1, 1 / 100, 1 / 100, 1 / 100, 1 / 100]
    ∧ (construct isfinite verbose max_iters tempQ tempR dt dt2).Bf = [1 / 100, 1 / 100] := by
  simp [construct, h]

/-- C35 (the code at the failing input): with `dt = 0.05` and `dt2 = -1` the
constructor leaves `A[6..9] = B[0..1] = -1`, the supplied `dt2`, not `0.2`, and
sets `Af[6..9] = Bf[0..1] = 0.01`, not the supplied `dt = 0.05`. -/
theorem construct_keeps_bad_dt2 :
    (construct allFinite false 25 [] [] (5 / 100) (-1)).A
        = [1, 1, 1, 1, 1, 1, -1, -1, -1, -1]
    ∧ (construct allFinite false 25 [] [] (5 / 100) (-1)).B = [-1, -1]
    ∧ (construct allFinite false 25 [] [] (5 / 100) (-1)).Af
        = [1, 1, 1, 1, 1, 1, 1 / 100, 1 / 100, 1 / 100, 1 / 100]
    ∧ (construct allFinite false 25 [] [] (5 / 100) (-1)).Bf = [1 / 100, 1 / 100] := by
  decide!

end CvxWrapper

/-! ### LandoffTracker: settling in exact arithmetic and the predicted goal (C38) -/

namespace LandoffTracker

open States_t

variable {α : Type} [LinearOrderedField α]

/-- After `n` calls of `stopHorizontal` the horizontal offsets from the goal are
`0.95^n` times the initial ones, and the goal is unchanged. -/
theorem iterate_stopHorizontal (s : State α) (n : ℕ) :
    (stopHorizontal^[n] s).goal_x = s.goal_x ∧ (stopHorizontal^[n] s).goal_y = s.goal_y
    ∧ (stopHorizontal^[n] s).state_x - s.goal_x = (95 / 100) ^ n * (s.state_x - s.goal_x)
    ∧ (stopHorizontal^[n] s).state_y - s.goal_y = (95 / 100) ^ n * (s.state_y - s.goal_y) := by
  induction n with
  | zero => simp
  | succ n ih =>
    obtain ⟨h1, h2, h3, h4⟩ := ih
    rw [Function.iterate_succ_apply']
    refine ⟨h1, h2, ?_, ?_⟩
    · have e : (stopHorizontal (stopHorizontal^[n] s)).state_x - s.goal_x
          = 95 / 100 * ((stopHorizontal^[n] s).state_x - s.goal_x) := by
        simp only [stopHorizontal, h1]; ring
      rw [e, h3]; ring
    · have e : (stopHorizontal (stopHorizontal^[n] s)).state_y - s.goal_y
          = 95 / 100 * ((stopHorizontal^[n] s).state_y - s.goal_y) := by
        simp only [stopHorizontal, h2]; ring
      rw [e, h4]; ring

/-- After `n` calls of `stopVertical` the vertical offset from the goal is
`0.95^n` times the initial one, and the goal is unchanged. -/
theorem iterate_stopVertical (s : State α) (n : ℕ) :
    (stopVertical^[n] s).goal_z = s.goal_z
    ∧ (stopVertical^[n] s).state_z - s.goal_z = (95 / 100) ^ n * (s.state_z - s.goal_z) := by
  induction n with
  | zero => simp
  | succ n ih =>
    obtain ⟨h1, h3⟩ := ih
    rw [Function.iterate_succ_apply']
    refine ⟨h1, ?_⟩
    have e : (stopVertical (stopVertical^[n] s)).state_z - s.goal_z
        = 95 / 100 * ((stopVertical^[n] s).state_z - s.goal_z) := by
      simp only [stopVertical, h1]; ring
    rw [e, h3]; ring

/-- C38: for `vertical_acceleration_ > 0`, after a successful `activate` (any
measurement, with or without a previous command) and after `hover`,
`goal_z - state_z = vv^2 / (2 * vertical_acceleration_) ≥ 0`, where `vv` is the
seeded vertical speed, whatever its sign. -/
theorem predicted_goal_not_below (m : Ext α) (c : Config α)
    (cmd : Option (PositionCommand α)) (s : State α) (hacc : 0 < c.vertical_acceleration_) :
    ((activate m c cmd s).2 = true →
      (activate m c cmd s).1.goal_z - (activate m c cmd s).1.state_z
          = (activate m c cmd s).1.current_vertical_speed ^ 2 / (2 * c.vertical_acceleration_)
      ∧ 0 ≤ (activate m c cmd s).1.goal_z - (activate m c cmd s).1.state_z)
    ∧ (hover m c s).1.goal_z - (hover m c s).1.state_z
        = (hover m c s).1.current_vertical_speed ^ 2 / (2 * c.vertical_acceleration_)
    ∧ 0 ≤ (hover m c s).1.goal_z - (hover m c s).1.state_z
    ∧ (hover m c s).1.current_vertical_speed = s.odometry.twist_linear_z := by
  have hpos : ∀ v : α, 0 ≤ v ^ 2 / (2 * c.vertical_acceleration_) := fun v => by positivity
  have hform : ∀ z v : α, z + (v / c.vertical_acceleration_ * v) / 2 - z
      = v ^ 2 / (2 * c.vertical_acceleration_) := by
    intro z v
    field_simp
    ring
  refine ⟨?_, ?_, ?_, rfl⟩
  · intro h
    have hgot := activate_success_got_odometry m c cmd s h
    by_cases hc : cmd = none ∨ s.odometry_z < c.landed_threshold_height_
    · rw [activate_from_odometry_eq m c cmd s hgot hc]
      simp only []
      rw [hform]
      exact ⟨rfl, hpos _⟩
    · rw [not_or] at hc
      obtain ⟨k, rfl⟩ := Option.ne_none_iff_exists'.mp hc.1
      rw [activate_from_command_eq m c k s hgot hc.2]
      simp only []
      rw [hform]
      exact ⟨rfl, hpos _⟩
  · simp only [hover]
    rw [hform]
  · simp only [hover]
    rw [hform]
    exact hpos _

/-- C38 at a concrete input: on a vehicle at height 3 descending at 1 m/s with
vertical acceleration 1, `activate` and `hover` put the goal `1/2` above the
position. -/
theorem predicted_goal_not_below_witness :
    (activate ratExt sampleConfig none handoffState).1.current_vertical_speed = -1
    ∧ (activate ratExt sampleConfig none handoffState).1.goal_z
        - (activate ratExt sampleConfig none handoffState).1.state_z = 1 / 2
    ∧ 0 ≤ (hover ratExt sampleConfig handoffState).1.goal_z
        - (hover ratExt sampleConfig handoffState).1.state_z := by
  refine ⟨by decide!, ?_, ?_⟩
  · rw [((predicted_goal_not_below ratExt sampleConfig none handoffState (by decide!)).1
      (by decide!)).1]
    decide!
  · exact (predicted_goal_not_below ratExt sampleConfig none handoffState (by decide!)).2.2.1

end LandoffTracker

/-! ### LandoffTracker: the yaw rate (C39) and the landed re-anchoring (C33) -/

namespace LandoffTracker

open States_t

variable {α : Type} [LinearOrderedField α]

/-- The axis switches and the combined-state rules of a tick leave the yaw
rate member and the cached measurement as they are. -/
theorem beforeGuard_frame (m : Ext α) (c : Config α) (s : State α) :
    (beforeGuard m c s).speed_yaw = s.speed_yaw
    ∧ (beforeGuard m c s).odometry_x = s.odometry_x
    ∧ (beforeGuard m c s).odometry_y = s.odometry_y
    ∧ (beforeGuard m c s).odometry_z = s.odometry_z := by
  have hH : ∀ t : State α, (stepHorizontal m c t).speed_yaw = t.speed_yaw
      ∧ (stepHorizontal m c t).odometry_x = t.odometry_x
      ∧ (stepHorizontal m c t).odometry_y = t.odometry_y
      ∧ (stepHorizontal m c t).odometry_z = t.odometry_z := by
    intro t
    unfold stepHorizontal
    split <;> simp only [stopHorizontalMotion, accelerateHorizontal, decelerateHorizontal,
      stopHorizontal, changeStateHorizontal] <;> (repeat' split_ifs) <;> simp
  have hV : ∀ t : State α, (stepVertical c t).speed_yaw = t.speed_yaw
      ∧ (stepVertical c t).odometry_x = t.odometry_x
      ∧ (stepVertical c t).odometry_y = t.odometry_y
      ∧ (stepVertical c t).odometry_z = t.odometry_z := by
    intro t
    unfold stepVertical
    split <;> simp only [stopVerticalMotion, accelerateVertical, decelerateVertical,
      stopVertical, changeStateVertical] <;> (repeat' split_ifs) <;> simp
  have hC : ∀ t : State α, (coordinate t).speed_yaw = t.speed_yaw
      ∧ (coordinate t).odometry_x = t.odometry_x
      ∧ (coordinate t).odometry_y = t.odometry_y
      ∧ (coordinate t).odometry_z = t.odometry_z := by
    intro t
    simp only [coordinate, changeState, changeStateHorizontal, changeStateVertical]
    (repeat' split_ifs) <;> simp
  unfold beforeGuard
  obtain ⟨c1, c2, c3, c4⟩ := hC (stepVertical c (stepHorizontal m c s))
  obtain ⟨v1, v2, v3, v4⟩ := hV (stepHorizontal m c s)
  obtain ⟨h1, h2, h3, h4⟩ := hH s
  exact ⟨c1.trans (v1.trans h1), c2.trans (v2.trans h2), c3.trans (v3.trans h3),
    c4.trans (v4.trans h4)⟩

/-- The guard, the integration and the yaw tracking leave the yaw rate member,
the cached measurement, the goal position and the heading as they are, and the
speeds after them are those after the guard. -/
theorem afterGuard_frame (m : Ext α) (c : Config α) (t : State α) :
    (trackYaw m c (integrate m c (saturate m c t))).speed_yaw = t.speed_yaw
    ∧ (trackYaw m c (integrate m c (saturate m c t))).goal_x = t.goal_x
    ∧ (trackYaw m c (integrate m c (saturate m c t))).goal_y = t.goal_y
    ∧ (trackYaw m c (integrate m c (saturate m c t))).goal_z = t.goal_z
    ∧ (trackYaw m c (integrate m c (saturate m c t))).current_heading = t.current_heading
    ∧ (trackYaw m c (integrate m c (saturate m c t))).current_vertical_direction
        = t.current_vertical_direction
    ∧ (trackYaw m c (integrate m c (saturate m c t))).state_x
        = t.state_x + m.cos t.current_heading
            * (trackYaw m c (integrate m c (saturate m c t))).current_horizontal_speed
            * c.tracker_dt_
    ∧ (trackYaw m c (integrate m c (saturate m c t))).state_y
        = t.state_y + m.sin t.current_heading
            * (trackYaw m c (integrate m c (saturate m c t))).current_horizontal_speed
            * c.tracker_dt_
    ∧ (trackYaw m c (integrate m c (saturate m c t))).state_z
        = t.state_z + t.current_vertical_direction
            * (trackYaw m c (integrate m c (saturate m c t))).current_vertical_speed
            * c.tracker_dt_ := by
  simp only [trackYaw, integrate, saturate]
  (repeat' split_ifs) <;> simp

/-- A tick leaves the yaw rate member as it is. -/
theorem mainTimer_speed_yaw (m : Ext α) (c : Config α) (s : State α) :
    (mainTimer m c s).speed_yaw = s.speed_yaw := by
  by_cases ha : s.is_active = true
  · rw [mainTimer_through_guard m c s ha, (afterGuard_frame m c _).1,
      (beforeGuard_frame m c s).1]
  · rw [mainTimer_inactive m c s (by simpa using ha)]

/-- Every operation leaves the yaw rate member as it is. -/
theorem apply_speed_yaw (m : Ext α) (c : Config α) (s : State α) (op : Op α) :
    (Op.apply m c s op).speed_yaw = s.speed_yaw := by
  cases op with
  | update msg =>
    simp only [Op.apply]
    unfold update
    by_cases ha : s.is_active = true
    · simp [ha]
    · simp [ha]
  | activate cmd =>
    simp only [Op.apply]
    by_cases hg : s.got_odometry = true
    · by_cases hc : cmd = none ∨ s.odometry_z < c.landed_threshold_height_
      · rw [activate_from_odometry_eq m c cmd s hg hc]
      · rw [not_or] at hc
        obtain ⟨k, rfl⟩ := Option.ne_none_iff_exists'.mp hc.1
        rw [activate_from_command_eq m c k s hg hc.2]
    · rw [activate_without_odometry m c cmd s (by simpa using hg)]
  | deactivate => rfl
  | hover => rfl
  | enableCallbacks data =>
    simp only [Op.apply, enableCallbacks]
    split_ifs <;> rfl
  | callbackTakeoff =>
    simp only [Op.apply, callbackTakeoff, changeState, changeStateHorizontal,
      changeStateVertical]
    (repeat' split_ifs) <;> rfl
  | callbackLand =>
    simp only [Op.apply, callbackLand, changeState, changeStateHorizontal, changeStateVertical]
    (repeat' split_ifs) <;> rfl
  | mainTimer => exact mainTimer_speed_yaw m c s

/-- The yaw rate member is `0` along every run from `initialize`. -/
theorem run_speed_yaw (m : Ext α) (c : Config α) (ops : List (Op α)) :
    ∀ s : State α, s.speed_yaw = 0 → (run m c s ops).speed_yaw = 0 := by
  induction ops with
  | nil => intro s h; exact h
  | cons op ops ih =>
    intro s h
    exact ih _ ((apply_speed_yaw m c s op).trans h)

/-- C39: in every state reachable from `initialize` by any sequence of
operations `speed_yaw = 0`, and every command returned by `update` in such a
state has `yaw_dot = 0` and acceleration x and y equal to `0`. -/
theorem yaw_rate_output_is_zero (m : Ext α) (c : Config α) (mem : State α)
    (ops : List (Op α)) (msg : Odometry α) :
    (run m c (initialise (construct mem)) ops).speed_yaw = 0
    ∧ ∀ out : PositionCommand α,
        (update m c msg (run m c (initialise (construct mem)) ops)).2 = some out →
        out.yaw_dot = 0 ∧ out.acceleration_x = 0 ∧ out.acceleration_y = 0 := by
  have h0 := run_speed_yaw m c ops (initialise (construct mem)) rfl
  refine ⟨h0, ?_⟩
  generalize run m c (initialise (construct mem)) ops = s at h0
  intro out hout
  unfold update at hout
  by_cases ha : s.is_active = true
  · simp only [ha, Bool.not_true, Bool.false_eq_true, if_false, Option.some.injEq] at hout
    subst hout
    split_ifs <;> exact ⟨h0, rfl, rfl⟩
  · simp [ha] at hout

/-- C39 at a concrete input: the tracker activated on a vehicle at rest at the
origin returns the all-zero command, whose `yaw_dot` and acceleration x, y are
`0`. -/
theorem yaw_rate_output_is_zero_witness :
    (update ratExt sampleConfig zeroOdometry
        (run ratExt sampleConfig (initialise (construct zeroMem))
          [Op.update zeroOdometry, Op.activate none])).2 = some zeroCommand
    ∧ (zeroCommand : PositionCommand ℚ).yaw_dot = 0
    ∧ (zeroCommand : PositionCommand ℚ).acceleration_x = 0
    ∧ (zeroCommand : PositionCommand ℚ).acceleration_y = 0 :=
  ⟨by decide!,
    (yaw_rate_output_is_zero ratExt sampleConfig zeroMem
      [Op.update zeroOdometry, Op.activate none] zeroOdometry).2 zeroCommand (by decide!)⟩

/-- The claim C33 fails at a concrete input: the grounded tracker
`landedWithSpeed` has both axes in `LANDED_STATE` and horizontal speed `1/25`;
its tick ends the coordination step with both axes in `LANDED_STATE`, the goal
on the measured position `x = 0`, but the state position at `x = 1/250`. -/
theorem landed_tick_leaves_measured_position :
    landedWithSpeed.is_active = true
    ∧ (beforeGuard ratExt sampleConfig landedWithSpeed).current_state_horizontal = LANDED_STATE
    ∧ (beforeGuard ratExt sampleConfig landedWithSpeed).current_state_vertical = LANDED_STATE
    ∧ landedWithSpeed.odometry_x = 0
    ∧ (mainTimer ratExt sampleConfig landedWithSpeed).goal_x = 0
    ∧ (mainTimer ratExt sampleConfig landedWithSpeed).state_x = 1 / 250 := by
  decide!

/-- The combined-state rules end with both axes in `LANDED_STATE` only through
the re-anchoring rule: position and goal are then the measured position. -/
theorem coordinate_landed (u : State α)
    (hh : (coordinate u).current_state_horizontal = LANDED_STATE)
    (hv : (coordinate u).current_state_vertical = LANDED_STATE) :
    (coordinate u).state_x = u.odometry_x ∧ (coordinate u).state_y = u.odometry_y
    ∧ (coordinate u).state_z = u.odometry_z
    ∧ (coordinate u).goal_x = u.odometry_x ∧ (coordinate u).goal_y = u.odometry_y
    ∧ (coordinate u).goal_z = u.odometry_z := by
  revert hh hv
  simp only [coordinate, changeState, changeStateHorizontal, changeStateVertical]
  (repeat' split_ifs) <;> simp_all

/-- C33, amended: for every tick of an active tracker that ends its
coordination step with both axes in `LANDED_STATE`, at the end of the tick the
goal position equals the measured position, and the state position equals the
measured position advanced by one integration step at the speeds, heading and
vertical direction the tick ends with; it equals the measured position when
both of these speeds are `0`. -/
theorem landed_tick_anchors (m : Ext α) (c : Config α) (s : State α)
    (ha : s.is_active = true)
    (hh : (beforeGuard m c s).current_state_horizontal = LANDED_STATE)
    (hv : (beforeGuard m c s).current_state_vertical = LANDED_STATE) :
    (mainTimer m c s).goal_x = s.odometry_x
    ∧ (mainTimer m c s).goal_y = s.odometry_y
    ∧ (mainTimer m c s).goal_z = s.odometry_z
    ∧ (mainTimer m c s).state_x = s.odometry_x
        + m.cos (mainTimer m c s).current_heading * (mainTimer m c s).current_horizontal_speed
          * c.tracker_dt_
    ∧ (mainTimer m c s).state_y = s.odometry_y
        + m.sin (mainTimer m c s).current_heading * (mainTimer m c s).current_horizontal_speed
          * c.tracker_dt_
    ∧ (mainTimer m c s).state_z = s.odometry_z
        + (mainTimer m c s).current_vertical_direction * (mainTimer m c s).current_vertical_speed
          * c.tracker_dt_
    ∧ ((mainTimer m c s).current_horizontal_speed = 0 →
        (mainTimer m c s).current_vertical_speed = 0 →
        (mainTimer m c s).state_x = s.odometry_x ∧ (mainTimer m c s).state_y = s.odometry_y
        ∧ (mainTimer m c s).state_z = s.odometry_z) := by
  obtain ⟨l1, l2, l3, l4, l5, l6⟩ := coordinate_landed (stepVertical c (stepHorizontal m c s)) hh hv
  have ho : (stepVertical c (stepHorizontal m c s)).odometry_x = s.odometry_x
      ∧ (stepVertical c (stepHorizontal m c s)).odometry_y = s.odometry_y
      ∧ (stepVertical c (stepHorizontal m c s)).odometry_z = s.odometry_z := by
    obtain ⟨_, b2, b3, b4⟩ := beforeGuard_frame m c s
    have hC : ∀ t : State α, (coordinate t).odometry_x = t.odometry_x
        ∧ (coordinate t).odometry_y = t.odometry_y
        ∧ (coordinate t).odometry_z = t.odometry_z := by
      intro t
      simp only [coordinate, changeState, changeStateHorizontal, changeStateVertical]
      (repeat' split_ifs) <;> simp
    unfold beforeGuard at b2 b3 b4
    obtain ⟨c2, c3, c4⟩ := hC (stepVertical c (stepHorizontal m c s))
    exact ⟨c2.symm.trans b2, c3.symm.trans b3, c4.symm.trans b4⟩
  rw [ho.1] at l1 l4
  rw [ho.2.1] at l2 l5
  rw [ho.2.2] at l3 l6
  obtain ⟨_, g1, g2, g3, g4, g5, g6, g7, g8⟩ := afterGuard_frame m c (beforeGuard m c s)
  have e := mainTimer_through_guard m c s ha
  rw [← e] at g1 g2 g3 g4 g5 g6 g7 g8
  change (beforeGuard m c s).state_x = s.odometry_x at l1
  change (beforeGuard m c s).state_y = s.odometry_y at l2
  change (beforeGuard m c s).state_z = s.odometry_z at l3
  change (beforeGuard m c s).goal_x = s.odometry_x at l4
  change (beforeGuard m c s).goal_y = s.odometry_y at l5
  change (beforeGuard m c s).goal_z = s.odometry_z at l6
  rw [l1, ← g4] at g6
  rw [l2, ← g4] at g7
  rw [l3, ← g5] at g8
  refine ⟨g1.trans l4, g2.trans l5, g3.trans l6, g6, g7, g8, ?_⟩
  intro h0 h1
  rw [h0] at g6 g7
  rw [h1] at g8
  refine ⟨?_, ?_, ?_⟩
  · rw [g6]; ring
  · rw [g7]; ring
  · rw [g8]; ring

/-- C33 (amended) at a concrete input: the tick of `landedWithSpeed` ends with
the goal on the measured position and the state position one step of `1/25 *
1/10` further along x. -/
theorem landed_tick_anchors_witness :
    (mainTimer ratExt sampleConfig landedWithSpeed).goal_x = landedWithSpeed.odometry_x
    ∧ (mainTimer ratExt sampleConfig landedWithSpeed).state_x
        = landedWithSpeed.odometry_x
          + ratExt.cos (mainTimer ratExt sampleConfig landedWithSpeed).current_heading
            * (mainTimer ratExt sampleConfig landedWithSpeed).current_horizontal_speed
            * sampleConfig.tracker_dt_ :=
  ⟨(landed_tick_anchors ratExt sampleConfig landedWithSpeed (by decide!) (by decide!)
      (by decide!)).1,
    (landed_tick_anchors ratExt sampleConfig landedWithSpeed (by decide!) (by decide!)
      (by decide!)).2.2.2.1⟩

end LandoffTracker

/-! ### The call at which a clamped ramp reaches zero -/

section Deceleration

variable {α : Type} [LinearOrderedField α]

/-- For `step > 0` and `v ≥ 0`, `1 ≤ k` and `v ≤ k * step` hold exactly from
`k = max(1, ceil(v / step))` on. -/
theorem stopping_call_number [FloorRing α] (v step : α) (hstep : 0 < step) (k : ℕ) :
    (1 ≤ k ∧ v ≤ k * step) ↔ max 1 (Nat.ceil (v / step)) ≤ k := by
  rw [max_le_iff, Nat.ceil_le, div_le_iff₀ hstep]

end Deceleration

/-! ### The switch-over condition of `accelerateHorizontal` (C36) -/

section SwitchOver

variable {α : Type} [LinearOrderedField α]

end SwitchOver

namespace LandoffTracker

open States_t

variable {α : Type} [LinearOrderedField α]

end LandoffTracker

namespace LineTracker

open States_t

variable {α : Type} [LinearOrderedField α]

end LineTracker

section SwitchOverClaim

variable {α : Type} [LinearOrderedField α]

end SwitchOverClaim

/-! ### LandoffTracker: settling reaches `HOVER_STATE` (C37) -/

namespace LandoffTracker

open States_t

variable {α : Type} [LinearOrderedField α]

/-- One tick of a tracker that settles at rest: the goal is kept; if the
contracted position is within `1e-3` of the goal on every coordinate the tick
ends hovering at rest on the goal, otherwise it ends settling at rest at the
contracted position. -/
theorem mainTimer_stoppingAtRest (m : Ext α) (c : Config α) (s : State α)
    (h : StoppingAtRest s) :
    (mainTimer m c s).goal_x = s.goal_x ∧ (mainTimer m c s).goal_y = s.goal_y
    ∧ (mainTimer m c s).goal_z = s.goal_z
    ∧ ((|95 / 100 * s.state_x + 5 / 100 * s.goal_x - s.goal_x| < 1 / 1000
          ∧ |95 / 100 * s.state_y + 5 / 100 * s.goal_y - s.goal_y| < 1 / 1000
          ∧ |95 / 100 * s.state_z + 5 / 100 * s.goal_z - s.goal_z| < 1 / 1000) →
        HoverAtRest (mainTimer m c s)
        ∧ (mainTimer m c s).state_x = s.goal_x ∧ (mainTimer m c s).state_y = s.goal_y
        ∧ (mainTimer m c s).state_z = s.goal_z)
    ∧ (¬ (|95 / 100 * s.state_x + 5 / 100 * s.goal_x - s.goal_x| < 1 / 1000
          ∧ |95 / 100 * s.state_y + 5 / 100 * s.goal_y - s.goal_y| < 1 / 1000
          ∧ |95 / 100 * s.state_z + 5 / 100 * s.goal_z - s.goal_z| < 1 / 1000) →
        StoppingAtRest (mainTimer m c s)
        ∧ (mainTimer m c s).state_x = 95 / 100 * s.state_x + 5 / 100 * s.goal_x
        ∧ (mainTimer m c s).state_y = 95 / 100 * s.state_y + 5 / 100 * s.goal_y
        ∧ (mainTimer m c s).state_z = 95 / 100 * s.state_z + 5 / 100 * s.goal_z) := by
  obtain ⟨ha, hh, hv, ht, hs, hvs⟩ := h
  by_cases h1 : |95 / 100 * s.state_x + 5 / 100 * s.goal_x - s.goal_x| < 1 / 1000 ∧
      |95 / 100 * s.state_y + 5 / 100 * s.goal_y - s.goal_y| < 1 / 1000 ∧
      |95 / 100 * s.state_z + 5 / 100 * s.goal_z - s.goal_z| < 1 / 1000
  · refine ⟨?_, ?_, ?_, fun _ => ?_, fun h2 => absurd h1 h2⟩
    all_goals simp only [one_div] at h1
    all_goals simp [HoverAtRest, mainTimer, trackYaw, integrate, saturate, coordinate,
      stepVertical, stepHorizontal, stopHorizontal, stopVertical, changeState,
      changeStateHorizontal, changeStateVertical, ha, hh, hv, ht, hs, hvs, h1]
  · refine ⟨?_, ?_, ?_, fun h2 => absurd h2 h1, fun _ => ?_⟩
    all_goals simp only [one_div] at h1
    all_goals simp [StoppingAtRest, mainTimer, trackYaw, integrate, saturate, coordinate,
      stepVertical, stepHorizontal, stopHorizontal, stopVertical, changeState,
      changeStateHorizontal, changeStateVertical, ha, hh, hv, ht, hs, hvs, h1]

/-- Along the ticks of a tracker that settles at rest within `d` of its goal:
after `k` ticks it either hovers at rest on the goal or still settles at rest,
within `0.95^k * d` of the goal. -/
theorem iterate_mainTimer_stoppingAtRest (m : Ext α) (c : Config α) (s : State α) (d : α)
    (h : StoppingAtRest s) (hx : |s.state_x - s.goal_x| ≤ d) (hy : |s.state_y - s.goal_y| ≤ d)
    (hz : |s.state_z - s.goal_z| ≤ d) (k : ℕ) :
    ((mainTimer m c)^[k] s).goal_x = s.goal_x ∧ ((mainTimer m c)^[k] s).goal_y = s.goal_y
    ∧ ((mainTimer m c)^[k] s).goal_z = s.goal_z
    ∧ ((HoverAtRest ((mainTimer m c)^[k] s)
          ∧ ((mainTimer m c)^[k] s).state_x = s.goal_x
          ∧ ((mainTimer m c)^[k] s).state_y = s.goal_y
          ∧ ((mainTimer m c)^[k] s).state_z = s.goal_z)
      ∨ (StoppingAtRest ((mainTimer m c)^[k] s)
          ∧ |((mainTimer m c)^[k] s).state_x - s.goal_x| ≤ (95 / 100) ^ k * d
          ∧ |((mainTimer m c)^[k] s).state_y - s.goal_y| ≤ (95 / 100) ^ k * d
          ∧ |((mainTimer m c)^[k] s).state_z - s.goal_z| ≤ (95 / 100) ^ k * d)) := by
  induction k with
  | zero =>
    refine ⟨rfl, rfl, rfl, Or.inr ⟨h, ?_, ?_, ?_⟩⟩ <;> simpa
  | succ k ih =>
    obtain ⟨g1, g2, g3, ih⟩ := ih
    rw [Function.iterate_succ_apply']
    rcases ih with ⟨hov, p1, p2, p3⟩ | ⟨stp, q1, q2, q3⟩
    · obtain ⟨k0, k1, k2, k3, k4, k5, k6⟩ := mainTimer_hoverAtRest m c _ hov
      exact ⟨k4.trans g1, k5.trans g2, k6.trans g3,
        Or.inl ⟨k0, k1.trans p1, k2.trans p2, k3.trans p3⟩⟩
    · obtain ⟨t1, t2, t3, tsnap, tstay⟩ := mainTimer_stoppingAtRest m c _ stp
      refine ⟨t1.trans g1, t2.trans g2, t3.trans g3, ?_⟩
      by_cases hs :
          |95 / 100 * ((mainTimer m c)^[k] s).state_x + 5 / 100 * ((mainTimer m c)^[k] s).goal_x
              - ((mainTimer m c)^[k] s).goal_x| < 1 / 1000
          ∧ |95 / 100 * ((mainTimer m c)^[k] s).state_y
              + 5 / 100 * ((mainTimer m c)^[k] s).goal_y
              - ((mainTimer m c)^[k] s).goal_y| < 1 / 1000
          ∧ |95 / 100 * ((mainTimer m c)^[k] s).state_z
              + 5 / 100 * ((mainTimer m c)^[k] s).goal_z
              - ((mainTimer m c)^[k] s).goal_z| < 1 / 1000
      · obtain ⟨a0, a1, a2, a3⟩ := tsnap hs
        exact Or.inl ⟨a0, a1.trans g1, a2.trans g2, a3.trans g3⟩
      · obtain ⟨a0, a1, a2, a3⟩ := tstay hs
        have contract : ∀ x g : α, |x - g| ≤ (95 / 100) ^ k * d →
            |95 / 100 * x + 5 / 100 * g - g| ≤ (95 / 100) ^ (k + 1) * d := by
          intro x g hxg
          have e : 95 / 100 * x + 5 / 100 * g - g = 95 / 100 * (x - g) := by ring
          rw [e, abs_mul, abs_of_pos (by norm_num : (0 : α) < 95 / 100), pow_succ]
          nlinarith [abs_nonneg (x - g)]
        refine Or.inr ⟨a0, ?_, ?_, ?_⟩
        · rw [a1, g1]; exact contract _ _ q1
        · rw [a2, g2]; exact contract _ _ q2
        · rw [a3, g3]; exact contract _ _ q3

/-- C37: for every bound `d` on the initial distances to the goal there is a
number `N` of ticks such that every active tracker with both axes in
`STOPPING_STATE`, both speeds `0`, `taking_off` false and every coordinate
within `d` of its goal has, after `N` ticks with no intervening request, both
axes in `HOVER_STATE`, the position on the goal and the goal unchanged. -/
theorem stopping_reaches_hover [Archimedean α] (m : Ext α) (c : Config α) (d : α) :
    ∃ N : ℕ, ∀ s : State α,
      s.is_active = true → s.current_state_horizontal = STOPPING_STATE →
      s.current_state_vertical = STOPPING_STATE → s.taking_off = false →
      s.current_horizontal_speed = 0 → s.current_vertical_speed = 0 →
      |s.state_x - s.goal_x| ≤ d → |s.state_y - s.goal_y| ≤ d → |s.state_z - s.goal_z| ≤ d →
      ((mainTimer m c)^[N] s).current_state_horizontal = HOVER_STATE
      ∧ ((mainTimer m c)^[N] s).current_state_vertical = HOVER_STATE
      ∧ ((mainTimer m c)^[N] s).state_x = s.goal_x
      ∧ ((mainTimer m c)^[N] s).state_y = s.goal_y
      ∧ ((mainTimer m c)^[N] s).state_z = s.goal_z
      ∧ ((mainTimer m c)^[N] s).goal_x = s.goal_x
      ∧ ((mainTimer m c)^[N] s).goal_y = s.goal_y
      ∧ ((mainTimer m c)^[N] s).goal_z = s.goal_z := by
  have hD : (0 : α) < max d 1 := lt_of_lt_of_le one_pos (le_max_right _ _)
  obtain ⟨n, hn⟩ := exists_pow_lt_of_lt_one (div_pos (by norm_num : (0 : α) < 1 / 1000) hD)
    (by norm_num : (95 : α) / 100 < 1)
  have hsmall : ((95 : α) / 100) ^ (n + 1) * d < 1 / 1000 := by
    have h1 : ((95 : α) / 100) ^ n * max d 1 < 1 / 1000 := by
      rwa [lt_div_iff₀ hD] at hn
    have h2 : (0 : α) ≤ (95 / 100) ^ n := by positivity
    have h3 : ((95 : α) / 100) ^ (n + 1) * d ≤ (95 / 100) ^ n * max d 1 := by
      rw [pow_succ]
      have h4 : d ≤ max d 1 := le_max_left _ _
      have h5 : ((95 : α) / 100) ^ n * (95 / 100) * d ≤ (95 / 100) ^ n * (95 / 100) * max d 1 :=
        mul_le_mul_of_nonneg_left h4 (by positivity)
      have h6 : ((95 : α) / 100) ^ n * (95 / 100) * max d 1 ≤ (95 / 100) ^ n * max d 1 := by
        nlinarith [mul_nonneg h2 hD.le]
      linarith
    linarith
  refine ⟨n + 1, ?_⟩
  intro s ha hh hv ht hs hvs hx hy hz
  obtain ⟨g1, g2, g3, hcase⟩ :=
    iterate_mainTimer_stoppingAtRest m c s d ⟨ha, hh, hv, ht, hs, hvs⟩ hx hy hz (n + 1)
  rcases hcase with ⟨hov, p1, p2, p3⟩ | ⟨stp, q1, q2, q3⟩
  · exact ⟨hov.2.1, hov.2.2.1, p1, p2, p3, g1, g2, g3⟩
  · exfalso
    obtain ⟨f1, f2, f3, fcase⟩ :=
      iterate_mainTimer_stoppingAtRest m c s d ⟨ha, hh, hv, ht, hs, hvs⟩ hx hy hz n
    rw [Function.iterate_succ_apply'] at stp
    rcases fcase with ⟨hov, _, _, _⟩ | ⟨stp0, r1, r2, r3⟩
    · have a := (mainTimer_hoverAtRest m c _ hov).1.2.1
      rw [stp.2.1] at a
      exact absurd a (by decide)
    · obtain ⟨_, _, _, tsnap, _⟩ := mainTimer_stoppingAtRest m c _ stp0
      have contract : ∀ x g : α, |x - g| ≤ (95 / 100) ^ n * d →
          |95 / 100 * x + 5 / 100 * g - g| < 1 / 1000 := by
        intro x g hxg
        have e : 95 / 100 * x + 5 / 100 * g - g = 95 / 100 * (x - g) := by ring
        rw [e, abs_mul, abs_of_pos (by norm_num : (0 : α) < 95 / 100)]
        rw [pow_succ] at hsmall
        nlinarith [abs_nonneg (x - g)]
      have hsnap := tsnap ⟨contract _ _ (by rw [f1]; exact r1),
        contract _ _ (by rw [f2]; exact r2), contract _ _ (by rw [f3]; exact r3)⟩
      have a := hsnap.1.2.1
      rw [stp.2.1] at a
      exact absurd a (by decide)

/-- C37 at a concrete input: a tracker settling at rest `1/100` from its goal
on every coordinate reaches `HOVER_STATE` on the goal. -/
theorem stopping_reaches_hover_witness :
    ∃ N : ℕ,
      ((mainTimer ratExt sampleConfig)^[N] settlingNearGoal).current_state_horizontal
          = HOVER_STATE
      ∧ ((mainTimer ratExt sampleConfig)^[N] settlingNearGoal).current_state_vertical
          = HOVER_STATE
      ∧ ((mainTimer ratExt sampleConfig)^[N] settlingNearGoal).state_x
          = settlingNearGoal.goal_x := by
  obtain ⟨N, h⟩ := stopping_reaches_hover ratExt sampleConfig (1 / 100 : ℚ)
  obtain ⟨h1, h2, h3, _⟩ := h settlingNearGoal (by decide!) (by decide!) (by decide!)
    (by decide!) (by decide!) (by decide!) (by decide!) (by decide!) (by decide!)
  exact ⟨N, h1, h2, h3⟩

end LandoffTracker

/-! ### LandoffTracker: the transitions a tick performs (C34) -/

namespace LandoffTracker

open States_t

variable {α : Type} [LinearOrderedField α]

/-- The combined-state rules are the three rules one after another. -/
theorem coordinate_eq_rules (s : State α) :
    coordinate s = coordinateLanded (coordinateStopping (coordinateStopMotion s)) := rfl

/-- The horizontal switch changes the horizontal axis only from
`ACCELERATING_STATE` to `DECELERATING_STATE` or from `DECELERATING_STATE` to
`STOPPING_STATE`, and leaves the vertical axis alone. -/
theorem stepHorizontal_axes (m : Ext α) (c : Config α) (s : State α) :
    ((stepHorizontal m c s).current_state_horizontal = s.current_state_horizontal
      ∨ (s.current_state_horizontal = ACCELERATING_STATE
          ∧ (stepHorizontal m c s).current_state_horizontal = DECELERATING_STATE)
      ∨ (s.current_state_horizontal = DECELERATING_STATE
          ∧ (stepHorizontal m c s).current_state_horizontal = STOPPING_STATE))
    ∧ (stepHorizontal m c s).current_state_vertical = s.current_state_vertical := by
  unfold stepHorizontal
  split <;> simp only [stopHorizontalMotion, accelerateHorizontal, decelerateHorizontal,
    stopHorizontal, changeStateHorizontal] <;> (repeat' split_ifs) <;> simp_all

/-- The vertical switch changes the vertical axis only from
`ACCELERATING_STATE` to `DECELERATING_STATE` or from `DECELERATING_STATE` to
`STOPPING_STATE`, and leaves the horizontal axis alone. -/
theorem stepVertical_axes (c : Config α) (s : State α) :
    ((stepVertical c s).current_state_vertical = s.current_state_vertical
      ∨ (s.current_state_vertical = ACCELERATING_STATE
          ∧ (stepVertical c s).current_state_vertical = DECELERATING_STATE)
      ∨ (s.current_state_vertical = DECELERATING_STATE
          ∧ (stepVertical c s).current_state_vertical = STOPPING_STATE))
    ∧ (stepVertical c s).current_state_horizontal = s.current_state_horizontal := by
  unfold stepVertical
  split <;> simp only [stopVerticalMotion, accelerateVertical, decelerateVertical,
    stopVertical, changeStateVertical] <;> (repeat' split_ifs) <;> simp_all

/-- The `STOP_MOTION_STATE` rule leaves both axes alone or takes both from
`STOP_MOTION_STATE` to `ACCELERATING_STATE` or to `STOPPING_STATE`. -/
theorem coordinateStopMotion_axes (s : State α) :
    ((coordinateStopMotion s).current_state_horizontal = s.current_state_horizontal
      ∧ (coordinateStopMotion s).current_state_vertical = s.current_state_vertical)
    ∨ (s.current_state_horizontal = STOP_MOTION_STATE
      ∧ s.current_state_vertical = STOP_MOTION_STATE
      ∧ (((coordinateStopMotion s).current_state_horizontal = ACCELERATING_STATE
          ∧ (coordinateStopMotion s).current_state_vertical = ACCELERATING_STATE)
        ∨ ((coordinateStopMotion s).current_state_horizontal = STOPPING_STATE
          ∧ (coordinateStopMotion s).current_state_vertical = STOPPING_STATE))) := by
  simp only [coordinateStopMotion, changeState, changeStateHorizontal, changeStateVertical]
  (repeat' split_ifs) <;> simp_all

/-- The `STOPPING_STATE` rule leaves both axes alone or takes both from
`STOPPING_STATE` to `HOVER_STATE`. -/
theorem coordinateStopping_axes (s : State α) :
    ((coordinateStopping s).current_state_horizontal = s.current_state_horizontal
      ∧ (coordinateStopping s).current_state_vertical = s.current_state_vertical)
    ∨ (s.current_state_horizontal = STOPPING_STATE
      ∧ s.current_state_vertical = STOPPING_STATE
      ∧ (coordinateStopping s).current_state_horizontal = HOVER_STATE
      ∧ (coordinateStopping s).current_state_vertical = HOVER_STATE) := by
  simp only [coordinateStopping, changeState, changeStateHorizontal, changeStateVertical]
  (repeat' split_ifs) <;> simp_all

/-- The `LANDED_STATE` rule, the guard, the integration and the yaw tracking
leave both axis states alone. -/
theorem late_stages_axes (m : Ext α) (c : Config α) (s : State α) :
    (coordinateLanded s).current_state_horizontal = s.current_state_horizontal
    ∧ (coordinateLanded s).current_state_vertical = s.current_state_vertical
    ∧ (saturate m c s).current_state_horizontal = s.current_state_horizontal
    ∧ (saturate m c s).current_state_vertical = s.current_state_vertical
    ∧ (integrate m c s).current_state_horizontal = s.current_state_horizontal
    ∧ (integrate m c s).current_state_vertical = s.current_state_vertical
    ∧ (trackYaw m c s).current_state_horizontal = s.current_state_horizontal
    ∧ (trackYaw m c s).current_state_vertical = s.current_state_vertical := by
  simp only [coordinateLanded, saturate, integrate, trackYaw]
  (repeat' split_ifs) <;> simp

/-- The pair of axis states after a tick, in terms of the pair before it: each
axis either keeps its state or follows one or two edges of `tickEdge`. -/
theorem mainTimer_axes (m : Ext α) (c : Config α) (s : State α) :
    ((mainTimer m c s).current_state_horizontal = s.current_state_horizontal
      ∨ tickEdge s.current_state_horizontal (mainTimer m c s).current_state_horizontal = true
      ∨ (s.current_state_horizontal = STOP_MOTION_STATE
          ∧ (mainTimer m c s).current_state_horizontal = HOVER_STATE)
      ∨ (s.current_state_horizontal = DECELERATING_STATE
          ∧ (mainTimer m c s).current_state_horizontal = HOVER_STATE))
    ∧ ((mainTimer m c s).current_state_vertical = s.current_state_vertical
      ∨ tickEdge s.current_state_vertical (mainTimer m c s).current_state_vertical = true
      ∨ (s.current_state_vertical = STOP_MOTION_STATE
          ∧ (mainTimer m c s).current_state_vertical = HOVER_STATE)
      ∨ (s.current_state_vertical = DECELERATING_STATE
          ∧ (mainTimer m c s).current_state_vertical = HOVER_STATE)) := by
  by_cases ha : s.is_active = true
  · rw [mainTimer_active m c s ha, coordinate_eq_rules]
    obtain ⟨_, _, _, _, f5, f6⟩ := tail_frame m c
      (coordinateLanded (coordinateStopping (coordinateStopMotion
        (stepVertical c (stepHorizontal m c s)))))
    obtain ⟨l1, l2, _⟩ := late_stages_axes m c
      (coordinateStopping (coordinateStopMotion (stepVertical c (stepHorizontal m c s))))
    rw [f5, f6, l1, l2]
    obtain ⟨hH, hHv⟩ := stepHorizontal_axes m c s
    obtain ⟨hV, hVh⟩ := stepVertical_axes c (stepHorizontal m c s)
    have r1 := coordinateStopMotion_axes (stepVertical c (stepHorizontal m c s))
    have r2 := coordinateStopping_axes
      (coordinateStopMotion (stepVertical c (stepHorizontal m c s)))
    generalize (coordinateStopping (coordinateStopMotion
      (stepVertical c (stepHorizontal m c s)))).current_state_horizontal = h4 at *
    generalize (coordinateStopping (coordinateStopMotion
      (stepVertical c (stepHorizontal m c s)))).current_state_vertical = v4 at *
    generalize (coordinateStopMotion
      (stepVertical c (stepHorizontal m c s))).current_state_horizontal = h3 at *
    generalize (coordinateStopMotion
      (stepVertical c (stepHorizontal m c s))).current_state_vertical = v3 at *
    generalize (stepVertical c (stepHorizontal m c s)).current_state_horizontal = h2 at *
    generalize (stepVertical c (stepHorizontal m c s)).current_state_vertical = v2 at *
    generalize (stepHorizontal m c s).current_state_horizontal = h1 at *
    generalize (stepHorizontal m c s).current_state_vertical = v1 at *
    generalize s.current_state_horizontal = h0 at *
    generalize s.current_state_vertical = v0 at *
    subst hHv hVh
    rcases hH with rfl | ⟨rfl, rfl⟩ | ⟨rfl, rfl⟩ <;>
      rcases hV with rfl | ⟨rfl, rfl⟩ | ⟨rfl, rfl⟩ <;>
      rcases r1 with ⟨rfl, rfl⟩ | ⟨e1, e2, ⟨rfl, rfl⟩ | ⟨rfl, rfl⟩⟩ <;>
      rcases r2 with ⟨rfl, rfl⟩ | ⟨e3, e4, rfl, rfl⟩ <;>
      simp_all [tickEdge]
  · rw [mainTimer_inactive m c s (by simpa using ha)]
    exact ⟨Or.inl rfl, Or.inl rfl⟩

/-- Consequences of the before/after relation of a tick for one axis: the
states `IDLE_STATE`, `LANDED_STATE` and `HOVER_STATE` are kept, and
`IDLE_STATE` and `LANDED_STATE` are not entered. -/
theorem tick_relation_facts (a b : States_t)
    (h : b = a ∨ tickEdge a b = true ∨ (a = STOP_MOTION_STATE ∧ b = HOVER_STATE)
      ∨ (a = DECELERATING_STATE ∧ b = HOVER_STATE)) :
    ((a = IDLE_STATE ∨ a = LANDED_STATE ∨ a = HOVER_STATE) → b = a)
    ∧ ((b = IDLE_STATE ∨ b = LANDED_STATE) → a = b)
    ∧ (a ≠ IDLE_STATE ∧ a ≠ LANDED_STATE → b ≠ IDLE_STATE ∧ b ≠ LANDED_STATE) := by
  cases a <;> cases b <;> simp_all [tickEdge]

/-- A tick moves no axis into `IDLE_STATE` or `LANDED_STATE`: along any number
of ticks an axis that is in neither stays in neither. -/
theorem iterate_mainTimer_not_grounded (m : Ext α) (c : Config α) (n : ℕ) :
    ∀ s : State α,
      (s.current_state_horizontal ≠ IDLE_STATE ∧ s.current_state_horizontal ≠ LANDED_STATE →
        ((mainTimer m c)^[n] s).current_state_horizontal ≠ IDLE_STATE
        ∧ ((mainTimer m c)^[n] s).current_state_horizontal ≠ LANDED_STATE)
      ∧ (s.current_state_vertical ≠ IDLE_STATE ∧ s.current_state_vertical ≠ LANDED_STATE →
        ((mainTimer m c)^[n] s).current_state_vertical ≠ IDLE_STATE
        ∧ ((mainTimer m c)^[n] s).current_state_vertical ≠ LANDED_STATE) := by
  induction n with
  | zero => intro s; exact ⟨id, id⟩
  | succ n ih =>
    intro s
    obtain ⟨ihh, ihv⟩ := ih s
    obtain ⟨ah, av⟩ := mainTimer_axes m c ((mainTimer m c)^[n] s)
    rw [Function.iterate_succ_apply']
    exact ⟨fun h => (tick_relation_facts _ _ ah).2.2 (ihh h),
      fun h => (tick_relation_facts _ _ av).2.2 (ihv h)⟩

/-- C34: every stage of a tick changes an axis state, if at all, along one of
the transitions `STOP_MOTION -> ACCELERATING`, `STOP_MOTION -> STOPPING`,
`ACCELERATING -> DECELERATING`, `DECELERATING -> STOPPING`, `STOPPING ->
HOVER`, and the tick of an active tracker is the sequence of these stages; a
tick does not change an axis that is in `IDLE_STATE`, `LANDED_STATE` or
`HOVER_STATE` and moves no axis into `IDLE_STATE` or `LANDED_STATE`; over a
whole tick an axis keeps its state, follows one of the transitions, or follows
two of them (`STOP_MOTION -> STOPPING -> HOVER`, `DECELERATING -> STOPPING ->
HOVER`); and after an accepted `callbackLand` no number of ticks brings an axis
to `LANDED_STATE` or `IDLE_STATE`. -/
theorem tick_transition_topology (m : Ext α) (c : Config α) (s : State α) :
    (AlongEdges (stepHorizontal m c) ∧ AlongEdges (stepVertical c)
      ∧ AlongEdges (coordinateStopMotion : State α → State α)
      ∧ AlongEdges (coordinateStopping : State α → State α)
      ∧ AlongEdges (coordinateLanded : State α → State α)
      ∧ AlongEdges (saturate m c) ∧ AlongEdges (integrate m c) ∧ AlongEdges (trackYaw m c))
    ∧ (s.is_active = true → mainTimer m c s
        = trackYaw m c (integrate m c (saturate m c (coordinateLanded (coordinateStopping
            (coordinateStopMotion (stepVertical c (stepHorizontal m c s))))))))
    ∧ (s.is_active = false → mainTimer m c s = s)
    ∧ ((s.current_state_horizontal = IDLE_STATE ∨ s.current_state_horizontal = LANDED_STATE
          ∨ s.current_state_horizontal = HOVER_STATE) →
        (mainTimer m c s).current_state_horizontal = s.current_state_horizontal)
    ∧ ((s.current_state_vertical = IDLE_STATE ∨ s.current_state_vertical = LANDED_STATE
          ∨ s.current_state_vertical = HOVER_STATE) →
        (mainTimer m c s).current_state_vertical = s.current_state_vertical)
    ∧ (((mainTimer m c s).current_state_horizontal = IDLE_STATE
          ∨ (mainTimer m c s).current_state_horizontal = LANDED_STATE) →
        s.current_state_horizontal = (mainTimer m c s).current_state_horizontal)
    ∧ (((mainTimer m c s).current_state_vertical = IDLE_STATE
          ∨ (mainTimer m c s).current_state_vertical = LANDED_STATE) →
        s.current_state_vertical = (mainTimer m c s).current_state_vertical)
    ∧ ((mainTimer m c s).current_state_horizontal = s.current_state_horizontal
        ∨ tickEdge s.current_state_horizontal (mainTimer m c s).current_state_horizontal = true
        ∨ (s.current_state_horizontal = STOP_MOTION_STATE
            ∧ (mainTimer m c s).current_state_horizontal = HOVER_STATE)
        ∨ (s.current_state_horizontal = DECELERATING_STATE
            ∧ (mainTimer m c s).current_state_horizontal = HOVER_STATE))
    ∧ ((mainTimer m c s).current_state_vertical = s.current_state_vertical
        ∨ tickEdge s.current_state_vertical (mainTimer m c s).current_state_vertical = true
        ∨ (s.current_state_vertical = STOP_MOTION_STATE
            ∧ (mainTimer m c s).current_state_vertical = HOVER_STATE)
        ∨ (s.current_state_vertical = DECELERATING_STATE
            ∧ (mainTimer m c s).current_state_vertical = HOVER_STATE))
    ∧ ((callbackLand c s).2.success = true → ∀ n : ℕ,
        ((mainTimer m c)^[n] (callbackLand c s).1).current_state_horizontal ≠ LANDED_STATE
        ∧ ((mainTimer m c)^[n] (callbackLand c s).1).current_state_horizontal ≠ IDLE_STATE
        ∧ ((mainTimer m c)^[n] (callbackLand c s).1).current_state_vertical ≠ LANDED_STATE
        ∧ ((mainTimer m c)^[n] (callbackLand c s).1).current_state_vertical ≠ IDLE_STATE) := by
  obtain ⟨ah, av⟩ := mainTimer_axes m c s
  refine ⟨⟨?_, ?_, ?_, ?_, ?_, ?_, ?_, ?_⟩, ?_, ?_, ?_, ?_, ?_, ?_, ah, av, ?_⟩
  · intro t
    obtain ⟨h, hv⟩ := stepHorizontal_axes m c t
    refine ⟨?_, Or.inl hv⟩
    rcases h with h | ⟨h1, h2⟩ | ⟨h1, h2⟩
    · exact Or.inl h
    · rw [h1, h2]; exact Or.inr rfl
    · rw [h1, h2]; exact Or.inr rfl
  · intro t
    obtain ⟨h, hv⟩ := stepVertical_axes c t
    refine ⟨Or.inl hv, ?_⟩
    rcases h with h | ⟨h1, h2⟩ | ⟨h1, h2⟩
    · exact Or.inl h
    · rw [h1, h2]; exact Or.inr rfl
    · rw [h1, h2]; exact Or.inr rfl
  · intro t
    rcases coordinateStopMotion_axes t with ⟨h1, h2⟩ | ⟨e1, e2, ⟨h1, h2⟩ | ⟨h1, h2⟩⟩
    · exact ⟨Or.inl h1, Or.inl h2⟩
    · rw [e1, e2, h1, h2]; exact ⟨Or.inr rfl, Or.inr rfl⟩
    · rw [e1, e2, h1, h2]; exact ⟨Or.inr rfl, Or.inr rfl⟩
  · intro t
    rcases coordinateStopping_axes t with ⟨h1, h2⟩ | ⟨e1, e2, h1, h2⟩
    · exact ⟨Or.inl h1, Or.inl h2⟩
    · rw [e1, e2, h1, h2]; exact ⟨Or.inr rfl, Or.inr rfl⟩
  · intro t
    exact ⟨Or.inl (late_stages_axes m c t).1, Or.inl (late_stages_axes m c t).2.1⟩
  · intro t
    exact ⟨Or.inl (late_stages_axes m c t).2.2.1, Or.inl (late_stages_axes m c t).2.2.2.1⟩
  · intro t
    exact ⟨Or.inl (late_stages_axes m c t).2.2.2.2.1,
      Or.inl (late_stages_axes m c t).2.2.2.2.2.1⟩
  · intro t
    exact ⟨Or.inl (late_stages_axes m c t).2.2.2.2.2.2.1,
      Or.inl (late_stages_axes m c t).2.2.2.2.2.2.2⟩
  · intro ha
    rw [mainTimer_active m c s ha, coordinate_eq_rules]
  · intro ha
    exact mainTimer_inactive m c s ha
  · exact (tick_relation_facts _ _ ah).1
  · exact (tick_relation_facts _ _ av).1
  · exact (tick_relation_facts _ _ ah).2.1
  · exact (tick_relation_facts _ _ av).2.1
  · intro h n
    have hstate : (callbackLand c s).1.current_state_horizontal = STOP_MOTION_STATE
        ∧ (callbackLand c s).1.current_state_vertical = STOP_MOTION_STATE := by
      revert h
      unfold callbackLand changeState changeStateHorizontal changeStateVertical
      by_cases ha : s.is_active = true
      · by_cases hz : s.odometry_z < c.landed_threshold_height_
        · simp [ha, hz]
        · simp [ha, hz]
      · simp [ha]
    obtain ⟨ih, iv⟩ := iterate_mainTimer_not_grounded m c n (callbackLand c s).1
    have r1 := ih (by rw [hstate.1]; exact ⟨by decide, by decide⟩)
    have r2 := iv (by rw [hstate.2]; exact ⟨by decide, by decide⟩)
    exact ⟨r1.2, r1.1, r2.2, r2.1⟩

/-- C34 at a concrete input: after the land request of an airborne tracker is
accepted, five ticks leave the vertical axis outside `LANDED_STATE`. -/
theorem tick_transition_topology_witness :
    (callbackLand sampleConfig airborneActive).2.success = true
    ∧ ((mainTimer ratExt sampleConfig)^[5]
        (callbackLand sampleConfig airborneActive).1).current_state_vertical ≠ LANDED_STATE :=
  ⟨by decide!,
    ((tick_transition_topology ratExt sampleConfig airborneActive).2.2.2.2.2.2.2.2.2
      (by decide!) 5).2.2.1⟩

end LandoffTracker

/-! ### Double rounding: error and sign -/

/-- `pow2` is the power of two. -/
theorem pow2_eq_zpow (e : ℤ) : pow2 e = (2 : ℚ) ^ e := by
  unfold pow2
  split_ifs with h
  · lift e to ℕ using h
    simp
  · have h1 : 0 ≤ -e := by omega
    obtain ⟨n, hn⟩ := Int.eq_ofNat_of_zero_le h1
    have he : e = -(n : ℤ) := by omega
    rw [hn, he]
    simp

/-- Powers of two are positive. -/
theorem pow2_pos (e : ℤ) : 0 < pow2 e := by
  rw [pow2_eq_zpow]
  positivity

/-- The counter of `halvings` brackets its argument between two consecutive
powers of two. -/
theorem halvings_spec : ∀ (fuel n : ℕ), n ≤ fuel → 0 < n →
    2 ^ halvings fuel n ≤ n ∧ n < 2 ^ (halvings fuel n + 1) := by
  intro fuel
  induction fuel with
  | zero => intro n h1 h2; omega
  | succ fuel ih =>
    intro n h1 h2
    unfold halvings
    split_ifs with h
    · constructor
      · simpa using h2
      · simpa using h
    · have h3 : n / 2 ≤ fuel := by omega
      have h4 : 0 < n / 2 := by omega
      obtain ⟨a, b⟩ := ih (n / 2) h3 h4
      constructor
      · rw [pow_succ]; omega
      · rw [pow_succ]; omega

/-- The binary exponent of a non-zero rational is not above it:
`2 ^ binaryExponent x ≤ |x|`. -/
theorem binaryExponent_le (x : ℚ) (hx : x ≠ 0) : pow2 (binaryExponent x) ≤ |x| := by
  unfold binaryExponent
  simp only []
  split_ifs with h
  · have hn : 0 < x.num.natAbs := Int.natAbs_pos.mpr (Rat.num_ne_zero.mpr hx)
    have hd : 0 < x.den := x.den_pos
    obtain ⟨a1, -⟩ := halvings_spec x.num.natAbs x.num.natAbs le_rfl hn
    obtain ⟨-, b2⟩ := halvings_spec x.den x.den le_rfl hd
    have habs : |x| = (x.num.natAbs : ℚ) / (x.den : ℚ) := by
      conv_lhs => rw [← Rat.num_div_den x]
      rw [abs_div, Nat.abs_cast, ← Int.cast_abs, Int.abs_eq_natAbs, Int.cast_natCast]
    rw [habs, pow2_eq_zpow]
    have e1 : ((natLog2 x.num.natAbs : ℤ) - (natLog2 x.den : ℤ) - 1)
        = (natLog2 x.num.natAbs : ℤ) - ((natLog2 x.den + 1 : ℕ) : ℤ) := by push_cast; ring
    rw [e1, zpow_sub₀ (by norm_num : (2 : ℚ) ≠ 0), zpow_natCast, zpow_natCast]
    have c1 : ((2 : ℚ) ^ natLog2 x.num.natAbs) ≤ (x.num.natAbs : ℚ) := by
      exact_mod_cast a1
    have c2 : (x.den : ℚ) ≤ (2 : ℚ) ^ (natLog2 x.den + 1) := by
      exact_mod_cast le_of_lt b2
    have c3 : (0 : ℚ) < x.den := by exact_mod_cast hd
    exact div_le_div₀ (by positivity) c1 c3 c2
  · exact not_lt.mp h

/-- Rounding to a multiple of `q > 0` moves a number by at most `q / 2`. -/
theorem roundToMultiple_error (q x : ℚ) (hq : 0 < q) : |roundToMultiple q x - x| ≤ q / 2 := by
  obtain ⟨y, hy⟩ : ∃ y, x / q = y := ⟨_, rfl⟩
  have hx : x = y * q := by rw [← hy]; field_simp
  have h1 : ((⌊y⌋ : ℤ) : ℚ) ≤ y := Int.floor_le _
  have h2 : y < (⌊y⌋ : ℤ) + 1 := Int.lt_floor_add_one _
  unfold roundToMultiple
  simp only [hy]
  generalize ((⌊y⌋ : ℤ) : ℚ) = f at h1 h2
  have k1 : 0 ≤ (y - f) * q := mul_nonneg (by linarith) hq.le
  have k2 : 0 ≤ (f + 1 - y) * q := mul_nonneg (by linarith) hq.le
  rw [abs_le]
  split_ifs with a b c
  · have k3 : 0 ≤ (1 / 2 - (y - f)) * q := mul_nonneg (by linarith) hq.le
    constructor <;> nlinarith
  · have k3 : 0 ≤ ((y - f) - 1 / 2) * q := mul_nonneg (by linarith) hq.le
    constructor <;> nlinarith
  · have k3 : 0 ≤ (1 / 2 - (y - f)) * q := mul_nonneg (by linarith) hq.le
    constructor <;> nlinarith
  · have k3 : 0 ≤ ((y - f) - 1 / 2) * q := mul_nonneg (by linarith) hq.le
    constructor <;> nlinarith

/-- Rounding to a multiple of `q > 0` keeps a number that is `≤ 0` at or below
`0`, and a number that is `≥ 0` at or above `0`. -/
theorem roundToMultiple_sign (q x : ℚ) (hq : 0 < q) :
    (x ≤ 0 → roundToMultiple q x ≤ 0) ∧ (0 ≤ x → 0 ≤ roundToMultiple q x) := by
  have h1 : ((⌊x / q⌋ : ℤ) : ℚ) ≤ x / q := Int.floor_le _
  have hx : x = x / q * q := by field_simp
  constructor
  · intro h
    have hy : x / q ≤ 0 := div_nonpos_of_nonpos_of_nonneg h hq.le
    have hfl : ((⌊x / q⌋ : ℤ) : ℚ) ≤ 0 := le_trans h1 hy
    unfold roundToMultiple
    simp only []
    have key : 0 < x / q - ((⌊x / q⌋ : ℤ) : ℚ) → ((⌊x / q⌋ : ℤ) : ℚ) + 1 ≤ 0 := by
      intro hr
      have h3 : (⌊x / q⌋ : ℤ) < 0 := by
        have : ((⌊x / q⌋ : ℤ) : ℚ) < 0 := by linarith
        exact_mod_cast this
      have h4 : (⌊x / q⌋ : ℤ) + 1 ≤ 0 := by omega
      exact_mod_cast h4
    split_ifs with a b c
    · exact mul_nonpos_of_nonpos_of_nonneg hfl hq.le
    · exact mul_nonpos_of_nonpos_of_nonneg (key (by linarith)) hq.le
    · exact mul_nonpos_of_nonpos_of_nonneg hfl hq.le
    · exact mul_nonpos_of_nonpos_of_nonneg (key (by linarith)) hq.le
  · intro h
    have hy : 0 ≤ x / q := div_nonneg h hq.le
    have hfl : (0 : ℚ) ≤ ((⌊x / q⌋ : ℤ) : ℚ) := by
      have : (0 : ℤ) ≤ ⌊x / q⌋ := Int.floor_nonneg.mpr hy
      exact_mod_cast this
    unfold roundToMultiple
    simp only []
    split_ifs with a b c
    · exact mul_nonneg hfl hq.le
    · exact mul_nonneg (by linarith) hq.le
    · exact mul_nonneg hfl hq.le
    · exact mul_nonneg (by linarith) hq.le

/-- The error of double rounding: at most `2 ^ (-53)` of the magnitude, or
`2 ^ (-1075)` in the subnormal range. -/
theorem roundDouble_error (x : ℚ) :
    |roundDouble x - x| ≤ 1 / 2 ^ 53 * |x| + 1 / 2 ^ 1075 := by
  unfold roundDouble
  split_ifs with h
  · subst h; norm_num
  · have hq := pow2_pos (max (binaryExponent x - 52) (-1074))
    have e := roundToMultiple_error _ x hq
    have hx : 0 ≤ |x| := abs_nonneg x
    rcases le_total (binaryExponent x - 52) (-1074) with c | c
    · rw [max_eq_right c] at e ⊢
      have : pow2 (-1074) / 2 = 1 / 2 ^ 1075 := by
        rw [pow2_eq_zpow]
        rw [zpow_neg, ← one_div, div_div]
        norm_num
      rw [this] at e
      have : (0 : ℚ) ≤ 1 / 2 ^ 53 * |x| := by positivity
      linarith
    · rw [max_eq_left c] at e ⊢
      have b := binaryExponent_le x h
      have : pow2 (binaryExponent x - 52) / 2 = 1 / 2 ^ 53 * pow2 (binaryExponent x) := by
        rw [pow2_eq_zpow, pow2_eq_zpow, zpow_sub₀ (by norm_num : (2 : ℚ) ≠ 0)]
        norm_num
        ring
      rw [this] at e
      have : 1 / 2 ^ 53 * pow2 (binaryExponent x) ≤ 1 / 2 ^ 53 * |x| :=
        mul_le_mul_of_nonneg_left b (by positivity)
      have : (0 : ℚ) ≤ 1 / 2 ^ 1075 := by positivity
      linarith

/-- Double rounding keeps the sign: a number `≤ 0` is rounded to a number
`≤ 0`, a number `≥ 0` to a number `≥ 0`. -/
theorem roundDouble_sign (x : ℚ) :
    (x ≤ 0 → roundDouble x ≤ 0) ∧ (0 ≤ x → 0 ≤ roundDouble x) := by
  unfold roundDouble
  split_ifs with h
  · exact ⟨fun _ => le_rfl, fun _ => le_rfl⟩
  · exact roundToMultiple_sign _ x (pow2_pos _)

/-! ### Settling in double arithmetic (C31) -/

section Settling

/-- One rounded step `fl (fl (a * x) + fl (b * g))` towards `g`, for a rounding
`fl` with relative error `u` and absolute error `η`: the distance to `g`
contracts by `a`, up to the rounding errors and the defect of `a + b` from `1`. -/
theorem rounded_step_bound (fl : ℚ → ℚ) (u η a b δ x g : ℚ) (hu : 0 ≤ u)
    (ha : 0 ≤ a) (hb : 0 ≤ b) (hab : |a + b - 1| ≤ δ)
    (herr : ∀ y, |fl y - y| ≤ u * |y| + η) :
    |fl (fl (a * x) + fl (b * g)) - g|
      ≤ a * |x - g| + δ * |g| + u * (2 + u) * (a * |x| + b * |g|) + (3 + 2 * u) * η := by
  have h1 := herr (a * x)
  have h2 := herr (b * g)
  have h3 := herr (fl (a * x) + fl (b * g))
  rw [abs_mul, abs_of_nonneg ha] at h1
  rw [abs_mul, abs_of_nonneg hb] at h2
  generalize fl (fl (a * x) + fl (b * g)) = r at h3 ⊢
  generalize fl (a * x) = p at h1 h3
  generalize fl (b * g) = q at h2 h3
  have hp : |p| ≤ a * |x| + |p - a * x| := by
    have := abs_add (a * x) (p - a * x)
    rw [abs_mul, abs_of_nonneg ha] at this
    simpa using this
  have hq : |q| ≤ b * |g| + |q - b * g| := by
    have := abs_add (b * g) (q - b * g)
    rw [abs_mul, abs_of_nonneg hb] at this
    simpa using this
  have hpq : |p + q| ≤ |p| + |q| := abs_add p q
  have hsplit : r - g = (r - (p + q)) + (p - a * x) + (q - b * g) + a * (x - g)
      + (a + b - 1) * g := by ring
  have hmain : |r - g| ≤ |r - (p + q)| + |p - a * x| + |q - b * g| + a * |x - g|
      + |a + b - 1| * |g| := by
    rw [hsplit]
    have t1 := abs_add ((r - (p + q)) + (p - a * x) + (q - b * g) + a * (x - g))
      ((a + b - 1) * g)
    have t2 := abs_add ((r - (p + q)) + (p - a * x) + (q - b * g)) (a * (x - g))
    have t3 := abs_add ((r - (p + q)) + (p - a * x)) (q - b * g)
    have t4 := abs_add (r - (p + q)) (p - a * x)
    rw [abs_mul] at t1
    rw [abs_mul, abs_of_nonneg ha] at t2
    linarith
  have hg : |a + b - 1| * |g| ≤ δ * |g| := mul_le_mul_of_nonneg_right hab (abs_nonneg g)
  have hu1 : u * |p + q| ≤ u * (a * |x| + (u * (a * |x|) + η) + (b * |g| + (u * (b * |g|) + η))) :=
    mul_le_mul_of_nonneg_left (by linarith) hu
  linarith

/-- One call of the settling step in double arithmetic: the distance to the
goal contracts by `0.95`, up to a rounding error of `2 ^ (-52)` of the sizes
of position and goal. -/
theorem double_step_bound (x g : ℚ) :
    |roundDouble (roundDouble (roundDouble (95 / 100) * x) + roundDouble (roundDouble (5 / 100) * g))
        - g|
      ≤ 95 / 100 * |x - g| + 1 / 2 ^ 52 * (|x| + |g|) + 1 / 2 ^ 1073 := by
  have ea : roundDouble (95 / 100) = 4278419646001971 / 4503599627370496 := by decide!
  have eb : roundDouble (5 / 100) = 3602879701896397 / 72057594037927936 := by decide!
  rw [ea, eb]
  have h := rounded_step_bound roundDouble (1 / 2 ^ 53) (1 / 2 ^ 1075)
    (4278419646001971 / 4503599627370496) (3602879701896397 / 72057594037927936)
    (3 / 2 ^ 56) x g (by norm_num) (by norm_num) (by norm_num)
    (by rw [abs_le]; constructor <;> norm_num) roundDouble_error
  have hx := abs_nonneg x
  have hg := abs_nonneg g
  have hxg := abs_nonneg (x - g)
  have c1 : (4278419646001971 : ℚ) / 4503599627370496 * |x - g| ≤ 95 / 100 * |x - g| :=
    mul_le_mul_of_nonneg_right (by norm_num) hxg
  have c2 : (1 : ℚ) / 2 ^ 53 * (2 + 1 / 2 ^ 53) * (4278419646001971 / 4503599627370496 * |x|)
      ≤ 1 / 2 ^ 52 * |x| := by
    rw [← mul_assoc]
    exact mul_le_mul_of_nonneg_right (by norm_num) hx
  have c3 : (3 : ℚ) / 2 ^ 56 * |g|
      + 1 / 2 ^ 53 * (2 + 1 / 2 ^ 53) * (3602879701896397 / 72057594037927936 * |g|)
      ≤ 1 / 2 ^ 52 * |g| := by
    rw [← mul_assoc, ← add_mul]
    exact mul_le_mul_of_nonneg_right (by norm_num) hg
  have c4 : (3 + 2 * ((1 : ℚ) / 2 ^ 53)) * (1 / 2 ^ 1075) ≤ 1 / 2 ^ 1073 := by norm_num
  rw [mul_add (1 / 2 ^ 53 * (2 + 1 / 2 ^ 53))] at h
  linarith

/-- A position that every call moves by the double settling step towards a
goal that the call leaves alone: after `n` calls the goal is unchanged and the
distance is at most `0.96 ^ n` times the initial one, up to `2 ^ (-46)` of the
size of the goal. -/
theorem settle_bound {S : Type} (f : S → S) (pos goal : S → ℚ)
    (hgoal : ∀ s, goal (f s) = goal s)
    (hpos : ∀ s, pos (f s) = roundDouble (roundDouble (roundDouble (95 / 100) * pos s)
      + roundDouble (roundDouble (5 / 100) * goal s)))
    (s : S) (n : ℕ) :
    goal (f^[n] s) = goal s
    ∧ |pos (f^[n] s) - goal s|
        ≤ (96 / 100) ^ n * |pos s - goal s| + 1 / 2 ^ 46 * |goal s| + 1 / 2 ^ 1068 := by
  have key : goal (f^[n] s) = goal s
      ∧ |pos (f^[n] s) - goal s|
        ≤ (96 / 100) ^ n * |pos s - goal s| + 25 * (1 / 2 ^ 51 * |goal s| + 1 / 2 ^ 1073) := by
    induction n with
    | zero =>
      refine ⟨rfl, ?_⟩
      have := abs_nonneg (goal s)
      simp only [Function.iterate_zero, id_eq, pow_zero, one_mul]
      have : (0 : ℚ) ≤ 25 * (1 / 2 ^ 51 * |goal s| + 1 / 2 ^ 1073) := by positivity
      linarith
    | succ n ih =>
      obtain ⟨h1, h2⟩ := ih
      rw [Function.iterate_succ_apply', hgoal, hpos, h1]
      refine ⟨rfl, ?_⟩
      have b := double_step_bound (pos (f^[n] s)) (goal s)
      have t : |pos (f^[n] s)| ≤ |pos (f^[n] s) - goal s| + |goal s| := by
        have := abs_add (pos (f^[n] s) - goal s) (goal s)
        simpa using this
      have e0 := abs_nonneg (pos (f^[n] s) - goal s)
      have g0 := abs_nonneg (goal s)
      have p0 : (0 : ℚ) ≤ (96 / 100) ^ n * |pos s - goal s| :=
        mul_nonneg (by positivity) (abs_nonneg _)
      have c0 : (0 : ℚ) ≤ 1 / 2 ^ 51 * |goal s| + 1 / 2 ^ 1073 := by positivity
      have hP : (96 / 100 : ℚ) ^ (n + 1) * |pos s - goal s|
          = 96 / 100 * ((96 / 100) ^ n * |pos s - goal s|) := by ring
      rw [hP]
      have c1 : (1 : ℚ) / 2 ^ 52 * |pos (f^[n] s) - goal s|
          ≤ 1 / 100 * |pos (f^[n] s) - goal s| :=
        mul_le_mul_of_nonneg_right (by norm_num) e0
      linarith
  obtain ⟨k1, k2⟩ := key
  refine ⟨k1, ?_⟩
  have g0 := abs_nonneg (goal s)
  have : (25 : ℚ) * (1 / 2 ^ 51 * |goal s| + 1 / 2 ^ 1073)
      ≤ 1 / 2 ^ 46 * |goal s| + 1 / 2 ^ 1068 := by
    have a1 : (25 : ℚ) * (1 / 2 ^ 51) ≤ 1 / 2 ^ 46 := by norm_num
    have a2 : (25 : ℚ) * (1 / 2 ^ 1073) ≤ 1 / 2 ^ 1068 := by norm_num
    nlinarith
  linarith

end Settling

namespace LandoffTracker

open States_t

/-- The claim C31 fails at a concrete input in double arithmetic: with the goal
at `9` and the position at the double `9.00000000000001`, six units in the last
place above it, the position differs from the goal before the first call and is
exactly on the goal after 6 calls of `stopHorizontal` (resp. `stopVertical`). -/
theorem stopping_reaches_goal_exactly :
    settlingNearNine.goal_x = 9
    ∧ settlingNearNine.state_x = 9 + 6 / 2 ^ 49
    ∧ settlingNearNine.state_x ≠ settlingNearNine.goal_x
    ∧ ((stopHorizontalRounded roundDouble)^[5] settlingNearNine).state_x = 9 + 1 / 2 ^ 49
    ∧ ((stopHorizontalRounded roundDouble)^[6] settlingNearNine).state_x
        = ((stopHorizontalRounded roundDouble)^[6] settlingNearNine).goal_x
    ∧ settlingNearNine.state_z ≠ settlingNearNine.goal_z
    ∧ ((stopVerticalRounded roundDouble)^[6] settlingNearNine).state_z
        = ((stopVerticalRounded roundDouble)^[6] settlingNearNine).goal_z := by
  decide!

/-- C31, amended: in double arithmetic, for every `n` and every state, `n`
calls of `stopHorizontal` (resp. `stopVertical`) leave the goal unchanged and
bring each coordinate to within `0.96^n * |state0 - goal| + 2^(-46) * |goal| +
2^(-1068)` of the goal, one call contracting the distance by `0.95` up to
`2^(-52) * (|state| + |goal|) + 2^(-1073)`; without rounding the routines are
the exact ones, for which `state - goal = 0.95^n * (state0 - goal)`. -/
theorem stopping_contracts_up_to_rounding (s : State ℚ) (n : ℕ) :
    (((stopHorizontalRounded roundDouble)^[n] s).goal_x = s.goal_x
      ∧ ((stopHorizontalRounded roundDouble)^[n] s).goal_y = s.goal_y
      ∧ ((stopVerticalRounded roundDouble)^[n] s).goal_z = s.goal_z)
    ∧ (|((stopHorizontalRounded roundDouble)^[n] s).state_x - s.goal_x|
          ≤ (96 / 100) ^ n * |s.state_x - s.goal_x| + 1 / 2 ^ 46 * |s.goal_x| + 1 / 2 ^ 1068
      ∧ |((stopHorizontalRounded roundDouble)^[n] s).state_y - s.goal_y|
          ≤ (96 / 100) ^ n * |s.state_y - s.goal_y| + 1 / 2 ^ 46 * |s.goal_y| + 1 / 2 ^ 1068
      ∧ |((stopVerticalRounded roundDouble)^[n] s).state_z - s.goal_z|
          ≤ (96 / 100) ^ n * |s.state_z - s.goal_z| + 1 / 2 ^ 46 * |s.goal_z| + 1 / 2 ^ 1068)
    ∧ (|(stopHorizontalRounded roundDouble s).state_x - s.goal_x|
          ≤ 95 / 100 * |s.state_x - s.goal_x| + 1 / 2 ^ 52 * (|s.state_x| + |s.goal_x|)
            + 1 / 2 ^ 1073
      ∧ |(stopHorizontalRounded roundDouble s).state_y - s.goal_y|
          ≤ 95 / 100 * |s.state_y - s.goal_y| + 1 / 2 ^ 52 * (|s.state_y| + |s.goal_y|)
            + 1 / 2 ^ 1073
      ∧ |(stopVerticalRounded roundDouble s).state_z - s.goal_z|
          ≤ 95 / 100 * |s.state_z - s.goal_z| + 1 / 2 ^ 52 * (|s.state_z| + |s.goal_z|)
            + 1 / 2 ^ 1073)
    ∧ (stopHorizontalRounded id s = stopHorizontal s
      ∧ stopVerticalRounded id s = stopVertical s
      ∧ (stopHorizontal^[n] s).state_x - s.goal_x = (95 / 100) ^ n * (s.state_x - s.goal_x)
      ∧ (stopHorizontal^[n] s).state_y - s.goal_y = (95 / 100) ^ n * (s.state_y - s.goal_y)
      ∧ (stopVertical^[n] s).state_z - s.goal_z = (95 / 100) ^ n * (s.state_z - s.goal_z)) := by
  have hx := settle_bound (stopHorizontalRounded roundDouble) (fun t => t.state_x)
    (fun t => t.goal_x) (fun _ => rfl) (fun _ => rfl) s n
  have hy := settle_bound (stopHorizontalRounded roundDouble) (fun t => t.state_y)
    (fun t => t.goal_y) (fun _ => rfl) (fun _ => rfl) s n
  have hz := settle_bound (stopVerticalRounded roundDouble) (fun t => t.state_z)
    (fun t => t.goal_z) (fun _ => rfl) (fun _ => rfl) s n
  obtain ⟨-, -, e3, e4⟩ := iterate_stopHorizontal s n
  obtain ⟨-, v3⟩ := iterate_stopVertical s n
  exact ⟨⟨hx.1, hy.1, hz.1⟩, ⟨hx.2, hy.2, hz.2⟩,
    ⟨double_step_bound _ _, double_step_bound _ _, double_step_bound _ _⟩,
    rfl, rfl, e3, e4, v3⟩

end LandoffTracker

/-! ### Deceleration in double arithmetic (C32) -/

section RoundedDeceleration

/-- A speed that every call decrements by `step > 0`, rounds by `fl` and clamps
at `0`, with a state that switches to `stopping` in the calls that reach `0`:
the speed is never negative, and from the first call on the state is `stopping`
exactly when the speed is `0`. -/
theorem rounded_ramp_down {S T : Type} (fl : ℚ → ℚ) (f : S → S) (speed : S → ℚ) (st : S → T)
    (stopping : T) (step : ℚ) (hstep : 0 < step)
    (hsign : ∀ y, y ≤ 0 → fl y ≤ 0)
    (hspeed : ∀ s, speed (f s) = max 0 (fl (speed s - step)))
    (hst : ∀ s, st (f s) = if fl (speed s - step) ≤ 0 then stopping else st s)
    (s : S) (hv : 0 ≤ speed s) (k : ℕ) :
    0 ≤ speed (f^[k] s)
    ∧ st (f^[k] s) = if 1 ≤ k ∧ speed (f^[k] s) = 0 then stopping else st s := by
  induction k with
  | zero => exact ⟨hv, by simp⟩
  | succ k ih =>
    obtain ⟨ih1, ih2⟩ := ih
    rw [Function.iterate_succ_apply', hspeed, hst, ih2]
    refine ⟨le_max_left _ _, ?_⟩
    by_cases h : fl (speed (f^[k] s) - step) ≤ 0
    · rw [if_pos h, if_pos ⟨Nat.le_add_left 1 k, max_eq_left h⟩]
    · have h1 : ¬ (max 0 (fl (speed (f^[k] s) - step)) = 0) := by
        intro e
        exact h (e ▸ le_max_right _ _)
      have h2 : ¬ (speed (f^[k] s) = 0) := by
        intro e
        apply h
        apply hsign
        rw [e]
        linarith
      rw [if_neg h, if_neg (fun a => h2 a.2), if_neg (fun a => h1 a.2)]

/-- The same speed when the first `k` subtractions are exact: it is
`max 0 (v - k * step)`, and the state is `stopping` exactly when `1 ≤ k` and
`v ≤ k * step`. -/
theorem rounded_ramp_down_exact {S T : Type} (fl : ℚ → ℚ) (f : S → S) (speed : S → ℚ)
    (st : S → T) (stopping : T) (step : ℚ) (hstep : 0 < step)
    (hspeed : ∀ s, speed (f s) = max 0 (fl (speed s - step)))
    (hst : ∀ s, st (f s) = if fl (speed s - step) ≤ 0 then stopping else st s)
    (s : S) (hv : 0 ≤ speed s) (k : ℕ)
    (hex : ∀ j < k, fl (speed (f^[j] s) - step) = speed (f^[j] s) - step) :
    speed (f^[k] s) = max 0 (speed s - k * step)
    ∧ st (f^[k] s) = if 1 ≤ k ∧ speed s ≤ k * step then stopping else st s := by
  induction k with
  | zero => simp [hv]
  | succ k ih =>
    obtain ⟨ih1, ih2⟩ := ih (fun j hj => hex j (Nat.lt_succ_of_lt hj))
    have hk : (0 : ℚ) ≤ k := Nat.cast_nonneg k
    rw [Function.iterate_succ_apply', hspeed, hst, hex k (Nat.lt_succ_self k), ih1, ih2,
      Nat.cast_succ]
    constructor
    · rcases le_total (speed s - k * step) 0 with h | h
      · rw [max_eq_left h, max_eq_left (by linarith), max_eq_left (by linarith)]
      · rw [max_eq_right h]
        congr 1
        ring
    · by_cases h1 : speed s ≤ (k + 1) * step
      · have h2 : max 0 (speed s - k * step) - step ≤ 0 := by
          rcases le_total (speed s - k * step) 0 with h | h
          · rw [max_eq_left h]; linarith
          · rw [max_eq_right h]; linarith
        rw [if_pos h2, if_pos ⟨Nat.le_add_left 1 k, h1⟩]
      · have h2 : ¬ (max 0 (speed s - k * step) - step ≤ 0) := by
          have : speed s - k * step ≤ max 0 (speed s - k * step) := le_max_right _ _
          intro h
          apply h1
          linarith
        have h3 : ¬ (1 ≤ k ∧ speed s ≤ k * step) := by
          rintro ⟨_, h⟩
          apply h1
          nlinarith
        rw [if_neg h2, if_neg h3, if_neg (fun h => h1 h.2)]

/-- The same speed when every subtraction is rounded with relative error `u`
and absolute error `η`, and `u * max v step + η ≤ ε * step` with `ε ≤ 1`: after
`k` calls it lies between `max 0 (v - k * (1 + ε) * step)` and
`max 0 (v - k * (1 - ε) * step)`. -/
theorem rounded_ramp_down_bounds {S : Type} (fl : ℚ → ℚ) (f : S → S) (speed : S → ℚ)
    (step u η ε : ℚ) (hstep : 0 < step) (hu : 0 ≤ u)
    (herr : ∀ y, |fl y - y| ≤ u * |y| + η)
    (hspeed : ∀ s, speed (f s) = max 0 (fl (speed s - step)))
    (s : S) (hv : 0 ≤ speed s) (hε1 : ε ≤ 1)
    (hε : u * max (speed s) step + η ≤ ε * step) (k : ℕ) :
    max 0 (speed s - k * ((1 + ε) * step)) ≤ speed (f^[k] s)
    ∧ speed (f^[k] s) ≤ max 0 (speed s - k * ((1 - ε) * step)) := by
  induction k with
  | zero => simp [hv]
  | succ k ih =>
    obtain ⟨lo, hi⟩ := ih
    have hk : (0 : ℚ) ≤ k := Nat.cast_nonneg k
    have h0 : 0 ≤ speed (f^[k] s) := le_trans (le_max_left _ _) lo
    have hle : speed (f^[k] s) ≤ speed s := by
      refine le_trans hi (max_le hv ?_)
      have : 0 ≤ (k : ℚ) * ((1 - ε) * step) :=
        mul_nonneg hk (mul_nonneg (by linarith) hstep.le)
      linarith
    have habs : |speed (f^[k] s) - step| ≤ max (speed s) step := by
      rw [abs_le]
      constructor
      · have := le_max_right (speed s) step
        linarith
      · have := le_max_left (speed s) step
        linarith
    have e := herr (speed (f^[k] s) - step)
    have e1 : |fl (speed (f^[k] s) - step) - (speed (f^[k] s) - step)| ≤ ε * step := by
      have := mul_le_mul_of_nonneg_left habs hu
      linarith
    rw [abs_le] at e1
    obtain ⟨e2, e3⟩ := e1
    rw [Function.iterate_succ_apply', hspeed, Nat.cast_succ]
    constructor
    · apply max_le (le_max_left _ _)
      refine le_trans ?_ (le_max_right _ _)
      have : speed s - k * ((1 + ε) * step) ≤ speed (f^[k] s) :=
        le_trans (le_max_right _ _) lo
      linarith
    · apply max_le (le_max_left _ _)
      rcases le_total (speed s - k * ((1 - ε) * step)) 0 with h | h
      · rw [max_eq_left h] at hi
        have : speed (f^[k] s) = 0 := le_antisymm hi h0
        refine le_trans ?_ (le_max_left _ _)
        have : 0 ≤ (1 - ε) * step := mul_nonneg (by linarith) hstep.le
        linarith
      · rw [max_eq_right h] at hi
        refine le_trans ?_ (le_max_right _ _)
        linarith

end RoundedDeceleration

section DoubleDeceleration

/-- A speed that every call decrements by `step > 0` in double arithmetic and
clamps at `0`, with a state that starts as `decel` and switches to `stopping`
in the calls that reach `0`: the structure of the run, its closed form when the
subtractions are exact, and its bounds in general. -/
theorem double_ramp_down {S T : Type} (f : S → S) (speed : S → ℚ) (st : S → T)
    (decel stopping : T) (step : ℚ) (hstep : 0 < step)
    (hspeed : ∀ s, speed (f s) = max 0 (roundDouble (speed s - step)))
    (hst : ∀ s, st (f s) = if roundDouble (speed s - step) ≤ 0 then stopping else st s)
    (s : S) (hv : 0 ≤ speed s) (hs : st s = decel) (k : ℕ) :
    (0 ≤ speed (f^[k] s)
      ∧ st (f^[k] s) = if 1 ≤ k ∧ speed (f^[k] s) = 0 then stopping else decel)
    ∧ ((∀ j < k, roundDouble (speed (f^[j] s) - step) = speed (f^[j] s) - step) →
        speed (f^[k] s) = max 0 (speed s - k * step)
        ∧ (k < max 1 (Nat.ceil (speed s / step)) → st (f^[k] s) = decel)
        ∧ (max 1 (Nat.ceil (speed s / step)) ≤ k →
            st (f^[k] s) = stopping ∧ speed (f^[k] s) = 0))
    ∧ (∀ ε : ℚ, ε ≤ 1 → 1 / 2 ^ 53 * max (speed s) step + 1 / 2 ^ 1075 ≤ ε * step →
        max 0 (speed s - k * ((1 + ε) * step)) ≤ speed (f^[k] s)
        ∧ speed (f^[k] s) ≤ max 0 (speed s - k * ((1 - ε) * step))
        ∧ (k * ((1 + ε) * step) < speed s → st (f^[k] s) = decel ∧ 0 < speed (f^[k] s))
        ∧ (1 ≤ k → speed s ≤ k * ((1 - ε) * step) →
            st (f^[k] s) = stopping ∧ speed (f^[k] s) = 0)) := by
  obtain ⟨a1, a2⟩ := rounded_ramp_down roundDouble f speed st stopping step hstep
    (fun y hy => (roundDouble_sign y).1 hy) hspeed hst s hv k
  rw [hs] at a2
  refine ⟨⟨a1, a2⟩, ?_, ?_⟩
  · intro hex
    obtain ⟨b1, b2⟩ := rounded_ramp_down_exact roundDouble f speed st stopping step hstep
      hspeed hst s hv k hex
    rw [hs] at b2
    refine ⟨b1, ?_, ?_⟩
    · intro hk
      rw [b2, if_neg]
      rw [stopping_call_number (speed s) step hstep k]
      exact not_le.mpr hk
    · intro hk
      have hk2 := (stopping_call_number (speed s) step hstep k).mpr hk
      rw [b2, if_pos hk2, b1]
      exact ⟨rfl, max_eq_left (by linarith [hk2.2])⟩
  · intro ε hε1 hε
    obtain ⟨lo, hi⟩ := rounded_ramp_down_bounds roundDouble f speed step (1 / 2 ^ 53)
      (1 / 2 ^ 1075) ε hstep (by positivity) roundDouble_error hspeed s hv hε1 hε k
    refine ⟨lo, hi, ?_, ?_⟩
    · intro hk
      have hpos : 0 < speed (f^[k] s) :=
        lt_of_lt_of_le (lt_of_lt_of_le (by linarith) (le_max_right _ _)) lo
      rw [a2, if_neg (fun h => (ne_of_gt hpos) h.2)]
      exact ⟨rfl, hpos⟩
    · intro hk1 hk2
      have hz : speed (f^[k] s) = 0 :=
        le_antisymm (le_trans hi (max_le le_rfl (by linarith))) a1
      rw [a2, if_pos ⟨hk1, hz⟩]
      exact ⟨rfl, hz⟩

end DoubleDeceleration

namespace LandoffTracker

open States_t

/-- One call of the rounded `decelerateHorizontal`: the speed is decremented,
rounded and clamped at `0`, and the axis switches to `STOPPING_STATE` when the
speed reaches `0`. -/
theorem decelerateHorizontalRounded_speed_state (fl : ℚ → ℚ) (c : Config ℚ) (s : State ℚ) :
    (decelerateHorizontalRounded fl c s).current_horizontal_speed
        = max 0 (fl (s.current_horizontal_speed
            - fl (c.horizontal_acceleration_ * c.tracker_dt_)))
    ∧ (decelerateHorizontalRounded fl c s).current_state_horizontal
        = if fl (s.current_horizontal_speed
            - fl (c.horizontal_acceleration_ * c.tracker_dt_)) ≤ 0
          then STOPPING_STATE else s.current_state_horizontal := by
  unfold decelerateHorizontalRounded changeStateHorizontal
  simp only [beq_iff_eq]
  generalize fl (s.current_horizontal_speed
    - fl (c.horizontal_acceleration_ * c.tracker_dt_)) = v
  by_cases h1 : v < 0
  · simp [h1, le_of_lt h1]
  · by_cases h2 : v = 0
    · simp [h2]
    · have h3 : ¬ (v ≤ 0) := fun h => h2 (le_antisymm h (not_lt.mp h1))
      simp [h1, h2, h3, le_of_lt (not_le.mp h3)]

end LandoffTracker

namespace LineTracker

open States_t

/-- One call of the rounded `decelerateHorizontal`: the speed is decremented,
rounded and clamped at `0`, and the axis switches to `STOPPING_STATE` when the
speed reaches `0`. -/
theorem line_decelerateHorizontalRounded_speed_state (fl : ℚ → ℚ) (c : Config ℚ)
    (s : State ℚ) :
    (decelerateHorizontalRounded fl c s).current_horizontal_speed
        = max 0 (fl (s.current_horizontal_speed
            - fl (c.horizontal_acceleration_ * c.tracker_dt_)))
    ∧ (decelerateHorizontalRounded fl c s).current_state_horizontal
        = if fl (s.current_horizontal_speed
            - fl (c.horizontal_acceleration_ * c.tracker_dt_)) ≤ 0
          then STOPPING_STATE else s.current_state_horizontal := by
  unfold decelerateHorizontalRounded changeStateHorizontal
  simp only [beq_iff_eq]
  generalize fl (s.current_horizontal_speed
    - fl (c.horizontal_acceleration_ * c.tracker_dt_)) = v
  by_cases h1 : v < 0
  · simp [h1, le_of_lt h1]
  · by_cases h2 : v = 0
    · simp [h2]
    · have h3 : ¬ (v ≤ 0) := fun h => h2 (le_antisymm h (not_lt.mp h1))
      simp [h1, h2, h3, le_of_lt (not_le.mp h3)]

end LineTracker

section DoubleDecelerationClaim

/-- The claim C32 fails at a concrete input in double arithmetic: at 10 Hz with
`horizontal_acceleration_ = 1` and speed `1` on entering `DECELERATING_STATE`,
`n = max(1, ceil(v / (horizontal_acceleration_ * dt))) = 10`, but after 10
calls of `decelerateHorizontal` (of LandoffTracker and of LineTracker) the
speed is `5 / 2^55 > 0` and the axis is still in `DECELERATING_STATE`; the
switch to `STOPPING_STATE` with speed `0` happens at call 11. -/
theorem deceleration_stops_one_call_late :
    (max 1 (Nat.ceil (LandoffTracker.deceleratingFromOne.current_horizontal_speed
        / (LandoffTracker.tenHertzConfig.horizontal_acceleration_
            * LandoffTracker.tenHertzConfig.tracker_dt_))) = 10
      ∧ ((LandoffTracker.decelerateHorizontalRounded roundDouble
            LandoffTracker.tenHertzConfig)^[10]
          LandoffTracker.deceleratingFromOne).current_horizontal_speed = 5 / 2 ^ 55
      ∧ ((LandoffTracker.decelerateHorizontalRounded roundDouble
            LandoffTracker.tenHertzConfig)^[10]
          LandoffTracker.deceleratingFromOne).current_state_horizontal
          = LandoffTracker.States_t.DECELERATING_STATE
      ∧ ((LandoffTracker.decelerateHorizontalRounded roundDouble
            LandoffTracker.tenHertzConfig)^[11]
          LandoffTracker.deceleratingFromOne).current_horizontal_speed = 0
      ∧ ((LandoffTracker.decelerateHorizontalRounded roundDouble
            LandoffTracker.tenHertzConfig)^[11]
          LandoffTracker.deceleratingFromOne).current_state_horizontal
          = LandoffTracker.States_t.STOPPING_STATE)
    ∧ (max 1 (Nat.ceil (LineTracker.deceleratingFromOne.current_horizontal_speed
        / (LineTracker.tenHertzConfig.horizontal_acceleration_
            * LineTracker.tenHertzConfig.tracker_dt_))) = 10
      ∧ ((LineTracker.decelerateHorizontalRounded roundDouble
            LineTracker.tenHertzConfig)^[10]
          LineTracker.deceleratingFromOne).current_horizontal_speed = 5 / 2 ^ 55
      ∧ ((LineTracker.decelerateHorizontalRounded roundDouble
            LineTracker.tenHertzConfig)^[10]
          LineTracker.deceleratingFromOne).current_state_horizontal
          = LineTracker.States_t.DECELERATING_STATE
      ∧ ((LineTracker.decelerateHorizontalRounded roundDouble
            LineTracker.tenHertzConfig)^[11]
          LineTracker.deceleratingFromOne).current_horizontal_speed = 0
      ∧ ((LineTracker.decelerateHorizontalRounded roundDouble
            LineTracker.tenHertzConfig)^[11]
          LineTracker.deceleratingFromOne).current_state_horizontal
          = LineTracker.States_t.STOPPING_STATE) := by
  decide!

/-- C32, amended: in double arithmetic, with `step` the double
`horizontal_acceleration_ * dt > 0` and a speed `v ≥ 0` on entering
`DECELERATING_STATE`, after `k` calls of `decelerateHorizontal` (of
LandoffTracker and of LineTracker) the speed is `≥ 0` and the axis is in
`STOPPING_STATE` if `k ≥ 1` and the speed is exactly `0`, and in
`DECELERATING_STATE` otherwise.  If the first `k` subtractions are exact, the
speed is `max(0, v - k * step)` and the axis is in `DECELERATING_STATE` for
`k < n` and in `STOPPING_STATE` with speed `0` for `k ≥ n`, `n = max(1,
ceil(v / step))`.  In general, when `2^(-53) * max(v, step) + 2^(-1075) ≤ ε *
step` with `ε ≤ 1`, the speed lies between `max(0, v - k * (1 + ε) * step)` and
`max(0, v - k * (1 - ε) * step)`, the axis is in `DECELERATING_STATE` with
positive speed while `k * (1 + ε) * step < v`, and in `STOPPING_STATE` with
speed `0` once `k ≥ 1` and `k * (1 - ε) * step ≥ v`. -/
theorem deceleration_ends_at_zero_speed (k : ℕ) :
    (∀ (c : LandoffTracker.Config ℚ) (s : LandoffTracker.State ℚ) (step : ℚ),
      step = roundDouble (c.horizontal_acceleration_ * c.tracker_dt_) → 0 < step →
      0 ≤ s.current_horizontal_speed →
      s.current_state_horizontal = LandoffTracker.States_t.DECELERATING_STATE →
      (0 ≤ ((LandoffTracker.decelerateHorizontalRounded roundDouble c)^[k]
            s).current_horizontal_speed
        ∧ ((LandoffTracker.decelerateHorizontalRounded roundDouble c)^[k]
            s).current_state_horizontal
          = if 1 ≤ k ∧ ((LandoffTracker.decelerateHorizontalRounded roundDouble c)^[k]
                s).current_horizontal_speed = 0
            then LandoffTracker.States_t.STOPPING_STATE
            else LandoffTracker.States_t.DECELERATING_STATE)
      ∧ ((∀ j < k, roundDouble
            (((LandoffTracker.decelerateHorizontalRounded roundDouble c)^[j]
              s).current_horizontal_speed - step)
            = ((LandoffTracker.decelerateHorizontalRounded roundDouble c)^[j]
              s).current_horizontal_speed - step) →
          ((LandoffTracker.decelerateHorizontalRounded roundDouble c)^[k]
              s).current_horizontal_speed = max 0 (s.current_horizontal_speed - k * step)
          ∧ (k < max 1 (Nat.ceil (s.current_horizontal_speed / step)) →
              ((LandoffTracker.decelerateHorizontalRounded roundDouble c)^[k]
                s).current_state_horizontal = LandoffTracker.States_t.DECELERATING_STATE)
          ∧ (max 1 (Nat.ceil (s.current_horizontal_speed / step)) ≤ k →
              ((LandoffTracker.decelerateHorizontalRounded roundDouble c)^[k]
                s).current_state_horizontal = LandoffTracker.States_t.STOPPING_STATE
              ∧ ((LandoffTracker.decelerateHorizontalRounded roundDouble c)^[k]
                s).current_horizontal_speed = 0))
      ∧ (∀ ε : ℚ, ε ≤ 1 →
          1 / 2 ^ 53 * max s.current_horizontal_speed step + 1 / 2 ^ 1075 ≤ ε * step →
          max 0 (s.current_horizontal_speed - k * ((1 + ε) * step))
              ≤ ((LandoffTracker.decelerateHorizontalRounded roundDouble c)^[k]
                s).current_horizontal_speed
          ∧ ((LandoffTracker.decelerateHorizontalRounded roundDouble c)^[k]
                s).current_horizontal_speed
              ≤ max 0 (s.current_horizontal_speed - k * ((1 - ε) * step))
          ∧ (k * ((1 + ε) * step) < s.current_horizontal_speed →
              ((LandoffTracker.decelerateHorizontalRounded roundDouble c)^[k]
                s).current_state_horizontal = LandoffTracker.States_t.DECELERATING_STATE
              ∧ 0 < ((LandoffTracker.decelerateHorizontalRounded roundDouble c)^[k]
                s).current_horizontal_speed)
          ∧ (1 ≤ k → s.current_horizontal_speed ≤ k * ((1 - ε) * step) →
              ((LandoffTracker.decelerateHorizontalRounded roundDouble c)^[k]
                s).current_state_horizontal = LandoffTracker.States_t.STOPPING_STATE
              ∧ ((LandoffTracker.decelerateHorizontalRounded roundDouble c)^[k]
                s).current_horizontal_speed = 0)))
    ∧ (∀ (c : LineTracker.Config ℚ) (s : LineTracker.State ℚ) (step : ℚ),
      step = roundDouble (c.horizontal_acceleration_ * c.tracker_dt_) → 0 < step →
      0 ≤ s.current_horizontal_speed →
      s.current_state_horizontal = LineTracker.States_t.DECELERATING_STATE →
      (0 ≤ ((LineTracker.decelerateHorizontalRounded roundDouble c)^[k]
            s).current_horizontal_speed
        ∧ ((LineTracker.decelerateHorizontalRounded roundDouble c)^[k]
            s).current_state_horizontal
          = if 1 ≤ k ∧ ((LineTracker.decelerateHorizontalRounded roundDouble c)^[k]
                s).current_horizontal_speed = 0
            then LineTracker.States_t.STOPPING_STATE
            else LineTracker.States_t.DECELERATING_STATE)
      ∧ ((∀ j < k, roundDouble
            (((LineTracker.decelerateHorizontalRounded roundDouble c)^[j]
              s).current_horizontal_speed - step)
            = ((LineTracker.decelerateHorizontalRounded roundDouble c)^[j]
              s).current_horizontal_speed - step) →
          ((LineTracker.decelerateHorizontalRounded roundDouble c)^[k]
              s).current_horizontal_speed = max 0 (s.current_horizontal_speed - k * step)
          ∧ (k < max 1 (Nat.ceil (s.current_horizontal_speed / step)) →
              ((LineTracker.decelerateHorizontalRounded roundDouble c)^[k]
                s).current_state_horizontal = LineTracker.States_t.DECELERATING_STATE)
          ∧ (max 1 (Nat.ceil (s.current_horizontal_speed / step)) ≤ k →
              ((LineTracker.decelerateHorizontalRounded roundDouble c)^[k]
                s).current_state_horizontal = LineTracker.States_t.STOPPING_STATE
              ∧ ((LineTracker.decelerateHorizontalRounded roundDouble c)^[k]
                s).current_horizontal_speed = 0))
      ∧ (∀ ε : ℚ, ε ≤ 1 →
          1 / 2 ^ 53 * max s.current_horizontal_speed step + 1 / 2 ^ 1075 ≤ ε * step →
          max 0 (s.current_horizontal_speed - k * ((1 + ε) * step))
              ≤ ((LineTracker.decelerateHorizontalRounded roundDouble c)^[k]
                s).current_horizontal_speed
          ∧ ((LineTracker.decelerateHorizontalRounded roundDouble c)^[k]
                s).current_horizontal_speed
              ≤ max 0 (s.current_horizontal_speed - k * ((1 - ε) * step))
          ∧ (k * ((1 + ε) * step) < s.current_horizontal_speed →
              ((LineTracker.decelerateHorizontalRounded roundDouble c)^[k]
                s).current_state_horizontal = LineTracker.States_t.DECELERATING_STATE
              ∧ 0 < ((LineTracker.decelerateHorizontalRounded roundDouble c)^[k]
                s).current_horizontal_speed)
          ∧ (1 ≤ k → s.current_horizontal_speed ≤ k * ((1 - ε) * step) →
              ((LineTracker.decelerateHorizontalRounded roundDouble c)^[k]
                s).current_state_horizontal = LineTracker.States_t.STOPPING_STATE
              ∧ ((LineTracker.decelerateHorizontalRounded roundDouble c)^[k]
                s).current_horizontal_speed = 0))) := by
  constructor
  · intro c s step hstep hpos hv hs
    subst hstep
    exact double_ramp_down (LandoffTracker.decelerateHorizontalRounded roundDouble c)
      (fun t => t.current_horizontal_speed) (fun t => t.current_state_horizontal)
      LandoffTracker.States_t.DECELERATING_STATE LandoffTracker.States_t.STOPPING_STATE _ hpos
      (fun t => (LandoffTracker.decelerateHorizontalRounded_speed_state roundDouble c t).1)
      (fun t => (LandoffTracker.decelerateHorizontalRounded_speed_state roundDouble c t).2)
      s hv hs k
  · intro c s step hstep hpos hv hs
    subst hstep
    exact double_ramp_down (LineTracker.decelerateHorizontalRounded roundDouble c)
      (fun t => t.current_horizontal_speed) (fun t => t.current_state_horizontal)
      LineTracker.States_t.DECELERATING_STATE LineTracker.States_t.STOPPING_STATE _ hpos
      (fun t => (LineTracker.line_decelerateHorizontalRounded_speed_state roundDouble c t).1)
      (fun t => (LineTracker.line_decelerateHorizontalRounded_speed_state roundDouble c t).2)
      s hv hs k

/-- C32 (amended) at concrete inputs.  LandoffTracker at 10 Hz from speed
`1/4` with `ε = 2^(-40)`: the axis is in `STOPPING_STATE` with speed `0` after
3 calls.  LineTracker with the exact step `5/64` from speed `1/4`, where
`n = 4`: still `DECELERATING_STATE` after 3 calls, `STOPPING_STATE` with speed
`0` after 4. -/
theorem deceleration_ends_at_zero_speed_witness :
    (((LandoffTracker.decelerateHorizontalRounded roundDouble
          LandoffTracker.tenHertzConfig)^[3]
        LandoffTracker.deceleratingAtSpeed).current_state_horizontal
        = LandoffTracker.States_t.STOPPING_STATE
      ∧ ((LandoffTracker.decelerateHorizontalRounded roundDouble
          LandoffTracker.tenHertzConfig)^[3]
        LandoffTracker.deceleratingAtSpeed).current_horizontal_speed = 0)
    ∧ ((LineTracker.decelerateHorizontalRounded roundDouble LineTracker.dyadicConfig)^[3]
        LineTracker.deceleratingAtSpeed).current_state_horizontal
        = LineTracker.States_t.DECELERATING_STATE
    ∧ (((LineTracker.decelerateHorizontalRounded roundDouble LineTracker.dyadicConfig)^[4]
        LineTracker.deceleratingAtSpeed).current_state_horizontal
        = LineTracker.States_t.STOPPING_STATE
      ∧ ((LineTracker.decelerateHorizontalRounded roundDouble LineTracker.dyadicConfig)^[4]
        LineTracker.deceleratingAtSpeed).current_horizontal_speed = 0) :=
  ⟨((deceleration_ends_at_zero_speed 3).1 LandoffTracker.tenHertzConfig
      LandoffTracker.deceleratingAtSpeed _ rfl (by decide!) (by decide!) rfl).2.2
      (1 / 2 ^ 40) (by norm_num) (by decide!) |>.2.2.2 (by decide) (by decide!),
    ((deceleration_ends_at_zero_speed 3).2 LineTracker.dyadicConfig
      LineTracker.deceleratingAtSpeed _ rfl (by decide!) (by decide!) rfl).2.1
      (by decide!) |>.2.1 (by decide!),
    ((deceleration_ends_at_zero_speed 4).2 LineTracker.dyadicConfig
      LineTracker.deceleratingAtSpeed _ rfl (by decide!) (by decide!) rfl).2.1
      (by decide!) |>.2.2 (by decide!)⟩

end DoubleDecelerationClaim

/-! ### LandoffTracker: the acceleration of `decelerateVertical` (C8) -/

namespace LandoffTracker

open States_t

variable {α : Type} [LinearOrderedField α]

/-- C8: for every configuration, mode flags and measured height,
`decelerateVertical` decrements the speed by the acceleration that
`accelerateVertical` selects for the same inputs, times `dt`, clamped at `0`,
and writes that acceleration, negated, while the speed stays positive;
`accelerateVertical` increments the speed by the same acceleration times `dt`.
The acceleration is `takeoff_acceleration_` while taking off at any altitude,
`vertical_acceleration_` with both flags clear, and follows the three bands of
the measured height while landing. -/
theorem decelerateVertical_uses_accelerate_band (c : Config α) (s : State α) :
    (decelerateVertical c s).current_vertical_speed
        = max 0 (s.current_vertical_speed - (usedSpeedAcceleration c s).2 * c.tracker_dt_)
    ∧ (0 < s.current_vertical_speed - (usedSpeedAcceleration c s).2 * c.tracker_dt_ →
        (decelerateVertical c s).current_vertical_acceleration = -(usedSpeedAcceleration c s).2
        ∧ (decelerateVertical c s).current_state_vertical = s.current_state_vertical)
    ∧ (s.current_vertical_speed - (usedSpeedAcceleration c s).2 * c.tracker_dt_ ≤ 0 →
        (decelerateVertical c s).current_vertical_acceleration = 0
        ∧ (decelerateVertical c s).current_state_vertical = STOPPING_STATE)
    ∧ (accelerateVertical c s).current_vertical_speed
        = (if s.current_vertical_speed + (usedSpeedAcceleration c s).2 * c.tracker_dt_
              ≥ (usedSpeedAcceleration c s).1 then
            s.current_vertical_speed + (usedSpeedAcceleration c s).2 * c.tracker_dt_
              - c.vertical_acceleration_ * c.tracker_dt_
          else s.current_vertical_speed + (usedSpeedAcceleration c s).2 * c.tracker_dt_)
    ∧ (s.taking_off = true →
        (decelerateVertical c s).current_vertical_speed
          = max 0 (s.current_vertical_speed - c.takeoff_acceleration_ * c.tracker_dt_))
    ∧ (s.taking_off = false → s.landing = false →
        (decelerateVertical c s).current_vertical_speed
          = max 0 (s.current_vertical_speed - c.vertical_acceleration_ * c.tracker_dt_))
    ∧ (s.taking_off = false → s.landing = true →
        (s.odometry_z > 2 * c.landing_fast_height_ →
          (decelerateVertical c s).current_vertical_speed
            = max 0 (s.current_vertical_speed - c.vertical_acceleration_ * c.tracker_dt_))
        ∧ (¬ (s.odometry_z > 2 * c.landing_fast_height_) →
            s.odometry_z > c.landing_fast_height_ →
          (decelerateVertical c s).current_vertical_speed
            = max 0 (s.current_vertical_speed
                - c.vertical_acceleration_ / 2 * c.tracker_dt_))
        ∧ (¬ (s.odometry_z > 2 * c.landing_fast_height_) →
            ¬ (s.odometry_z > c.landing_fast_height_) →
          (decelerateVertical c s).current_vertical_speed
            = max 0 (s.current_vertical_speed
                - c.landing_acceleration_ * c.tracker_dt_))) := by
  have hsel : usedDeceleration c s = (usedSpeedAcceleration c s).2 := by
    simp only [usedDeceleration, usedSpeedAcceleration]
    split_ifs <;> rfl
  have hspeed : (decelerateVertical c s).current_vertical_speed
      = max 0 (s.current_vertical_speed - (usedSpeedAcceleration c s).2 * c.tracker_dt_) := by
    rw [← hsel]
    unfold decelerateVertical changeStateVertical
    simp only [beq_iff_eq]
    generalize s.current_vertical_speed - usedDeceleration c s * c.tracker_dt_ = v
    by_cases h1 : v < 0
    · simp [h1, le_of_lt h1]
    · by_cases h2 : v = 0
      · simp [h2]
      · simp [h1, h2, not_lt.mp h1]
  refine ⟨hspeed, ?_, ?_, accelerateVertical_speed_eq c s, ?_, ?_, ?_⟩
  · intro h
    rw [← hsel] at h ⊢
    unfold decelerateVertical changeStateVertical
    simp only [beq_iff_eq]
    generalize s.current_vertical_speed - usedDeceleration c s * c.tracker_dt_ = v at h
    simp [not_lt.mpr h.le, ne_of_gt h]
  · intro h
    rw [← hsel] at h
    unfold decelerateVertical changeStateVertical
    simp only [beq_iff_eq]
    generalize s.current_vertical_speed - usedDeceleration c s * c.tracker_dt_ = v at h
    by_cases h1 : v < 0
    · simp [h1]
    · have h2 : v = 0 := le_antisymm h (not_lt.mp h1)
      simp [h2]
  · intro h1
    rw [hspeed]
    simp [usedSpeedAcceleration, h1]
  · intro h1 h2
    rw [hspeed]
    simp [usedSpeedAcceleration, h1, h2]
  · intro h1 h2
    refine ⟨?_, ?_, ?_⟩
    · intro h3
      rw [hspeed]
      simp [usedSpeedAcceleration, h1, h2, h3]
    · intro h3 h4
      rw [hspeed]
      simp [usedSpeedAcceleration, h1, h2, h3, h4]
    · intro h3 h4
      rw [hspeed]
      simp [usedSpeedAcceleration, h1, h2, h3, h4]

/-- C8 at a concrete input: a landing at measured height `3/2` with
`landing_fast_height_ = 1`, vertical speed `1/4`, `dt = 1/10`: the middle band
selects half of `vertical_acceleration_ = 1`, and `decelerateVertical` leaves
the speed `1/4 - 1/2 * 1/10 = 1/5`. -/
theorem decelerateVertical_uses_accelerate_band_witness :
    (decelerateVertical sampleConfig landingMidBandDescending).current_vertical_speed = 1 / 5
    ∧ (decelerateVertical sampleConfig landingMidBandDescending).current_vertical_acceleration
        = -(1 / 2) :=
  ⟨((decelerateVertical_uses_accelerate_band sampleConfig landingMidBandDescending).2.2.2.2.2.2
      rfl rfl).2.1 (by decide!) (by decide!) |>.trans (by decide!),
    ((decelerateVertical_uses_accelerate_band sampleConfig landingMidBandDescending).2.1
      (by decide!)).1.trans (by decide!)⟩

end LandoffTracker

end MrsTrackers
